import Mathlib

/-!
# PVDEC register-access layer (pvdec_io.c)

A shallow embedding of the register gate, the pipe selector and the clock
controller of `pvdec_io.c`, with theorems about them.

Conventions of the embedding.

* Machine words (`IMG_UINT32`, `IMG_UINT8`, `IMG_RESULT`) are natural numbers.
* Everything the file takes from headers that are not part of the sources
  (`hwdefs/*.h`, `pvdec_io.h`, `img_errors.h`, `reg_io2.h`, `tal.h`) is a
  parameter: the register map is a value of `HwDefs`, the bus transport a value
  of `TAL`, the build switches a value of `BuildConfig`.
* The heap context `PVDECIO_sContext` is passed in and handed back explicitly;
  a handle is `Option PVDECIO_sContext`, `none` standing for `IMG_NULL`.
* Every operation threads a `World`: the state of the device behind the bus
  and a trace of what the operation did, in program order.
-/

namespace Pvdec

/-! ## Result codes and small constants -/

/-- Result code `IMG_SUCCESS` of `img_errors.h`. -/
def IMG_SUCCESS : Nat := 0

/-- Result code `IMG_ERROR_TIMEOUT` of `img_errors.h`. -/
def IMG_ERROR_TIMEOUT : Nat := 1

/-- Result code `IMG_ERROR_FATAL` of `img_errors.h`. -/
def IMG_ERROR_FATAL : Nat := 3

/-- Result code `IMG_ERROR_INVALID_PARAMETERS` of `img_errors.h`. -/
def IMG_ERROR_INVALID_PARAMETERS : Nat := 11

/-- Result code `IMG_ERROR_NOT_INITIALISED` of `img_errors.h`. -/
def IMG_ERROR_NOT_INITIALISED : Nat := 17

/-- Source constant `PVDEC_DEF_REG_MASK`, the value `-1` seen as a 32-bit word. -/
def PVDEC_DEF_REG_MASK : Nat := 0xFFFFFFFF

/-- Source constant `PVDEC_DEF_PIPE`: the pipe value that means "no pipe". -/
def PVDEC_DEF_PIPE : Nat := 0xFF

/-- Source constant `PVDEC_TIMEOUT_COUNTER`. -/
def PVDEC_TIMEOUT_COUNTER : Nat := 1000

/-- Source constant `PVDECIO_MTX_CLK_MHZ` (default value, no platform override). -/
def PVDECIO_MTX_CLK_MHZ : Nat := 200

/-- Bitwise complement of a 32-bit word (the C operator `~` on `IMG_UINT32`). -/
def not32 (x : Nat) : Nat := 0xFFFFFFFF ^^^ (x % 2 ^ 32)

/-! ## Register map (parameters) -/

/-- A register field as the `hwdefs` headers describe it: its mask and shift. -/
structure Field where
  MASK : Nat
  SHIFT : Nat
deriving DecidableEq, Repr

/-- Field update as done by `REGIO_WRITE_FIELD` of `reg_io2.h`: the field is
cleared in the word and the shifted value, cut to the mask, is or-ed in. -/
def REGIO_WRITE_FIELD (reg : Nat) (f : Field) (value : Nat) : Nat :=
  (reg &&& not32 f.MASK) ||| ((value <<< f.SHIFT) &&& f.MASK)

/-- Field extraction as done by `REGIO_READ_FIELD` of `reg_io2.h`. -/
def REGIO_READ_FIELD (reg : Nat) (f : Field) : Nat :=
  (reg &&& f.MASK) >>> f.SHIFT

/-- A field is well formed when its mask is a run of `len` one bits starting at
its shift, inside a 32-bit word. -/
def Field.WellFormed (f : Field) (len : Nat) : Prop :=
  f.MASK = (2 ^ len - 1) <<< f.SHIFT ∧ f.SHIFT + len ≤ 32

/-- The constants of the absent headers that the modelled functions use: the
size of the region table with the indices of the named regions (the
enumeration of `pvdec_io.h`), and offsets and fields of the registers
(`hwdefs/pvdec_core_regs.h`, `hwdefs/msvdx_mtx_regs.h`). -/
structure HwDefs where
  REGION_PVDEC_MAX : Nat
  REGION_PVDEC_CORE_REGSPACE : Fin REGION_PVDEC_MAX
  REGION_PVDEC_MTX_CORE_REGSPACE : Fin REGION_PVDEC_MAX
  REGION_PVDEC_PIXEL_DMA_REGSPACE : Fin REGION_PVDEC_MAX
  PVDEC_CORE_CR_PVDEC_HOST_PIPE_SELECT_OFFSET : Nat
  PVDEC_CORE_CR_PVDEC_HOST_PIPE_SELECT_CR_PVDEC_HOST_PIPE_SELECT : Field
  PVDEC_CORE_CR_PVDEC_MAN_CLK_ENABLE_OFFSET : Nat
  PVDEC_CORE_CR_PVDEC_MAN_CLK_ENABLE_CR_PVDEC_REG_MAN_CLK_ENABLE : Field
  PVDEC_CORE_CR_PVDEC_MAN_CLK_ENABLE_CR_CORE_MAN_CLK_ENABLE : Field
  PVDEC_CORE_CR_PVDEC_MAN_CLK_ENABLE_CR_MEM_MAN_CLK_ENABLE : Field
  PVDEC_CORE_CR_PVDEC_MAN_CLK_ENABLE_CR_PROC_MAN_CLK_ENABLE : Field
  PVDEC_CORE_CR_PVDEC_MAN_CLK_ENABLE_CR_PIXEL_PROCESSING_MAN_CLK_ENABLE : Field
  MTX_CORE_CR_MTX_KICKI_OFFSET : Nat
  MTX_CORE_CR_MTX_KICKI_MTX_KICKI : Field
  MTX_CORE_CR_MTX_ENABLE_OFFSET : Nat
  MTX_CORE_CR_MTX_FAULT0_OFFSET : Nat
  MTX_CORE_CR_MTX_REGISTER_READ_WRITE_DATA_OFFSET : Nat
  MTX_CORE_CR_MTX_REGISTER_READ_WRITE_REQUEST_OFFSET : Nat
  MTX_CORE_CR_MTX_REGISTER_READ_WRITE_REQUEST_MTX_RNW : Field
  MTX_CORE_CR_MTX_REGISTER_READ_WRITE_REQUEST_MTX_USPECIFIER : Field
  MTX_CORE_CR_MTX_REGISTER_READ_WRITE_REQUEST_MTX_RSPECIFIER : Field
  MTX_CORE_CR_MTX_RAM_ACCESS_DATA_TRANSFER_OFFSET : Nat
  MTX_CORE_CR_MTX_RAM_ACCESS_CONTROL_OFFSET : Nat
  MTX_CORE_CR_MTX_RAM_ACCESS_CONTROL_MTX_MCMID : Field
  MTX_CORE_CR_MTX_RAM_ACCESS_CONTROL_MTX_MCM_ADDR : Field
  MTX_CORE_CR_MTX_RAM_ACCESS_CONTROL_MTX_MCMR : Field
  MTX_CORE_CR_MTX_RAM_ACCESS_CONTROL_MTX_MCMAI : Field
  MTX_CORE_CR_MTX_RAM_ACCESS_STATUS_OFFSET : Nat
  MTX_CORE_CR_MTX_RAM_ACCESS_STATUS_MTX_MTX_MCM_STAT : Field
  DMAC_DMAC_SETUP_OFFSET : Nat
  DMAC_DMAC_SETUP_STRIDE : Nat
  DMAC_DMAC_SETUP_NO_ENTRIES : Nat
  TAL_CHECKFUNC_ISEQUAL : Nat
  TAL_CHECKFUNC_NOTEQUAL : Nat
  REGION_PVDEC_PIXEL_PIPE_REGSPACE : Fin REGION_PVDEC_MAX
  MTX_CORE_CR_MTX_SYSC_TIMERDIV_OFFSET : Nat
  MTX_CORE_CR_MTX_SYSC_TIMERDIV_TIMER_EN : Field
  MTX_CORE_CR_MTX_SYSC_TIMERDIV_TIMER_DIV : Field
  PVDEC_PIXEL_CR_PIXEL_MAN_CLK_ENABLE_OFFSET : Nat
  PVDEC_PIXEL_CR_PIXEL_MAN_CLK_ENABLE_CR_PIXEL_DMAC_MAN_CLK_ENABLE : Field
  PVDEC_PIXEL_CR_PIXEL_MAN_CLK_ENABLE_CR_PIXEL_REG_MAN_CLK_ENABLE : Field
  MTX_CORE_CR_MTX_SYSC_CDMAA_OFFSET : Nat
  MTX_CORE_CR_MTX_SYSC_CDMAC_OFFSET : Nat
  MTX_CORE_CR_MTX_SYSC_CDMAC_BURSTSIZE : Field
  MTX_CORE_CR_MTX_SYSC_CDMAC_RNW : Field
  MTX_CORE_CR_MTX_SYSC_CDMAC_ENABLE : Field
  MTX_CORE_CR_MTX_SYSC_CDMAC_LENGTH : Field
  MTX_CORE_CR_MTX_SYSC_CDMAT_OFFSET : Nat
  PVDEC_CORE_CR_PROC_DMAC_CONTROL_OFFSET : Nat
  PVDEC_CORE_CR_PROC_DMAC_CONTROL_CR_BOOT_ON_DMA_CH0 : Field
  PVDEC_PIXEL_CR_PIXEL_CONTROL_0_OFFSET : Nat
  PVDEC_PIXEL_CR_PIXEL_CONTROL_0_CR_DMAC_CH_SEL_FOR_MTX : Field
  DMAC_DMAC_PER_HOLD_OFFSET : Nat
  DMAC_DMAC_PER_HOLD_STRIDE : Nat
  DMAC_DMAC_PER_HOLD_NO_ENTRIES : Nat
  DMAC_DMAC_PER_HOLD_PER_HOLD : Field
  DMAC_DMAC_IRQ_STAT_OFFSET : Nat
  DMAC_DMAC_IRQ_STAT_STRIDE : Nat
  DMAC_DMAC_IRQ_STAT_NO_ENTRIES : Nat
  DMAC_DMAC_PERIPHERAL_ADDR_OFFSET : Nat
  DMAC_DMAC_PERIPHERAL_ADDR_STRIDE : Nat
  DMAC_DMAC_PERIPHERAL_ADDR_NO_ENTRIES : Nat
  DMAC_DMAC_PERIPHERAL_ADDR_ADDR : Field
  DMAC_DMAC_PERIPH_OFFSET : Nat
  DMAC_DMAC_PERIPH_STRIDE : Nat
  DMAC_DMAC_PERIPH_NO_ENTRIES : Nat
  DMAC_DMAC_PERIPH_ACC_DEL : Field
  DMAC_DMAC_PERIPH_INCR : Field
  DMAC_DMAC_PERIPH_BURST : Field
  DMAC_DMAC_PERIPH_EXT_BURST : Field
  DMAC_DMAC_PERIPH_EXT_SA : Field
  DMAC_DMAC_COUNT_OFFSET : Nat
  DMAC_DMAC_COUNT_STRIDE : Nat
  DMAC_DMAC_COUNT_NO_ENTRIES : Nat
  DMAC_DMAC_COUNT_TRANSFER_IEN : Field
  DMAC_DMAC_COUNT_PW : Field
  DMAC_DMAC_COUNT_DIR : Field
  DMAC_DMAC_COUNT_PI : Field
  DMAC_DMAC_COUNT_LIST_FIN_CTL : Field
  DMAC_DMAC_COUNT_LIST_EN : Field
  DMAC_DMAC_COUNT_ENABLE_2D_MODE : Field
  DMAC_DMAC_COUNT_CNT : Field
  DMAC_DMAC_COUNT_EN : Field
  DMAC_INCR_OFF : Nat
  DMAC_INCR_ON : Nat
  DMAC_BURST_1 : Nat
  DMAC_EXT_BURST_0 : Nat
  DMAC_PWIDTH_32_BIT : Nat
  REGION_PVDEC_ENTROPY_PIPE_REGSPACE : Fin REGION_PVDEC_MAX
  REGION_PVDEC_VLR_REGSPACE : Fin REGION_PVDEC_MAX
  PVDEC_CORE_CR_PVDEC_HOST_INTERRUPT_STATUS_OFFSET : Nat
  PVDEC_CORE_CR_PVDEC_HOST_INTERRUPT_STATUS_CR_HOST_PROC_IRQ : Field
  PVDEC_CORE_CR_PVDEC_HOST_INTERRUPT_STATUS_CR_HOST_MMU_FAULT_IRQ : Field
  PVDEC_CORE_CR_PVDEC_HOST_INTERRUPT_ENABLE_OFFSET : Nat
  PVDEC_CORE_CR_PVDEC_INTERRUPT_CLEAR_OFFSET : Nat
  IMG_VIDEO_BUS4_MMU_MMU_STATUS0_MMU_FAULT_ADDR : Field
  IMG_VIDEO_BUS4_MMU_MMU_STATUS0_MMU_PF_N_RW : Field
  IMG_VIDEO_BUS4_MMU_MMU_STATUS0_MMU_SECURE_FAULT : Field
  IMG_VIDEO_BUS4_MMU_MMU_STATUS1_MMU_FAULT_REQ_ID : Field
  IMG_VIDEO_BUS4_MMU_MMU_STATUS1_MMU_FAULT_RNW : Field
  PVDEC_PIXEL_CR_MSVDX_FE_WDT_CONTROL_OFFSET : Nat
  PVDEC_PIXEL_CR_MSVDX_FE_WDT_CONTROL_FE_WDT_CNT_CTRL : Field
  PVDEC_PIXEL_CR_MSVDX_FE_WDT_CONTROL_FE_WDT_ACTION0 : Field
  PVDEC_PIXEL_CR_MSVDX_FE_WDT_CONTROL_FE_WDT_CLEAR_SELECT : Field
  PVDEC_PIXEL_CR_MSVDX_FE_WDT_CONTROL_FE_WDT_CLKDIV_SELECT : Field
  PVDEC_ENTROPY_CR_ENTROPY_WDT_CONTROL_OFFSET : Nat
  PVDEC_ENTROPY_CR_ENTROPY_WDT_CONTROL_ENTROPY_WDT_CNT_CTRL : Field
  PVDEC_ENTROPY_CR_ENTROPY_WDT_CONTROL_ENTROPY_WDT_ACTION1 : Field
  PVDEC_ENTROPY_CR_ENTROPY_WDT_CONTROL_ENTROPY_WDT_ACTION0 : Field
  PVDEC_ENTROPY_CR_ENTROPY_WDT_CONTROL_ENTROPY_WDT_CLEAR_SELECT : Field
  PVDEC_ENTROPY_CR_ENTROPY_WDT_CONTROL_ENTROPY_WDT_CLKDIV_SELECT : Field
  PVDEC_PIXEL_CR_BE_WDT_CONTROL_OFFSET : Nat
  PVDEC_PIXEL_CR_BE_WDT_CONTROL_BE_WDT_ACTION0 : Field
  PVDEC_PIXEL_CR_BE_WDT_CONTROL_BE_WDT_CLKDIV_SELECT : Field
  PVDEC_CORE_CR_PROC_DEBUG_OFFSET : Nat
  PVDEC_CORE_CR_PROC_DEBUG_CR_MTX_RAM_BANKS : Field
  PVDEC_CORE_CR_PROC_DEBUG_CR_MTX_RAM_BANK_SIZE : Field
  PVDEC_CORE_CR_PROC_DEBUG_CR_MTX_LAST_RAM_BANK_SIZE : Field
  COMMS_HEADER_SIZE : Nat
  REGION_PVDEC_VEC_BE : Fin REGION_PVDEC_MAX
  REGION_PVDEC_MSVDX_VEC : Fin REGION_PVDEC_MAX
  REGION_PVDEC_MSVDX_VDMC : Fin REGION_PVDEC_MAX
  PVDEC_ENTROPY_CR_ENTROPY_LAST_MB_OFFSET : Nat
  PVDEC_ENTROPY_CR_ENTROPY_LAST_MB_ENTROPY_LAST_MB_NO_X : Field
  PVDEC_ENTROPY_CR_ENTROPY_LAST_MB_ENTROPY_LAST_MB_NO_Y : Field
  PVDEC_VEC_BE_CR_VEC_BE_STATUS_OFFSET : Nat
  PVDEC_VEC_BE_CR_VEC_BE_STATUS_COMMAND_MB_ADDR_X : Field
  PVDEC_VEC_BE_CR_VEC_BE_STATUS_COMMAND_MB_ADDR_Y : Field
  MSVDX_VEC_CR_VEC_ENTDEC_INFORMATION_OFFSET : Nat
  MSVDX_VEC_CR_VEC_ENTDEC_INFORMATION_FE_ENTDEC_LATEST_MB_ADDR_X : Field
  MSVDX_VEC_CR_VEC_ENTDEC_INFORMATION_FE_ENTDEC_LATEST_MB_ADDR_Y : Field
  MSVDX_VDMC_CR_VDMC_MACROBLOCK_NUMBER_OFFSET : Nat
  MSVDX_VDMC_CR_VDMC_MACROBLOCK_NUMBER_CR_VDMC_MACROBLOCK_X_OFFSET : Field
  MSVDX_VDMC_CR_VDMC_MACROBLOCK_NUMBER_CR_VDMC_MACROBLOCK_Y_OFFSET : Field
  MTX_CORE_CR_MTX_STATUS_OFFSET : Nat

/-- Build switches of the file that change the modelled functions. -/
structure BuildConfig where
  VDEC_USE_PVDEC_SEC : Bool
  SYSBRG_BRIDGING : Bool
  PVDEC_REG_FW_UPLOAD : Bool
  USE_MTX_DMA_LOAD : Bool
deriving DecidableEq, Repr

/-! ## Trace, device and world -/

/-- Severity of a `REPORT` call. -/
inductive ReportLevel where
  | REPORT_ERR
  | REPORT_WARNING
  | REPORT_NOTICE
  | REPORT_INFO
deriving DecidableEq, Repr

/-- The functions and macros of other modules (`devaio.h`, `target.h`,
`vxd_buf.h`, `secure_device.h`, the capture commands of `tal.h`) that this
file calls. What they do inside, bus transactions included, is not recorded in
the trace: only the call is. -/
inductive Collaborator where
  | TARGET_Initialise
  | DEVAIO_InitMTXComms
  | DEVAIO_ProcessMMUReport
  | DEVAIO_ProcessMTXMsgs
  | DEVAIO_SendMTXMsg
  | UPDATE_DEVICE
  | SECDEV_Initialise
  | SECDEV_LocateDevice
  | TALPDUMP_GetDisableCmds
  | TALPDUMP_DisableCmds
deriving DecidableEq, Repr

/-- What an operation does, in program order. `regRead`, `regWrite` and
`regPoll` are the bus transactions (`TALREG_ReadWord32`, `TALREG_WriteWord32`,
`TALREG_Poll32`) with the memory space handle, the offset and the word moved;
`outOfTable i` is a lookup `pahMemSpace[i]` with `i` outside the table (the
access that would follow is not performed); `storeClocks` and `storeReady` are
the assignments to `bClocks` and to `sMsgContext.bReady`; `assertFail n` is an
`IMG_ASSERT` at source line `n` whose condition is false; `report` is a
`REPORT` call; `call c` is a call of the collaborator `c`. -/
inductive Event where
  | regRead (memSpace offset value : Nat)
  | regWrite (memSpace offset value : Nat)
  | regPoll (memSpace offset : Nat)
  | outOfTable (index : Nat)
  | storeClocks (b : Bool)
  | storeReady (b : Bool)
  | assertFail (line : Nat)
  | report (level : ReportLevel)
  | call (c : Collaborator)
deriving DecidableEq, Repr

/-- The bus transactions among the events. -/
def Event.isBus : Event → Bool
  | .regRead _ _ _ => true
  | .regWrite _ _ _ => true
  | .regPoll _ _ => true
  | _ => false

/-- The bus transactions of a trace, in order. -/
def busEvents (t : List Event) : List Event := t.filter Event.isBus

/-- The bus transport (`tal.h`), an external collaborator: a device state `σ`
with a read that delivers a result code and a word, a write and a poll that
deliver a result code. -/
structure TAL (σ : Type) where
  ReadWord32 : σ → Nat → Nat → Nat × Nat × σ
  WriteWord32 : σ → Nat → Nat → Nat → Nat × σ
  Poll32 : σ → Nat → Nat → Nat → Nat → Nat → Nat → Nat → Nat × σ

/-- The device behind the bus together with the trace so far. -/
structure World (σ : Type) where
  dev : σ
  trace : List Event

/-- Append one event to the trace. -/
def World.log {σ : Type} (w : World σ) (e : Event) : World σ :=
  { w with trace := w.trace ++ [e] }

/-- The call `IMG_ASSERT(cond)` at source line `line`: a false condition is
recorded and execution goes on. -/
def IMG_ASSERT {σ : Type} (cond : Bool) (line : Nat) (w : World σ) : World σ :=
  if cond then w else w.log (.assertFail line)

/-- The call `REPORT(module, level, ...)`. -/
def REPORT {σ : Type} (level : ReportLevel) (w : World σ) : World σ :=
  w.log (.report level)

/-- The lookup `psContext->pahMemSpace[index]`: the table has
`REGION_PVDEC_MAX` entries (allocated so by `PVDECIO_Initialise`), and the
handle of region `i` is identified with `i`. -/
def pahMemSpace (hw : HwDefs) (index : Nat) : Option Nat :=
  if index < hw.REGION_PVDEC_MAX then some index else none

/-- The call `TALREG_ReadWord32(pahMemSpace[index], offset, &value)`: result
code and word delivered. A lookup outside the table is recorded and nothing is
read (the word delivered is then `dflt`, the prior content of the variable). -/
def TALREG_ReadWord32 {σ : Type} (hw : HwDefs) (tal : TAL σ) (index offset dflt : Nat)
    (w : World σ) : Nat × Nat × World σ :=
  match pahMemSpace hw index with
  | some h =>
    let r := tal.ReadWord32 w.dev h offset
    (r.1, r.2.1, { dev := r.2.2, trace := w.trace ++ [.regRead h offset r.2.1] })
  | none => (IMG_ERROR_FATAL, dflt, w.log (.outOfTable index))

/-- The call `TALREG_WriteWord32(pahMemSpace[index], offset, value)`. -/
def TALREG_WriteWord32 {σ : Type} (hw : HwDefs) (tal : TAL σ) (index offset value : Nat)
    (w : World σ) : Nat × World σ :=
  match pahMemSpace hw index with
  | some h =>
    let r := tal.WriteWord32 w.dev h offset value
    (r.1, { dev := r.2, trace := w.trace ++ [.regWrite h offset value] })
  | none => (IMG_ERROR_FATAL, w.log (.outOfTable index))

/-- The call `TALREG_Poll32(pahMemSpace[index], offset, checkFunc, reqValue,
enable, pollCount, timeOut)`. -/
def TALREG_Poll32 {σ : Type} (hw : HwDefs) (tal : TAL σ)
    (index offset checkFunc reqValue enable pollCount timeOut : Nat)
    (w : World σ) : Nat × World σ :=
  match pahMemSpace hw index with
  | some h =>
    let r := tal.Poll32 w.dev h offset checkFunc reqValue enable pollCount timeOut
    (r.1, { dev := r.2, trace := w.trace ++ [.regPoll h offset] })
  | none => (IMG_ERROR_FATAL, w.log (.outOfTable index))

/-! ## The context -/

/-- Source structure `PVDECIO_sMTXRamInfo`. -/
structure PVDECIO_sMTXRamInfo where
  ui32MTXBankSize : Nat
  ui32MTXRamSize : Nat
  ui32MTXRamMask : Nat
deriving DecidableEq, Repr

/-- Source structure `PVDECIO_sFwInfo`; `pvBlobCpuAddr` is the firmware blob
seen from the host, a list of words (present under `PVDEC_REG_FW_UPLOAD`). -/
structure PVDECIO_sFwInfo where
  ui32BlobSize : Nat
  ui32CoreSize : Nat
  ui32BlobDevVirtAddr : Nat
  pvBlobCpuAddr : List Nat
deriving DecidableEq, Repr

/-- The part of `DEVAIO_sContext` (`devaio.h`) that this file touches. -/
structure DEVAIO_sContext where
  bReady : Bool
deriving DecidableEq, Repr

/-- Source structure `DEVAIO_sBufConfig` (`devaio.h`): a buffer in local RAM. -/
structure DEVAIO_sBufConfig where
  ui32Size : Nat
  ui32Offset : Nat
deriving DecidableEq, Repr

/-- Source structure `PVDECIO_sContext`. The table `pahMemSpace` is not a
field here: see `pahMemSpace`. -/
structure PVDECIO_sContext where
  bInitialised : Bool
  bClocks : Bool
  sMTXRamInfo : PVDECIO_sMTXRamInfo
  sFwInfo : PVDECIO_sFwInfo
  sMsgContext : DEVAIO_sContext
  sStateInfo : DEVAIO_sBufConfig
  ui32NumPixelPipes : Nat
  ui32MemSpaceCount : Nat
  bSecureFw : Bool
  bIOBypass : Bool
deriving DecidableEq, Repr

/-- The guard `CHECK_IO_BYPASS(b)`: under `VDEC_USE_PVDEC_SEC` the guarded
block runs when `bIOBypass == b`, otherwise it always runs. -/
def CHECK_IO_BYPASS (cfg : BuildConfig) (psContext : PVDECIO_sContext) (b : Bool) : Bool :=
  if cfg.VDEC_USE_PVDEC_SEC then psContext.bIOBypass == b else true

/-! ## Register access gate and pipe selector -/

/-- Source function `pvdecio_SelectPipe`. -/
def pvdecio_SelectPipe {σ : Type} (hw : HwDefs) (tal : TAL σ) (_psContext : PVDECIO_sContext)
    (ui8Pipe : Nat) (w : World σ) : World σ :=
  if ui8Pipe != PVDEC_DEF_PIPE then
    let ui32Reg := 0
    let ui32PipeSelectOffset := hw.PVDEC_CORE_CR_PVDEC_HOST_PIPE_SELECT_OFFSET
    let w := IMG_ASSERT (decide (ui8Pipe < 8)) 273 w
    let ui32Reg := REGIO_WRITE_FIELD ui32Reg
      hw.PVDEC_CORE_CR_PVDEC_HOST_PIPE_SELECT_CR_PVDEC_HOST_PIPE_SELECT ui8Pipe
    (TALREG_WriteWord32 hw tal hw.REGION_PVDEC_CORE_REGSPACE ui32PipeSelectOffset ui32Reg w).2
  else w

/-- Source function `PVDECIO_ReadRegister`. -/
def PVDECIO_ReadRegister {σ : Type} (hw : HwDefs) (tal : TAL σ)
    (hCoreContext : Option PVDECIO_sContext) (ui32MemRegion ui32Offset ui8Pipe : Nat)
    (w : World σ) : Nat × World σ :=
  let ui32Value := 0
  match hCoreContext with
  | none =>
    let w := IMG_ASSERT false 296 w
    (0, REPORT .REPORT_ERR w)
  | some psContext =>
    if !psContext.bInitialised then
      (0, REPORT .REPORT_ERR w)
    else
      let w := IMG_ASSERT (psContext.ui32MemSpaceCount != 0) 312 w
      if psContext.bClocks then
        let w := pvdecio_SelectPipe hw tal psContext ui8Pipe w
        let r := TALREG_ReadWord32 hw tal ui32MemRegion ui32Offset ui32Value w
        (r.2.1, r.2.2)
      else
        (ui32Value, REPORT .REPORT_NOTICE w)

/-- Source function `PVDECIO_WriteRegister`. -/
def PVDECIO_WriteRegister {σ : Type} (hw : HwDefs) (tal : TAL σ)
    (hCoreContext : Option PVDECIO_sContext)
    (ui32MemRegion ui32Offset ui32Value ui32Mask ui8Pipe : Nat)
    (w : World σ) : Nat × World σ :=
  match hCoreContext with
  | none =>
    let w := IMG_ASSERT false 354 w
    (IMG_ERROR_INVALID_PARAMETERS, REPORT .REPORT_ERR w)
  | some psContext =>
    if !psContext.bInitialised then
      (IMG_ERROR_NOT_INITIALISED, REPORT .REPORT_ERR w)
    else
      let w := IMG_ASSERT (psContext.ui32MemSpaceCount != 0) 372 w
      if psContext.bClocks then
        let w := pvdecio_SelectPipe hw tal psContext ui8Pipe w
        if ui32Mask != PVDEC_DEF_REG_MASK then
          let r := TALREG_ReadWord32 hw tal ui32MemRegion ui32Offset 0 w
          let ui32RegValue := r.2.1
          let ui32RegValue := ui32RegValue &&& not32 ui32Mask
          let ui32RegValue := ui32RegValue ||| ui32Value
          let w := (TALREG_WriteWord32 hw tal ui32MemRegion ui32Offset ui32RegValue r.2.2).2
          (IMG_SUCCESS, w)
        else
          let ui32RegValue := ui32Value
          let w := (TALREG_WriteWord32 hw tal ui32MemRegion ui32Offset ui32RegValue w).2
          (IMG_SUCCESS, w)
      else
        (IMG_ERROR_NOT_INITIALISED, REPORT .REPORT_NOTICE w)

/-- Source macro `PVDEC_CORE_WriteRegister`, the target of
`REGIO_WRITE_REGISTER(h, PVDEC_CORE, reg, v)`. -/
def PVDEC_CORE_WriteRegister {σ : Type} (hw : HwDefs) (tal : TAL σ)
    (h : Option PVDECIO_sContext) (o v : Nat) (w : World σ) : Nat × World σ :=
  PVDECIO_WriteRegister hw tal h hw.REGION_PVDEC_CORE_REGSPACE o v PVDEC_DEF_REG_MASK
    PVDEC_DEF_PIPE w

/-- Source macro `PVDEC_CORE_ReadRegister`, the target of
`REGIO_READ_REGISTER(h, PVDEC_CORE, reg)`. -/
def PVDEC_CORE_ReadRegister {σ : Type} (hw : HwDefs) (tal : TAL σ)
    (h : Option PVDECIO_sContext) (o : Nat) (w : World σ) : Nat × World σ :=
  PVDECIO_ReadRegister hw tal h hw.REGION_PVDEC_CORE_REGSPACE o PVDEC_DEF_PIPE w

/-! ## Word transfers, poll and kick -/

/-- The loop of `PVDECIO_VLRWriteWords`: one bus write per word, stopping at
the first write whose result is not `IMG_SUCCESS`. -/
def PVDECIO_VLRWriteWords.loop {σ : Type} (hw : HwDefs) (tal : TAL σ) (ui32MemRegion : Nat) :
    Nat → Nat → List Nat → World σ → Nat × World σ
  | 0, _, _, w => (IMG_SUCCESS, w)
  | n + 1, ui32Addr, pui32Values, w =>
    let r := TALREG_WriteWord32 hw tal ui32MemRegion ui32Addr (pui32Values.headD 0) w
    if r.1 != IMG_SUCCESS then (r.1, r.2)
    else PVDECIO_VLRWriteWords.loop hw tal ui32MemRegion n ((ui32Addr + 4) % 2 ^ 32)
      pui32Values.tail r.2

/-- Source function `PVDECIO_VLRWriteWords`; `pui32Values` is the array of
words to write, `none` standing for `IMG_NULL`. -/
def PVDECIO_VLRWriteWords {σ : Type} (hw : HwDefs) (tal : TAL σ)
    (hCoreContext : Option PVDECIO_sContext) (ui32MemRegion ui32Addr ui32NumWords : Nat)
    (pui32Values : Option (List Nat)) (w : World σ) : Nat × World σ :=
  match hCoreContext with
  | none =>
    let w := IMG_ASSERT false 428 w
    (IMG_ERROR_INVALID_PARAMETERS, REPORT .REPORT_ERR w)
  | some _ =>
    match pui32Values with
    | none => (IMG_ERROR_INVALID_PARAMETERS, REPORT .REPORT_ERR w)
    | some vals =>
      if (ui32Addr &&& 0x3) != 0 || ui32NumWords == 0 then
        (IMG_ERROR_INVALID_PARAMETERS, REPORT .REPORT_ERR w)
      else
        PVDECIO_VLRWriteWords.loop hw tal ui32MemRegion ui32NumWords ui32Addr vals w

/-- Source function `PVDECIO_PDUMPVerifPoll` (built when `SYSBRG_BRIDGING`
is not defined). -/
def PVDECIO_PDUMPVerifPoll {σ : Type} (hw : HwDefs) (tal : TAL σ)
    (hCoreContext : Option PVDECIO_sContext)
    (ui32MemRegion ui32Offset ui32RequValue ui32Enable : Nat) (w : World σ) : Nat × World σ :=
  match hCoreContext with
  | none =>
    let w := IMG_ASSERT false 1153 w
    (IMG_ERROR_INVALID_PARAMETERS, REPORT .REPORT_ERR w)
  | some _ =>
    let r := TALREG_Poll32 hw tal ui32MemRegion ui32Offset hw.TAL_CHECKFUNC_ISEQUAL
      ui32RequValue ui32Enable 5 1 w
    (r.1, IMG_ASSERT (r.1 == IMG_SUCCESS) 1168 r.2)

/-- The loop of `PVDECIO_VLRReadWords`: one bus read per word (and, when
asked and built in, one verifying poll), stopping at the first failure.
`acc` collects the words stored so far through `pui32Values`. -/
def PVDECIO_VLRReadWords.loop {σ : Type} (cfg : BuildConfig) (hw : HwDefs) (tal : TAL σ)
    (psContext : PVDECIO_sContext) (ui32MemRegion : Nat) (bValidate : Bool) :
    Nat → Nat → List Nat → World σ → Nat × List Nat × World σ
  | 0, _, acc, w => (IMG_SUCCESS, acc, w)
  | n + 1, ui32Addr, acc, w =>
    let r := TALREG_ReadWord32 hw tal ui32MemRegion ui32Addr 0 w
    if r.1 != IMG_SUCCESS then (r.1, acc ++ [r.2.1], r.2.2)
    else if !cfg.SYSBRG_BRIDGING && bValidate then
      let ui32Mask := 0xFFFFFFFF
      let p := PVDECIO_PDUMPVerifPoll hw tal (some psContext) ui32MemRegion ui32Addr r.2.1
        ui32Mask r.2.2
      if p.1 != IMG_SUCCESS then (p.1, acc ++ [r.2.1], p.2)
      else PVDECIO_VLRReadWords.loop cfg hw tal psContext ui32MemRegion bValidate n
        ((ui32Addr + 4) % 2 ^ 32) (acc ++ [r.2.1]) p.2
    else PVDECIO_VLRReadWords.loop cfg hw tal psContext ui32MemRegion bValidate n
      ((ui32Addr + 4) % 2 ^ 32) (acc ++ [r.2.1]) r.2.2

/-- Source function `PVDECIO_VLRReadWords`; `pui32Values` is the destination
array before the call (`none` for `IMG_NULL`), and the second component of
the result is the array after the call. -/
def PVDECIO_VLRReadWords {σ : Type} (cfg : BuildConfig) (hw : HwDefs) (tal : TAL σ)
    (hCoreContext : Option PVDECIO_sContext) (ui32MemRegion ui32Addr ui32NumWords : Nat)
    (pui32Values : Option (List Nat)) (bValidate : Bool) (w : World σ) :
    Nat × Option (List Nat) × World σ :=
  match hCoreContext with
  | none =>
    let w := IMG_ASSERT false 507 w
    (IMG_ERROR_INVALID_PARAMETERS, pui32Values, REPORT .REPORT_ERR w)
  | some psContext =>
    match pui32Values with
    | none => (IMG_ERROR_INVALID_PARAMETERS, none, REPORT .REPORT_ERR w)
    | some buf =>
      if (ui32Addr &&& 0x3) != 0 || ui32NumWords == 0 then
        (IMG_ERROR_INVALID_PARAMETERS, some buf, REPORT .REPORT_ERR w)
      else
        let r := PVDECIO_VLRReadWords.loop cfg hw tal psContext ui32MemRegion bValidate
          ui32NumWords ui32Addr [] w
        (r.1, some (r.2.1 ++ buf.drop r.2.1.length), r.2.2)

/-- Source enumeration `VXDIO_ePollMode` (`vxd.h`); `other` stands for any
value that is none of the named ones. -/
inductive VXDIO_ePollMode where
  | VXDIO_POLL_EQUAL
  | VXDIO_POLL_NOT_EQUAL
  | other (raw : Nat)
deriving DecidableEq, Repr

/-- Source function `PVDECIO_Poll`. -/
def PVDECIO_Poll {σ : Type} (cfg : BuildConfig) (hw : HwDefs) (tal : TAL σ)
    (hCoreContext : Option PVDECIO_sContext)
    (eMemRegion ui32Offset ui32RequValue ui32Enable : Nat) (ePollMode : VXDIO_ePollMode)
    (w : World σ) : Nat × World σ :=
  let ui32PollCount := 100000
  let ui32TimeOut := 100
  match hCoreContext with
  | none =>
    let w := IMG_ASSERT false 639 w
    (IMG_ERROR_INVALID_PARAMETERS, REPORT .REPORT_ERR w)
  | some _ =>
    if eMemRegion ≥ hw.REGION_PVDEC_MAX then
      (IMG_ERROR_INVALID_PARAMETERS, REPORT .REPORT_ERR w)
    else
      let mode : Option Nat :=
        match ePollMode with
        | .VXDIO_POLL_EQUAL => some hw.TAL_CHECKFUNC_ISEQUAL
        | .VXDIO_POLL_NOT_EQUAL =>
          if cfg.SYSBRG_BRIDGING then none else some hw.TAL_CHECKFUNC_NOTEQUAL
        | .other _ => none
      match mode with
      | none =>
        let w := IMG_ASSERT false 665 w
        (IMG_ERROR_INVALID_PARAMETERS, REPORT .REPORT_ERR w)
      | some ui32PollMode =>
        let r := TALREG_Poll32 hw tal eMemRegion ui32Offset ui32PollMode ui32RequValue
          ui32Enable ui32PollCount ui32TimeOut w
        (r.1, IMG_ASSERT (r.1 == IMG_SUCCESS || r.1 == IMG_ERROR_TIMEOUT) 679 r.2)

/-- Source function `PVDECIO_KickMTX`. -/
def PVDECIO_KickMTX {σ : Type} (hw : HwDefs) (tal : TAL σ)
    (hCoreContext : Option PVDECIO_sContext) (w : World σ) : World σ :=
  let ui32RegVal := 0
  match hCoreContext with
  | none =>
    let w := IMG_ASSERT false 1876 w
    REPORT .REPORT_ERR w
  | some _ =>
    let ui32RegVal := REGIO_WRITE_FIELD ui32RegVal hw.MTX_CORE_CR_MTX_KICKI_MTX_KICKI 1
    (TALREG_WriteWord32 hw tal hw.REGION_PVDEC_MTX_CORE_REGSPACE
      hw.MTX_CORE_CR_MTX_KICKI_OFFSET ui32RegVal w).2

/-! ## Clock controller -/

/-- The value with the register-clock and core-clock enable fields set to 1,
built by `pvdecio_SetClocks` and by `PVDECIO_EnableCoreClocks`. -/
def coreClocks (hw : HwDefs) : Nat :=
  REGIO_WRITE_FIELD
    (REGIO_WRITE_FIELD 0 hw.PVDEC_CORE_CR_PVDEC_MAN_CLK_ENABLE_CR_PVDEC_REG_MAN_CLK_ENABLE 1)
    hw.PVDEC_CORE_CR_PVDEC_MAN_CLK_ENABLE_CR_CORE_MAN_CLK_ENABLE 1

/-- The value built by `PVDECIO_EnableCoreAndProcClocks`: register, core,
memory and processor clock enable fields set to 1. -/
def coreAndProcClocks (hw : HwDefs) : Nat :=
  REGIO_WRITE_FIELD
    (REGIO_WRITE_FIELD (coreClocks hw)
      hw.PVDEC_CORE_CR_PVDEC_MAN_CLK_ENABLE_CR_MEM_MAN_CLK_ENABLE 1)
    hw.PVDEC_CORE_CR_PVDEC_MAN_CLK_ENABLE_CR_PROC_MAN_CLK_ENABLE 1

/-- The value built by `pvdecio_LoadFW` and `pvdecio_startDMA`: the four
fields above and the pixel-processing clock enable field set to 1. -/
def allClocks (hw : HwDefs) : Nat :=
  REGIO_WRITE_FIELD (coreAndProcClocks hw)
    hw.PVDEC_CORE_CR_PVDEC_MAN_CLK_ENABLE_CR_PIXEL_PROCESSING_MAN_CLK_ENABLE 1

/-- Source function `pvdecio_SetClocks`. -/
def pvdecio_SetClocks {σ : Type} (cfg : BuildConfig) (hw : HwDefs) (tal : TAL σ)
    (psContext : PVDECIO_sContext) (ui32ReqClocks : Nat) (w : World σ) : World σ :=
  if CHECK_IO_BYPASS cfg psContext false then
    let ui32RegCoreClock := coreClocks hw
    let w := (PVDEC_CORE_WriteRegister hw tal (some psContext)
      hw.PVDEC_CORE_CR_PVDEC_MAN_CLK_ENABLE_OFFSET ui32RegCoreClock w).2
    let r := PVDEC_CORE_ReadRegister hw tal (some psContext)
      hw.PVDEC_CORE_CR_PVDEC_MAN_CLK_ENABLE_OFFSET w
    let ui32RegValue := r.1
    let w := IMG_ASSERT (ui32RegValue == ui32RegCoreClock) 610 r.2
    (PVDEC_CORE_WriteRegister hw tal (some psContext)
      hw.PVDEC_CORE_CR_PVDEC_MAN_CLK_ENABLE_OFFSET ui32ReqClocks w).2
  else w

/-- Source function `PVDECIO_EnableCoreClocks`; the context after the call is
handed back with the world. -/
def PVDECIO_EnableCoreClocks {σ : Type} (cfg : BuildConfig) (hw : HwDefs) (tal : TAL σ)
    (hCoreContext : Option PVDECIO_sContext) (w : World σ) :
    Option PVDECIO_sContext × World σ :=
  match hCoreContext with
  | none =>
    let w := IMG_ASSERT false 917 w
    (none, REPORT .REPORT_ERR w)
  | some psContext =>
    let psContext := { psContext with bClocks := true }
    let w := w.log (.storeClocks true)
    let ui32Clocks := coreClocks hw
    (some psContext, pvdecio_SetClocks cfg hw tal psContext ui32Clocks w)

/-- Source function `PVDECIO_DisableClocks` (built without `IMG_DEBUG_FLAG`
and `FW_PERFORMANCE_LOGGING`, so without the debug FIFO call). -/
def PVDECIO_DisableClocks {σ : Type} (cfg : BuildConfig) (hw : HwDefs) (tal : TAL σ)
    (hCoreContext : Option PVDECIO_sContext) (w : World σ) :
    Nat × Option PVDECIO_sContext × World σ :=
  match hCoreContext with
  | none =>
    let w := IMG_ASSERT false 947 w
    (IMG_ERROR_INVALID_PARAMETERS, none, REPORT .REPORT_ERR w)
  | some psContext =>
    let w := pvdecio_SetClocks cfg hw tal psContext 0 w
    let psContext := { psContext with bClocks := false }
    let w := w.log (.storeClocks false)
    let psContext := { psContext with sMsgContext := { psContext.sMsgContext with bReady := false } }
    let w := w.log (.storeReady false)
    (IMG_SUCCESS, some psContext, w)

/-- Source function `PVDECIO_EnableCoreAndProcClocks`. -/
def PVDECIO_EnableCoreAndProcClocks {σ : Type} (cfg : BuildConfig) (hw : HwDefs) (tal : TAL σ)
    (hCoreContext : Option PVDECIO_sContext) (w : World σ) :
    Nat × Option PVDECIO_sContext × World σ :=
  match hCoreContext with
  | none =>
    let w := IMG_ASSERT false 983 w
    (IMG_ERROR_INVALID_PARAMETERS, none, REPORT .REPORT_ERR w)
  | some psContext =>
    let psContext := { psContext with bClocks := true }
    let w := w.log (.storeClocks true)
    let ui32Clocks := coreAndProcClocks hw
    (IMG_SUCCESS, some psContext, pvdecio_SetClocks cfg hw tal psContext ui32Clocks w)

/-! ## Firmware upload through registers -/

/-- Source macro `MTX_CORE_WriteRegister`, the target of
`REGIO_WRITE_REGISTER(h, MTX_CORE, reg, v)`. -/
def MTX_CORE_WriteRegister {σ : Type} (hw : HwDefs) (tal : TAL σ)
    (h : Option PVDECIO_sContext) (o v : Nat) (w : World σ) : Nat × World σ :=
  PVDECIO_WriteRegister hw tal h hw.REGION_PVDEC_MTX_CORE_REGSPACE o v PVDEC_DEF_REG_MASK
    PVDEC_DEF_PIPE w

/-- Source macro `MTX_CORE_ReadRegister`, the target of
`REGIO_READ_REGISTER(h, MTX_CORE, reg)`. -/
def MTX_CORE_ReadRegister {σ : Type} (hw : HwDefs) (tal : TAL σ)
    (h : Option PVDECIO_sContext) (o : Nat) (w : World σ) : Nat × World σ :=
  PVDECIO_ReadRegister hw tal h hw.REGION_PVDEC_MTX_CORE_REGSPACE o PVDEC_DEF_PIPE w

/-- Source constant `PVDECIO_MTX_CORE_MEMORY`. -/
def PVDECIO_MTX_CORE_MEMORY : Nat := 0x18

/-- The wait of `pvdecio_LoadFW` after each word (the `do ... while`), entered
with the counter `ui32MtxTimeOut` at `t + 1`; the result is the counter on
exit. The source enters it with `PVDEC_TIMEOUT_COUNTER`, so the case `0` is
not reached. -/
def pvdecio_LoadFW.wait {σ : Type} (hw : HwDefs) (tal : TAL σ) (psContext : PVDECIO_sContext) :
    Nat → World σ → Nat × World σ
  | 0, w => (0, w)
  | t + 1, w =>
    let f := MTX_CORE_ReadRegister hw tal (some psContext) hw.MTX_CORE_CR_MTX_FAULT0_OFFSET w
    if f.1 != 0 then (t + 1, REPORT .REPORT_ERR f.2)
    else
      let ui32MtxTimeOut := t
      let s := MTX_CORE_ReadRegister hw tal (some psContext)
        hw.MTX_CORE_CR_MTX_RAM_ACCESS_STATUS_OFFSET f.2
      if REGIO_READ_FIELD s.1 hw.MTX_CORE_CR_MTX_RAM_ACCESS_STATUS_MTX_MTX_MCM_STAT == 0
          && ui32MtxTimeOut != 0 then
        pvdecio_LoadFW.wait hw tal psContext t s.2
      else (ui32MtxTimeOut, s.2)

/-- The word loop of `pvdecio_LoadFW`, with `n` words left: `ui32i` is the
index of the next word, `ui32Addr` its byte address and `ui32RamId` the RAM
id selected last. -/
def pvdecio_LoadFW.words {σ : Type} (hw : HwDefs) (tal : TAL σ) (psContext : PVDECIO_sContext)
    (ui32MTXBankSize ui32TransferSizeWrds : Nat) (pui32FwBuf : List Nat) :
    Nat → Nat → Nat → Nat → World σ → World σ
  | 0, _, _, _, w => w
  | n + 1, ui32i, ui32Addr, ui32RamId, w =>
    let newId := PVDECIO_MTX_CORE_MEMORY + ui32Addr / ui32MTXBankSize
    let sel : Nat × World σ :=
      if newId != ui32RamId then
        let ui32RegVal := 0
        let ui32RegVal := REGIO_WRITE_FIELD ui32RegVal
          hw.MTX_CORE_CR_MTX_RAM_ACCESS_CONTROL_MTX_MCMID newId
        let ui32RegVal := REGIO_WRITE_FIELD ui32RegVal
          hw.MTX_CORE_CR_MTX_RAM_ACCESS_CONTROL_MTX_MCM_ADDR (ui32Addr >>> 2)
        let ui32RegVal := REGIO_WRITE_FIELD ui32RegVal
          hw.MTX_CORE_CR_MTX_RAM_ACCESS_CONTROL_MTX_MCMR 0
        let ui32RegVal :=
          if ui32TransferSizeWrds > 1 then
            REGIO_WRITE_FIELD ui32RegVal hw.MTX_CORE_CR_MTX_RAM_ACCESS_CONTROL_MTX_MCMAI 1
          else ui32RegVal
        let w := (MTX_CORE_WriteRegister hw tal (some psContext)
          hw.MTX_CORE_CR_MTX_RAM_ACCESS_CONTROL_OFFSET ui32RegVal w).2
        (newId, REPORT .REPORT_ERR w)
      else (ui32RamId, w)
    let w := (MTX_CORE_WriteRegister hw tal (some psContext)
      hw.MTX_CORE_CR_MTX_RAM_ACCESS_DATA_TRANSFER_OFFSET (pui32FwBuf.getD ui32i 0) sel.2).2
    let w :=
      if ui32i % 4 == 0 && ui32i < 0x400 && ui32i + 3 < ui32TransferSizeWrds then
        REPORT .REPORT_ERR w
      else w
    let t := pvdecio_LoadFW.wait hw tal psContext PVDEC_TIMEOUT_COUNTER w
    let w :=
      if t.1 == 0 then
        REPORT .REPORT_ERR (MTX_CORE_ReadRegister hw tal (some psContext)
          hw.MTX_CORE_CR_MTX_RAM_ACCESS_STATUS_OFFSET t.2).2
      else t.2
    pvdecio_LoadFW.words hw tal psContext ui32MTXBankSize ui32TransferSizeWrds pui32FwBuf
      n (ui32i + 1) ((ui32Addr + 4) % 2 ^ 32) sel.1 w

/-- Source function `pvdecio_LoadFW` (built under `PVDEC_REG_FW_UPLOAD`); the
argument `psFwInfo` of the source is `&psContext->sFwInfo`. The context after
the call is handed back with the world. -/
def pvdecio_LoadFW {σ : Type} (cfg : BuildConfig) (hw : HwDefs) (tal : TAL σ)
    (psContext : PVDECIO_sContext) (_ui8Pipe : Nat) (w : World σ) :
    PVDECIO_sContext × World σ :=
  let psFwInfo := psContext.sFwInfo
  let ui32RamId := 0xFFFFFFFF
  let ui32Addr := 0
  let ui32MTXBankSize := (1 <<< (psContext.sMTXRamInfo.ui32MTXBankSize + 2)) % 2 ^ 32
  let ui32TransferSizeWrds := psContext.sFwInfo.ui32CoreSize
  let pui32FwBuf := psFwInfo.pvBlobCpuAddr
  let ui32RegVal := allClocks hw
  let w := pvdecio_SetClocks cfg hw tal psContext ui32RegVal w
  let psContext := { psContext with bClocks := true }
  let w := w.log (.storeClocks true)
  let w := REPORT .REPORT_ERR w
  let w := pvdecio_LoadFW.words hw tal psContext ui32MTXBankSize ui32TransferSizeWrds
    pui32FwBuf ui32TransferSizeWrds 0 ui32Addr ui32RamId w
  let w := IMG_ASSERT (decide (0 < hw.DMAC_DMAC_SETUP_NO_ENTRIES)) 1701 w
  let w := (PVDECIO_WriteRegister hw tal (some psContext) hw.REGION_PVDEC_PIXEL_DMA_REGSPACE
    ((hw.DMAC_DMAC_SETUP_OFFSET + 0 * hw.DMAC_DMAC_SETUP_STRIDE) % 2 ^ 32)
    psFwInfo.ui32BlobDevVirtAddr PVDEC_DEF_REG_MASK 0 w).2
  let w := (MTX_CORE_WriteRegister hw tal (some psContext)
    hw.MTX_CORE_CR_MTX_REGISTER_READ_WRITE_DATA_OFFSET 0x80900000 w).2
  let ui32RegVal := 0
  let ui32RegVal := REGIO_WRITE_FIELD ui32RegVal
    hw.MTX_CORE_CR_MTX_REGISTER_READ_WRITE_REQUEST_MTX_RNW 0
  let ui32RegVal := REGIO_WRITE_FIELD ui32RegVal
    hw.MTX_CORE_CR_MTX_REGISTER_READ_WRITE_REQUEST_MTX_USPECIFIER 5
  let ui32RegVal := REGIO_WRITE_FIELD ui32RegVal
    hw.MTX_CORE_CR_MTX_REGISTER_READ_WRITE_REQUEST_MTX_RSPECIFIER 0
  let w := (MTX_CORE_WriteRegister hw tal (some psContext)
    hw.MTX_CORE_CR_MTX_REGISTER_READ_WRITE_REQUEST_OFFSET ui32RegVal w).2
  let w := (MTX_CORE_WriteRegister hw tal (some psContext) hw.MTX_CORE_CR_MTX_ENABLE_OFFSET 1 w).2
  (psContext, w)

/-! ## A device that is plain storage, and a sample register map -/

/-- Registers as plain storage: the word at each memory space and offset. -/
abbrev RegFile := Nat → Nat → Nat

/-- The register file with every word zero. -/
def RegFile.zero : RegFile := fun _ _ => 0

/-- The register file after a store. -/
def RegFile.set (s : RegFile) (h o v : Nat) : RegFile :=
  fun h' o' => if h' = h ∧ o' = o then v else s h' o'

/-- The bus transport over plain storage: a read delivers the word stored, a
write stores the word, a poll checks the stored word once; all three succeed,
but for a poll whose check fails, which times out. -/
def plainStorage (hw : HwDefs) : TAL RegFile where
  ReadWord32 s h o := (IMG_SUCCESS, s h o, s)
  WriteWord32 s h o v := (IMG_SUCCESS, s.set h o v)
  Poll32 s h o f req en _ _ :=
    let hit := if f = hw.TAL_CHECKFUNC_ISEQUAL then (s h o &&& en) == req
      else (s h o &&& en) != req
    (if hit then IMG_SUCCESS else IMG_ERROR_TIMEOUT, s)

/-- A register map to evaluate the model on concrete inputs. The values stand
in for those of the absent headers; the theorems over an arbitrary `HwDefs` do
not depend on them. -/
def sampleHw : HwDefs where
  REGION_PVDEC_MAX := 17
  REGION_PVDEC_CORE_REGSPACE := 1
  REGION_PVDEC_MTX_CORE_REGSPACE := 5
  REGION_PVDEC_PIXEL_DMA_REGSPACE := 8
  PVDEC_CORE_CR_PVDEC_HOST_PIPE_SELECT_OFFSET := 0x38
  PVDEC_CORE_CR_PVDEC_HOST_PIPE_SELECT_CR_PVDEC_HOST_PIPE_SELECT := ⟨0xF, 0⟩
  PVDEC_CORE_CR_PVDEC_MAN_CLK_ENABLE_OFFSET := 0x40
  PVDEC_CORE_CR_PVDEC_MAN_CLK_ENABLE_CR_PVDEC_REG_MAN_CLK_ENABLE := ⟨0x20000, 17⟩
  PVDEC_CORE_CR_PVDEC_MAN_CLK_ENABLE_CR_CORE_MAN_CLK_ENABLE := ⟨0x10000, 16⟩
  PVDEC_CORE_CR_PVDEC_MAN_CLK_ENABLE_CR_MEM_MAN_CLK_ENABLE := ⟨0x100, 8⟩
  PVDEC_CORE_CR_PVDEC_MAN_CLK_ENABLE_CR_PROC_MAN_CLK_ENABLE := ⟨0x10, 4⟩
  PVDEC_CORE_CR_PVDEC_MAN_CLK_ENABLE_CR_PIXEL_PROCESSING_MAN_CLK_ENABLE := ⟨0x1, 0⟩
  MTX_CORE_CR_MTX_KICKI_OFFSET := 0x88
  MTX_CORE_CR_MTX_KICKI_MTX_KICKI := ⟨0xFFFF, 0⟩
  MTX_CORE_CR_MTX_ENABLE_OFFSET := 0x0
  MTX_CORE_CR_MTX_FAULT0_OFFSET := 0x90
  MTX_CORE_CR_MTX_REGISTER_READ_WRITE_DATA_OFFSET := 0xF8
  MTX_CORE_CR_MTX_REGISTER_READ_WRITE_REQUEST_OFFSET := 0xFC
  MTX_CORE_CR_MTX_REGISTER_READ_WRITE_REQUEST_MTX_RNW := ⟨0x10000, 16⟩
  MTX_CORE_CR_MTX_REGISTER_READ_WRITE_REQUEST_MTX_USPECIFIER := ⟨0xF, 0⟩
  MTX_CORE_CR_MTX_REGISTER_READ_WRITE_REQUEST_MTX_RSPECIFIER := ⟨0x70, 4⟩
  MTX_CORE_CR_MTX_RAM_ACCESS_DATA_TRANSFER_OFFSET := 0x104
  MTX_CORE_CR_MTX_RAM_ACCESS_CONTROL_OFFSET := 0x108
  MTX_CORE_CR_MTX_RAM_ACCESS_CONTROL_MTX_MCMID := ⟨0x0FF00000, 20⟩
  MTX_CORE_CR_MTX_RAM_ACCESS_CONTROL_MTX_MCM_ADDR := ⟨0x000FFFFC, 2⟩
  MTX_CORE_CR_MTX_RAM_ACCESS_CONTROL_MTX_MCMR := ⟨0x1, 0⟩
  MTX_CORE_CR_MTX_RAM_ACCESS_CONTROL_MTX_MCMAI := ⟨0x2, 1⟩
  MTX_CORE_CR_MTX_RAM_ACCESS_STATUS_OFFSET := 0x10C
  MTX_CORE_CR_MTX_RAM_ACCESS_STATUS_MTX_MTX_MCM_STAT := ⟨0x1, 0⟩
  DMAC_DMAC_SETUP_OFFSET := 0x0
  DMAC_DMAC_SETUP_STRIDE := 0x20
  DMAC_DMAC_SETUP_NO_ENTRIES := 6
  TAL_CHECKFUNC_ISEQUAL := 0
  TAL_CHECKFUNC_NOTEQUAL := 5
  REGION_PVDEC_PIXEL_PIPE_REGSPACE := 3
  MTX_CORE_CR_MTX_SYSC_TIMERDIV_OFFSET := 0x208
  MTX_CORE_CR_MTX_SYSC_TIMERDIV_TIMER_EN := ⟨0x10000, 16⟩
  MTX_CORE_CR_MTX_SYSC_TIMERDIV_TIMER_DIV := ⟨0xFF, 0⟩
  PVDEC_PIXEL_CR_PIXEL_MAN_CLK_ENABLE_OFFSET := 0x20
  PVDEC_PIXEL_CR_PIXEL_MAN_CLK_ENABLE_CR_PIXEL_DMAC_MAN_CLK_ENABLE := ⟨0x1, 0⟩
  PVDEC_PIXEL_CR_PIXEL_MAN_CLK_ENABLE_CR_PIXEL_REG_MAN_CLK_ENABLE := ⟨0x2, 1⟩
  MTX_CORE_CR_MTX_SYSC_CDMAA_OFFSET := 0x344
  MTX_CORE_CR_MTX_SYSC_CDMAC_OFFSET := 0x340
  MTX_CORE_CR_MTX_SYSC_CDMAC_BURSTSIZE := ⟨0x07000000, 24⟩
  MTX_CORE_CR_MTX_SYSC_CDMAC_RNW := ⟨0x20000, 17⟩
  MTX_CORE_CR_MTX_SYSC_CDMAC_ENABLE := ⟨0x10000, 16⟩
  MTX_CORE_CR_MTX_SYSC_CDMAC_LENGTH := ⟨0xFFFF, 0⟩
  MTX_CORE_CR_MTX_SYSC_CDMAT_OFFSET := 0x350
  PVDEC_CORE_CR_PROC_DMAC_CONTROL_OFFSET := 0x104
  PVDEC_CORE_CR_PROC_DMAC_CONTROL_CR_BOOT_ON_DMA_CH0 := ⟨0x80000000, 31⟩
  PVDEC_PIXEL_CR_PIXEL_CONTROL_0_OFFSET := 0x4
  PVDEC_PIXEL_CR_PIXEL_CONTROL_0_CR_DMAC_CH_SEL_FOR_MTX := ⟨0x3, 0⟩
  DMAC_DMAC_PER_HOLD_OFFSET := 0x18
  DMAC_DMAC_PER_HOLD_STRIDE := 0x20
  DMAC_DMAC_PER_HOLD_NO_ENTRIES := 6
  DMAC_DMAC_PER_HOLD_PER_HOLD := ⟨0x7F, 0⟩
  DMAC_DMAC_IRQ_STAT_OFFSET := 0xC
  DMAC_DMAC_IRQ_STAT_STRIDE := 0x20
  DMAC_DMAC_IRQ_STAT_NO_ENTRIES := 6
  DMAC_DMAC_PERIPHERAL_ADDR_OFFSET := 0x14
  DMAC_DMAC_PERIPHERAL_ADDR_STRIDE := 0x20
  DMAC_DMAC_PERIPHERAL_ADDR_NO_ENTRIES := 6
  DMAC_DMAC_PERIPHERAL_ADDR_ADDR := ⟨0x7FFFFF, 0⟩
  DMAC_DMAC_PERIPH_OFFSET := 0x8
  DMAC_DMAC_PERIPH_STRIDE := 0x20
  DMAC_DMAC_PERIPH_NO_ENTRIES := 6
  DMAC_DMAC_PERIPH_ACC_DEL := ⟨0xE0000000, 29⟩
  DMAC_DMAC_PERIPH_INCR := ⟨0x08000000, 27⟩
  DMAC_DMAC_PERIPH_BURST := ⟨0x07000000, 24⟩
  DMAC_DMAC_PERIPH_EXT_BURST := ⟨0xF0000, 16⟩
  DMAC_DMAC_PERIPH_EXT_SA := ⟨0xF, 0⟩
  DMAC_DMAC_COUNT_OFFSET := 0x4
  DMAC_DMAC_COUNT_STRIDE := 0x20
  DMAC_DMAC_COUNT_NO_ENTRIES := 6
  DMAC_DMAC_COUNT_TRANSFER_IEN := ⟨0x20000000, 29⟩
  DMAC_DMAC_COUNT_PW := ⟨0x18000000, 27⟩
  DMAC_DMAC_COUNT_DIR := ⟨0x04000000, 26⟩
  DMAC_DMAC_COUNT_PI := ⟨0x03000000, 24⟩
  DMAC_DMAC_COUNT_LIST_FIN_CTL := ⟨0x400000, 22⟩
  DMAC_DMAC_COUNT_LIST_EN := ⟨0x40000, 18⟩
  DMAC_DMAC_COUNT_ENABLE_2D_MODE := ⟨0x20000, 17⟩
  DMAC_DMAC_COUNT_CNT := ⟨0xFFFF, 0⟩
  DMAC_DMAC_COUNT_EN := ⟨0x10000, 16⟩
  DMAC_INCR_OFF := 0
  DMAC_INCR_ON := 1
  DMAC_BURST_1 := 1
  DMAC_EXT_BURST_0 := 0
  DMAC_PWIDTH_32_BIT := 0
  REGION_PVDEC_ENTROPY_PIPE_REGSPACE := 4
  REGION_PVDEC_VLR_REGSPACE := 13
  PVDEC_CORE_CR_PVDEC_HOST_INTERRUPT_STATUS_OFFSET := 0x10
  PVDEC_CORE_CR_PVDEC_HOST_INTERRUPT_STATUS_CR_HOST_PROC_IRQ := ⟨0x1000000, 24⟩
  PVDEC_CORE_CR_PVDEC_HOST_INTERRUPT_STATUS_CR_HOST_MMU_FAULT_IRQ := ⟨0x10000, 16⟩
  PVDEC_CORE_CR_PVDEC_HOST_INTERRUPT_ENABLE_OFFSET := 0x18
  PVDEC_CORE_CR_PVDEC_INTERRUPT_CLEAR_OFFSET := 0x14
  IMG_VIDEO_BUS4_MMU_MMU_STATUS0_MMU_FAULT_ADDR := ⟨0xFFFFF000, 12⟩
  IMG_VIDEO_BUS4_MMU_MMU_STATUS0_MMU_PF_N_RW := ⟨0x1, 0⟩
  IMG_VIDEO_BUS4_MMU_MMU_STATUS0_MMU_SECURE_FAULT := ⟨0x100, 8⟩
  IMG_VIDEO_BUS4_MMU_MMU_STATUS1_MMU_FAULT_REQ_ID := ⟨0x3F000000, 24⟩
  IMG_VIDEO_BUS4_MMU_MMU_STATUS1_MMU_FAULT_RNW := ⟨0x10000000, 28⟩
  PVDEC_PIXEL_CR_MSVDX_FE_WDT_CONTROL_OFFSET := 0x64
  PVDEC_PIXEL_CR_MSVDX_FE_WDT_CONTROL_FE_WDT_CNT_CTRL := ⟨0x60000, 17⟩
  PVDEC_PIXEL_CR_MSVDX_FE_WDT_CONTROL_FE_WDT_ACTION0 := ⟨0x100, 8⟩
  PVDEC_PIXEL_CR_MSVDX_FE_WDT_CONTROL_FE_WDT_CLEAR_SELECT := ⟨0x30, 4⟩
  PVDEC_PIXEL_CR_MSVDX_FE_WDT_CONTROL_FE_WDT_CLKDIV_SELECT := ⟨0x7, 0⟩
  PVDEC_ENTROPY_CR_ENTROPY_WDT_CONTROL_OFFSET := 0x8
  PVDEC_ENTROPY_CR_ENTROPY_WDT_CONTROL_ENTROPY_WDT_CNT_CTRL := ⟨0x60000, 17⟩
  PVDEC_ENTROPY_CR_ENTROPY_WDT_CONTROL_ENTROPY_WDT_ACTION1 := ⟨0x1000, 12⟩
  PVDEC_ENTROPY_CR_ENTROPY_WDT_CONTROL_ENTROPY_WDT_ACTION0 := ⟨0x100, 8⟩
  PVDEC_ENTROPY_CR_ENTROPY_WDT_CONTROL_ENTROPY_WDT_CLEAR_SELECT := ⟨0x30, 4⟩
  PVDEC_ENTROPY_CR_ENTROPY_WDT_CONTROL_ENTROPY_WDT_CLKDIV_SELECT := ⟨0x7, 0⟩
  PVDEC_PIXEL_CR_BE_WDT_CONTROL_OFFSET := 0x6C
  PVDEC_PIXEL_CR_BE_WDT_CONTROL_BE_WDT_ACTION0 := ⟨0x100, 8⟩
  PVDEC_PIXEL_CR_BE_WDT_CONTROL_BE_WDT_CLKDIV_SELECT := ⟨0x7, 0⟩
  PVDEC_CORE_CR_PROC_DEBUG_OFFSET := 0x100
  PVDEC_CORE_CR_PROC_DEBUG_CR_MTX_RAM_BANKS := ⟨0xF00, 8⟩
  PVDEC_CORE_CR_PROC_DEBUG_CR_MTX_RAM_BANK_SIZE := ⟨0xF0000, 16⟩
  PVDEC_CORE_CR_PROC_DEBUG_CR_MTX_LAST_RAM_BANK_SIZE := ⟨0xF000000, 24⟩
  COMMS_HEADER_SIZE := 4
  REGION_PVDEC_VEC_BE := 6
  REGION_PVDEC_MSVDX_VEC := 9
  REGION_PVDEC_MSVDX_VDMC := 10
  PVDEC_ENTROPY_CR_ENTROPY_LAST_MB_OFFSET := 0x1C
  PVDEC_ENTROPY_CR_ENTROPY_LAST_MB_ENTROPY_LAST_MB_NO_X := ⟨0x3FF, 0⟩
  PVDEC_ENTROPY_CR_ENTROPY_LAST_MB_ENTROPY_LAST_MB_NO_Y := ⟨0x3FF0000, 16⟩
  PVDEC_VEC_BE_CR_VEC_BE_STATUS_OFFSET := 0x20
  PVDEC_VEC_BE_CR_VEC_BE_STATUS_COMMAND_MB_ADDR_X := ⟨0x3FF, 0⟩
  PVDEC_VEC_BE_CR_VEC_BE_STATUS_COMMAND_MB_ADDR_Y := ⟨0x3FF0000, 16⟩
  MSVDX_VEC_CR_VEC_ENTDEC_INFORMATION_OFFSET := 0x8C
  MSVDX_VEC_CR_VEC_ENTDEC_INFORMATION_FE_ENTDEC_LATEST_MB_ADDR_X := ⟨0xFF, 0⟩
  MSVDX_VEC_CR_VEC_ENTDEC_INFORMATION_FE_ENTDEC_LATEST_MB_ADDR_Y := ⟨0xFF00, 8⟩
  MSVDX_VDMC_CR_VDMC_MACROBLOCK_NUMBER_OFFSET := 0x48
  MSVDX_VDMC_CR_VDMC_MACROBLOCK_NUMBER_CR_VDMC_MACROBLOCK_X_OFFSET := ⟨0xFF, 0⟩
  MSVDX_VDMC_CR_VDMC_MACROBLOCK_NUMBER_CR_VDMC_MACROBLOCK_Y_OFFSET := ⟨0xFF0000, 16⟩
  MTX_CORE_CR_MTX_STATUS_OFFSET := 0x8

/-- The default build: none of the switches defined. -/
def defaultBuild : BuildConfig := ⟨false, false, false, false⟩

/-- The build with `VDEC_USE_PVDEC_SEC` defined. -/
def secureBuild : BuildConfig := ⟨true, false, false, false⟩

/-- The build with `PVDEC_REG_FW_UPLOAD` defined. -/
def regUploadBuild : BuildConfig := ⟨false, false, true, false⟩

/-- A context as `PVDECIO_Initialise` leaves it on the sample register map:
initialised, clocks on, every other field zero. -/
def ctxOn : PVDECIO_sContext where
  bInitialised := true
  bClocks := true
  sMTXRamInfo := ⟨0, 0, 0⟩
  sFwInfo := ⟨0, 0, 0, []⟩
  sMsgContext := ⟨false⟩
  sStateInfo := ⟨0, 0⟩
  ui32NumPixelPipes := 0
  ui32MemSpaceCount := 17
  bSecureFw := false
  bIOBypass := false

/-- The context `ctxOn` with the clock flag off. -/
def ctxOff : PVDECIO_sContext := { ctxOn with bClocks := false }

/-- The world before anything happened: every register zero, empty trace. -/
def world0 : World RegFile := ⟨RegFile.zero, []⟩

/-- The diagnostics among the events: failed assertions and reports. An
operation whose events are all diagnostics made no bus transaction, no lookup
outside the table and no store to the context. -/
def Event.isDiag : Event → Bool
  | .assertFail _ => true
  | .report _ => true
  | _ => false

/-- A context that has not been initialised: both flags off. -/
def ctxUninit : PVDECIO_sContext := { ctxOn with bInitialised := false, bClocks := false }

/-- A context with the clock flag on that has not been initialised. -/
def ctxClockedUninit : PVDECIO_sContext := { ctxOn with bInitialised := false }

/-- The context `ctxOn` with the I/O bypass switched on. -/
def ctxBypass : PVDECIO_sContext := { ctxOn with bIOBypass := true }

/-- Hardware that does not respond: writes are lost and every read delivers 0. -/
def unresponsive : TAL Unit where
  ReadWord32 s _ _ := (IMG_SUCCESS, 0, s)
  WriteWord32 s _ _ _ := (IMG_SUCCESS, s)
  Poll32 s _ _ _ _ _ _ _ := (IMG_ERROR_TIMEOUT, s)

/-! ## Firmware transfer by DMA -/

/-- Field update as done by `REGIO_WRITE_FIELD_LITE` of `reg_io2.h`: the
shifted value is or-ed into the word, nothing is cleared or cut. -/
def REGIO_WRITE_FIELD_LITE (reg : Nat) (f : Field) (value : Nat) : Nat :=
  reg ||| ((value <<< f.SHIFT) % 2 ^ 32)

/-- Source macro `PVDEC_PIXEL_WritePipeRegister`, the target of
`REGIO_WRITE_PIPE_REGISTER(h, p, PVDEC_PIXEL, reg, v)`. -/
def PVDEC_PIXEL_WritePipeRegister {σ : Type} (hw : HwDefs) (tal : TAL σ)
    (h : Option PVDECIO_sContext) (p o v : Nat) (w : World σ) : Nat × World σ :=
  PVDECIO_WriteRegister hw tal h hw.REGION_PVDEC_PIXEL_PIPE_REGSPACE o v PVDEC_DEF_REG_MASK p w

/-- Source macro `PIXEL_DMA_WriteRegMacro` for the register table with the
given offset, stride and number of entries; `line` is the source line of the
use, for the assertion on the channel. -/
def PIXEL_DMA_WriteRegMacro {σ : Type} (hw : HwDefs) (tal : TAL σ)
    (h : Option PVDECIO_sContext) (pipe channel OFFSET STRIDE NO_ENTRIES val line : Nat)
    (w : World σ) : Nat × World σ :=
  let w := IMG_ASSERT (decide (channel < NO_ENTRIES)) line w
  PVDECIO_WriteRegister hw tal h hw.REGION_PVDEC_PIXEL_DMA_REGSPACE
    ((OFFSET + channel * STRIDE) % 2 ^ 32) val PVDEC_DEF_REG_MASK pipe w

/-- Source macro `PIXEL_DMA_ReadRegMacro`. -/
def PIXEL_DMA_ReadRegMacro {σ : Type} (hw : HwDefs) (tal : TAL σ)
    (h : Option PVDECIO_sContext) (pipe channel OFFSET STRIDE NO_ENTRIES line : Nat)
    (w : World σ) : Nat × World σ :=
  let w := IMG_ASSERT (decide (channel < NO_ENTRIES)) line w
  PVDECIO_ReadRegister hw tal h hw.REGION_PVDEC_PIXEL_DMA_REGSPACE
    ((OFFSET + channel * STRIDE) % 2 ^ 32) pipe w

/-- The transfer length that `pvdecio_startDMA` writes into the `LENGTH` field
of the MTX DMA control register: the source expression
`((ui32TransferSize + 7) & (~7)) + 8` in 32-bit arithmetic. -/
def startDMA_length (ui32TransferSize : Nat) : Nat :=
  ((((ui32TransferSize + 7) % 2 ^ 32) &&& not32 7) + 8) % 2 ^ 32

/-- The word that `pvdecio_startDMA` writes first to the count register of the
DMA channel: every field of the source but `EN`. -/
def startDMA_count (hw : HwDefs) (ui32TransferSize : Nat) : Nat :=
  let ui32Reg := 0
  let ui32Reg := REGIO_WRITE_FIELD ui32Reg hw.DMAC_DMAC_COUNT_TRANSFER_IEN 1
  let ui32Reg := REGIO_WRITE_FIELD ui32Reg hw.DMAC_DMAC_COUNT_PW hw.DMAC_PWIDTH_32_BIT
  let ui32Reg := REGIO_WRITE_FIELD ui32Reg hw.DMAC_DMAC_COUNT_DIR 0
  let ui32Reg := REGIO_WRITE_FIELD ui32Reg hw.DMAC_DMAC_COUNT_PI hw.DMAC_INCR_ON
  let ui32Reg := REGIO_WRITE_FIELD ui32Reg hw.DMAC_DMAC_COUNT_LIST_FIN_CTL 0
  let ui32Reg := REGIO_WRITE_FIELD ui32Reg hw.DMAC_DMAC_COUNT_LIST_EN 0
  let ui32Reg := REGIO_WRITE_FIELD ui32Reg hw.DMAC_DMAC_COUNT_ENABLE_2D_MODE 0
  REGIO_WRITE_FIELD ui32Reg hw.DMAC_DMAC_COUNT_CNT ui32TransferSize

/-- The word that `pvdecio_startDMA` writes to the MTX DMA control register. -/
def startDMA_cdmac (hw : HwDefs) (ui32TransferSize : Nat) : Nat :=
  let ui32Reg := 0
  let ui32Reg := REGIO_WRITE_FIELD ui32Reg hw.MTX_CORE_CR_MTX_SYSC_CDMAC_BURSTSIZE 0
  let ui32Reg := REGIO_WRITE_FIELD ui32Reg hw.MTX_CORE_CR_MTX_SYSC_CDMAC_RNW 0
  let ui32Reg := REGIO_WRITE_FIELD ui32Reg hw.MTX_CORE_CR_MTX_SYSC_CDMAC_ENABLE 1
  REGIO_WRITE_FIELD ui32Reg hw.MTX_CORE_CR_MTX_SYSC_CDMAC_LENGTH
    (startDMA_length ui32TransferSize)

/-- The part of `pvdecio_startDMA` before the wait: the clock flag, the clocks
and the programming of the MTX and of DMA channel 0. The result is the context
after it, the last word written to the count register (`ui32Reg`) and the
world. -/
def pvdecio_startDMA.program {σ : Type} (cfg : BuildConfig) (hw : HwDefs) (tal : TAL σ)
    (psContext : PVDECIO_sContext) (ui8Pipe ui32TransferSize ui32BufDevVirtAddr : Nat)
    (w : World σ) : PVDECIO_sContext × Nat × World σ :=
  let psContext := { psContext with bClocks := true }
  let h := some psContext
  let w := w.log (.storeClocks true)
  let ui32Reg := allClocks hw
  let w := pvdecio_SetClocks cfg hw tal psContext ui32Reg w
  let ui32Reg := 0
  let ui32Reg := REGIO_WRITE_FIELD ui32Reg hw.MTX_CORE_CR_MTX_SYSC_TIMERDIV_TIMER_EN 1
  let ui32Reg := REGIO_WRITE_FIELD ui32Reg hw.MTX_CORE_CR_MTX_SYSC_TIMERDIV_TIMER_DIV
    (PVDECIO_MTX_CLK_MHZ - 1)
  let w := (MTX_CORE_WriteRegister hw tal h hw.MTX_CORE_CR_MTX_SYSC_TIMERDIV_OFFSET ui32Reg w).2
  let ui32Reg := 0
  let ui32Reg := REGIO_WRITE_FIELD ui32Reg
    hw.PVDEC_PIXEL_CR_PIXEL_MAN_CLK_ENABLE_CR_PIXEL_DMAC_MAN_CLK_ENABLE 1
  let ui32Reg := REGIO_WRITE_FIELD ui32Reg
    hw.PVDEC_PIXEL_CR_PIXEL_MAN_CLK_ENABLE_CR_PIXEL_REG_MAN_CLK_ENABLE 1
  let w := (PVDEC_PIXEL_WritePipeRegister hw tal h ui8Pipe
    hw.PVDEC_PIXEL_CR_PIXEL_MAN_CLK_ENABLE_OFFSET ui32Reg w).2
  let w := (MTX_CORE_WriteRegister hw tal h hw.MTX_CORE_CR_MTX_SYSC_CDMAA_OFFSET 0 w).2
  let ui32Reg := startDMA_cdmac hw ui32TransferSize
  let w := (MTX_CORE_WriteRegister hw tal h hw.MTX_CORE_CR_MTX_SYSC_CDMAC_OFFSET ui32Reg w).2
  let ui32Reg := 0
  let ui32Reg := REGIO_WRITE_FIELD ui32Reg hw.PVDEC_CORE_CR_PROC_DMAC_CONTROL_CR_BOOT_ON_DMA_CH0 1
  let w := (PVDEC_CORE_WriteRegister hw tal h hw.PVDEC_CORE_CR_PROC_DMAC_CONTROL_OFFSET ui32Reg w).2
  let ui32Reg := 0
  let ui32Reg := REGIO_WRITE_FIELD ui32Reg
    hw.PVDEC_PIXEL_CR_PIXEL_CONTROL_0_CR_DMAC_CH_SEL_FOR_MTX 0
  let w := (PVDEC_PIXEL_WritePipeRegister hw tal h ui8Pipe
    hw.PVDEC_PIXEL_CR_PIXEL_CONTROL_0_OFFSET ui32Reg w).2
  let ui32Channel := 0
  let ui32Reg := 0
  let ui32Reg := REGIO_WRITE_FIELD ui32Reg hw.DMAC_DMAC_PER_HOLD_PER_HOLD 7
  let w := (PIXEL_DMA_WriteRegMacro hw tal h ui8Pipe ui32Channel hw.DMAC_DMAC_PER_HOLD_OFFSET
    hw.DMAC_DMAC_PER_HOLD_STRIDE hw.DMAC_DMAC_PER_HOLD_NO_ENTRIES ui32Reg 1800 w).2
  let w := (PIXEL_DMA_WriteRegMacro hw tal h ui8Pipe ui32Channel hw.DMAC_DMAC_IRQ_STAT_OFFSET
    hw.DMAC_DMAC_IRQ_STAT_STRIDE hw.DMAC_DMAC_IRQ_STAT_NO_ENTRIES 0 1803 w).2
  let w := (PIXEL_DMA_WriteRegMacro hw tal h ui8Pipe ui32Channel hw.DMAC_DMAC_SETUP_OFFSET
    hw.DMAC_DMAC_SETUP_STRIDE hw.DMAC_DMAC_SETUP_NO_ENTRIES ui32BufDevVirtAddr 1806 w).2
  let ui32Reg := 0
  let ui32Reg := REGIO_WRITE_FIELD_LITE ui32Reg hw.DMAC_DMAC_PERIPHERAL_ADDR_ADDR
    hw.MTX_CORE_CR_MTX_SYSC_CDMAT_OFFSET
  let w := (PIXEL_DMA_WriteRegMacro hw tal h ui8Pipe ui32Channel
    hw.DMAC_DMAC_PERIPHERAL_ADDR_OFFSET hw.DMAC_DMAC_PERIPHERAL_ADDR_STRIDE
    hw.DMAC_DMAC_PERIPHERAL_ADDR_NO_ENTRIES ui32Reg 1810 w).2
  let ui32Reg := 0
  let ui32Reg := REGIO_WRITE_FIELD ui32Reg hw.DMAC_DMAC_PERIPH_ACC_DEL 0
  let ui32Reg := REGIO_WRITE_FIELD ui32Reg hw.DMAC_DMAC_PERIPH_INCR hw.DMAC_INCR_OFF
  let ui32Reg := REGIO_WRITE_FIELD ui32Reg hw.DMAC_DMAC_PERIPH_BURST hw.DMAC_BURST_1
  let ui32Reg := REGIO_WRITE_FIELD ui32Reg hw.DMAC_DMAC_PERIPH_EXT_BURST hw.DMAC_EXT_BURST_0
  let ui32Reg := REGIO_WRITE_FIELD ui32Reg hw.DMAC_DMAC_PERIPH_EXT_SA 0
  let w := (PIXEL_DMA_WriteRegMacro hw tal h ui8Pipe ui32Channel hw.DMAC_DMAC_PERIPH_OFFSET
    hw.DMAC_DMAC_PERIPH_STRIDE hw.DMAC_DMAC_PERIPH_NO_ENTRIES ui32Reg 1819 w).2
  let ui32Reg := startDMA_count hw ui32TransferSize
  let w := (PIXEL_DMA_WriteRegMacro hw tal h ui8Pipe ui32Channel hw.DMAC_DMAC_COUNT_OFFSET
    hw.DMAC_DMAC_COUNT_STRIDE hw.DMAC_DMAC_COUNT_NO_ENTRIES ui32Reg 1831 w).2
  let ui32Reg := REGIO_WRITE_FIELD ui32Reg hw.DMAC_DMAC_COUNT_EN 1
  let w := (PIXEL_DMA_WriteRegMacro hw tal h ui8Pipe ui32Channel hw.DMAC_DMAC_COUNT_OFFSET
    hw.DMAC_DMAC_COUNT_STRIDE hw.DMAC_DMAC_COUNT_NO_ENTRIES ui32Reg 1834 w).2
  (psContext, ui32Reg, w)

/-- The wait of `pvdecio_startDMA` for the end of the transfer (built under
`SYSBRG_BRIDGING`), the `do ... while (ui32Cnt > 0)`: each round reads the
count register of channel 0, returns `IMG_ERROR_FATAL` when the count read
equals the count before, and goes on while the count read is above zero. The
source sets no bound on the rounds: here `fuel` rounds are run and `none`
stands for a wait that has not ended by then. -/
def pvdecio_startDMA.wait {σ : Type} (hw : HwDefs) (tal : TAL σ) (psContext : PVDECIO_sContext)
    (ui8Pipe : Nat) : Nat → Nat → World σ → Option (Nat × World σ)
  | 0, _, _ => none
  | fuel + 1, ui32Cnt, w =>
    let ui32PrevCnt := ui32Cnt
    let r := PIXEL_DMA_ReadRegMacro hw tal (some psContext) ui8Pipe 0 hw.DMAC_DMAC_COUNT_OFFSET
      hw.DMAC_DMAC_COUNT_STRIDE hw.DMAC_DMAC_COUNT_NO_ENTRIES 1846 w
    let ui32Reg := r.1
    let ui32Cnt := REGIO_READ_FIELD ui32Reg hw.DMAC_DMAC_COUNT_CNT
    if ui32Cnt == ui32PrevCnt then
      some (IMG_ERROR_FATAL, REPORT .REPORT_ERR r.2)
    else if ui32Cnt > 0 then
      pvdecio_startDMA.wait hw tal psContext ui8Pipe fuel ui32Cnt r.2
    else some (IMG_SUCCESS, r.2)

/-- Source function `pvdecio_startDMA`. The result is the result code, the
context after the call and the world; `none` is a wait (see
`pvdecio_startDMA.wait`) that has not ended within `fuel` rounds. -/
def pvdecio_startDMA {σ : Type} (cfg : BuildConfig) (hw : HwDefs) (tal : TAL σ)
    (psContext : PVDECIO_sContext) (ui8Pipe ui32TransferSize ui32BufDevVirtAddr fuel : Nat)
    (w : World σ) : Option (Nat × PVDECIO_sContext × World σ) :=
  let p := pvdecio_startDMA.program cfg hw tal psContext ui8Pipe ui32TransferSize
    ui32BufDevVirtAddr w
  if cfg.SYSBRG_BRIDGING then
    let ui32Cnt := REGIO_READ_FIELD p.2.1 hw.DMAC_DMAC_COUNT_CNT
    match pvdecio_startDMA.wait hw tal p.1 ui8Pipe fuel ui32Cnt p.2.2 with
    | some r => some (r.1, p.1, r.2)
    | none => none
  else some (IMG_SUCCESS, p.1, p.2.2)

/-- A device that plays back a script on the DMA registers: the `n`-th read in
the pixel DMA region delivers `readings n`, every other read delivers
`background`, writes are lost. The state is the number of reads played. -/
def scriptedDMA (hw : HwDefs) (readings : Nat → Nat) (background : Nat → Nat → Nat) : TAL Nat where
  ReadWord32 s h o :=
    if h = hw.REGION_PVDEC_PIXEL_DMA_REGSPACE then (IMG_SUCCESS, readings s, s + 1)
    else (IMG_SUCCESS, background h o, s)
  WriteWord32 s _ _ _ := (IMG_SUCCESS, s)
  Poll32 s _ _ _ _ _ _ _ := (IMG_SUCCESS, s)

/-- The build with `SYSBRG_BRIDGING` defined: the DMA transfer is waited for. -/
def bridgingBuild : BuildConfig := ⟨false, true, false, false⟩

/-- The word values written to the register at memory space `h`, offset `o`. -/
def Event.writtenTo (h o : Nat) : Event → Option Nat
  | .regWrite h' o' v => if h' = h ∧ o' = o then some v else none
  | _ => none

/-- The words written to the register at memory space `h`, offset `o` in a
trace, in order. -/
def writesTo (h o : Nat) (t : List Event) : List Nat := t.filterMap (Event.writtenTo h o)

/-- The count that poll `k` of the DMA wait reads: the `CNT` field of the
`k`-th word delivered by the count register. -/
def countAt (hw : HwDefs) (readings : Nat → Nat) (k : Nat) : Nat :=
  REGIO_READ_FIELD (readings k) hw.DMAC_DMAC_COUNT_CNT

/-- The count that `pvdecio_startDMA` takes as programmed: the `CNT` field of
the word it has written last to the count register. -/
def programmedCount (hw : HwDefs) (ui32TransferSize : Nat) : Nat :=
  REGIO_READ_FIELD (REGIO_WRITE_FIELD (startDMA_count hw ui32TransferSize)
    hw.DMAC_DMAC_COUNT_EN 1) hw.DMAC_DMAC_COUNT_CNT

/-- The count that poll `k` of the DMA wait compares its reading with: the
programmed count at the first poll, the reading of the poll before after it. -/
def prevCount (hw : HwDefs) (ui32TransferSize : Nat) (readings : Nat → Nat) (k : Nat) : Nat :=
  if k = 0 then programmedCount hw ui32TransferSize else countAt hw readings (k - 1)

/-- A script of count-register words from a list: the words of the list in
order, then `rest` for ever. -/
def script (l : List Nat) (rest : Nat) (k : Nat) : Nat := l.getD k rest

/-! ## Collaborators, firmware start and interrupts -/

/-- Result code `IMG_ERROR_OUT_OF_MEMORY` (`img_errors.h`). -/
def IMG_ERROR_OUT_OF_MEMORY : Nat := 4

/-- The constant `IMG_FALSE` (`img_types.h`), as a result code. -/
def IMG_FALSE : Nat := 0

/-- The part of `VXD_sMsgQueue` (`vxd.h`) that this file touches: the flag
`bEmpty` and the list of free message slots; `sNewMsgList` stands for what the
drain fills. -/
structure VXD_sMsgQueue where
  bEmpty : Bool
  sFreeMsgList : List Nat
  sNewMsgList : List Nat
deriving DecidableEq, Repr

/-- The call `LST_empty(&list)` (`lst.h`). -/
def LST_empty (l : List Nat) : Bool := l.isEmpty

/-- The part of `VXD_sIntStatus` (`vxd.h`) that this file touches. The queue
that `psMsgQueue` points to is held by value. -/
structure VXD_sIntStatus where
  ui32Pending : Nat
  ui32Requestor : Nat
  MMU_FAULT_ADDR : Nat
  MMU_FAULT_RNW : Nat
  MMU_PF_N_RW : Nat
  MMU_SECURE_FAULT : Nat
  psMsgQueue : VXD_sMsgQueue
deriving DecidableEq, Repr

/-- The mailbox module (`devaio.h`), an external collaborator working on the
device state and on its own context. `InitMTXComms` takes the secure-firmware
flag; `ProcessMMUReport` delivers the two MMU status words after its result
code; `ProcessMTXMsgs` drains the inbound messages into the queue. -/
structure DEVAIO (σ : Type) where
  InitMTXComms : σ → DEVAIO_sContext → Bool → Nat × DEVAIO_sContext × σ
  ProcessMMUReport : σ → DEVAIO_sContext → Nat × Nat × Nat × DEVAIO_sContext × σ
  ProcessMTXMsgs : σ → DEVAIO_sContext → VXD_sMsgQueue →
    Nat × DEVAIO_sContext × VXD_sMsgQueue × σ

/-- Source macro `PVDEC_ENTROPY_WriteRegister`, the target of
`REGIO_WRITE_REGISTER(h, PVDEC_ENTROPY, reg, v)`. -/
def PVDEC_ENTROPY_WriteRegister {σ : Type} (hw : HwDefs) (tal : TAL σ)
    (h : Option PVDECIO_sContext) (o v : Nat) (w : World σ) : Nat × World σ :=
  PVDECIO_WriteRegister hw tal h hw.REGION_PVDEC_ENTROPY_PIPE_REGSPACE o v PVDEC_DEF_REG_MASK
    PVDEC_DEF_PIPE w

/-- Source function `pvdecio_MTXGetRamInfo`: result code and the context after
the call. -/
def pvdecio_MTXGetRamInfo {σ : Type} (hw : HwDefs) (tal : TAL σ) (psContext : PVDECIO_sContext)
    (w : World σ) : Nat × PVDECIO_sContext × World σ :=
  let r := PVDEC_CORE_ReadRegister hw tal (some psContext) hw.PVDEC_CORE_CR_PROC_DEBUG_OFFSET w
  let ui32RamInfo := r.1
  let ui32BankCount := REGIO_READ_FIELD ui32RamInfo hw.PVDEC_CORE_CR_PROC_DEBUG_CR_MTX_RAM_BANKS
  if ui32BankCount == 0 then
    (IMG_ERROR_FATAL, psContext, REPORT .REPORT_ERR r.2)
  else
    let ui32RAMBankSize :=
      REGIO_READ_FIELD ui32RamInfo hw.PVDEC_CORE_CR_PROC_DEBUG_CR_MTX_RAM_BANK_SIZE
    let ui32LastRAMBankSize :=
      REGIO_READ_FIELD ui32RamInfo hw.PVDEC_CORE_CR_PROC_DEBUG_CR_MTX_LAST_RAM_BANK_SIZE
    let ui32MTXRamSize :=
      ((ui32BankCount - 1) * (1 <<< (ui32RAMBankSize + 2)) + (1 <<< (ui32LastRAMBankSize + 2)))
        % 2 ^ 32
    let ui32MTXRamMask := (ui32MTXRamSize + (2 ^ 32 - 1)) % 2 ^ 32
    let ui32MTXRamMask := ui32MTXRamMask ||| (ui32MTXRamMask >>> 1)
    let ui32MTXRamMask := ui32MTXRamMask ||| (ui32MTXRamMask >>> 2)
    let ui32MTXRamMask := ui32MTXRamMask ||| (ui32MTXRamMask >>> 4)
    let ui32MTXRamMask := ui32MTXRamMask ||| (ui32MTXRamMask >>> 8)
    let ui32MTXRamMask := ui32MTXRamMask ||| (ui32MTXRamMask >>> 16)
    let psContext := { psContext with
      sMTXRamInfo := ⟨ui32RAMBankSize, ui32MTXRamSize, ui32MTXRamMask⟩ }
    (IMG_SUCCESS, psContext, REPORT .REPORT_INFO r.2)

/-- The loop of `PVDECIO_Initialise` and `PVDECIO_PrepareFirmware` that clears
the comms header in local RAM, with `n` words left and `ui32i` the next. -/
def clearCommsHeader {σ : Type} (hw : HwDefs) (tal : TAL σ) (psContext : PVDECIO_sContext) :
    Nat → Nat → World σ → World σ
  | 0, _, w => w
  | n + 1, ui32i, w =>
    let w := (PVDECIO_WriteRegister hw tal (some psContext) hw.REGION_PVDEC_VLR_REGSPACE
      ((ui32i * 4) % 2 ^ 32) 0 0xFFFFFFFF PVDEC_DEF_PIPE w).2
    clearCommsHeader hw tal psContext n (ui32i + 1) w

/-- Source function `PVDECIO_Initialise` (built without `SECURE_TAL`). The
out-pointer `phCoreContext` is `none` when null and else holds the handle
stored in it; `mallocContext` and `mallocTable` tell whether the two
allocations succeed. The result is the result code, the out-pointer after the
call and the world. -/
def PVDECIO_Initialise {σ : Type} (cfg : BuildConfig) (hw : HwDefs) (tal : TAL σ)
    (bIOBypass : Bool) (phCoreContext : Option (Option PVDECIO_sContext))
    (mallocContext mallocTable : Bool) (w : World σ) :
    Nat × Option (Option PVDECIO_sContext) × World σ :=
  match phCoreContext with
  | none => (IMG_ERROR_INVALID_PARAMETERS, none, REPORT .REPORT_ERR w)
  | some old =>
    let w := w.log (.call .TARGET_Initialise)
    if !mallocContext then
      let w := IMG_ASSERT false 1402 w
      (IMG_ERROR_OUT_OF_MEMORY, some old, REPORT .REPORT_ERR w)
    else if !mallocTable then
      let w := IMG_ASSERT false 1410 w
      (IMG_ERROR_OUT_OF_MEMORY, some old, REPORT .REPORT_ERR w)
    else
      let psContext : PVDECIO_sContext :=
        { bInitialised := false, bClocks := false, sMTXRamInfo := ⟨0, 0, 0⟩,
          sFwInfo := ⟨0, 0, 0, []⟩, sMsgContext := ⟨false⟩, sStateInfo := ⟨0, 0⟩,
          ui32NumPixelPipes := 0, ui32MemSpaceCount := 0, bSecureFw := false,
          bIOBypass := false }
      let psContext := { psContext with ui32MemSpaceCount := hw.REGION_PVDEC_MAX }
      let psContext :=
        if cfg.VDEC_USE_PVDEC_SEC then { psContext with bIOBypass := bIOBypass } else psContext
      let psContext := { psContext with bInitialised := true }
      let e := PVDECIO_EnableCoreClocks cfg hw tal (some psContext) w
      let psContext := e.1.getD psContext
      let w := clearCommsHeader hw tal psContext hw.COMMS_HEADER_SIZE 0 e.2
      if CHECK_IO_BYPASS cfg psContext false then
        let r := pvdecio_MTXGetRamInfo hw tal psContext w
        if r.1 != IMG_SUCCESS then
          (r.1, some none, REPORT .REPORT_ERR r.2.2)
        else (IMG_SUCCESS, some (some r.2.1), r.2.2)
      else (IMG_SUCCESS, some (some psContext), w)

/-- Source function `pvdecio_EnableMTXInterrupts`. -/
def pvdecio_EnableMTXInterrupts {σ : Type} (cfg : BuildConfig) (hw : HwDefs) (tal : TAL σ)
    (psContext : Option PVDECIO_sContext) (w : World σ) : World σ :=
  match psContext with
  | none => w
  | some ctx =>
    if ctx.bClocks then
      let w := if !cfg.USE_MTX_DMA_LOAD then REPORT .REPORT_WARNING w else w
      let r := PVDEC_CORE_ReadRegister hw tal (some ctx)
        hw.PVDEC_CORE_CR_PVDEC_HOST_INTERRUPT_ENABLE_OFFSET w
      let ui32HostIntMask := r.1
      let ui32HostIntMask := REGIO_WRITE_FIELD ui32HostIntMask
        hw.PVDEC_CORE_CR_PVDEC_HOST_INTERRUPT_STATUS_CR_HOST_PROC_IRQ 1
      let ui32HostIntMask := REGIO_WRITE_FIELD ui32HostIntMask
        hw.PVDEC_CORE_CR_PVDEC_HOST_INTERRUPT_STATUS_CR_HOST_MMU_FAULT_IRQ 1
      (PVDEC_CORE_WriteRegister hw tal (some ctx)
        hw.PVDEC_CORE_CR_PVDEC_HOST_INTERRUPT_ENABLE_OFFSET ui32HostIntMask r.2).2
    else w

/-- Source function `pvdecio_SetWDTConfiguration`. -/
def pvdecio_SetWDTConfiguration {σ : Type} (hw : HwDefs) (tal : TAL σ)
    (psContext : Option PVDECIO_sContext) (w : World σ) : World σ :=
  match psContext with
  | none => w
  | some ctx =>
    if ctx.bClocks then
      let ui32WDT := 0
      let ui32WDT := REGIO_WRITE_FIELD ui32WDT
        hw.PVDEC_PIXEL_CR_MSVDX_FE_WDT_CONTROL_FE_WDT_CNT_CTRL 3
      let ui32WDT := REGIO_WRITE_FIELD ui32WDT
        hw.PVDEC_PIXEL_CR_MSVDX_FE_WDT_CONTROL_FE_WDT_ACTION0 1
      let ui32WDT := REGIO_WRITE_FIELD ui32WDT
        hw.PVDEC_PIXEL_CR_MSVDX_FE_WDT_CONTROL_FE_WDT_CLEAR_SELECT 1
      let ui32WDT := REGIO_WRITE_FIELD ui32WDT
        hw.PVDEC_PIXEL_CR_MSVDX_FE_WDT_CONTROL_FE_WDT_CLKDIV_SELECT 7
      let w := (PVDEC_PIXEL_WritePipeRegister hw tal (some ctx) 1
        hw.PVDEC_PIXEL_CR_MSVDX_FE_WDT_CONTROL_OFFSET ui32WDT w).2
      let ui32WDT := 0
      let ui32WDT := REGIO_WRITE_FIELD ui32WDT
        hw.PVDEC_ENTROPY_CR_ENTROPY_WDT_CONTROL_ENTROPY_WDT_CNT_CTRL 3
      let ui32WDT := REGIO_WRITE_FIELD ui32WDT
        hw.PVDEC_ENTROPY_CR_ENTROPY_WDT_CONTROL_ENTROPY_WDT_ACTION1 1
      let ui32WDT := REGIO_WRITE_FIELD ui32WDT
        hw.PVDEC_ENTROPY_CR_ENTROPY_WDT_CONTROL_ENTROPY_WDT_ACTION0 1
      let ui32WDT := REGIO_WRITE_FIELD ui32WDT
        hw.PVDEC_ENTROPY_CR_ENTROPY_WDT_CONTROL_ENTROPY_WDT_CLEAR_SELECT 1
      let ui32WDT := REGIO_WRITE_FIELD ui32WDT
        hw.PVDEC_ENTROPY_CR_ENTROPY_WDT_CONTROL_ENTROPY_WDT_CLKDIV_SELECT 7
      let w := (PVDEC_ENTROPY_WriteRegister hw tal (some ctx)
        hw.PVDEC_ENTROPY_CR_ENTROPY_WDT_CONTROL_OFFSET ui32WDT w).2
      let ui32WDT := 0
      let ui32WDT := REGIO_WRITE_FIELD ui32WDT hw.PVDEC_PIXEL_CR_BE_WDT_CONTROL_BE_WDT_ACTION0 1
      let ui32WDT := REGIO_WRITE_FIELD ui32WDT
        hw.PVDEC_PIXEL_CR_BE_WDT_CONTROL_BE_WDT_CLKDIV_SELECT 7
      (PVDEC_PIXEL_WritePipeRegister hw tal (some ctx) 1
        hw.PVDEC_PIXEL_CR_BE_WDT_CONTROL_OFFSET ui32WDT w).2
    else w

/-- Source function `PVDECIO_LoadBaseFirmware`. The result is the result code,
the context after the call and the world; `none` is a DMA wait (see
`pvdecio_startDMA.wait`) that has not ended within `fuel` rounds. -/
def PVDECIO_LoadBaseFirmware {σ : Type} (cfg : BuildConfig) (hw : HwDefs) (tal : TAL σ)
    (dev : DEVAIO σ) (hCoreContext : Option PVDECIO_sContext) (fuel : Nat) (w : World σ) :
    Option (Nat × Option PVDECIO_sContext × World σ) :=
  let ui8Pipe := 1
  match hCoreContext with
  | none =>
    let w := IMG_ASSERT false 1953 w
    some (IMG_ERROR_INVALID_PARAMETERS, none, REPORT .REPORT_ERR w)
  | some psContext =>
    let w := w.log (.call .DEVAIO_InitMTXComms)
    let c := dev.InitMTXComms w.dev psContext.sMsgContext
      (if cfg.VDEC_USE_PVDEC_SEC then psContext.bSecureFw else false)
    let psContext := { psContext with sMsgContext := c.2.1 }
    let w : World σ := ⟨c.2.2, w.trace⟩
    if c.1 != IMG_SUCCESS then
      some (IMG_FALSE, some psContext, REPORT .REPORT_ERR w)
    else
      let finish (ui32Result : Nat) (psContext : PVDECIO_sContext) (w : World σ) :
          Nat × Option PVDECIO_sContext × World σ :=
        let w := IMG_ASSERT (ui32Result == IMG_SUCCESS) 1995 w
        let w := pvdecio_SetWDTConfiguration hw tal (some psContext) w
        let w := pvdecio_EnableMTXInterrupts cfg hw tal (some psContext) w
        (ui32Result, some psContext, w)
      if !cfg.PVDEC_REG_FW_UPLOAD then
        match pvdecio_startDMA cfg hw tal psContext ui8Pipe psContext.sFwInfo.ui32CoreSize
            psContext.sFwInfo.ui32BlobDevVirtAddr fuel w with
        | none => none
        | some r =>
          if r.1 != IMG_SUCCESS then
            some (r.1, some r.2.1, REPORT .REPORT_ERR r.2.2)
          else some (finish r.1 r.2.1 r.2.2)
      else
        let l := pvdecio_LoadFW cfg hw tal psContext ui8Pipe w
        some (finish c.1 l.1 l.2)

/-- The block of `PVDECIO_HandleInterrupts` that runs when the MMU fault cause
is pending: the cause is taken out of the enable word, the enable register is
written, the MMU report is fetched and decoded into the status. -/
def PVDECIO_HandleInterrupts.mmu {σ : Type} (hw : HwDefs) (tal : TAL σ) (dev : DEVAIO σ)
    (psContext : PVDECIO_sContext) (st : VXD_sIntStatus) (ui32Enable : Nat) (w : World σ) :
    Nat × PVDECIO_sContext × VXD_sIntStatus × World σ :=
  let ui32Enable := REGIO_WRITE_FIELD ui32Enable
    hw.PVDEC_CORE_CR_PVDEC_HOST_INTERRUPT_STATUS_CR_HOST_MMU_FAULT_IRQ 0
  let w := (PVDEC_CORE_WriteRegister hw tal (some psContext)
    hw.PVDEC_CORE_CR_PVDEC_HOST_INTERRUPT_ENABLE_OFFSET ui32Enable w).2
  let w := w.log (.call .DEVAIO_ProcessMMUReport)
  let c := dev.ProcessMMUReport w.dev psContext.sMsgContext
  let ui32Result := c.1
  let ui32Status0 := c.2.1
  let ui32Status1 := c.2.2.1
  let psContext := { psContext with sMsgContext := c.2.2.2.1 }
  let w : World σ := ⟨c.2.2.2.2, w.trace⟩
  let w := IMG_ASSERT (ui32Result == IMG_SUCCESS) 2052 w
  let st := { st with
    MMU_FAULT_ADDR := (REGIO_READ_FIELD ui32Status0
      hw.IMG_VIDEO_BUS4_MMU_MMU_STATUS0_MMU_FAULT_ADDR <<< 12) % 2 ^ 32
    MMU_PF_N_RW := REGIO_READ_FIELD ui32Status0 hw.IMG_VIDEO_BUS4_MMU_MMU_STATUS0_MMU_PF_N_RW
    MMU_SECURE_FAULT := REGIO_READ_FIELD ui32Status0
      hw.IMG_VIDEO_BUS4_MMU_MMU_STATUS0_MMU_SECURE_FAULT
    ui32Requestor := REGIO_READ_FIELD ui32Status1
      hw.IMG_VIDEO_BUS4_MMU_MMU_STATUS1_MMU_FAULT_REQ_ID
    MMU_FAULT_RNW := REGIO_READ_FIELD ui32Status1
      hw.IMG_VIDEO_BUS4_MMU_MMU_STATUS1_MMU_FAULT_RNW }
  (ui32Result, psContext, st, w)

/-- The last part of `PVDECIO_HandleInterrupts`, the processing of the MTX
messages: when the processor cause is pending or the queue is not empty, and
the list of free messages is not empty, the cause is cleared and the inbound
messages are drained. -/
def PVDECIO_HandleInterrupts.messages {σ : Type} (hw : HwDefs) (tal : TAL σ) (dev : DEVAIO σ)
    (ui32Result : Nat) (psContext : PVDECIO_sContext) (st : VXD_sIntStatus) (w : World σ) :
    Nat × Option PVDECIO_sContext × Option VXD_sIntStatus × World σ :=
  if st.ui32Pending &&&
        hw.PVDEC_CORE_CR_PVDEC_HOST_INTERRUPT_STATUS_CR_HOST_PROC_IRQ.MASK != 0
      || !st.psMsgQueue.bEmpty then
    if !LST_empty st.psMsgQueue.sFreeMsgList then
      let w := (PVDEC_CORE_WriteRegister hw tal (some psContext)
        hw.PVDEC_CORE_CR_PVDEC_INTERRUPT_CLEAR_OFFSET
        hw.PVDEC_CORE_CR_PVDEC_HOST_INTERRUPT_STATUS_CR_HOST_PROC_IRQ.MASK w).2
      let w := w.log (.call .DEVAIO_ProcessMTXMsgs)
      let c := dev.ProcessMTXMsgs w.dev psContext.sMsgContext st.psMsgQueue
      let ui32Result := c.1
      let psContext := { psContext with sMsgContext := c.2.1 }
      let st := { st with psMsgQueue := c.2.2.1 }
      let w : World σ := ⟨c.2.2.2, w.trace⟩
      let w := IMG_ASSERT (ui32Result == IMG_SUCCESS) 2087 w
      (ui32Result, some psContext, some st, w)
    else (ui32Result, some psContext, some st, w)
  else (ui32Result, some psContext, some st, w)

/-- The two register reads that open `PVDECIO_HandleInterrupts`: the word read
from the interrupt status register, the word read from the interrupt enable
register, and the world after the two reads. -/
def PVDECIO_HandleInterrupts.reads {σ : Type} (hw : HwDefs) (tal : TAL σ)
    (psContext : PVDECIO_sContext) (w : World σ) : Nat × Nat × World σ :=
  let r := PVDEC_CORE_ReadRegister hw tal (some psContext)
    hw.PVDEC_CORE_CR_PVDEC_HOST_INTERRUPT_STATUS_OFFSET w
  let e := PVDEC_CORE_ReadRegister hw tal (some psContext)
    hw.PVDEC_CORE_CR_PVDEC_HOST_INTERRUPT_ENABLE_OFFSET r.2
  (r.1, e.1, e.2)

/-- Source function `PVDECIO_HandleInterrupts`. The result is the result code,
the context and the interrupt status after the call, and the world. -/
def PVDECIO_HandleInterrupts {σ : Type} (hw : HwDefs) (tal : TAL σ) (dev : DEVAIO σ)
    (hCoreContext : Option PVDECIO_sContext) (psIntStatus : Option VXD_sIntStatus)
    (w : World σ) : Nat × Option PVDECIO_sContext × Option VXD_sIntStatus × World σ :=
  let ui32Result := IMG_SUCCESS
  match hCoreContext with
  | none =>
    let w := IMG_ASSERT false 2022 w
    (IMG_ERROR_INVALID_PARAMETERS, none, psIntStatus, REPORT .REPORT_ERR w)
  | some psContext =>
    match psIntStatus with
    | none =>
      let w := IMG_ASSERT false 2030 w
      (IMG_ERROR_INVALID_PARAMETERS, some psContext, none, REPORT .REPORT_ERR w)
    | some st =>
      let rd := PVDECIO_HandleInterrupts.reads hw tal psContext w
      let st := { st with ui32Pending := rd.1 }
      let ui32Enable := rd.2.1
      let st := { st with ui32Pending := st.ui32Pending &&& ui32Enable }
      let w := rd.2.2
      let m : Nat × PVDECIO_sContext × VXD_sIntStatus × World σ :=
        if st.ui32Pending &&&
            hw.PVDEC_CORE_CR_PVDEC_HOST_INTERRUPT_STATUS_CR_HOST_MMU_FAULT_IRQ.MASK != 0 then
          PVDECIO_HandleInterrupts.mmu hw tal dev psContext st ui32Enable w
        else (ui32Result, psContext, st, w)
      PVDECIO_HandleInterrupts.messages hw tal dev m.1 m.2.1 m.2.2.1 m.2.2.2

/-- The value of `ui32Pending` after the masking in `PVDECIO_HandleInterrupts`:
the status word read and the enable word read, and-ed. -/
def maskedPending {σ : Type} (hw : HwDefs) (tal : TAL σ) (psContext : PVDECIO_sContext)
    (w : World σ) : Nat :=
  (PVDECIO_HandleInterrupts.reads hw tal psContext w).1 &&&
    (PVDECIO_HandleInterrupts.reads hw tal psContext w).2.1

/-- The number of calls of the collaborator `c` in a trace. -/
def callsOf (c : Collaborator) (t : List Event) : Nat := t.count (.call c)

/-- A mailbox module that always succeeds and touches nothing: the MMU report
delivers the two status words given, the drain leaves the queue as it is. -/
def quietMailbox (σ : Type) (ui32Status0 ui32Status1 : Nat) : DEVAIO σ where
  InitMTXComms s c _ := (IMG_SUCCESS, c, s)
  ProcessMMUReport s c := (IMG_SUCCESS, ui32Status0, ui32Status1, c, s)
  ProcessMTXMsgs s c q := (IMG_SUCCESS, c, q, s)

/-- What an `IMG_ASSERT` at source line `line` records. -/
def assertEvents (cond : Bool) (line : Nat) : List Event :=
  if cond then [] else [.assertFail line]

/-- What `pvdecio_SelectPipe` records for the pipe `ui8Pipe`. -/
def selectEvents (hw : HwDefs) (ui8Pipe : Nat) : List Event :=
  if ui8Pipe = PVDEC_DEF_PIPE then []
  else assertEvents (decide (ui8Pipe < 8)) 273 ++
    [.regWrite hw.REGION_PVDEC_CORE_REGSPACE hw.PVDEC_CORE_CR_PVDEC_HOST_PIPE_SELECT_OFFSET
      (REGIO_WRITE_FIELD 0 hw.PVDEC_CORE_CR_PVDEC_HOST_PIPE_SELECT_CR_PVDEC_HOST_PIPE_SELECT
        ui8Pipe)]

/-- A register map in which the regions named are different regions and the
registers of one region have different offsets (the DMA registers taken at
channel 0). -/
def HwDefs.Apart (hw : HwDefs) : Prop :=
  ([hw.REGION_PVDEC_CORE_REGSPACE, hw.REGION_PVDEC_MTX_CORE_REGSPACE,
    hw.REGION_PVDEC_PIXEL_DMA_REGSPACE, hw.REGION_PVDEC_PIXEL_PIPE_REGSPACE,
    hw.REGION_PVDEC_ENTROPY_PIPE_REGSPACE] : List (Fin hw.REGION_PVDEC_MAX)).Nodup ∧
  [hw.PVDEC_CORE_CR_PVDEC_HOST_PIPE_SELECT_OFFSET, hw.PVDEC_CORE_CR_PVDEC_MAN_CLK_ENABLE_OFFSET,
    hw.PVDEC_CORE_CR_PROC_DMAC_CONTROL_OFFSET,
    hw.PVDEC_CORE_CR_PVDEC_HOST_INTERRUPT_STATUS_OFFSET,
    hw.PVDEC_CORE_CR_PVDEC_HOST_INTERRUPT_ENABLE_OFFSET,
    hw.PVDEC_CORE_CR_PVDEC_INTERRUPT_CLEAR_OFFSET, hw.PVDEC_CORE_CR_PROC_DEBUG_OFFSET].Nodup ∧
  [hw.MTX_CORE_CR_MTX_ENABLE_OFFSET, hw.MTX_CORE_CR_MTX_REGISTER_READ_WRITE_DATA_OFFSET,
    hw.MTX_CORE_CR_MTX_REGISTER_READ_WRITE_REQUEST_OFFSET,
    hw.MTX_CORE_CR_MTX_RAM_ACCESS_DATA_TRANSFER_OFFSET,
    hw.MTX_CORE_CR_MTX_RAM_ACCESS_CONTROL_OFFSET, hw.MTX_CORE_CR_MTX_SYSC_TIMERDIV_OFFSET,
    hw.MTX_CORE_CR_MTX_SYSC_CDMAA_OFFSET, hw.MTX_CORE_CR_MTX_SYSC_CDMAC_OFFSET].Nodup ∧
  [hw.DMAC_DMAC_SETUP_OFFSET % 2 ^ 32, hw.DMAC_DMAC_COUNT_OFFSET % 2 ^ 32,
    hw.DMAC_DMAC_PERIPH_OFFSET % 2 ^ 32, hw.DMAC_DMAC_IRQ_STAT_OFFSET % 2 ^ 32,
    hw.DMAC_DMAC_PERIPHERAL_ADDR_OFFSET % 2 ^ 32, hw.DMAC_DMAC_PER_HOLD_OFFSET % 2 ^ 32].Nodup

/-- Whether a register map is apart can be computed. -/
instance (hw : HwDefs) : Decidable hw.Apart := by
  unfold HwDefs.Apart
  infer_instance

/-- What `pvdecio_startDMA` records after it has set the clocks, up to the
second write of the count register: the writes that program the MTX and DMA
channel 0 for the pipe `ui8Pipe`, each with its pipe selection and channel
assertion. -/
def startDMA_events (hw : HwDefs) (ui8Pipe ui32TransferSize ui32BufDevVirtAddr : Nat) :
    List Event :=
  let MTX : Nat := hw.REGION_PVDEC_MTX_CORE_REGSPACE
  let PIXEL : Nat := hw.REGION_PVDEC_PIXEL_PIPE_REGSPACE
  let DMA : Nat := hw.REGION_PVDEC_PIXEL_DMA_REGSPACE
  [.regWrite MTX hw.MTX_CORE_CR_MTX_SYSC_TIMERDIV_OFFSET
    (REGIO_WRITE_FIELD (REGIO_WRITE_FIELD 0 hw.MTX_CORE_CR_MTX_SYSC_TIMERDIV_TIMER_EN 1)
      hw.MTX_CORE_CR_MTX_SYSC_TIMERDIV_TIMER_DIV (PVDECIO_MTX_CLK_MHZ - 1))] ++
  selectEvents hw ui8Pipe ++
  [.regWrite PIXEL hw.PVDEC_PIXEL_CR_PIXEL_MAN_CLK_ENABLE_OFFSET
    (REGIO_WRITE_FIELD (REGIO_WRITE_FIELD 0
      hw.PVDEC_PIXEL_CR_PIXEL_MAN_CLK_ENABLE_CR_PIXEL_DMAC_MAN_CLK_ENABLE 1)
      hw.PVDEC_PIXEL_CR_PIXEL_MAN_CLK_ENABLE_CR_PIXEL_REG_MAN_CLK_ENABLE 1),
   .regWrite MTX hw.MTX_CORE_CR_MTX_SYSC_CDMAA_OFFSET 0,
   .regWrite MTX hw.MTX_CORE_CR_MTX_SYSC_CDMAC_OFFSET (startDMA_cdmac hw ui32TransferSize),
   .regWrite hw.REGION_PVDEC_CORE_REGSPACE hw.PVDEC_CORE_CR_PROC_DMAC_CONTROL_OFFSET
    (REGIO_WRITE_FIELD 0 hw.PVDEC_CORE_CR_PROC_DMAC_CONTROL_CR_BOOT_ON_DMA_CH0 1)] ++
  selectEvents hw ui8Pipe ++
  [.regWrite PIXEL hw.PVDEC_PIXEL_CR_PIXEL_CONTROL_0_OFFSET
    (REGIO_WRITE_FIELD 0 hw.PVDEC_PIXEL_CR_PIXEL_CONTROL_0_CR_DMAC_CH_SEL_FOR_MTX 0)] ++
  assertEvents (decide (0 < hw.DMAC_DMAC_PER_HOLD_NO_ENTRIES)) 1800 ++
  selectEvents hw ui8Pipe ++
  [.regWrite DMA ((hw.DMAC_DMAC_PER_HOLD_OFFSET + 0 * hw.DMAC_DMAC_PER_HOLD_STRIDE) % 2 ^ 32)
    (REGIO_WRITE_FIELD 0 hw.DMAC_DMAC_PER_HOLD_PER_HOLD 7)] ++
  assertEvents (decide (0 < hw.DMAC_DMAC_IRQ_STAT_NO_ENTRIES)) 1803 ++
  selectEvents hw ui8Pipe ++
  [.regWrite DMA ((hw.DMAC_DMAC_IRQ_STAT_OFFSET + 0 * hw.DMAC_DMAC_IRQ_STAT_STRIDE) % 2 ^ 32) 0] ++
  assertEvents (decide (0 < hw.DMAC_DMAC_SETUP_NO_ENTRIES)) 1806 ++
  selectEvents hw ui8Pipe ++
  [.regWrite DMA ((hw.DMAC_DMAC_SETUP_OFFSET + 0 * hw.DMAC_DMAC_SETUP_STRIDE) % 2 ^ 32)
    ui32BufDevVirtAddr] ++
  assertEvents (decide (0 < hw.DMAC_DMAC_PERIPHERAL_ADDR_NO_ENTRIES)) 1810 ++
  selectEvents hw ui8Pipe ++
  [.regWrite DMA
    ((hw.DMAC_DMAC_PERIPHERAL_ADDR_OFFSET + 0 * hw.DMAC_DMAC_PERIPHERAL_ADDR_STRIDE) % 2 ^ 32)
    (REGIO_WRITE_FIELD_LITE 0 hw.DMAC_DMAC_PERIPHERAL_ADDR_ADDR
      hw.MTX_CORE_CR_MTX_SYSC_CDMAT_OFFSET)] ++
  assertEvents (decide (0 < hw.DMAC_DMAC_PERIPH_NO_ENTRIES)) 1819 ++
  selectEvents hw ui8Pipe ++
  [.regWrite DMA ((hw.DMAC_DMAC_PERIPH_OFFSET + 0 * hw.DMAC_DMAC_PERIPH_STRIDE) % 2 ^ 32)
    (REGIO_WRITE_FIELD (REGIO_WRITE_FIELD (REGIO_WRITE_FIELD (REGIO_WRITE_FIELD
      (REGIO_WRITE_FIELD 0 hw.DMAC_DMAC_PERIPH_ACC_DEL 0)
      hw.DMAC_DMAC_PERIPH_INCR hw.DMAC_INCR_OFF)
      hw.DMAC_DMAC_PERIPH_BURST hw.DMAC_BURST_1)
      hw.DMAC_DMAC_PERIPH_EXT_BURST hw.DMAC_EXT_BURST_0)
      hw.DMAC_DMAC_PERIPH_EXT_SA 0)] ++
  assertEvents (decide (0 < hw.DMAC_DMAC_COUNT_NO_ENTRIES)) 1831 ++
  selectEvents hw ui8Pipe ++
  [.regWrite DMA ((hw.DMAC_DMAC_COUNT_OFFSET + 0 * hw.DMAC_DMAC_COUNT_STRIDE) % 2 ^ 32)
    (startDMA_count hw ui32TransferSize)] ++
  assertEvents (decide (0 < hw.DMAC_DMAC_COUNT_NO_ENTRIES)) 1834 ++
  selectEvents hw ui8Pipe ++
  [.regWrite DMA ((hw.DMAC_DMAC_COUNT_OFFSET + 0 * hw.DMAC_DMAC_COUNT_STRIDE) % 2 ^ 32)
    (REGIO_WRITE_FIELD (startDMA_count hw ui32TransferSize) hw.DMAC_DMAC_COUNT_EN 1)]

/-- The context `ctxOn` after a firmware of sixteen words has been prepared at
the device virtual address 0x1000. -/
def ctxFw : PVDECIO_sContext := { ctxOn with sFwInfo := ⟨16, 16, 0x1000, []⟩ }

/-- A world over plain storage in which the debug register of the core region
reports one MTX RAM bank, so that `PVDECIO_Initialise` succeeds. -/
def worldBanks : World RegFile :=
  ⟨RegFile.zero.set sampleHw.REGION_PVDEC_CORE_REGSPACE sampleHw.PVDEC_CORE_CR_PROC_DEBUG_OFFSET
    0x100, []⟩

/-- The firmware start of the specification on the sample map and plain
storage, in the DMA strategy: `PVDECIO_Initialise` with the bypass off, then
`PVDECIO_EnableCoreClocks`, then `PVDECIO_LoadBaseFirmware` for a firmware of
sixteen words prepared at the device virtual address 0x1000. The result is the
result code of the last call and the trace of the three calls. -/
def firmwareStartScenario : Option (Nat × List Event) :=
  let i := PVDECIO_Initialise defaultBuild sampleHw (plainStorage sampleHw) false (some none)
    true true worldBanks
  match i.2.1 with
  | some (some c0) =>
    let e := PVDECIO_EnableCoreClocks defaultBuild sampleHw (plainStorage sampleHw) (some c0) i.2.2
    match e.1 with
    | some c1 =>
      (PVDECIO_LoadBaseFirmware defaultBuild sampleHw (plainStorage sampleHw)
        (quietMailbox RegFile 0 0) (some { c1 with sFwInfo := ⟨16, 16, 0x1000, []⟩ }) 0 e.2).map
        (fun r => (r.1, r.2.2.trace))
    | none => none
  | _ => none

/-- A world over plain storage in which the interrupt status register holds
`status` and the interrupt enable register holds `enable`. -/
def worldIrq (status enable : Nat) : World RegFile :=
  ⟨(RegFile.zero.set sampleHw.REGION_PVDEC_CORE_REGSPACE
      sampleHw.PVDEC_CORE_CR_PVDEC_HOST_INTERRUPT_STATUS_OFFSET status).set
    sampleHw.REGION_PVDEC_CORE_REGSPACE sampleHw.PVDEC_CORE_CR_PVDEC_HOST_INTERRUPT_ENABLE_OFFSET
    enable, []⟩

/-- An interrupt status whose queue holds the free slots `free` and has the
flag `bEmpty` as given; everything else is zero. -/
def statusWith (bEmpty : Bool) (free : List Nat) : VXD_sIntStatus :=
  ⟨0, 0, 0, 0, 0, 0, ⟨bEmpty, free, []⟩⟩

/-! ## The core state -/

/-- The per-pipe part of `VDECFW_sPVDECFirmwareState` (`vdecfw.h`) that
`PVDECIO_GetCoreState` reads. -/
structure VDECFW_sPipeState where
  aui32CheckPoint : List Nat
  eFirmwareAction : Nat
  ui32FenceValue : Nat
  ui8CurCodec : Nat
  ui32FESlices : Nat
  ui32BESlices : Nat
  ui32FEErroredSlices : Nat
  ui32BEErroredSlices : Nat
  ui32BEMbsDropped : Nat
  ui32BEMbsRecovered : Nat
  eFwBspStep : Nat
deriving DecidableEq, Repr, Inhabited

/-- The part of `VDECFW_sPVDECFirmwareState` (`vdecfw.h`) that
`PVDECIO_GetCoreState` reads. -/
structure VDECFW_sPVDECFirmwareState where
  aui8ControlFenceID : List Nat
  aui8DecodeFenceID : List Nat
  aui8CompletionFenceID : List Nat
  asPipeState : List VDECFW_sPipeState
deriving DecidableEq, Repr, Inhabited

/-- A macroblock position (`vxd.h`). -/
structure VXDIO_sMb where
  ui32X : Nat
  ui32Y : Nat
deriving DecidableEq, Repr, Inhabited

/-- The per-pipe part of the state that `PVDECIO_GetCoreState` fills
(`vxd.h`). -/
structure VXDIO_sPipeState where
  bPipePresent : Bool
  aui32CheckPoint : List Nat
  eFirmwareAction : Nat
  ui32FenceValue : Nat
  ui8CurCodec : Nat
  ui32FeSlices : Nat
  ui32BeSlices : Nat
  ui32FeErroredSlices : Nat
  ui32BeErroredSlices : Nat
  ui32BeMbsDropped : Nat
  ui32BeMbsRecovered : Nat
  eFwBspStep : Nat
  aui32DMACStatus : List Nat
  sFeMb : VXDIO_sMb
  sBeMb : VXDIO_sMb
deriving DecidableEq, Repr, Inhabited

/-- The firmware part of the state that `PVDECIO_GetCoreState` fills. -/
structure VXDIO_sFwState where
  aui8ControlFenceID : List Nat
  aui8DecodeFenceID : List Nat
  aui8CompletionFenceID : List Nat
  asPipeState : List VXDIO_sPipeState
deriving DecidableEq, Repr, Inhabited

/-- The runtime status of the embedded processor in the state. -/
structure VXDIO_sEPRuntimeStatus where
  ui32MTX_PC : Nat
  ui32MTX_PCX : Nat
  ui32MTX_ENABLE : Nat
  ui32MTX_STATUS_BITS : Nat
  ui32MTX_FAULT0 : Nat
  ui32MTX_A0StP : Nat
  ui32MTX_A0FrP : Nat
deriving DecidableEq, Repr, Inhabited

/-- The part of `VXDIO_sState` (`vxd.h`) that `PVDECIO_GetCoreState` fills. -/
structure VXDIO_sState where
  sFwState : VXDIO_sFwState
  sEPRuntimeStatus : VXDIO_sEPRuntimeStatus
deriving DecidableEq, Repr, Inhabited

/-- The constants and macros of the firmware interface (`vdecfw.h`) and of the
comms RAM layout that `PVDECIO_GetCoreState` uses: the codec values, the two
macros that take size and offset of the state buffer out of its header word,
the number of words of `VDECFW_sPVDECFirmwareState` (its `sizeof` in words),
and `overlay`, the view of that many words as the structure; the length of
`asPipeState` in the view is the number of entries that the header gives the
array. -/
structure FwDefs where
  VDEC_CODEC_NONE : Nat
  VDECFW_CODEC_HEVC : Nat
  VDECFW_CODEC_MAX : Nat
  PVDEC_COM_RAM_STATE_BUF_SIZE_AND_OFFSET_OFFSET : Nat
  PVDEC_COM_RAM_BUF_GET_SIZE_STATE : Nat → Nat
  PVDEC_COM_RAM_BUF_GET_OFFSET_STATE : Nat → Nat
  sizeofFirmwareStateWords : Nat
  overlay : List Nat → VDECFW_sPVDECFirmwareState

/-- Source macros `PVDEC_ENTROPY_ReadPipeRegister`,
`PVDEC_VEC_BE_ReadPipeRegister`, `MSVDX_VEC_ReadPipeRegister` and
`MSVDX_VDMC_ReadPipeRegister`, the targets of `REGIO_READ_PIPE_REGISTER`, for
the region `r`; the pipe is an 8-bit argument. -/
def ReadPipeRegister {σ : Type} (hw : HwDefs) (tal : TAL σ) (h : Option PVDECIO_sContext)
    (r : Fin hw.REGION_PVDEC_MAX) (p o : Nat) (w : World σ) : Nat × World σ :=
  PVDECIO_ReadRegister hw tal h r o (p % 256) w

/-- An access outside an object in `PVDECIO_GetCoreState`: `firmwareState n`,
`n` words stored through the pointer to the local `sFirmwareState`, which has
fewer words; `pipeState i`, an index `i` outside one of the two arrays
`asPipeState`. -/
inductive Overrun where
  | firmwareState (words : Nat)
  | pipeState (index : Nat)
deriving DecidableEq, Repr

/-- How a run of `PVDECIO_GetCoreState` ends in the model: the call returns;
or it accesses memory outside an object, from where on the C code has no
defined behaviour and the model has no result and no trace; or a loop has not
ended within the fuel. -/
inductive Run (α : Type) where
  | returned (a : α)
  | overrun (o : Overrun)
  | unfinished
deriving DecidableEq, Repr

/-- A view of what a run returns. -/
def Run.map {α β : Type} (f : α → β) : Run α → Run β
  | .returned a => .returned (f a)
  | .overrun o => .overrun o
  | .unfinished => .unfinished

/-- One round of the per-pipe loop of `PVDECIO_GetCoreState` for the pipe
`ui8Pipe`: the copies from the firmware state and the register reads. The
round indexes `sFirmwareState.asPipeState` and
`psState->sFwState.asPipeState` with `ui8Pipe` and tests the index against
neither: `none` is an index outside one of the two arrays. -/
def PVDECIO_GetCoreState.pipe {σ : Type} (cfg : BuildConfig) (hw : HwDefs) (fw : FwDefs)
    (tal : TAL σ) (psContext : PVDECIO_sContext) (ui32NumEntPipes : Nat)
    (sFirmwareState : VDECFW_sPVDECFirmwareState) (ui8Pipe : Nat) (psState : VXDIO_sState)
    (w : World σ) : Option (VXDIO_sState × World σ) :=
  match sFirmwareState.asPipeState[ui8Pipe]?, psState.sFwState.asPipeState[ui8Pipe]? with
  | some src, some dst =>
    let dst := { dst with
      bPipePresent := true
      aui32CheckPoint := src.aui32CheckPoint
      eFirmwareAction := src.eFirmwareAction
      ui32FenceValue := src.ui32FenceValue
      ui8CurCodec := src.ui8CurCodec
      ui32FeSlices := src.ui32FESlices
      ui32BeSlices := src.ui32BESlices
      ui32FeErroredSlices := src.ui32FEErroredSlices
      ui32BeErroredSlices := src.ui32BEErroredSlices
      ui32BeMbsDropped := src.ui32BEMbsDropped
      ui32BeMbsRecovered := src.ui32BEMbsRecovered }
    let dst := if cfg.VDEC_USE_PVDEC_SEC then { dst with eFwBspStep := src.eFwBspStep } else dst
    let r : VXDIO_sPipeState × World σ :=
      if CHECK_IO_BYPASS cfg psContext false then
        let c2 := PIXEL_DMA_ReadRegMacro hw tal (some psContext) ui8Pipe 2
          hw.DMAC_DMAC_COUNT_OFFSET hw.DMAC_DMAC_COUNT_STRIDE hw.DMAC_DMAC_COUNT_NO_ENTRIES 773 w
        let c3 := PIXEL_DMA_ReadRegMacro hw tal (some psContext) ui8Pipe 3
          hw.DMAC_DMAC_COUNT_OFFSET hw.DMAC_DMAC_COUNT_STRIDE hw.DMAC_DMAC_COUNT_NO_ENTRIES 775
          c2.2
        let dst := { dst with aui32DMACStatus :=
          [REGIO_READ_FIELD c2.1 hw.DMAC_DMAC_COUNT_CNT,
            REGIO_READ_FIELD c3.1 hw.DMAC_DMAC_COUNT_CNT] }
        let w := c3.2
        if fw.VDEC_CODEC_NONE != src.ui8CurCodec then
          if fw.VDECFW_CODEC_HEVC == src.ui8CurCodec then
            let e : VXDIO_sPipeState × World σ :=
              if ui8Pipe < ui32NumEntPipes then
                let v := ReadPipeRegister hw tal (some psContext)
                  hw.REGION_PVDEC_ENTROPY_PIPE_REGSPACE (ui8Pipe + 1)
                  hw.PVDEC_ENTROPY_CR_ENTROPY_LAST_MB_OFFSET w
                ({ dst with sFeMb :=
                  ⟨REGIO_READ_FIELD v.1 hw.PVDEC_ENTROPY_CR_ENTROPY_LAST_MB_ENTROPY_LAST_MB_NO_X,
                    REGIO_READ_FIELD v.1
                      hw.PVDEC_ENTROPY_CR_ENTROPY_LAST_MB_ENTROPY_LAST_MB_NO_Y⟩ }, v.2)
              else (dst, w)
            let v := ReadPipeRegister hw tal (some psContext) hw.REGION_PVDEC_VEC_BE
              (ui8Pipe + 1) hw.PVDEC_VEC_BE_CR_VEC_BE_STATUS_OFFSET e.2
            ({ e.1 with sBeMb :=
              ⟨REGIO_READ_FIELD v.1 hw.PVDEC_VEC_BE_CR_VEC_BE_STATUS_COMMAND_MB_ADDR_X,
                REGIO_READ_FIELD v.1 hw.PVDEC_VEC_BE_CR_VEC_BE_STATUS_COMMAND_MB_ADDR_Y⟩ }, v.2)
          else if src.ui8CurCodec < fw.VDECFW_CODEC_MAX then
            let v := ReadPipeRegister hw tal (some psContext) hw.REGION_PVDEC_MSVDX_VEC
              (ui8Pipe + 1) hw.MSVDX_VEC_CR_VEC_ENTDEC_INFORMATION_OFFSET w
            let dst := { dst with sFeMb :=
              ⟨REGIO_READ_FIELD v.1
                  hw.MSVDX_VEC_CR_VEC_ENTDEC_INFORMATION_FE_ENTDEC_LATEST_MB_ADDR_X,
                REGIO_READ_FIELD v.1
                  hw.MSVDX_VEC_CR_VEC_ENTDEC_INFORMATION_FE_ENTDEC_LATEST_MB_ADDR_Y⟩ }
            let u := ReadPipeRegister hw tal (some psContext) hw.REGION_PVDEC_MSVDX_VDMC
              (ui8Pipe + 1) hw.MSVDX_VDMC_CR_VDMC_MACROBLOCK_NUMBER_OFFSET v.2
            ({ dst with sBeMb :=
              ⟨REGIO_READ_FIELD u.1
                  hw.MSVDX_VDMC_CR_VDMC_MACROBLOCK_NUMBER_CR_VDMC_MACROBLOCK_X_OFFSET,
                REGIO_READ_FIELD u.1
                  hw.MSVDX_VDMC_CR_VDMC_MACROBLOCK_NUMBER_CR_VDMC_MACROBLOCK_Y_OFFSET⟩ }, u.2)
          else (dst, w)
        else (dst, w)
      else (dst, w)
    some ({ psState with sFwState := { psState.sFwState with
        asPipeState := psState.sFwState.asPipeState.set ui8Pipe r.1 } }, r.2)
  | _, _ => none

/-- The per-pipe loop of `PVDECIO_GetCoreState`,
`for (ui8Pipe = 0; ui8Pipe < ui32NumPixelPipes; ui8Pipe++)`: the counter is an
8-bit variable and the bound a 32-bit one. The source sets no other bound on
the rounds: here `fuel` tests of the condition are run and `unfinished` stands
for a loop that has not ended by then; a round whose index is outside one of
the arrays of per-pipe states ends the run as an overrun. -/
def PVDECIO_GetCoreState.pipes {σ : Type} (cfg : BuildConfig) (hw : HwDefs) (fw : FwDefs)
    (tal : TAL σ) (psContext : PVDECIO_sContext) (ui32NumPixelPipes ui32NumEntPipes : Nat)
    (sFirmwareState : VDECFW_sPVDECFirmwareState) :
    Nat → Nat → VXDIO_sState → World σ → Run (VXDIO_sState × World σ)
  | 0, _, _, _ => .unfinished
  | fuel + 1, ui8Pipe, psState, w =>
    if ui8Pipe < ui32NumPixelPipes then
      match PVDECIO_GetCoreState.pipe cfg hw fw tal psContext ui32NumEntPipes sFirmwareState
          ui8Pipe psState w with
      | some r =>
        PVDECIO_GetCoreState.pipes cfg hw fw tal psContext ui32NumPixelPipes ui32NumEntPipes
          sFirmwareState fuel ((ui8Pipe + 1) % 256) r.1 r.2
      | none => .overrun (.pipeState ui8Pipe)
    else .returned (psState, w)

/-- The block of `PVDECIO_GetCoreState` that reads the runtime status of the
MTX: four register read requests, each followed by the read of the data
register, and the reads of the enable, status and fault registers. -/
def PVDECIO_GetCoreState.mtx {σ : Type} (hw : HwDefs) (tal : TAL σ)
    (psContext : PVDECIO_sContext) (psState : VXDIO_sState) (w : World σ) :
    VXDIO_sState × World σ :=
  let h := some psContext
  let request (ui32RegVal u r : Nat) : Nat :=
    REGIO_WRITE_FIELD (REGIO_WRITE_FIELD (REGIO_WRITE_FIELD ui32RegVal
      hw.MTX_CORE_CR_MTX_REGISTER_READ_WRITE_REQUEST_MTX_RNW 1)
      hw.MTX_CORE_CR_MTX_REGISTER_READ_WRITE_REQUEST_MTX_USPECIFIER u)
      hw.MTX_CORE_CR_MTX_REGISTER_READ_WRITE_REQUEST_MTX_RSPECIFIER r
  let ui32RegVal := 0
  let ui32RegVal := request ui32RegVal 5 0
  let w := (MTX_CORE_WriteRegister hw tal h
    hw.MTX_CORE_CR_MTX_REGISTER_READ_WRITE_REQUEST_OFFSET ui32RegVal w).2
  let pc := MTX_CORE_ReadRegister hw tal h hw.MTX_CORE_CR_MTX_REGISTER_READ_WRITE_DATA_OFFSET w
  let ui32RegVal := request ui32RegVal 5 1
  let w := (MTX_CORE_WriteRegister hw tal h
    hw.MTX_CORE_CR_MTX_REGISTER_READ_WRITE_REQUEST_OFFSET ui32RegVal pc.2).2
  let pcx := MTX_CORE_ReadRegister hw tal h hw.MTX_CORE_CR_MTX_REGISTER_READ_WRITE_DATA_OFFSET w
  let ui32RegVal := request ui32RegVal 3 0
  let w := (MTX_CORE_WriteRegister hw tal h
    hw.MTX_CORE_CR_MTX_REGISTER_READ_WRITE_REQUEST_OFFSET ui32RegVal pcx.2).2
  let stp := MTX_CORE_ReadRegister hw tal h hw.MTX_CORE_CR_MTX_REGISTER_READ_WRITE_DATA_OFFSET w
  let ui32RegVal := request ui32RegVal 3 1
  let w := (MTX_CORE_WriteRegister hw tal h
    hw.MTX_CORE_CR_MTX_REGISTER_READ_WRITE_REQUEST_OFFSET ui32RegVal stp.2).2
  let frp := MTX_CORE_ReadRegister hw tal h hw.MTX_CORE_CR_MTX_REGISTER_READ_WRITE_DATA_OFFSET w
  let en := MTX_CORE_ReadRegister hw tal h hw.MTX_CORE_CR_MTX_ENABLE_OFFSET frp.2
  let sb := MTX_CORE_ReadRegister hw tal h hw.MTX_CORE_CR_MTX_STATUS_OFFSET en.2
  let f0 := MTX_CORE_ReadRegister hw tal h hw.MTX_CORE_CR_MTX_FAULT0_OFFSET sb.2
  ({ psState with sEPRuntimeStatus :=
      { ui32MTX_PC := pc.1, ui32MTX_PCX := pcx.1, ui32MTX_A0StP := stp.1,
        ui32MTX_A0FrP := frp.1, ui32MTX_ENABLE := en.1, ui32MTX_STATUS_BITS := sb.1,
        ui32MTX_FAULT0 := f0.1 } }, f0.2)

/-- The block of `PVDECIO_GetCoreState` that runs when the size of the state
buffer is not known yet (is 0): the header word of the state buffer is read
from local RAM, the result code of the read is ignored, and size and offset
are taken from the word and stored in the context. `ui32RegVal` is what the
local of that name holds before the read. -/
def PVDECIO_GetCoreState.info {σ : Type} (cfg : BuildConfig) (hw : HwDefs) (fw : FwDefs)
    (tal : TAL σ) (psContext : PVDECIO_sContext) (ui32RegVal : Nat) (w : World σ) :
    PVDECIO_sContext × World σ :=
  if 0 == psContext.sStateInfo.ui32Size then
    let r := PVDECIO_VLRReadWords cfg hw tal (some psContext) hw.REGION_PVDEC_VLR_REGSPACE
      fw.PVDEC_COM_RAM_STATE_BUF_SIZE_AND_OFFSET_OFFSET 1 (some [ui32RegVal]) false w
    let ui32RegVal := (r.2.1.getD []).headD ui32RegVal
    ({ psContext with sStateInfo :=
        ⟨fw.PVDEC_COM_RAM_BUF_GET_SIZE_STATE ui32RegVal,
          fw.PVDEC_COM_RAM_BUF_GET_OFFSET_STATE ui32RegVal⟩ }, r.2.2)
  else (psContext, w)

/-- The end of `PVDECIO_GetCoreState` with the clocks on: the runtime status of
the MTX, unless bypassed, and the result `IMG_SUCCESS`. -/
def PVDECIO_GetCoreState.tail {σ : Type} (cfg : BuildConfig) (hw : HwDefs) (tal : TAL σ)
    (psContext : PVDECIO_sContext) (psState : VXDIO_sState) (w : World σ) :
    Nat × Option PVDECIO_sContext × VXDIO_sState × World σ :=
  if CHECK_IO_BYPASS cfg psContext false then
    let m := PVDECIO_GetCoreState.mtx hw tal psContext psState w
    (IMG_SUCCESS, some psContext, m.1, m.2)
  else (IMG_SUCCESS, some psContext, psState, w)

/-- The block of `PVDECIO_GetCoreState` that runs when the state buffer is
available (its size is above 0): the firmware state is read from local RAM,
the fence ids are copied, and the per-pipe loop is run. The words read,
`ui32Size >> 2` of them unless a read fails, are stored through the pointer to
the local `sFirmwareState`, which holds `sizeofFirmwareStateWords` words and
is all zero before; the number of words is tested against nothing: when more
words are stored than the structure has, the run ends as an overrun. -/
def PVDECIO_GetCoreState.firmware {σ : Type} (cfg : BuildConfig) (hw : HwDefs) (fw : FwDefs)
    (tal : TAL σ) (psContext : PVDECIO_sContext) (ui32NumPixelPipes ui32NumEntPipes : Nat)
    (psState : VXDIO_sState) (fuel : Nat) (w : World σ) : Run (VXDIO_sState × World σ) :=
  let r := PVDECIO_VLRReadWords cfg hw tal (some psContext) hw.REGION_PVDEC_VLR_REGSPACE
    psContext.sStateInfo.ui32Offset (psContext.sStateInfo.ui32Size >>> 2)
    (some (List.replicate fw.sizeofFirmwareStateWords 0)) false w
  let words := r.2.1.getD []
  if fw.sizeofFirmwareStateWords < words.length then .overrun (.firmwareState words.length)
  else
    let sFirmwareState := fw.overlay words
    let psState := { psState with sFwState := { psState.sFwState with
      aui8ControlFenceID := sFirmwareState.aui8ControlFenceID
      aui8DecodeFenceID := sFirmwareState.aui8DecodeFenceID
      aui8CompletionFenceID := sFirmwareState.aui8CompletionFenceID } }
    PVDECIO_GetCoreState.pipes cfg hw fw tal psContext ui32NumPixelPipes ui32NumEntPipes
      sFirmwareState fuel 0 psState r.2.2

/-- Source function `PVDECIO_GetCoreState`; `psState` is the state that the
pointer of that name points to (the source does not test the pointer).
`ui32RegVal` is what the local of that name holds before it is assigned. The
result of a run that returns is the result code, the context and the state
after the call, and the world. -/
def PVDECIO_GetCoreState {σ : Type} (cfg : BuildConfig) (hw : HwDefs) (fw : FwDefs)
    (tal : TAL σ) (hCoreContext : Option PVDECIO_sContext)
    (ui32NumPixelPipes ui32NumEntPipes : Nat) (psState : VXDIO_sState) (ui32RegVal fuel : Nat)
    (w : World σ) : Run (Nat × Option PVDECIO_sContext × VXDIO_sState × World σ) :=
  match hCoreContext with
  | none => .returned (IMG_ERROR_INVALID_PARAMETERS, none, psState, REPORT .REPORT_ERR w)
  | some psContext =>
    if psContext.bClocks then
      let first := PVDECIO_GetCoreState.info cfg hw fw tal psContext ui32RegVal w
      let psContext := first.1
      let w := first.2
      if psContext.sStateInfo.ui32Size > 0 then
        match PVDECIO_GetCoreState.firmware cfg hw fw tal psContext ui32NumPixelPipes
            ui32NumEntPipes psState fuel w with
        | .returned p => .returned (PVDECIO_GetCoreState.tail cfg hw tal psContext p.1 p.2)
        | .overrun o => .overrun o
        | .unfinished => .unfinished
      else .returned (PVDECIO_GetCoreState.tail cfg hw tal psContext psState w)
    else .returned (IMG_SUCCESS, some psContext, psState, w)

/-- A sample of the firmware interface: codec values, the state buffer header
at offset 0x20 with the size in the high and the offset in the low half word,
and a firmware state of three pipes laid out in words. -/
def sampleFw : FwDefs where
  VDEC_CODEC_NONE := 0
  VDECFW_CODEC_HEVC := 12
  VDECFW_CODEC_MAX := 13
  PVDEC_COM_RAM_STATE_BUF_SIZE_AND_OFFSET_OFFSET := 0x20
  PVDEC_COM_RAM_BUF_GET_SIZE_STATE v := (v >>> 16) &&& 0xFFFF
  PVDEC_COM_RAM_BUF_GET_OFFSET_STATE v := v &&& 0xFFFF
  sizeofFirmwareStateWords := 36
  overlay ws :=
    { aui8ControlFenceID := [ws.getD 0 0]
      aui8DecodeFenceID := [ws.getD 1 0]
      aui8CompletionFenceID := [ws.getD 2 0]
      asPipeState := (List.range 3).map (fun i =>
        { aui32CheckPoint := [ws.getD (3 + 11 * i) 0]
          eFirmwareAction := ws.getD (4 + 11 * i) 0
          ui32FenceValue := ws.getD (5 + 11 * i) 0
          ui8CurCodec := ws.getD (6 + 11 * i) 0 % 256
          ui32FESlices := ws.getD (7 + 11 * i) 0
          ui32BESlices := ws.getD (8 + 11 * i) 0
          ui32FEErroredSlices := ws.getD (9 + 11 * i) 0
          ui32BEErroredSlices := ws.getD (10 + 11 * i) 0
          ui32BEMbsDropped := ws.getD (11 + 11 * i) 0
          ui32BEMbsRecovered := ws.getD (12 + 11 * i) 0
          eFwBspStep := ws.getD (13 + 11 * i) 0 }) }

/-- A state with three pipes, all zero. -/
def state0 : VXDIO_sState :=
  { sFwState := ⟨[], [], [], List.replicate 3 default⟩, sEPRuntimeStatus := default }

/-- The context `ctxOn` with the state buffer known: 144 bytes at offset 0x40
of the local RAM. -/
def ctxState : PVDECIO_sContext := { ctxOn with sStateInfo := ⟨144, 0x40⟩ }

/-! ## Observations on a trace -/

/-- The word of a read of the register at memory space `h`, offset `o`. -/
def Event.readFrom (h o : Nat) : Event → Option Nat
  | .regRead h' o' v => if h' = h ∧ o' = o then some v else none
  | _ => none

/-- The words read from the register at memory space `h`, offset `o` in a
trace, in order. -/
def readsFrom (h o : Nat) (t : List Event) : List Nat := t.filterMap (Event.readFrom h o)

/-- The byte addresses that a transfer of `n` words from `ui32Addr` visits, as
`PVDECIO_VLRReadWords` and `PVDECIO_VLRWriteWords` step through them. -/
def wordAddrs : Nat → Nat → List Nat
  | 0, _ => []
  | n + 1, ui32Addr => ui32Addr :: wordAddrs n ((ui32Addr + 4) % 2 ^ 32)

/-- The words of the state buffer that a context describes. -/
def stateWords (psContext : PVDECIO_sContext) : List Nat :=
  wordAddrs (psContext.sStateInfo.ui32Size >>> 2) psContext.sStateInfo.ui32Offset

/-- A caller that asks for the core state `k` times in a row on one context;
the run ends with the first call that does not return. -/
def PVDECIO_GetCoreState.calls {σ : Type} (cfg : BuildConfig) (hw : HwDefs) (fw : FwDefs)
    (tal : TAL σ) (ui32NumPixelPipes ui32NumEntPipes ui32RegVal fuel : Nat) :
    Nat → PVDECIO_sContext → VXDIO_sState → World σ →
      Run (PVDECIO_sContext × VXDIO_sState × World σ)
  | 0, psContext, psState, w => .returned (psContext, psState, w)
  | k + 1, psContext, psState, w =>
    match PVDECIO_GetCoreState cfg hw fw tal (some psContext) ui32NumPixelPipes ui32NumEntPipes
        psState ui32RegVal fuel w with
    | .returned r =>
      PVDECIO_GetCoreState.calls cfg hw fw tal ui32NumPixelPipes ui32NumEntPipes ui32RegVal fuel
        k (r.2.1.getD psContext) r.2.2.1 r.2.2.2
    | .overrun o => .overrun o
    | .unfinished => .unfinished

/-- The firmware interface gives the array `asPipeState` of the firmware state
at least `n` entries. -/
def FwDefs.HoldsPipes (fw : FwDefs) (n : Nat) : Prop :=
  ∀ ws, n ≤ (fw.overlay ws).asPipeState.length

/-- A projection of the trace that sees bus transactions only: it maps every
event that is none (a lookup outside the table, a store, a failed assertion, a
report, a call) to nothing. -/
def SeesBusOnly {α : Type} (f : Event → Option α) : Prop :=
  ∀ e, e.isBus = false → f e = none

/-- A world over plain storage in which the header word of the state buffer
(local RAM, offset 0x20 on the sample interface) holds `word`. -/
def worldHeader (word : Nat) : World RegFile :=
  ⟨RegFile.zero.set sampleHw.REGION_PVDEC_VLR_REGSPACE
    sampleFw.PVDEC_COM_RAM_STATE_BUF_SIZE_AND_OFFSET_OFFSET word, []⟩

/-- A world over plain storage in which the debug register of the core region
holds `word`. -/
def worldDebug (word : Nat) : World RegFile :=
  ⟨RegFile.zero.set sampleHw.REGION_PVDEC_CORE_REGSPACE sampleHw.PVDEC_CORE_CR_PROC_DEBUG_OFFSET
    word, []⟩

/-! ## Firmware messages and firmware preparation -/

/-- Source function `PVDECIO_SendFirmwareMessage`. `psMsgHdr` is the message,
`none` for `IMG_NULL`. `DEVAIO_SendMTXMsg` is the send of the mailbox module
(`devaio.h`), an external collaborator working on the device state and on its
own context: it delivers a result code. The result is the result code, the
context after the call and the world. -/
def PVDECIO_SendFirmwareMessage {σ : Type} (hw : HwDefs) (tal : TAL σ)
    (DEVAIO_SendMTXMsg : σ → DEVAIO_sContext → List Nat → Nat × DEVAIO_sContext × σ)
    (hCoreContext : Option PVDECIO_sContext) (psMsgHdr : Option (List Nat)) (w : World σ) :
    Nat × Option PVDECIO_sContext × World σ :=
  match hCoreContext with
  | none =>
    let w := IMG_ASSERT false 1904 w
    (IMG_ERROR_INVALID_PARAMETERS, none, REPORT .REPORT_ERR w)
  | some psContext =>
    match psMsgHdr with
    | none =>
      let w := IMG_ASSERT false 1912 w
      (IMG_ERROR_INVALID_PARAMETERS, some psContext, REPORT .REPORT_ERR w)
    | some msg =>
      let w := w.log (.call .DEVAIO_SendMTXMsg)
      let c := DEVAIO_SendMTXMsg w.dev psContext.sMsgContext msg
      let ui32Result := c.1
      let psContext := { psContext with sMsgContext := c.2.1 }
      let w : World σ := ⟨c.2.2, w.trace⟩
      let w := IMG_ASSERT (ui32Result == IMG_SUCCESS) 1924 w
      if ui32Result != IMG_SUCCESS then (ui32Result, some psContext, w)
      else (IMG_SUCCESS, some psContext, PVDECIO_KickMTX hw tal (some psContext) w)

/-- A mailbox module whose MMU report fails with `IMG_ERROR_FATAL` and whose
drain succeeds; it touches nothing. -/
def failingReportMailbox (σ : Type) : DEVAIO σ where
  InitMTXComms s c _ := (IMG_SUCCESS, c, s)
  ProcessMMUReport s c := (IMG_ERROR_FATAL, 0, 0, c, s)
  ProcessMTXMsgs s c q := (IMG_SUCCESS, c, q, s)

/-- The part of `VXDIO_sDdBufInfo` (`vxd_buf.h`) that this file touches: the
device virtual address of a buffer and, for `pvCpuVirt`, the words that the
buffer holds. -/
structure VXDIO_sDdBufInfo where
  ui32DevVirt : Nat
  pvCpuVirt : List Nat
deriving DecidableEq, Repr

/-- The part of `VDECFW_sFirmwareBinInfo` (`vdecfw.h`) that this file
touches; `aui32Text` holds the words of the text, `none` for `IMG_NULL`. -/
structure VDECFW_sFirmwareBinInfo where
  ui32TextBufSize : Nat
  ui32TextDmaSize : Nat
  aui32Text : Option (List Nat)
deriving DecidableEq, Repr

/-- The part of `VXD_sFirmware` (`vxd.h`) that this file touches. -/
structure VXD_sFirmware where
  sFwBaseBufInfo : VXDIO_sDdBufInfo
  sFwSecBufInfo : VXDIO_sDdBufInfo
  sFwBaseBinInfo : VDECFW_sFirmwareBinInfo
  sFwSecBinInfo : VDECFW_sFirmwareBinInfo
deriving DecidableEq, Repr

/-- The call `IMG_MEMCPY(dst, src, n * sizeof(IMG_UINT32))` on buffers of
words: the first `n` words of `dst` become those of `src` (a word beyond the
end of `src` is taken as zero). -/
def IMG_MEMCPY (dst src : List Nat) (n : Nat) : List Nat :=
  (List.range n).map (fun i => src.getD i 0) ++ dst.drop n

/-- The block of `PVDECIO_PrepareFirmware` under `CHECK_IO_BYPASS(IMG_FALSE)`:
the firmware (secure or base) is chosen, its address and sizes are stored in
the context, its text is copied into the device buffer and the buffer is
handed to the device. The flag in the result is false for the early return of
the secure bridging build on a null text, and true otherwise; a null text in
the other builds is taken as empty. -/
def PVDECIO_PrepareFirmware.setup {σ : Type} (cfg : BuildConfig)
    (psContext : PVDECIO_sContext) (psFw : VXD_sFirmware) (w : World σ) :
    PVDECIO_sContext × VXD_sFirmware × World σ × Bool :=
  let sec := cfg.VDEC_USE_PVDEC_SEC && !cfg.SYSBRG_BRIDGING && psContext.bSecureFw
  let psFwBufInfo := if sec then psFw.sFwSecBufInfo else psFw.sFwBaseBufInfo
  let psFirmwareInfo := if sec then psFw.sFwSecBinInfo else psFw.sFwBaseBinInfo
  let store (buf : VXDIO_sDdBufInfo) : VXD_sFirmware :=
    if sec then { psFw with sFwSecBufInfo := buf } else { psFw with sFwBaseBufInfo := buf }
  let psContext := { psContext with sFwInfo := { psContext.sFwInfo with
    ui32BlobDevVirtAddr := psFwBufInfo.ui32DevVirt
    pvBlobCpuAddr :=
      if cfg.PVDEC_REG_FW_UPLOAD then psFwBufInfo.pvCpuVirt else psContext.sFwInfo.pvBlobCpuAddr
    ui32BlobSize := psFirmwareInfo.ui32TextBufSize } }
  if cfg.VDEC_USE_PVDEC_SEC && cfg.SYSBRG_BRIDGING then
    match psFirmwareInfo.aui32Text with
    | none => (psContext, psFw, REPORT .REPORT_ERR w, false)
    | some text =>
      let psContext := { psContext with sFwInfo := { psContext.sFwInfo with
        ui32CoreSize := (text.headD 0) / 4 } }
      let buf := IMG_MEMCPY psFwBufInfo.pvCpuVirt (text.drop 4)
        ((psFirmwareInfo.ui32TextBufSize + (2 ^ 32 - 4)) % 2 ^ 32)
      let psContext := { psContext with sFwInfo := { psContext.sFwInfo with
        pvBlobCpuAddr :=
          if cfg.PVDEC_REG_FW_UPLOAD then buf else psContext.sFwInfo.pvBlobCpuAddr } }
      (psContext, store { psFwBufInfo with pvCpuVirt := buf }, w.log (.call .UPDATE_DEVICE), true)
  else
    let psContext := { psContext with sFwInfo := { psContext.sFwInfo with
      ui32CoreSize := psFirmwareInfo.ui32TextDmaSize } }
    let buf := IMG_MEMCPY psFwBufInfo.pvCpuVirt (psFirmwareInfo.aui32Text.getD [])
      psFirmwareInfo.ui32TextBufSize
    let psContext := { psContext with sFwInfo := { psContext.sFwInfo with
      pvBlobCpuAddr :=
        if cfg.PVDEC_REG_FW_UPLOAD then buf else psContext.sFwInfo.pvBlobCpuAddr } }
    (psContext, store { psFwBufInfo with pvCpuVirt := buf }, w.log (.call .UPDATE_DEVICE), true)

/-- Source function `PVDECIO_PrepareFirmware`; `hFirmware` is the firmware
that the handle points to. The result is the result code, the context and the
firmware after the call, and the world. -/
def PVDECIO_PrepareFirmware {σ : Type} (cfg : BuildConfig) (hw : HwDefs) (tal : TAL σ)
    (dev : DEVAIO σ) (hCoreContext : Option PVDECIO_sContext) (hFirmware : VXD_sFirmware)
    (w : World σ) : Nat × Option PVDECIO_sContext × VXD_sFirmware × World σ :=
  match hCoreContext with
  | none => (IMG_ERROR_INVALID_PARAMETERS, none, hFirmware, REPORT .REPORT_ERR w)
  | some psContext =>
    let s : PVDECIO_sContext × VXD_sFirmware × World σ × Bool :=
      if CHECK_IO_BYPASS cfg psContext false then
        PVDECIO_PrepareFirmware.setup cfg psContext hFirmware w
      else (psContext, hFirmware, w, true)
    if !s.2.2.2 then (IMG_FALSE, some s.1, s.2.1, s.2.2.1)
    else
      let psContext := s.1
      let w := clearCommsHeader hw tal psContext hw.COMMS_HEADER_SIZE 0 s.2.2.1
      let w := w.log (.call .DEVAIO_InitMTXComms)
      let c := dev.InitMTXComms w.dev psContext.sMsgContext
        (if cfg.VDEC_USE_PVDEC_SEC then psContext.bSecureFw else false)
      let psContext := { psContext with sMsgContext := c.2.1 }
      let w : World σ := ⟨c.2.2, w.trace⟩
      if c.1 != IMG_SUCCESS then
        (IMG_FALSE, some psContext, s.2.1, REPORT .REPORT_ERR w)
      else (IMG_SUCCESS, some psContext, s.2.1, w)

/-- A mailbox module whose initialisation of the comms area fails with
`IMG_ERROR_FATAL`; it touches nothing. -/
def failingCommsMailbox (σ : Type) : DEVAIO σ where
  InitMTXComms s c _ := (IMG_ERROR_FATAL, c, s)
  ProcessMMUReport s c := (IMG_SUCCESS, 0, 0, c, s)
  ProcessMTXMsgs s c q := (IMG_SUCCESS, c, q, s)

/-- A firmware of sixteen text words, all to be transferred, for a device
buffer of sixteen words at the device virtual address 0x1000. -/
def sampleFirmware : VXD_sFirmware where
  sFwBaseBufInfo := ⟨0x1000, List.replicate 16 0⟩
  sFwSecBufInfo := ⟨0x2000, []⟩
  sFwBaseBinInfo := ⟨16, 16, some (List.range 16)⟩
  sFwSecBinInfo := ⟨0, 0, none⟩

/-! ## The register upload as the specification describes it -/

/-- The offset and the word of a write in memory space `h`. -/
def Event.writtenIn (h : Nat) : Event → Option (Nat × Nat)
  | .regWrite h' o v => if h' = h then some (o, v) else none
  | _ => none

/-- The writes in memory space `h` in a trace, in order: offset and word. -/
def writesIn (h : Nat) (t : List Event) : List (Nat × Nat) := t.filterMap (Event.writtenIn h)

/-- The RAM access control word as the specification describes it: the RAM id
`id`, the word address `wordAddr`, the read bit 0, and the auto-increment bit
set when the transfer has more than one word. -/
def claimedAccessControl (hw : HwDefs) (size id wordAddr : Nat) : Nat :=
  let v := REGIO_WRITE_FIELD (REGIO_WRITE_FIELD (REGIO_WRITE_FIELD 0
    hw.MTX_CORE_CR_MTX_RAM_ACCESS_CONTROL_MTX_MCMID id)
    hw.MTX_CORE_CR_MTX_RAM_ACCESS_CONTROL_MTX_MCM_ADDR wordAddr)
    hw.MTX_CORE_CR_MTX_RAM_ACCESS_CONTROL_MTX_MCMR 0
  if 1 < size then REGIO_WRITE_FIELD v hw.MTX_CORE_CR_MTX_RAM_ACCESS_CONTROL_MTX_MCMAI 1 else v

/-- The writes for word `i` of a register upload as the specification
describes them, for banks of `B` bytes: the RAM access control register is
written when `i` is 0 or the byte address `4 * i` lies in another bank than
`4 * (i - 1)`, selecting the RAM id `0x18 + 4 * i / B` and the word address
`i`; then the word goes to the data transfer register. -/
def claimedWordWrites (hw : HwDefs) (B size : Nat) (buf : List Nat) (i : Nat) :
    List (Nat × Nat) :=
  (if i = 0 ∨ 4 * i / B ≠ 4 * (i - 1) / B then
      [(hw.MTX_CORE_CR_MTX_RAM_ACCESS_CONTROL_OFFSET,
        claimedAccessControl hw size (0x18 + 4 * i / B) i)]
    else []) ++
  [(hw.MTX_CORE_CR_MTX_RAM_ACCESS_DATA_TRANSFER_OFFSET, buf.getD i 0)]

/-- The RAM id that the word loop of `pvdecio_LoadFW` holds when it comes to
word `i`: the initial value before the first word, then the id of the word
before. -/
def ramIdBefore (B i : Nat) : Nat :=
  if i = 0 then 0xFFFFFFFF else PVDECIO_MTX_CORE_MEMORY + 4 * (i - 1) / B

/-- The context `ctxOn` prepared for a register upload: banks of 8 bytes (bank
size exponent 1) and a firmware of the four words 10, 11, 12, 13. -/
def ctxUpload : PVDECIO_sContext :=
  { ctxOn with sMTXRamInfo := ⟨1, 16, 15⟩, sFwInfo := ⟨4, 4, 0x1000, [10, 11, 12, 13]⟩ }

/-- The context `ctxOn` prepared for a register upload of the one word 7. -/
def ctxOneWord : PVDECIO_sContext := { ctxOn with sFwInfo := ⟨1, 1, 0x1000, [7]⟩ }

/-! ## The other loops of the module -/

/-- The capture interface of `tal.h` that `PVDECIO_TriggerSim` uses: the
constant `TAL_DISABLE_CAPTURE_RDW` and the flags that
`TALPDUMP_GetDisableCmds` delivers for a handle and an offset. The capture
commands do not touch the device. -/
structure TALPDUMP where
  TAL_DISABLE_CAPTURE_RDW : Nat
  GetDisableCmds : Nat → Nat → Nat

/-- Source function `PVDECIO_PDUMPDisableCmds`. -/
def PVDECIO_PDUMPDisableCmds {σ : Type} (hw : HwDefs)
    (hCoreContext : Option PVDECIO_sContext)
    (ui32MemRegion _ui32Offset _ui32DisableFlags : Nat) (w : World σ) : Nat × World σ :=
  match hCoreContext with
  | none =>
    let w := IMG_ASSERT false 1188 w
    (IMG_ERROR_INVALID_PARAMETERS, REPORT .REPORT_ERR w)
  | some psContext =>
    let w := IMG_ASSERT (psContext.ui32MemSpaceCount != 0) 1196 w
    if ui32MemRegion >= psContext.ui32MemSpaceCount then
      (IMG_ERROR_INVALID_PARAMETERS, REPORT .REPORT_ERR w)
    else
      match pahMemSpace hw ui32MemRegion with
      | some _ => (IMG_SUCCESS, w.log (.call .TALPDUMP_DisableCmds))
      | none => (IMG_SUCCESS, w.log (.outOfTable ui32MemRegion))

/-- Source function `PVDECIO_PDUMPGetDisableCmds`; the result is what the
function returns: an error code or the flags. -/
def PVDECIO_PDUMPGetDisableCmds {σ : Type} (hw : HwDefs) (pdump : TALPDUMP)
    (hCoreContext : Option PVDECIO_sContext) (ui32MemRegion ui32Offset : Nat) (w : World σ) :
    Nat × World σ :=
  match hCoreContext with
  | none =>
    let w := IMG_ASSERT false 1225 w
    (IMG_ERROR_INVALID_PARAMETERS, REPORT .REPORT_ERR w)
  | some psContext =>
    let w := IMG_ASSERT (psContext.ui32MemSpaceCount != 0) 1233 w
    if ui32MemRegion >= psContext.ui32MemSpaceCount then
      (IMG_ERROR_INVALID_PARAMETERS, REPORT .REPORT_ERR w)
    else
      match pahMemSpace hw ui32MemRegion with
      | some h => (pdump.GetDisableCmds h ui32Offset, w.log (.call .TALPDUMP_GetDisableCmds))
      | none => (0, w.log (.outOfTable ui32MemRegion))

/-- The loop of `PVDECIO_TriggerSim`, `while (ui32I-- > 0)`, with the counter
`ui32I` as given: one read of the first word of the local RAM, for pipe 0, in
each round. -/
def PVDECIO_TriggerSim.loop {σ : Type} (hw : HwDefs) (tal : TAL σ)
    (hCoreContext : Option PVDECIO_sContext) : Nat → World σ → World σ
  | 0, w => w
  | ui32I + 1, w =>
    PVDECIO_TriggerSim.loop hw tal hCoreContext ui32I
      (PVDECIO_ReadRegister hw tal hCoreContext hw.REGION_PVDEC_VLR_REGSPACE 0 0 w).2

/-- Source function `PVDECIO_TriggerSim`. -/
def PVDECIO_TriggerSim {σ : Type} (cfg : BuildConfig) (hw : HwDefs) (tal : TAL σ)
    (pdump : TALPDUMP) (hCoreContext : Option PVDECIO_sContext) (w : World σ) : World σ :=
  let ui32RegOffset := 0
  let ui32I := 1000
  if !cfg.SYSBRG_BRIDGING then
    let g := PVDECIO_PDUMPGetDisableCmds hw pdump hCoreContext hw.REGION_PVDEC_VLR_REGSPACE
      ui32RegOffset w
    let ui32DisableFlags := g.1
    let w := (PVDECIO_PDUMPDisableCmds hw hCoreContext hw.REGION_PVDEC_VLR_REGSPACE ui32RegOffset
      (ui32DisableFlags ||| pdump.TAL_DISABLE_CAPTURE_RDW) g.2).2
    let w := PVDECIO_TriggerSim.loop hw tal hCoreContext ui32I w
    (PVDECIO_PDUMPDisableCmds hw hCoreContext hw.REGION_PVDEC_VLR_REGSPACE ui32RegOffset
      ui32DisableFlags w).2
  else PVDECIO_TriggerSim.loop hw tal hCoreContext ui32I w

/-- The secure device module (`secure_device.h`), an external collaborator:
`SECDEV_Initialise` and `SECDEV_LocateDevice` (for the device of the given
index of the target configuration), each delivering a result code. -/
structure SECDEV (σ : Type) where
  Initialise : σ → Nat × σ
  LocateDevice : σ → Nat → Nat × σ

/-- The loop of `PVDECIO_Initialise` over the devices of the target
configuration, `for (ui32I = 0; ui32I < gsTargetConfig.ui32DevNum; ui32I++)`,
built under `SECURE_TAL` only (`PVDECIO_Initialise` above is the build without
it), with `n` devices left and `ui32I` the next. The first component of the
result is `none` when the loop has ended by its test, and the result code of
the call that failed when it is left by `goto error`. -/
def PVDECIO_Initialise.devices {σ : Type} (sec : SECDEV σ) :
    Nat → Nat → World σ → Option Nat × World σ
  | 0, _, w => (none, w)
  | n + 1, ui32I, w =>
    let w := w.log (.call .SECDEV_Initialise)
    let a := sec.Initialise w.dev
    let w : World σ := ⟨a.2, w.trace⟩
    if a.1 != IMG_SUCCESS then (some a.1, w)
    else
      let w := w.log (.call .SECDEV_LocateDevice)
      let b := sec.LocateDevice w.dev ui32I
      let w : World σ := ⟨b.2, w.trace⟩
      if b.1 != IMG_SUCCESS then (some b.1, w)
      else PVDECIO_Initialise.devices sec n (ui32I + 1) w

/-- The world `w1` continues the world `w0` by at most `k` events. -/
def World.Within {σ : Type} (k : Nat) (w0 w1 : World σ) : Prop :=
  ∃ rest, w1.trace = w0.trace ++ rest ∧ rest.length ≤ k

/-- The world `w1` continues the world `w0` by at least `k` events. -/
def World.Beyond {σ : Type} (k : Nat) (w0 w1 : World σ) : Prop :=
  ∃ rest, w1.trace = w0.trace ++ rest ∧ k ≤ rest.length

/-- A secure device module that always succeeds and touches nothing. -/
def quietSecureDevice (σ : Type) : SECDEV σ where
  Initialise s := (IMG_SUCCESS, s)
  LocateDevice s _ := (IMG_SUCCESS, s)

/-! ## Lemmas on the gate -/

/-- The index of the core region is inside the region table. -/
theorem core_lt (hw : HwDefs) : (hw.REGION_PVDEC_CORE_REGSPACE : Nat) < hw.REGION_PVDEC_MAX :=
  hw.REGION_PVDEC_CORE_REGSPACE.isLt

/-- Reading plain storage at the location just stored gives the word stored. -/
@[simp] theorem RegFile_set_same (s : RegFile) (h o v : Nat) : (s.set h o v) h o = v := by
  simp [RegFile.set]

/-- Reading plain storage at another location is not affected by the store. -/
theorem RegFile_set_other (s : RegFile) (h o v h' o' : Nat) (hne : ¬ (h' = h ∧ o' = o)) :
    (s.set h o v) h' o' = s h' o' := by
  simp [RegFile.set, hne]

/-- An assertion never touches the device. -/
@[simp] theorem IMG_ASSERT_dev {σ : Type} (c : Bool) (n : Nat) (w : World σ) :
    (IMG_ASSERT c n w).dev = w.dev := by
  unfold IMG_ASSERT; split <;> rfl

/-- An assertion that holds leaves the world as it is. -/
@[simp] theorem IMG_ASSERT_true {σ : Type} (n : Nat) (w : World σ) :
    IMG_ASSERT true n w = w := rfl

/-- An assertion that fails is recorded. -/
@[simp] theorem IMG_ASSERT_false {σ : Type} (n : Nat) (w : World σ) :
    IMG_ASSERT false n w = w.log (.assertFail n) := rfl

/-- Pipe selection with the sentinel does nothing. -/
theorem pvdecio_SelectPipe_sentinel {σ : Type} (hw : HwDefs) (tal : TAL σ)
    (ctx : PVDECIO_sContext) (w : World σ) :
    pvdecio_SelectPipe hw tal ctx PVDEC_DEF_PIPE w = w := by
  simp [pvdecio_SelectPipe]

/-- Pipe selection with another value writes the select register once, after
the range assertion. -/
theorem pvdecio_SelectPipe_other {σ : Type} (hw : HwDefs) (tal : TAL σ)
    (ctx : PVDECIO_sContext) (pipe : Nat) (w : World σ) (hp : pipe ≠ PVDEC_DEF_PIPE) :
    pvdecio_SelectPipe hw tal ctx pipe w =
      let w1 := IMG_ASSERT (decide (pipe < 8)) 273 w
      let v := REGIO_WRITE_FIELD 0
        hw.PVDEC_CORE_CR_PVDEC_HOST_PIPE_SELECT_CR_PVDEC_HOST_PIPE_SELECT pipe
      ⟨(tal.WriteWord32 w.dev hw.REGION_PVDEC_CORE_REGSPACE
          hw.PVDEC_CORE_CR_PVDEC_HOST_PIPE_SELECT_OFFSET v).2,
        w1.trace ++ [.regWrite hw.REGION_PVDEC_CORE_REGSPACE
          hw.PVDEC_CORE_CR_PVDEC_HOST_PIPE_SELECT_OFFSET v]⟩ := by
  simp [pvdecio_SelectPipe, hp, TALREG_WriteWord32, pahMemSpace, core_lt]

/-- The register read with the gate open: pipe selection, then one bus read. -/
theorem PVDECIO_ReadRegister_open {σ : Type} (hw : HwDefs) (tal : TAL σ)
    (ctx : PVDECIO_sContext) (region offset pipe : Nat) (w : World σ)
    (hinit : ctx.bInitialised = true) (hcount : ctx.ui32MemSpaceCount ≠ 0)
    (hclk : ctx.bClocks = true) (hreg : region < hw.REGION_PVDEC_MAX) :
    PVDECIO_ReadRegister hw tal (some ctx) region offset pipe w =
      let w0 := pvdecio_SelectPipe hw tal ctx pipe w
      let r := tal.ReadWord32 w0.dev region offset
      (r.2.1, ⟨r.2.2, w0.trace ++ [.regRead region offset r.2.1]⟩) := by
  have hb : (ctx.ui32MemSpaceCount != 0) = true := by simpa using hcount
  simp [PVDECIO_ReadRegister, hinit, hclk, hb, TALREG_ReadWord32, pahMemSpace, hreg]

/-- The register write with the gate open: pipe selection, then either a bus
read and a bus write of the merged word, or one bus write of the value. -/
theorem PVDECIO_WriteRegister_open {σ : Type} (hw : HwDefs) (tal : TAL σ)
    (ctx : PVDECIO_sContext) (region offset value mask pipe : Nat) (w : World σ)
    (hinit : ctx.bInitialised = true) (hcount : ctx.ui32MemSpaceCount ≠ 0)
    (hclk : ctx.bClocks = true) (hreg : region < hw.REGION_PVDEC_MAX) :
    PVDECIO_WriteRegister hw tal (some ctx) region offset value mask pipe w =
      let w0 := pvdecio_SelectPipe hw tal ctx pipe w
      if mask ≠ PVDEC_DEF_REG_MASK then
        let r := tal.ReadWord32 w0.dev region offset
        let v := (r.2.1 &&& not32 mask) ||| value
        (IMG_SUCCESS, ⟨(tal.WriteWord32 r.2.2 region offset v).2,
          w0.trace ++ [.regRead region offset r.2.1, .regWrite region offset v]⟩)
      else
        (IMG_SUCCESS, ⟨(tal.WriteWord32 w0.dev region offset value).2,
          w0.trace ++ [.regWrite region offset value]⟩) := by
  have hb : (ctx.ui32MemSpaceCount != 0) = true := by simpa using hcount
  by_cases hm : mask = PVDEC_DEF_REG_MASK <;>
  simp [PVDECIO_WriteRegister, hinit, hclk, hb, TALREG_ReadWord32, TALREG_WriteWord32,
    pahMemSpace, hreg, hm]

/-- The register read with the gate closed (context not initialised, or clock
flag off): the value is 0, the device is untouched and only diagnostics are
recorded. -/
theorem PVDECIO_ReadRegister_closed {σ : Type} (hw : HwDefs) (tal : TAL σ)
    (ctx : PVDECIO_sContext) (region offset pipe : Nat) (w : World σ)
    (hoff : ctx.bInitialised = false ∨ ctx.bClocks = false) :
    ∃ d : List Event, d.all Event.isDiag = true ∧
      PVDECIO_ReadRegister hw tal (some ctx) region offset pipe w = (0, ⟨w.dev, w.trace ++ d⟩) := by
  by_cases hi : ctx.bInitialised = true
  · have hc : ctx.bClocks = false := by
      rcases hoff with h | h
      · rw [hi] at h; cases h
      · exact h
    by_cases hb : (ctx.ui32MemSpaceCount != 0) = true
    · exact ⟨[.report .REPORT_NOTICE], rfl, by
        simp [PVDECIO_ReadRegister, hi, hc, hb, REPORT, World.log]⟩
    · have hb' : (ctx.ui32MemSpaceCount != 0) = false := by simpa using hb
      exact ⟨[.assertFail 312, .report .REPORT_NOTICE], rfl, by
        simp [PVDECIO_ReadRegister, hi, hc, hb', REPORT, World.log]⟩
  · have hi' : ctx.bInitialised = false := by simpa using hi
    exact ⟨[.report .REPORT_ERR], rfl, by simp [PVDECIO_ReadRegister, hi', REPORT, World.log]⟩

/-- The register write with the gate closed: the result is
`IMG_ERROR_NOT_INITIALISED`, the device is untouched and only diagnostics are
recorded. -/
theorem PVDECIO_WriteRegister_closed {σ : Type} (hw : HwDefs) (tal : TAL σ)
    (ctx : PVDECIO_sContext) (region offset value mask pipe : Nat) (w : World σ)
    (hoff : ctx.bInitialised = false ∨ ctx.bClocks = false) :
    ∃ d : List Event, d.all Event.isDiag = true ∧
      PVDECIO_WriteRegister hw tal (some ctx) region offset value mask pipe w =
        (IMG_ERROR_NOT_INITIALISED, ⟨w.dev, w.trace ++ d⟩) := by
  by_cases hi : ctx.bInitialised = true
  · have hc : ctx.bClocks = false := by
      rcases hoff with h | h
      · rw [hi] at h; cases h
      · exact h
    by_cases hb : (ctx.ui32MemSpaceCount != 0) = true
    · exact ⟨[.report .REPORT_NOTICE], rfl, by
        simp [PVDECIO_WriteRegister, hi, hc, hb, REPORT, World.log]⟩
    · have hb' : (ctx.ui32MemSpaceCount != 0) = false := by simpa using hb
      exact ⟨[.assertFail 372, .report .REPORT_NOTICE], rfl, by
        simp [PVDECIO_WriteRegister, hi, hc, hb', REPORT, World.log]⟩
  · have hi' : ctx.bInitialised = false := by simpa using hi
    exact ⟨[.report .REPORT_ERR], rfl, by simp [PVDECIO_WriteRegister, hi', REPORT, World.log]⟩

/-- C1 (as amended). On an initialised context with clocks enabled, for a
region index inside the table and a mask other than `0xFFFFFFFF`,
`PVDECIO_WriteRegister` returns `IMG_SUCCESS` and, after the pipe selection,
issues exactly a read of the word `old` at (region, offset) and a write of
`(old & ~mask) | value` to that location. Over plain storage a following
`PVDECIO_ReadRegister` of the same (region, offset, pipe) returns
`(old & ~mask) | value`, and `old` is the word stored before the call, provided
the pipe is the sentinel or the location is not the core pipe-select register. -/
theorem C1_masked_write_then_read (hw : HwDefs) (ctx : PVDECIO_sContext)
    (region offset value mask pipe : Nat) (w : World RegFile)
    (hinit : ctx.bInitialised = true) (hcount : ctx.ui32MemSpaceCount ≠ 0)
    (hclk : ctx.bClocks = true) (hmask : mask ≠ 0xFFFFFFFF)
    (hreg : region < hw.REGION_PVDEC_MAX) :
    let w0 := pvdecio_SelectPipe hw (plainStorage hw) ctx pipe w
    let old := w0.dev region offset
    let new := (old &&& not32 mask) ||| value
    let r := PVDECIO_WriteRegister hw (plainStorage hw) (some ctx) region offset value mask pipe w
    r.1 = IMG_SUCCESS ∧
    r.2.trace = w0.trace ++ [.regRead region offset old, .regWrite region offset new] ∧
    r.2.dev = w0.dev.set region offset new ∧
    ((pipe = PVDEC_DEF_PIPE ∨
        ¬ (region = hw.REGION_PVDEC_CORE_REGSPACE ∧
           offset = hw.PVDEC_CORE_CR_PVDEC_HOST_PIPE_SELECT_OFFSET)) →
      old = w.dev region offset ∧
      (PVDECIO_ReadRegister hw (plainStorage hw) (some ctx) region offset pipe r.2).1 = new) := by
  intro w0 old new r
  have hr : r = (IMG_SUCCESS, ⟨w0.dev.set region offset new,
      w0.trace ++ [.regRead region offset old, .regWrite region offset new]⟩) := by
    have hm : mask ≠ PVDEC_DEF_REG_MASK := hmask
    simp only [r, PVDECIO_WriteRegister_open hw _ ctx region offset value mask pipe w hinit hcount
      hclk hreg]
    simp [hm, plainStorage, w0, old, new]
  refine ⟨by rw [hr], by rw [hr], by rw [hr], ?_⟩
  intro hsel
  rw [hr, PVDECIO_ReadRegister_open hw _ ctx region offset pipe _ hinit hcount hclk hreg]
  by_cases hp : pipe = PVDEC_DEF_PIPE
  · subst hp
    simp [w0, old, new, pvdecio_SelectPipe_sentinel, plainStorage]
  · have hne : ¬ (region = hw.REGION_PVDEC_CORE_REGSPACE ∧
         offset = hw.PVDEC_CORE_CR_PVDEC_HOST_PIPE_SELECT_OFFSET) := by
      rcases hsel with h | h
      · exact absurd h hp
      · exact h
    simp [w0, old, new, pvdecio_SelectPipe_other _ _ _ _ _ hp, plainStorage,
      RegFile_set_other _ _ _ _ _ _ hne]

/-- C1, witness: a masked write through pipe 2 to region 3, offset 0x10, over
plain storage, read back. -/
theorem C1_masked_write_then_read_witness :
    (ctxOn.bInitialised = true ∧ ctxOn.ui32MemSpaceCount ≠ 0 ∧ ctxOn.bClocks = true ∧
      (0xF0 : Nat) ≠ 0xFFFFFFFF ∧ 3 < sampleHw.REGION_PVDEC_MAX) ∧
    (PVDECIO_ReadRegister sampleHw (plainStorage sampleHw) (some ctxOn) 3 0x10 2
      (PVDECIO_WriteRegister sampleHw (plainStorage sampleHw) (some ctxOn) 3 0x10 5 0xF0 2
        world0).2).1 = 5 :=
  ⟨⟨rfl, by decide, rfl, by decide, by decide⟩,
    ((C1_masked_write_then_read sampleHw ctxOn 3 0x10 5 0xF0 2 world0 rfl (by decide) rfl
      (by decide) (by decide)).2.2.2 (Or.inr (by decide))).2⟩

/-- C1, counterexample. The claim as stated fails when the location written is
the core pipe-select register itself and a pipe is given: on an initialised,
clocked context over plain storage with every register zero, the write of
value 1 with mask 0 through pipe 0 to (core region, pipe-select offset) reads
`old = 0` and stores `(old & ~mask) | value = 1`, yet the following read of
the same (region, offset, pipe) returns 0, the pipe index that the read itself
has just written to the select register. -/
theorem C1_counterexample_pipe_select_register :
    ctxOn.bInitialised = true ∧ ctxOn.bClocks = true ∧ (0 : Nat) ≠ 0xFFFFFFFF ∧
    (PVDECIO_WriteRegister sampleHw (plainStorage sampleHw) (some ctxOn) 1 0x38 1 0 0
      world0).1 = IMG_SUCCESS ∧
    (PVDECIO_WriteRegister sampleHw (plainStorage sampleHw) (some ctxOn) 1 0x38 1 0 0
      world0).2.trace =
      [.regWrite 1 0x38 0, .regRead 1 0x38 0, .regWrite 1 0x38 ((0 &&& not32 0) ||| 1)] ∧
    ((0 &&& not32 0) ||| 1) = 1 ∧
    (PVDECIO_ReadRegister sampleHw (plainStorage sampleHw) (some ctxOn) 1 0x38 0
      (PVDECIO_WriteRegister sampleHw (plainStorage sampleHw) (some ctxOn) 1 0x38 1 0 0
        world0).2).1 = 0 := by
  decide

/-- C2. After `PVDECIO_DisableClocks` has returned on a context (initialised
or not), `PVDECIO_ReadRegister` returns 0 for every region, offset and pipe,
leaves the device untouched and records nothing but diagnostics: no pipe-select
write and no register read. -/
theorem C2_read_after_disable_clocks {σ : Type} (cfg : BuildConfig) (hw : HwDefs) (tal : TAL σ)
    (ctx : PVDECIO_sContext) (region offset pipe : Nat) (w : World σ) :
    let d := PVDECIO_DisableClocks cfg hw tal (some ctx) w
    let r := PVDECIO_ReadRegister hw tal d.2.1 region offset pipe d.2.2
    d.1 = IMG_SUCCESS ∧ r.1 = 0 ∧ r.2.dev = d.2.2.dev ∧
    (∃ diag : List Event, diag.all Event.isDiag = true ∧ r.2.trace = d.2.2.trace ++ diag) ∧
    busEvents r.2.trace = busEvents d.2.2.trace := by
  intro d r
  obtain ⟨diag, hdiag, hrd⟩ := PVDECIO_ReadRegister_closed hw tal
    { ctx with bClocks := false, sMsgContext := { ctx.sMsgContext with bReady := false } }
    region offset pipe d.2.2 (Or.inr rfl)
  have hr : r = (0, ⟨d.2.2.dev, d.2.2.trace ++ diag⟩) := hrd
  refine ⟨rfl, by rw [hr], by rw [hr], ⟨diag, hdiag, by rw [hr]⟩, ?_⟩
  rw [hr]
  simp only [busEvents, List.filter_append]
  have : diag.filter Event.isBus = [] := by
    rw [List.filter_eq_nil_iff]
    intro e he
    have := List.all_eq_true.mp hdiag e he
    cases e <;> simp_all [Event.isDiag, Event.isBus]
  rw [this, List.append_nil]

/-- A bus write call records exactly one event. -/
theorem TALREG_WriteWord32_trace {σ : Type} (hw : HwDefs) (tal : TAL σ) (index offset value : Nat)
    (w : World σ) :
    ∃ e, (TALREG_WriteWord32 hw tal index offset value w).2.trace = w.trace ++ [e] := by
  unfold TALREG_WriteWord32
  split
  · exact ⟨_, rfl⟩
  · exact ⟨_, rfl⟩

/-- A bus read call records exactly one event. -/
theorem TALREG_ReadWord32_trace {σ : Type} (hw : HwDefs) (tal : TAL σ) (index offset dflt : Nat)
    (w : World σ) :
    ∃ e, (TALREG_ReadWord32 hw tal index offset dflt w).2.2.trace = w.trace ++ [e] := by
  unfold TALREG_ReadWord32
  split
  · exact ⟨_, rfl⟩
  · exact ⟨_, rfl⟩

/-- The word-write loop only ever appends to the trace. -/
theorem PVDECIO_VLRWriteWords_loop_trace {σ : Type} (hw : HwDefs) (tal : TAL σ) (region : Nat) :
    ∀ (n addr : Nat) (vals : List Nat) (w : World σ),
      ∃ rest, (PVDECIO_VLRWriteWords.loop hw tal region n addr vals w).2.trace = w.trace ++ rest
  | 0, _, _, w => ⟨[], by simp [PVDECIO_VLRWriteWords.loop]⟩
  | n + 1, addr, vals, w => by
    obtain ⟨e, he⟩ := TALREG_WriteWord32_trace hw tal region addr (vals.headD 0) w
    unfold PVDECIO_VLRWriteWords.loop
    simp only []
    split
    · exact ⟨[e], he⟩
    · obtain ⟨rest, hrest⟩ := PVDECIO_VLRWriteWords_loop_trace hw tal region n
        ((addr + 4) % 2 ^ 32) vals.tail (TALREG_WriteWord32 hw tal region addr (vals.headD 0) w).2
      exact ⟨e :: rest, by rw [hrest, he]; simp⟩

/-- The word-read loop does not depend on the content of the context. -/
theorem PVDECIO_VLRReadWords_loop_ctx {σ : Type} (cfg : BuildConfig) (hw : HwDefs) (tal : TAL σ)
    (ctx ctx' : PVDECIO_sContext) (region : Nat) (bValidate : Bool) :
    ∀ (n addr : Nat) (acc : List Nat) (w : World σ),
      PVDECIO_VLRReadWords.loop cfg hw tal ctx region bValidate n addr acc w =
      PVDECIO_VLRReadWords.loop cfg hw tal ctx' region bValidate n addr acc w
  | 0, _, _, _ => rfl
  | n + 1, addr, acc, w => by
    unfold PVDECIO_VLRReadWords.loop
    simp only [PVDECIO_PDUMPVerifPoll]
    split
    · rfl
    · split
      · split
        · rfl
        · exact PVDECIO_VLRReadWords_loop_ctx cfg hw tal ctx ctx' region bValidate n _ _ _
      · exact PVDECIO_VLRReadWords_loop_ctx cfg hw tal ctx ctx' region bValidate n _ _ _

/-- A bus poll call records exactly one event. -/
theorem TALREG_Poll32_trace {σ : Type} (hw : HwDefs) (tal : TAL σ)
    (index offset f req en cnt tmo : Nat) (w : World σ) :
    ∃ e, (TALREG_Poll32 hw tal index offset f req en cnt tmo w).2.trace = w.trace ++ [e] := by
  unfold TALREG_Poll32
  split
  · exact ⟨_, rfl⟩
  · exact ⟨_, rfl⟩

/-- An assertion only ever appends to the trace. -/
theorem IMG_ASSERT_trace {σ : Type} (c : Bool) (n : Nat) (w : World σ) :
    ∃ rest, (IMG_ASSERT c n w).trace = w.trace ++ rest := by
  cases c
  · exact ⟨[.assertFail n], rfl⟩
  · exact ⟨[], by simp⟩

/-- The verifying poll only ever appends to the trace. -/
theorem PVDECIO_PDUMPVerifPoll_trace {σ : Type} (hw : HwDefs) (tal : TAL σ)
    (ctx : PVDECIO_sContext) (region offset req en : Nat) (w : World σ) :
    ∃ rest, (PVDECIO_PDUMPVerifPoll hw tal (some ctx) region offset req en w).2.trace =
      w.trace ++ rest := by
  obtain ⟨e, he⟩ := TALREG_Poll32_trace hw tal region offset hw.TAL_CHECKFUNC_ISEQUAL req en 5 1 w
  obtain ⟨a, ha⟩ := IMG_ASSERT_trace
    ((TALREG_Poll32 hw tal region offset hw.TAL_CHECKFUNC_ISEQUAL req en 5 1 w).1 == IMG_SUCCESS)
    1168 (TALREG_Poll32 hw tal region offset hw.TAL_CHECKFUNC_ISEQUAL req en 5 1 w).2
  exact ⟨e :: a, by simp only [PVDECIO_PDUMPVerifPoll]; rw [ha, he]; simp⟩

/-- The word-read loop only ever appends to the trace. -/
theorem PVDECIO_VLRReadWords_loop_trace {σ : Type} (cfg : BuildConfig) (hw : HwDefs) (tal : TAL σ)
    (ctx : PVDECIO_sContext) (region : Nat) (bValidate : Bool) :
    ∀ (n addr : Nat) (acc : List Nat) (w : World σ),
      ∃ rest, (PVDECIO_VLRReadWords.loop cfg hw tal ctx region bValidate n addr acc w).2.2.trace =
        w.trace ++ rest
  | 0, _, _, w => ⟨[], by simp [PVDECIO_VLRReadWords.loop]⟩
  | n + 1, addr, acc, w => by
    obtain ⟨e, he⟩ := TALREG_ReadWord32_trace hw tal region addr 0 w
    unfold PVDECIO_VLRReadWords.loop
    simp only []
    split
    · exact ⟨[e], he⟩
    · split
      · obtain ⟨p, hp⟩ := PVDECIO_PDUMPVerifPoll_trace hw tal ctx region addr
          (TALREG_ReadWord32 hw tal region addr 0 w).2.1 0xFFFFFFFF
          (TALREG_ReadWord32 hw tal region addr 0 w).2.2
        split
        · exact ⟨e :: p, by rw [hp, he]; simp⟩
        · obtain ⟨rest, hrest⟩ := PVDECIO_VLRReadWords_loop_trace cfg hw tal ctx region bValidate n
            ((addr + 4) % 2 ^ 32) (acc ++ [(TALREG_ReadWord32 hw tal region addr 0 w).2.1])
            (PVDECIO_PDUMPVerifPoll hw tal (some ctx) region addr
              (TALREG_ReadWord32 hw tal region addr 0 w).2.1 0xFFFFFFFF
              (TALREG_ReadWord32 hw tal region addr 0 w).2.2).2
          exact ⟨e :: (p ++ rest), by rw [hrest, hp, he]; simp⟩
      · obtain ⟨rest, hrest⟩ := PVDECIO_VLRReadWords_loop_trace cfg hw tal ctx region bValidate n
          ((addr + 4) % 2 ^ 32) (acc ++ [(TALREG_ReadWord32 hw tal region addr 0 w).2.1])
          (TALREG_ReadWord32 hw tal region addr 0 w).2.2
        exact ⟨e :: rest, by rw [hrest, he]; simp⟩

/-- Diagnostics are no bus transactions. -/
theorem busEvents_diag (d : List Event) (h : d.all Event.isDiag = true) : busEvents d = [] := by
  unfold busEvents
  rw [List.filter_eq_nil_iff]
  intro e he
  have := List.all_eq_true.mp h e he
  cases e <;> simp_all [Event.isDiag, Event.isBus]

/-- The bus transactions of a concatenation. -/
theorem busEvents_append (a b : List Event) : busEvents (a ++ b) = busEvents a ++ busEvents b := by
  simp [busEvents]

/-- Appending diagnostics adds no bus transaction. -/
theorem busEvents_append_diag (a d : List Event) (h : d.all Event.isDiag = true) :
    busEvents (a ++ d) = busEvents a := by
  rw [busEvents_append, busEvents_diag d h, List.append_nil]

/-- With valid arguments the word write starts with a bus write of the first word. -/
theorem PVDECIO_VLRWriteWords_valid {σ : Type} (hw : HwDefs) (tal : TAL σ)
    (ctx : PVDECIO_sContext) (region addr m : Nat) (vals : List Nat) (w : World σ)
    (hreg : region < hw.REGION_PVDEC_MAX) (hal : addr &&& 0x3 = 0) :
    PVDECIO_VLRWriteWords hw tal (some ctx) region addr (m + 1) (some vals) w =
      let r := tal.WriteWord32 w.dev region addr (vals.headD 0)
      let w1 : World σ := ⟨r.2, w.trace ++ [.regWrite region addr (vals.headD 0)]⟩
      if r.1 != IMG_SUCCESS then (r.1, w1)
      else PVDECIO_VLRWriteWords.loop hw tal region m ((addr + 4) % 2 ^ 32) vals.tail w1 := by
  simp [PVDECIO_VLRWriteWords, hal, PVDECIO_VLRWriteWords.loop, TALREG_WriteWord32, pahMemSpace,
    hreg]

/-- The word-read loop with a word left and a region inside the table starts with a bus read. -/
theorem PVDECIO_VLRReadWords_loop_first {σ : Type} (cfg : BuildConfig) (hw : HwDefs) (tal : TAL σ)
    (ctx : PVDECIO_sContext) (region addr m : Nat) (acc : List Nat) (bValidate : Bool)
    (w : World σ) (hreg : region < hw.REGION_PVDEC_MAX) :
    ∃ rest, (PVDECIO_VLRReadWords.loop cfg hw tal ctx region bValidate (m + 1) addr acc w).2.2.trace =
      w.trace ++ Event.regRead region addr (tal.ReadWord32 w.dev region addr).2.1 :: rest := by
  have hloop := PVDECIO_VLRReadWords_loop_trace cfg hw tal ctx region bValidate
  have he : (TALREG_ReadWord32 hw tal region addr 0 w).2.2.trace =
      w.trace ++ [.regRead region addr (tal.ReadWord32 w.dev region addr).2.1] := by
    simp [TALREG_ReadWord32, pahMemSpace, hreg]
  unfold PVDECIO_VLRReadWords.loop
  simp only []
  split
  · exact ⟨[], by rw [he]⟩
  · split
    · obtain ⟨p, hp⟩ := PVDECIO_PDUMPVerifPoll_trace hw tal ctx region addr
        (TALREG_ReadWord32 hw tal region addr 0 w).2.1 0xFFFFFFFF
        (TALREG_ReadWord32 hw tal region addr 0 w).2.2
      split
      · exact ⟨p, by rw [hp, he]; simp⟩
      · obtain ⟨rest, hrest⟩ := hloop m ((addr + 4) % 2 ^ 32)
          (acc ++ [(TALREG_ReadWord32 hw tal region addr 0 w).2.1])
          (PVDECIO_PDUMPVerifPoll hw tal (some ctx) region addr
            (TALREG_ReadWord32 hw tal region addr 0 w).2.1 0xFFFFFFFF
            (TALREG_ReadWord32 hw tal region addr 0 w).2.2).2
        exact ⟨p ++ rest, by rw [hrest, hp, he]; simp⟩
    · obtain ⟨rest, hrest⟩ := hloop m ((addr + 4) % 2 ^ 32)
        (acc ++ [(TALREG_ReadWord32 hw tal region addr 0 w).2.1])
        (TALREG_ReadWord32 hw tal region addr 0 w).2.2
      exact ⟨rest, by rw [hrest, he]; simp⟩

/-- With valid arguments the word read starts with a bus read of the first word. -/
theorem PVDECIO_VLRReadWords_valid {σ : Type} (cfg : BuildConfig) (hw : HwDefs) (tal : TAL σ)
    (ctx : PVDECIO_sContext) (region addr m : Nat) (buf : List Nat) (bValidate : Bool)
    (w : World σ) (hreg : region < hw.REGION_PVDEC_MAX) (hal : addr &&& 0x3 = 0) :
    ∃ rest, (PVDECIO_VLRReadWords cfg hw tal (some ctx) region addr (m + 1) (some buf) bValidate
        w).2.2.trace =
      w.trace ++ Event.regRead region addr (tal.ReadWord32 w.dev region addr).2.1 :: rest := by
  have h : (PVDECIO_VLRReadWords cfg hw tal (some ctx) region addr (m + 1) (some buf) bValidate
      w).2.2 = (PVDECIO_VLRReadWords.loop cfg hw tal ctx region bValidate (m + 1) addr [] w).2.2 := by
    simp [PVDECIO_VLRReadWords, hal]
  rw [h]
  exact PVDECIO_VLRReadWords_loop_first cfg hw tal ctx region addr m [] bValidate w hreg


/-- A value that fits a well-formed field is read back from the word it was written into. -/
theorem REGIO_field_roundtrip (f : Field) (len v : Nat) (hf : f.WellFormed len) (hv : v < 2 ^ len) :
    REGIO_READ_FIELD (REGIO_WRITE_FIELD 0 f v) f = v := by
  obtain ⟨hm, _⟩ := hf
  apply Nat.eq_of_testBit_eq
  intro i
  simp only [REGIO_READ_FIELD, REGIO_WRITE_FIELD, hm, Nat.testBit_shiftRight, Nat.testBit_and,
    Nat.testBit_or, Nat.testBit_shiftLeft, Nat.testBit_two_pow_sub_one, Nat.zero_and,
    Nat.zero_testBit, Bool.false_or, Nat.add_sub_cancel_left, Nat.le_add_right, decide_True,
    Bool.true_and]
  by_cases hi : i < len
  · simp [hi]
  · have : v.testBit i = false := by
      apply Nat.testBit_lt_two_pow
      exact lt_of_lt_of_le hv (Nat.pow_le_pow_right (by decide) (Nat.not_lt.mp hi))
    simp [this]

/-- The bits of the complement of a 32-bit word. -/
theorem not32_testBit (x i : Nat) : (not32 x).testBit i = (decide (i < 32) && !x.testBit i) := by
  unfold not32
  have h : (0xFFFFFFFF : Nat) = 2 ^ 32 - 1 := by norm_num
  rw [h, Nat.testBit_xor, Nat.testBit_two_pow_sub_one, Nat.testBit_mod_two_pow]
  by_cases hi : i < 32 <;> simp [hi]

/-- The only bit of `1 <<< s` is bit `s`. -/
theorem testBit_one_shift (i s : Nat) :
    (decide (i ≥ s) && Nat.testBit 1 (i - s)) = decide (i = s) := by
  by_cases h : i = s
  · subst h; simp
  · rcases Nat.lt_or_gt_of_ne h with hlt | hgt
    · have : ¬ i ≥ s := Nat.not_le.mpr hlt
      simp [this, h]
    · have h0 : i - s ≠ 0 := Nat.sub_ne_zero_of_lt hgt
      have : Nat.testBit 1 (i - s) = false := by
        cases hb : Nat.testBit 1 (i - s)
        · rfl
        · exact absurd (Nat.testBit_one_eq_true_iff_self_eq_zero.mp hb) h0
      simp [this, h]

/-- With one-bit clock fields, the core-only value has the register-clock and core-clock enable bits set and no other bit. -/
theorem coreClocks_bits (hw : HwDefs)
    (hr : hw.PVDEC_CORE_CR_PVDEC_MAN_CLK_ENABLE_CR_PVDEC_REG_MAN_CLK_ENABLE.WellFormed 1)
    (hc : hw.PVDEC_CORE_CR_PVDEC_MAN_CLK_ENABLE_CR_CORE_MAN_CLK_ENABLE.WellFormed 1) (i : Nat) :
    (coreClocks hw).testBit i =
      decide (i = hw.PVDEC_CORE_CR_PVDEC_MAN_CLK_ENABLE_CR_PVDEC_REG_MAN_CLK_ENABLE.SHIFT ∨
        i = hw.PVDEC_CORE_CR_PVDEC_MAN_CLK_ENABLE_CR_CORE_MAN_CLK_ENABLE.SHIFT) := by
  obtain ⟨hrm, hrs⟩ := hr
  obtain ⟨hcm, hcs⟩ := hc
  simp only [coreClocks, REGIO_WRITE_FIELD, hrm, hcm, Nat.testBit_and, Nat.testBit_or,
    not32_testBit, Nat.testBit_shiftLeft, Nat.zero_and, Nat.zero_testBit, Bool.false_or]
  simp only [Nat.pow_one, Nat.reduceSub, testBit_one_shift]
  generalize hw.PVDEC_CORE_CR_PVDEC_MAN_CLK_ENABLE_CR_PVDEC_REG_MAN_CLK_ENABLE.SHIFT = a at *
  generalize hw.PVDEC_CORE_CR_PVDEC_MAN_CLK_ENABLE_CR_CORE_MAN_CLK_ENABLE.SHIFT = b at *
  by_cases h1 : i = a <;> by_cases h2 : i = b <;> simp [h1, h2]
  all_goals omega

/-! ## Claim C4: which operations the gate covers -/

/-- C4 (as amended). `PVDECIO_ReadRegister` and `PVDECIO_WriteRegister` make
no bus transaction while the context is uninitialised or its clock flag is
false. `PVDECIO_VLRWriteWords`, `PVDECIO_VLRReadWords`, `PVDECIO_Poll` and
`PVDECIO_KickMTX` do not consult the context: their outcome is the same for
any two non-null contexts, and with valid arguments they start with (or
consist of) a bus transaction whatever the flags are. -/
theorem C4_gate_covers_register_access_only {σ : Type} (cfg : BuildConfig) (hw : HwDefs) (tal : TAL σ)
    (ctx ctx' : PVDECIO_sContext) (w : World σ) :
    (∀ region offset pipe, (ctx.bInitialised = false ∨ ctx.bClocks = false) →
      (PVDECIO_ReadRegister hw tal (some ctx) region offset pipe w).2.dev = w.dev ∧
      busEvents (PVDECIO_ReadRegister hw tal (some ctx) region offset pipe w).2.trace =
        busEvents w.trace) ∧
    (∀ region offset value mask pipe, (ctx.bInitialised = false ∨ ctx.bClocks = false) →
      (PVDECIO_WriteRegister hw tal (some ctx) region offset value mask pipe w).2.dev = w.dev ∧
      busEvents (PVDECIO_WriteRegister hw tal (some ctx) region offset value mask pipe w).2.trace =
        busEvents w.trace) ∧
    (∀ region addr n vals,
      PVDECIO_VLRWriteWords hw tal (some ctx) region addr n vals w =
        PVDECIO_VLRWriteWords hw tal (some ctx') region addr n vals w) ∧
    (∀ region addr n buf bValidate,
      PVDECIO_VLRReadWords cfg hw tal (some ctx) region addr n buf bValidate w =
        PVDECIO_VLRReadWords cfg hw tal (some ctx') region addr n buf bValidate w) ∧
    (∀ region offset req en mode,
      PVDECIO_Poll cfg hw tal (some ctx) region offset req en mode w =
        PVDECIO_Poll cfg hw tal (some ctx') region offset req en mode w) ∧
    PVDECIO_KickMTX hw tal (some ctx) w = PVDECIO_KickMTX hw tal (some ctx') w ∧
    (∀ region addr n vals, region < hw.REGION_PVDEC_MAX → addr &&& 0x3 = 0 → n ≠ 0 →
      ∃ rest, (PVDECIO_VLRWriteWords hw tal (some ctx) region addr n (some vals) w).2.trace =
        w.trace ++ Event.regWrite region addr (vals.headD 0) :: rest) ∧
    (∀ region addr n buf bValidate, region < hw.REGION_PVDEC_MAX → addr &&& 0x3 = 0 → n ≠ 0 →
      ∃ v rest,
        (PVDECIO_VLRReadWords cfg hw tal (some ctx) region addr n (some buf) bValidate w).2.2.trace =
          w.trace ++ Event.regRead region addr v :: rest) ∧
    (∀ region offset req en, region < hw.REGION_PVDEC_MAX →
      ∃ rest, (PVDECIO_Poll cfg hw tal (some ctx) region offset req en .VXDIO_POLL_EQUAL w).2.trace =
        w.trace ++ Event.regPoll region offset :: rest) ∧
    (PVDECIO_KickMTX hw tal (some ctx) w).trace =
      w.trace ++ [Event.regWrite hw.REGION_PVDEC_MTX_CORE_REGSPACE hw.MTX_CORE_CR_MTX_KICKI_OFFSET
        (REGIO_WRITE_FIELD 0 hw.MTX_CORE_CR_MTX_KICKI_MTX_KICKI 1)] := by
  refine ⟨?_, ?_, ?_, ?_, ?_, rfl, ?_, ?_, ?_, ?_⟩
  · intro region offset pipe hoff
    obtain ⟨d, hd, hr⟩ := PVDECIO_ReadRegister_closed hw tal ctx region offset pipe w hoff
    rw [hr]
    exact ⟨rfl, busEvents_append_diag _ _ hd⟩
  · intro region offset value mask pipe hoff
    obtain ⟨d, hd, hr⟩ := PVDECIO_WriteRegister_closed hw tal ctx region offset value mask pipe w hoff
    rw [hr]
    exact ⟨rfl, busEvents_append_diag _ _ hd⟩
  · intro region addr n vals
    rfl
  · intro region addr n buf bValidate
    simp only [PVDECIO_VLRReadWords]
    rw [PVDECIO_VLRReadWords_loop_ctx cfg hw tal ctx ctx']
  · intro region offset req en mode
    rfl
  · intro region addr n vals hreg hal hn
    obtain ⟨m, rfl⟩ := Nat.exists_eq_succ_of_ne_zero hn
    rw [PVDECIO_VLRWriteWords_valid hw tal ctx region addr m vals w hreg hal]
    simp only []
    split
    · exact ⟨[], by simp⟩
    · obtain ⟨rest, hrest⟩ := PVDECIO_VLRWriteWords_loop_trace hw tal region m
        ((addr + 4) % 2 ^ 32) vals.tail
        ⟨(tal.WriteWord32 w.dev region addr (vals.headD 0)).2,
          w.trace ++ [.regWrite region addr (vals.headD 0)]⟩
      exact ⟨rest, by rw [hrest]; simp⟩
  · intro region addr n buf bValidate hreg hal hn
    obtain ⟨m, rfl⟩ := Nat.exists_eq_succ_of_ne_zero hn
    exact ⟨_, PVDECIO_VLRReadWords_valid cfg hw tal ctx region addr m buf bValidate w hreg hal⟩
  · intro region offset req en hreg
    have hge : ¬ region ≥ hw.REGION_PVDEC_MAX := Nat.not_le.mpr hreg
    obtain ⟨a, ha⟩ := IMG_ASSERT_trace
      ((tal.Poll32 w.dev region offset hw.TAL_CHECKFUNC_ISEQUAL req en 100000 100).1 == IMG_SUCCESS
        || (tal.Poll32 w.dev region offset hw.TAL_CHECKFUNC_ISEQUAL req en 100000 100).1
          == IMG_ERROR_TIMEOUT) 679
      ⟨(tal.Poll32 w.dev region offset hw.TAL_CHECKFUNC_ISEQUAL req en 100000 100).2,
        w.trace ++ [.regPoll region offset]⟩
    refine ⟨a, ?_⟩
    simp only [PVDECIO_Poll, hge, TALREG_Poll32, pahMemSpace, hreg, ↓reduceIte]
    rw [ha]; simp
  · simp [PVDECIO_KickMTX, TALREG_WriteWord32, pahMemSpace]

/-- C4, witness: the gate on a read with the clock flag off, and the kick on
the same context. -/
theorem C4_gate_covers_register_access_only_witness :
    (ctxOff.bInitialised = false ∨ ctxOff.bClocks = false) ∧
    busEvents (PVDECIO_ReadRegister sampleHw (plainStorage sampleHw) (some ctxOff) 1 0x40 0xFF
      world0).2.trace = busEvents world0.trace ∧
    (PVDECIO_KickMTX sampleHw (plainStorage sampleHw) (some ctxOff) world0).trace =
      world0.trace ++ [Event.regWrite sampleHw.REGION_PVDEC_MTX_CORE_REGSPACE
        sampleHw.MTX_CORE_CR_MTX_KICKI_OFFSET
        (REGIO_WRITE_FIELD 0 sampleHw.MTX_CORE_CR_MTX_KICKI_MTX_KICKI 1)] :=
  ⟨Or.inr rfl,
    ((C4_gate_covers_register_access_only defaultBuild sampleHw (plainStorage sampleHw) ctxOff
      ctxOn world0).1 1 0x40 0xFF (Or.inr rfl)).2,
    (C4_gate_covers_register_access_only defaultBuild sampleHw (plainStorage sampleHw) ctxOff
      ctxOn world0).2.2.2.2.2.2.2.2.2⟩

/-- C4, counterexample. On a context that is not initialised and whose clock
flag is false, `PVDECIO_KickMTX` writes the kick register,
`PVDECIO_VLRWriteWords` writes its two words, `PVDECIO_VLRReadWords` reads its
word and `PVDECIO_Poll` polls: each issues bus transactions, which the claim
says never happens. -/
theorem C4_counterexample_ungated_operations :
    ctxUninit.bInitialised = false ∧ ctxUninit.bClocks = false ∧
    (PVDECIO_KickMTX sampleHw (plainStorage sampleHw) (some ctxUninit) world0).trace =
      [.regWrite 5 0x88 1] ∧
    (PVDECIO_VLRWriteWords sampleHw (plainStorage sampleHw) (some ctxUninit) 13 0 2 (some [7, 9])
      world0).2.trace = [.regWrite 13 0 7, .regWrite 13 4 9] ∧
    (PVDECIO_VLRReadWords defaultBuild sampleHw (plainStorage sampleHw) (some ctxUninit) 13 0 1
      (some [0]) false world0).2.2.trace = [.regRead 13 0 0] ∧
    (PVDECIO_Poll defaultBuild sampleHw (plainStorage sampleHw) (some ctxUninit) 1 0x10 0 0
      .VXDIO_POLL_EQUAL world0).2.trace = [.regPoll 1 0x10] := by
  decide

/-! ## Claim C5: the pipe selector -/

/-- The bus transactions of the pipe selection: none for the sentinel, one
write of the select register otherwise. -/
theorem pvdecio_SelectPipe_busEvents {σ : Type} (hw : HwDefs) (tal : TAL σ)
    (ctx : PVDECIO_sContext) (pipe : Nat) (w : World σ) :
    busEvents (pvdecio_SelectPipe hw tal ctx pipe w).trace =
      busEvents w.trace ++
        (if pipe = PVDEC_DEF_PIPE then []
         else [.regWrite hw.REGION_PVDEC_CORE_REGSPACE
           hw.PVDEC_CORE_CR_PVDEC_HOST_PIPE_SELECT_OFFSET
           (REGIO_WRITE_FIELD 0 hw.PVDEC_CORE_CR_PVDEC_HOST_PIPE_SELECT_CR_PVDEC_HOST_PIPE_SELECT
             pipe)]) := by
  by_cases hp : pipe = PVDEC_DEF_PIPE
  · subst hp
    simp [pvdecio_SelectPipe_sentinel]
  · rw [pvdecio_SelectPipe_other hw tal ctx pipe w hp]
    by_cases h8 : pipe < 8 <;>
    simp [hp, h8, busEvents, World.log, List.filter_append, Event.isBus]

/-- Pipe selection with a pipe below 8 records the select write and nothing
else. -/
theorem pvdecio_SelectPipe_lt8 {σ : Type} (hw : HwDefs) (tal : TAL σ)
    (ctx : PVDECIO_sContext) (pipe : Nat) (w : World σ) (h8 : pipe < 8) :
    (pvdecio_SelectPipe hw tal ctx pipe w).trace =
      w.trace ++ [.regWrite hw.REGION_PVDEC_CORE_REGSPACE
        hw.PVDEC_CORE_CR_PVDEC_HOST_PIPE_SELECT_OFFSET
        (REGIO_WRITE_FIELD 0 hw.PVDEC_CORE_CR_PVDEC_HOST_PIPE_SELECT_CR_PVDEC_HOST_PIPE_SELECT
          pipe)] := by
  have hp : pipe ≠ PVDEC_DEF_PIPE := by
    intro h; rw [h] at h8; exact absurd h8 (by decide)
  rw [pvdecio_SelectPipe_other hw tal ctx pipe w hp]
  simp [h8]

/-- C5. On an initialised, clocked context, for a region inside the table, a
register read or write with the sentinel pipe 0xFF records no pipe-select
write before its target access, and with a pipe in [0, 8) it records exactly
one write of the pipe index (as the select field) to the core pipe-select
register, placed before the target access; the target access is one bus read
for a read, and for a write either one bus write or a bus read followed by a
bus write. `pvdecio_SelectPipe` makes no bus transaction if and only if the
pipe is the sentinel. The word written holds the pipe index in the select
field whenever the field is wide enough for it. -/
theorem C5_pipe_select_before_access {σ : Type} (hw : HwDefs) (tal : TAL σ)
    (ctx : PVDECIO_sContext) (region offset value mask pipe : Nat) (w : World σ)
    (hinit : ctx.bInitialised = true) (hcount : ctx.ui32MemSpaceCount ≠ 0)
    (hclk : ctx.bClocks = true) (hreg : region < hw.REGION_PVDEC_MAX) :
    let selWord := REGIO_WRITE_FIELD 0
      hw.PVDEC_CORE_CR_PVDEC_HOST_PIPE_SELECT_CR_PVDEC_HOST_PIPE_SELECT pipe
    let sel : List Event :=
      if pipe = PVDEC_DEF_PIPE then []
      else [.regWrite hw.REGION_PVDEC_CORE_REGSPACE
        hw.PVDEC_CORE_CR_PVDEC_HOST_PIPE_SELECT_OFFSET selWord]
    ((pipe = PVDEC_DEF_PIPE ∨ pipe < 8) →
      (∃ v, (PVDECIO_ReadRegister hw tal (some ctx) region offset pipe w).2.trace =
        w.trace ++ sel ++ [.regRead region offset v]) ∧
      (∃ old, (PVDECIO_WriteRegister hw tal (some ctx) region offset value mask pipe w).2.trace =
        w.trace ++ sel ++
          (if mask = PVDEC_DEF_REG_MASK then [.regWrite region offset value]
           else [.regRead region offset old,
             .regWrite region offset ((old &&& not32 mask) ||| value)]))) ∧
    (busEvents (pvdecio_SelectPipe hw tal ctx pipe w).trace = busEvents w.trace ↔
      pipe = PVDEC_DEF_PIPE) ∧
    (∀ len, hw.PVDEC_CORE_CR_PVDEC_HOST_PIPE_SELECT_CR_PVDEC_HOST_PIPE_SELECT.WellFormed len →
      pipe < 2 ^ len →
      REGIO_READ_FIELD selWord
        hw.PVDEC_CORE_CR_PVDEC_HOST_PIPE_SELECT_CR_PVDEC_HOST_PIPE_SELECT = pipe) := by
  intro selWord sel
  refine ⟨?_, ?_, ?_⟩
  · intro hpipe
    have hsel : (pvdecio_SelectPipe hw tal ctx pipe w).trace = w.trace ++ sel := by
      rcases hpipe with hp | h8
      · subst hp
        simp [pvdecio_SelectPipe_sentinel, sel]
      · have hp : pipe ≠ PVDEC_DEF_PIPE := by
          intro h; rw [h] at h8; exact absurd h8 (by decide)
        rw [pvdecio_SelectPipe_lt8 hw tal ctx pipe w h8]
        simp [sel, hp, selWord]
    constructor
    · rw [PVDECIO_ReadRegister_open hw tal ctx region offset pipe w hinit hcount hclk hreg]
      exact ⟨_, by simp only [hsel]; rfl⟩
    · rw [PVDECIO_WriteRegister_open hw tal ctx region offset value mask pipe w hinit hcount hclk
        hreg]
      by_cases hm : mask = PVDEC_DEF_REG_MASK
      · exact ⟨0, by simp [hm, hsel]⟩
      · exact ⟨_, by simp only [hm, ne_eq, not_false_eq_true, ↓reduceIte, hsel]; rfl⟩
  · rw [pvdecio_SelectPipe_busEvents]
    by_cases hp : pipe = PVDEC_DEF_PIPE <;> simp [hp]
  · intro len hwf hlt
    exact REGIO_field_roundtrip _ len pipe hwf hlt

/-- C5, witness: a read through pipe 3 of region 3, offset 0x10. -/
theorem C5_pipe_select_before_access_witness :
    (ctxOn.bInitialised = true ∧ ctxOn.ui32MemSpaceCount ≠ 0 ∧ ctxOn.bClocks = true ∧
      3 < sampleHw.REGION_PVDEC_MAX ∧ ((3 : Nat) = PVDEC_DEF_PIPE ∨ 3 < 8)) ∧
    ∃ v, (PVDECIO_ReadRegister sampleHw (plainStorage sampleHw) (some ctxOn) 3 0x10 3
        world0).2.trace =
      world0.trace ++
        (if (3 : Nat) = PVDEC_DEF_PIPE then []
         else [.regWrite sampleHw.REGION_PVDEC_CORE_REGSPACE
           sampleHw.PVDEC_CORE_CR_PVDEC_HOST_PIPE_SELECT_OFFSET
           (REGIO_WRITE_FIELD 0
             sampleHw.PVDEC_CORE_CR_PVDEC_HOST_PIPE_SELECT_CR_PVDEC_HOST_PIPE_SELECT 3)]) ++
        [.regRead 3 0x10 v] :=
  ⟨⟨rfl, by decide, rfl, by decide, Or.inr (by decide)⟩,
    ((C5_pipe_select_before_access sampleHw (plainStorage sampleHw) ctxOn 3 0x10 0 0 3 world0 rfl
      (by decide) rfl (by decide)).1 (Or.inr (by decide))).1⟩

/-! ## Lemmas on the clock controller -/

/-- The three accesses of `pvdecio_SetClocks` when the block runs and the gate
is open: write of the core-only value, read back (with the equality
assertion), write of the requested value. -/
theorem pvdecio_SetClocks_open {σ : Type} (cfg : BuildConfig) (hw : HwDefs) (tal : TAL σ)
    (ctx : PVDECIO_sContext) (req : Nat) (w : World σ)
    (hinit : ctx.bInitialised = true) (hcount : ctx.ui32MemSpaceCount ≠ 0)
    (hclk : ctx.bClocks = true) (hbyp : CHECK_IO_BYPASS cfg ctx false = true) :
    pvdecio_SetClocks cfg hw tal ctx req w =
      let R : Nat := hw.REGION_PVDEC_CORE_REGSPACE
      let o := hw.PVDEC_CORE_CR_PVDEC_MAN_CLK_ENABLE_OFFSET
      let rd := tal.ReadWord32 (tal.WriteWord32 w.dev R o (coreClocks hw)).2 R o
      let w3 := IMG_ASSERT (rd.2.1 == coreClocks hw) 610
        ⟨rd.2.2, w.trace ++ [.regWrite R o (coreClocks hw), .regRead R o rd.2.1]⟩
      ⟨(tal.WriteWord32 rd.2.2 R o req).2, w3.trace ++ [.regWrite R o req]⟩ := by
  have hc := core_lt hw
  simp only [pvdecio_SetClocks, hbyp, PVDEC_CORE_WriteRegister, PVDEC_CORE_ReadRegister,
    PVDECIO_WriteRegister_open hw tal ctx _ _ _ _ _ _ hinit hcount hclk hc,
    PVDECIO_ReadRegister_open hw tal ctx _ _ _ _ hinit hcount hclk hc,
    pvdecio_SelectPipe_sentinel]
  simp

/-- When the guard `CHECK_IO_BYPASS(IMG_FALSE)` fails, the block of
`pvdecio_SetClocks` is skipped. -/
theorem pvdecio_SetClocks_bypassed {σ : Type} (cfg : BuildConfig) (hw : HwDefs) (tal : TAL σ)
    (ctx : PVDECIO_sContext) (req : Nat) (w : World σ)
    (hbyp : CHECK_IO_BYPASS cfg ctx false = false) :
    pvdecio_SetClocks cfg hw tal ctx req w = w := by
  simp [pvdecio_SetClocks, hbyp]

/-- With the gate closed, `pvdecio_SetClocks` leaves the device untouched and
records nothing but diagnostics. -/
theorem pvdecio_SetClocks_closed {σ : Type} (cfg : BuildConfig) (hw : HwDefs) (tal : TAL σ)
    (ctx : PVDECIO_sContext) (req : Nat) (w : World σ)
    (hoff : ctx.bInitialised = false ∨ ctx.bClocks = false) :
    ∃ d : List Event, d.all Event.isDiag = true ∧
      pvdecio_SetClocks cfg hw tal ctx req w = ⟨w.dev, w.trace ++ d⟩ := by
  by_cases hbyp : CHECK_IO_BYPASS cfg ctx false = true
  · obtain ⟨d1, hd1, h1⟩ := PVDECIO_WriteRegister_closed hw tal ctx
      hw.REGION_PVDEC_CORE_REGSPACE hw.PVDEC_CORE_CR_PVDEC_MAN_CLK_ENABLE_OFFSET (coreClocks hw)
      PVDEC_DEF_REG_MASK PVDEC_DEF_PIPE w hoff
    obtain ⟨d2, hd2, h2⟩ := PVDECIO_ReadRegister_closed hw tal ctx
      hw.REGION_PVDEC_CORE_REGSPACE hw.PVDEC_CORE_CR_PVDEC_MAN_CLK_ENABLE_OFFSET
      PVDEC_DEF_PIPE ⟨w.dev, w.trace ++ d1⟩ hoff
    obtain ⟨d3, hd3, h3⟩ := PVDECIO_WriteRegister_closed hw tal ctx
      hw.REGION_PVDEC_CORE_REGSPACE hw.PVDEC_CORE_CR_PVDEC_MAN_CLK_ENABLE_OFFSET req
      PVDEC_DEF_REG_MASK PVDEC_DEF_PIPE
      (IMG_ASSERT ((0 : Nat) == coreClocks hw) 610 ⟨w.dev, w.trace ++ d1 ++ d2⟩) hoff
    simp only [pvdecio_SetClocks, hbyp, PVDEC_CORE_WriteRegister, PVDEC_CORE_ReadRegister, h1, h2,
      ↓reduceIte, h3, IMG_ASSERT_dev]
    cases hz : ((0 : Nat) == coreClocks hw)
    · refine ⟨d1 ++ d2 ++ [.assertFail 610] ++ d3, ?_, ?_⟩
      · simp [List.all_append, hd1, hd2, hd3, Event.isDiag]
      · simp [World.log]
    · refine ⟨d1 ++ d2 ++ d3, ?_, ?_⟩
      · simp [List.all_append, hd1, hd2, hd3]
      · simp
  · have hb : CHECK_IO_BYPASS cfg ctx false = false := by simpa using hbyp
    exact ⟨[], rfl, by simp [pvdecio_SetClocks_bypassed cfg hw tal ctx req w hb]⟩

/-- With the flags on and the block not bypassed, the last event of
`pvdecio_SetClocks` is the write of the requested value to the clock-enable
register. -/
theorem pvdecio_SetClocks_last {σ : Type} (cfg : BuildConfig) (hw : HwDefs) (tal : TAL σ)
    (ctx : PVDECIO_sContext) (req : Nat) (w : World σ)
    (hinit : ctx.bInitialised = true) (hclk : ctx.bClocks = true)
    (hbyp : CHECK_IO_BYPASS cfg ctx false = true) :
    (pvdecio_SetClocks cfg hw tal ctx req w).trace.getLast? =
      some (.regWrite hw.REGION_PVDEC_CORE_REGSPACE
        hw.PVDEC_CORE_CR_PVDEC_MAN_CLK_ENABLE_OFFSET req) := by
  have hc := core_lt hw
  simp [pvdecio_SetClocks, hbyp, PVDEC_CORE_WriteRegister, PVDECIO_WriteRegister, hinit, hclk,
    PVDEC_DEF_REG_MASK, pvdecio_SelectPipe, PVDEC_DEF_PIPE, TALREG_WriteWord32, pahMemSpace, hc]

/-- The trace of `pvdecio_SetClocks` when the block runs and the gate is open;
the assertion on the read-back fails exactly when the word read differs from
the core-only value. -/
theorem pvdecio_SetClocks_open_trace {σ : Type} (cfg : BuildConfig) (hw : HwDefs) (tal : TAL σ)
    (ctx : PVDECIO_sContext) (req : Nat) (w : World σ)
    (hinit : ctx.bInitialised = true) (hcount : ctx.ui32MemSpaceCount ≠ 0)
    (hclk : ctx.bClocks = true) (hbyp : CHECK_IO_BYPASS cfg ctx false = true) :
    (pvdecio_SetClocks cfg hw tal ctx req w).trace =
      w.trace ++
        [.regWrite hw.REGION_PVDEC_CORE_REGSPACE hw.PVDEC_CORE_CR_PVDEC_MAN_CLK_ENABLE_OFFSET
            (coreClocks hw),
          .regRead hw.REGION_PVDEC_CORE_REGSPACE hw.PVDEC_CORE_CR_PVDEC_MAN_CLK_ENABLE_OFFSET
            (tal.ReadWord32 (tal.WriteWord32 w.dev hw.REGION_PVDEC_CORE_REGSPACE
              hw.PVDEC_CORE_CR_PVDEC_MAN_CLK_ENABLE_OFFSET (coreClocks hw)).2
              hw.REGION_PVDEC_CORE_REGSPACE hw.PVDEC_CORE_CR_PVDEC_MAN_CLK_ENABLE_OFFSET).2.1] ++
        (if (tal.ReadWord32 (tal.WriteWord32 w.dev hw.REGION_PVDEC_CORE_REGSPACE
              hw.PVDEC_CORE_CR_PVDEC_MAN_CLK_ENABLE_OFFSET (coreClocks hw)).2
              hw.REGION_PVDEC_CORE_REGSPACE hw.PVDEC_CORE_CR_PVDEC_MAN_CLK_ENABLE_OFFSET).2.1 =
            coreClocks hw then [] else [.assertFail 610]) ++
        [.regWrite hw.REGION_PVDEC_CORE_REGSPACE hw.PVDEC_CORE_CR_PVDEC_MAN_CLK_ENABLE_OFFSET
          req] := by
  rw [pvdecio_SetClocks_open cfg hw tal ctx req w hinit hcount hclk hbyp]
  simp only []
  by_cases hv : (tal.ReadWord32 (tal.WriteWord32 w.dev hw.REGION_PVDEC_CORE_REGSPACE
      hw.PVDEC_CORE_CR_PVDEC_MAN_CLK_ENABLE_OFFSET (coreClocks hw)).2
      hw.REGION_PVDEC_CORE_REGSPACE hw.PVDEC_CORE_CR_PVDEC_MAN_CLK_ENABLE_OFFSET).2.1 =
      coreClocks hw
  · simp [hv]
  · have hb : ((tal.ReadWord32 (tal.WriteWord32 w.dev hw.REGION_PVDEC_CORE_REGSPACE
      hw.PVDEC_CORE_CR_PVDEC_MAN_CLK_ENABLE_OFFSET (coreClocks hw)).2
      hw.REGION_PVDEC_CORE_REGSPACE hw.PVDEC_CORE_CR_PVDEC_MAN_CLK_ENABLE_OFFSET).2.1 ==
      coreClocks hw) = false := by simpa using hv
    simp [hv, hb, World.log]

/-! ## Claims C6 to C10: the clock controller -/

/-- C6, where it holds. `PVDECIO_EnableCoreClocks` and
`PVDECIO_EnableCoreAndProcClocks` set the clock flag before they call
`pvdecio_SetClocks`: on an initialised context whose block is not bypassed,
whatever the flag was on entry, the store of the flag comes first and the
clock-enable accesses follow and reach the bus. -/
theorem enable_operations_store_flag_first {σ : Type} (cfg : BuildConfig) (hw : HwDefs)
    (tal : TAL σ) (ctx : PVDECIO_sContext) (w : World σ)
    (hinit : ctx.bInitialised = true) (hcount : ctx.ui32MemSpaceCount ≠ 0)
    (hbyp : CHECK_IO_BYPASS cfg ctx false = true) :
    (∃ v a, a.all Event.isDiag = true ∧
      (PVDECIO_EnableCoreClocks cfg hw tal (some ctx) w).2.trace =
        w.trace ++ [.storeClocks true,
          .regWrite hw.REGION_PVDEC_CORE_REGSPACE hw.PVDEC_CORE_CR_PVDEC_MAN_CLK_ENABLE_OFFSET
            (coreClocks hw),
          .regRead hw.REGION_PVDEC_CORE_REGSPACE hw.PVDEC_CORE_CR_PVDEC_MAN_CLK_ENABLE_OFFSET v] ++
          a ++
          [.regWrite hw.REGION_PVDEC_CORE_REGSPACE hw.PVDEC_CORE_CR_PVDEC_MAN_CLK_ENABLE_OFFSET
            (coreClocks hw)]) ∧
    (∃ v a, a.all Event.isDiag = true ∧
      (PVDECIO_EnableCoreAndProcClocks cfg hw tal (some ctx) w).2.2.trace =
        w.trace ++ [.storeClocks true,
          .regWrite hw.REGION_PVDEC_CORE_REGSPACE hw.PVDEC_CORE_CR_PVDEC_MAN_CLK_ENABLE_OFFSET
            (coreClocks hw),
          .regRead hw.REGION_PVDEC_CORE_REGSPACE hw.PVDEC_CORE_CR_PVDEC_MAN_CLK_ENABLE_OFFSET v] ++
          a ++
          [.regWrite hw.REGION_PVDEC_CORE_REGSPACE hw.PVDEC_CORE_CR_PVDEC_MAN_CLK_ENABLE_OFFSET
            (coreAndProcClocks hw)]) := by
  have hb : CHECK_IO_BYPASS cfg { ctx with bClocks := true } false = true := hbyp
  have key : ∀ req, ∃ v a, a.all Event.isDiag = true ∧
      (pvdecio_SetClocks cfg hw tal { ctx with bClocks := true } req
        (w.log (.storeClocks true))).trace =
        w.trace ++ [.storeClocks true,
          .regWrite hw.REGION_PVDEC_CORE_REGSPACE hw.PVDEC_CORE_CR_PVDEC_MAN_CLK_ENABLE_OFFSET
            (coreClocks hw),
          .regRead hw.REGION_PVDEC_CORE_REGSPACE hw.PVDEC_CORE_CR_PVDEC_MAN_CLK_ENABLE_OFFSET v] ++
          a ++
          [.regWrite hw.REGION_PVDEC_CORE_REGSPACE hw.PVDEC_CORE_CR_PVDEC_MAN_CLK_ENABLE_OFFSET
            req] := by
    intro req
    rw [pvdecio_SetClocks_open_trace cfg hw tal { ctx with bClocks := true } req _ hinit hcount rfl
      hb]
    refine ⟨_, _, ?_, by simp only [World.log, List.append_assoc, List.singleton_append,
      List.cons_append, List.nil_append]; rfl⟩
    split <;> rfl
  exact ⟨key (coreClocks hw), key (coreAndProcClocks hw)⟩

/-- C6, the failing input. In the register-upload build, `pvdecio_LoadFW` on
an initialised context whose clock flag is off (empty firmware, plain storage)
calls `pvdecio_SetClocks` before it sets the flag: the two clock-enable writes
and the read-back are dropped by the gate (three notices), the read-back
assertion fails, and only then is the flag stored; no write to the
clock-enable register (region 1, offset 0x40) reaches the bus at all, while
`PVDECIO_EnableCoreClocks` on the same context stores the flag first and its
clock-enable writes reach the bus. -/
theorem C6_LoadFW_sets_clock_flag_after_clock_writes :
    ctxOff.bInitialised = true ∧ ctxOff.bClocks = false ∧
    (pvdecio_LoadFW regUploadBuild sampleHw (plainStorage sampleHw) ctxOff 1 world0).2.trace =
      [.report .REPORT_NOTICE, .report .REPORT_NOTICE, .assertFail 610, .report .REPORT_NOTICE,
        .storeClocks true, .report .REPORT_ERR,
        .regWrite 1 0x38 0, .regWrite 8 0 0, .regWrite 5 0xF8 0x80900000, .regWrite 5 0xFC 5,
        .regWrite 5 0 1] ∧
    (PVDECIO_EnableCoreClocks regUploadBuild sampleHw (plainStorage sampleHw) (some ctxOff)
        world0).2.trace =
      [.storeClocks true, .regWrite 1 0x40 0x30000, .regRead 1 0x40 0x30000,
        .regWrite 1 0x40 0x30000] := by
  decide

/-- C7 (as amended). On an initialised context with the clock flag true and
the clock block not bypassed (`VDEC_USE_PVDEC_SEC` not defined, or the I/O
bypass off), `pvdecio_SetClocks(req)` records, in this order and nothing else
but a possible assertion failure: one write of the core-only value to the
clock-enable register, one read-back of it, and one write of `req`; the
equality assertion fails exactly when the word read back differs from the
core-only value, so it holds for every `req` when the register returns what
was written. With one-bit clock fields the core-only value has exactly the
register-clock and core-clock enable bits set. -/
theorem C7_set_clocks_sequence {σ : Type} (cfg : BuildConfig) (hw : HwDefs) (tal : TAL σ)
    (ctx : PVDECIO_sContext) (req : Nat) (w : World σ)
    (hinit : ctx.bInitialised = true) (hcount : ctx.ui32MemSpaceCount ≠ 0)
    (hclk : ctx.bClocks = true) (hbyp : CHECK_IO_BYPASS cfg ctx false = true) :
    let R : Nat := hw.REGION_PVDEC_CORE_REGSPACE
    let o := hw.PVDEC_CORE_CR_PVDEC_MAN_CLK_ENABLE_OFFSET
    let back := (tal.ReadWord32 (tal.WriteWord32 w.dev R o (coreClocks hw)).2 R o).2.1
    (pvdecio_SetClocks cfg hw tal ctx req w).trace =
      w.trace ++ [.regWrite R o (coreClocks hw), .regRead R o back] ++
        (if back = coreClocks hw then [] else [.assertFail 610]) ++ [.regWrite R o req] ∧
    (back = coreClocks hw →
      (pvdecio_SetClocks cfg hw tal ctx req w).trace =
        w.trace ++ [.regWrite R o (coreClocks hw), .regRead R o (coreClocks hw),
          .regWrite R o req]) ∧
    (hw.PVDEC_CORE_CR_PVDEC_MAN_CLK_ENABLE_CR_PVDEC_REG_MAN_CLK_ENABLE.WellFormed 1 →
      hw.PVDEC_CORE_CR_PVDEC_MAN_CLK_ENABLE_CR_CORE_MAN_CLK_ENABLE.WellFormed 1 →
      ∀ i, (coreClocks hw).testBit i =
        decide (i = hw.PVDEC_CORE_CR_PVDEC_MAN_CLK_ENABLE_CR_PVDEC_REG_MAN_CLK_ENABLE.SHIFT ∨
          i = hw.PVDEC_CORE_CR_PVDEC_MAN_CLK_ENABLE_CR_CORE_MAN_CLK_ENABLE.SHIFT)) := by
  intro R o back
  have ht := pvdecio_SetClocks_open_trace cfg hw tal ctx req w hinit hcount hclk hbyp
  refine ⟨ht, ?_, fun h1 h2 i => coreClocks_bits hw h1 h2 i⟩
  intro hback
  rw [ht]
  have hback' : (tal.ReadWord32 (tal.WriteWord32 w.dev hw.REGION_PVDEC_CORE_REGSPACE
      hw.PVDEC_CORE_CR_PVDEC_MAN_CLK_ENABLE_OFFSET (coreClocks hw)).2
      hw.REGION_PVDEC_CORE_REGSPACE hw.PVDEC_CORE_CR_PVDEC_MAN_CLK_ENABLE_OFFSET).2.1 =
      coreClocks hw := hback
  simp [hback', R, o]

/-- C7, witness: the three accesses on the sample map over plain storage, with
the processor and memory clocks requested. -/
theorem C7_set_clocks_sequence_witness :
    (ctxOn.bInitialised = true ∧ ctxOn.ui32MemSpaceCount ≠ 0 ∧ ctxOn.bClocks = true ∧
      CHECK_IO_BYPASS defaultBuild ctxOn false = true) ∧
    (pvdecio_SetClocks defaultBuild sampleHw (plainStorage sampleHw) ctxOn 0x30110 world0).trace =
      world0.trace ++ [.regWrite 1 0x40 (coreClocks sampleHw),
        .regRead 1 0x40 (coreClocks sampleHw), .regWrite 1 0x40 0x30110] :=
  ⟨⟨rfl, by decide, rfl, rfl⟩,
    (C7_set_clocks_sequence defaultBuild sampleHw (plainStorage sampleHw) ctxOn 0x30110 world0 rfl
      (by decide) rfl rfl).2.1 (by decide)⟩

/-- C7, counterexample. The clock flag being true is not enough: on a context
whose clock flag is true but which is not initialised, `pvdecio_SetClocks`
reaches the bus with nothing (three error reports and the failed read-back
assertion); and in the build with `VDEC_USE_PVDEC_SEC`, on an initialised
context with the clock flag true and the I/O bypass on, it does nothing. -/
theorem C7_counterexample_flag_true_without_accesses :
    ctxClockedUninit.bClocks = true ∧
    (pvdecio_SetClocks defaultBuild sampleHw (plainStorage sampleHw) ctxClockedUninit 0x30110
      world0).trace =
      [.report .REPORT_ERR, .report .REPORT_ERR, .assertFail 610, .report .REPORT_ERR] ∧
    ctxBypass.bClocks = true ∧ ctxBypass.bInitialised = true ∧
    (pvdecio_SetClocks secureBuild sampleHw (plainStorage sampleHw) ctxBypass 0x30110
      world0).trace = [] := by
  decide

/-- C8 (as amended). For every non-null context, whatever its prior state,
`PVDECIO_DisableClocks` returns `IMG_SUCCESS`, and afterwards the clock flag
is false and the mailbox ready flag is false, every other field of the context
being unchanged. No assertion fails when the clock block is bypassed, or when
the context is initialised with the clock flag on at entry and the
clock-enable register reads back the core-only value. -/
theorem C8_disable_clocks_effect {σ : Type} (cfg : BuildConfig) (hw : HwDefs) (tal : TAL σ)
    (ctx : PVDECIO_sContext) (w : World σ) :
    let d := PVDECIO_DisableClocks cfg hw tal (some ctx) w
    let R : Nat := hw.REGION_PVDEC_CORE_REGSPACE
    let o := hw.PVDEC_CORE_CR_PVDEC_MAN_CLK_ENABLE_OFFSET
    d.1 = IMG_SUCCESS ∧
    (∃ c, d.2.1 = some c ∧ c.bClocks = false ∧ c.sMsgContext.bReady = false ∧
      c.bInitialised = ctx.bInitialised ∧ c.sMTXRamInfo = ctx.sMTXRamInfo ∧
      c.sFwInfo = ctx.sFwInfo ∧ c.sStateInfo = ctx.sStateInfo ∧
      c.ui32NumPixelPipes = ctx.ui32NumPixelPipes ∧
      c.ui32MemSpaceCount = ctx.ui32MemSpaceCount ∧ c.bSecureFw = ctx.bSecureFw ∧
      c.bIOBypass = ctx.bIOBypass) ∧
    (CHECK_IO_BYPASS cfg ctx false = false →
      d.2.2.trace = w.trace ++ [.storeClocks false, .storeReady false]) ∧
    (ctx.bInitialised = true → ctx.ui32MemSpaceCount ≠ 0 → ctx.bClocks = true →
      CHECK_IO_BYPASS cfg ctx false = true →
      (tal.ReadWord32 (tal.WriteWord32 w.dev R o (coreClocks hw)).2 R o).2.1 = coreClocks hw →
      d.2.2.trace = w.trace ++ [.regWrite R o (coreClocks hw), .regRead R o (coreClocks hw),
        .regWrite R o 0, .storeClocks false, .storeReady false]) := by
  intro d R o
  refine ⟨rfl, ⟨_, rfl, rfl, rfl, rfl, rfl, rfl, rfl, rfl, rfl, rfl, rfl⟩, ?_, ?_⟩
  · intro hbyp
    simp [d, PVDECIO_DisableClocks, pvdecio_SetClocks_bypassed cfg hw tal ctx 0 w hbyp, World.log]
  · intro hinit hcount hclk hbyp hback
    have ht := pvdecio_SetClocks_open_trace cfg hw tal ctx 0 w hinit hcount hclk hbyp
    have hback' : (tal.ReadWord32 (tal.WriteWord32 w.dev hw.REGION_PVDEC_CORE_REGSPACE
        hw.PVDEC_CORE_CR_PVDEC_MAN_CLK_ENABLE_OFFSET (coreClocks hw)).2
        hw.REGION_PVDEC_CORE_REGSPACE hw.PVDEC_CORE_CR_PVDEC_MAN_CLK_ENABLE_OFFSET).2.1 =
        coreClocks hw := hback
    simp [d, PVDECIO_DisableClocks, World.log, ht, hback', R, o]

/-- C8, witness: disabling the clocks of the sample context, clocks on, over
plain storage. -/
theorem C8_disable_clocks_effect_witness :
    (ctxOn.bInitialised = true ∧ ctxOn.ui32MemSpaceCount ≠ 0 ∧ ctxOn.bClocks = true ∧
      CHECK_IO_BYPASS defaultBuild ctxOn false = true ∧
      ((plainStorage sampleHw).ReadWord32 ((plainStorage sampleHw).WriteWord32 world0.dev
        sampleHw.REGION_PVDEC_CORE_REGSPACE sampleHw.PVDEC_CORE_CR_PVDEC_MAN_CLK_ENABLE_OFFSET
        (coreClocks sampleHw)).2 sampleHw.REGION_PVDEC_CORE_REGSPACE
        sampleHw.PVDEC_CORE_CR_PVDEC_MAN_CLK_ENABLE_OFFSET).2.1 = coreClocks sampleHw) ∧
    (PVDECIO_DisableClocks defaultBuild sampleHw (plainStorage sampleHw) (some ctxOn)
        world0).2.2.trace =
      world0.trace ++ [.regWrite 1 0x40 (coreClocks sampleHw),
        .regRead 1 0x40 (coreClocks sampleHw), .regWrite 1 0x40 0, .storeClocks false,
        .storeReady false] :=
  ⟨⟨rfl, by decide, rfl, rfl, by decide⟩,
    (C8_disable_clocks_effect defaultBuild sampleHw (plainStorage sampleHw) ctxOn world0).2.2.2
      rfl (by decide) rfl rfl (by decide)⟩

/-- C8, counterexample. `PVDECIO_DisableClocks` returns `IMG_SUCCESS` but the
equality assertion of source line 610 fails in two prior states. With the
clocks on and hardware that does not return what was written, the read-back
differs from the core-only value: the check the assertion is there for. With
the clocks already off (plain storage), the read-back inside
`pvdecio_SetClocks` is dropped by the gate and delivers 0. -/
theorem C8_counterexample_assertion_trips :
    ctxOn.bInitialised = true ∧ ctxOn.bClocks = true ∧
    (PVDECIO_DisableClocks defaultBuild sampleHw unresponsive (some ctxOn) ⟨(), []⟩).1 =
      IMG_SUCCESS ∧
    (PVDECIO_DisableClocks defaultBuild sampleHw unresponsive (some ctxOn) ⟨(), []⟩).2.2.trace =
      [.regWrite 1 0x40 0x30000, .regRead 1 0x40 0, .assertFail 610, .regWrite 1 0x40 0,
        .storeClocks false, .storeReady false] ∧
    ctxOff.bInitialised = true ∧ ctxOff.bClocks = false ∧
    (PVDECIO_DisableClocks defaultBuild sampleHw (plainStorage sampleHw) (some ctxOff)
        world0).1 = IMG_SUCCESS ∧
    (PVDECIO_DisableClocks defaultBuild sampleHw (plainStorage sampleHw) (some ctxOff)
        world0).2.2.trace =
      [.report .REPORT_NOTICE, .report .REPORT_NOTICE, .assertFail 610, .report .REPORT_NOTICE,
        .storeClocks false, .storeReady false] := by
  decide

/-- C9 (as amended). `PVDECIO_DisableClocks` first runs `pvdecio_SetClocks(0)`
with the clock flag as it was on entry, and only afterwards stores the flag
as false and the mailbox ready flag as false: its trace is the trace of
`pvdecio_SetClocks` followed by the two stores. On an initialised context with
the flag on and the clock block not bypassed, the three clock-enable accesses
(the last one the write of 0) all precede the store of the flag. -/
theorem C9_disable_clocks_order {σ : Type} (cfg : BuildConfig) (hw : HwDefs) (tal : TAL σ)
    (ctx : PVDECIO_sContext) (w : World σ) :
    let d := PVDECIO_DisableClocks cfg hw tal (some ctx) w
    let R : Nat := hw.REGION_PVDEC_CORE_REGSPACE
    let o := hw.PVDEC_CORE_CR_PVDEC_MAN_CLK_ENABLE_OFFSET
    d.2.2.trace =
      (pvdecio_SetClocks cfg hw tal ctx 0 w).trace ++ [.storeClocks false, .storeReady false] ∧
    (ctx.bInitialised = true → ctx.ui32MemSpaceCount ≠ 0 → ctx.bClocks = true →
      CHECK_IO_BYPASS cfg ctx false = true →
      ∃ v a, a.all Event.isDiag = true ∧
        d.2.2.trace = w.trace ++ [.regWrite R o (coreClocks hw), .regRead R o v] ++ a ++
          [.regWrite R o 0, .storeClocks false, .storeReady false]) := by
  intro d R o
  have h1 : d.2.2.trace =
      (pvdecio_SetClocks cfg hw tal ctx 0 w).trace ++ [.storeClocks false, .storeReady false] := by
    simp [d, PVDECIO_DisableClocks, World.log]
  refine ⟨h1, ?_⟩
  intro hinit hcount hclk hbyp
  rw [h1, pvdecio_SetClocks_open_trace cfg hw tal ctx 0 w hinit hcount hclk hbyp]
  generalize (tal.ReadWord32 (tal.WriteWord32 w.dev hw.REGION_PVDEC_CORE_REGSPACE
    hw.PVDEC_CORE_CR_PVDEC_MAN_CLK_ENABLE_OFFSET (coreClocks hw)).2
    hw.REGION_PVDEC_CORE_REGSPACE hw.PVDEC_CORE_CR_PVDEC_MAN_CLK_ENABLE_OFFSET).2.1 = v
  refine ⟨v, if v = coreClocks hw then [] else [.assertFail 610], ?_, ?_⟩
  · split <;> rfl
  · simp [R, o]

/-- C9, witness: the order of events on the sample context with clocks on. -/
theorem C9_disable_clocks_order_witness :
    (ctxOn.bInitialised = true ∧ ctxOn.ui32MemSpaceCount ≠ 0 ∧ ctxOn.bClocks = true ∧
      CHECK_IO_BYPASS defaultBuild ctxOn false = true) ∧
    ∃ v a, a.all Event.isDiag = true ∧
      (PVDECIO_DisableClocks defaultBuild sampleHw (plainStorage sampleHw) (some ctxOn)
        world0).2.2.trace =
        world0.trace ++ [.regWrite 1 0x40 (coreClocks sampleHw), .regRead 1 0x40 v] ++ a ++
          [.regWrite 1 0x40 0, .storeClocks false, .storeReady false] :=
  ⟨⟨rfl, by decide, rfl, rfl⟩,
    (C9_disable_clocks_order defaultBuild sampleHw (plainStorage sampleHw) ctxOn world0).2 rfl
      (by decide) rfl rfl⟩

/-- C9, counterexample. On the sample context with clocks on,
`PVDECIO_DisableClocks` issues its three clock-enable accesses first (events 0
to 2, the writes at positions 0 and 2) and stores the clock flag as false only
as event 3: the flag is not set to false before any write to the clock-enable
register. -/
theorem C9_counterexample_flag_stored_after_writes :
    (PVDECIO_DisableClocks defaultBuild sampleHw (plainStorage sampleHw) (some ctxOn)
        world0).2.2.trace =
      [.regWrite 1 0x40 0x30000, .regRead 1 0x40 0x30000, .regWrite 1 0x40 0,
        .storeClocks false, .storeReady false] ∧
    (PVDECIO_DisableClocks defaultBuild sampleHw (plainStorage sampleHw) (some ctxOn)
        world0).2.2.trace.indexOf (.regWrite 1 0x40 0x30000) = 0 ∧
    (PVDECIO_DisableClocks defaultBuild sampleHw (plainStorage sampleHw) (some ctxOn)
        world0).2.2.trace.indexOf (.storeClocks false) = 3 := by
  decide

/-- On an initialised context whose clock block is not bypassed, the last
event of `PVDECIO_EnableCoreClocks` is the write of the core-only value to the
clock-enable register, whatever the context held before. -/
theorem PVDECIO_EnableCoreClocks_last {σ : Type} (cfg : BuildConfig) (hw : HwDefs) (tal : TAL σ)
    (ctx : PVDECIO_sContext) (w : World σ) (hinit : ctx.bInitialised = true)
    (hbyp : CHECK_IO_BYPASS cfg ctx false = true) :
    (PVDECIO_EnableCoreClocks cfg hw tal (some ctx) w).2.trace.getLast? =
      some (.regWrite hw.REGION_PVDEC_CORE_REGSPACE
        hw.PVDEC_CORE_CR_PVDEC_MAN_CLK_ENABLE_OFFSET (coreClocks hw)) :=
  pvdecio_SetClocks_last cfg hw tal { ctx with bClocks := true } (coreClocks hw) _ hinit rfl hbyp

/-- On an initialised context whose clock block is not bypassed, the last
event of `PVDECIO_EnableCoreAndProcClocks` is the write of the core, memory
and processor value to the clock-enable register, whatever the context held
before. -/
theorem PVDECIO_EnableCoreAndProcClocks_last {σ : Type} (cfg : BuildConfig) (hw : HwDefs)
    (tal : TAL σ) (ctx : PVDECIO_sContext) (w : World σ) (hinit : ctx.bInitialised = true)
    (hbyp : CHECK_IO_BYPASS cfg ctx false = true) :
    (PVDECIO_EnableCoreAndProcClocks cfg hw tal (some ctx) w).2.2.trace.getLast? =
      some (.regWrite hw.REGION_PVDEC_CORE_REGSPACE
        hw.PVDEC_CORE_CR_PVDEC_MAN_CLK_ENABLE_OFFSET (coreAndProcClocks hw)) :=
  pvdecio_SetClocks_last cfg hw tal { ctx with bClocks := true } (coreAndProcClocks hw) _ hinit
    rfl hbyp

/-- The context after `PVDECIO_DisableClocks` keeps the initialised flag and
the bypass flag. -/
theorem PVDECIO_DisableClocks_context {σ : Type} (cfg : BuildConfig) (hw : HwDefs) (tal : TAL σ)
    (ctx : PVDECIO_sContext) (w : World σ) :
    ∃ c, (PVDECIO_DisableClocks cfg hw tal (some ctx) w).2.1 = some c ∧
      c.bInitialised = ctx.bInitialised ∧ c.bIOBypass = ctx.bIOBypass :=
  ⟨_, rfl, rfl, rfl⟩

/-- C10 (as amended). The module keeps no record of the mask requested
before: each enable operation writes its own fixed value. On an initialised
context whose clock block is not bypassed, the sequence enable,
`PVDECIO_DisableClocks`, enable again ends with the clock-enable register
written with the value of the operation that performs the re-enable: the
core-only value for `PVDECIO_EnableCoreClocks`, the core, memory and processor
value for `PVDECIO_EnableCoreAndProcClocks`, whichever operation enabled the
clocks first. -/
theorem C10_reenable_writes_own_mask {σ : Type} (cfg : BuildConfig) (hw : HwDefs) (tal : TAL σ)
    (ctx : PVDECIO_sContext) (w : World σ) (hinit : ctx.bInitialised = true)
    (hbyp : CHECK_IO_BYPASS cfg ctx false = true) :
    let R : Nat := hw.REGION_PVDEC_CORE_REGSPACE
    let o := hw.PVDEC_CORE_CR_PVDEC_MAN_CLK_ENABLE_OFFSET
    let c1 := PVDECIO_EnableCoreClocks cfg hw tal (some ctx) w
    let p1 := PVDECIO_EnableCoreAndProcClocks cfg hw tal (some ctx) w
    let dc := PVDECIO_DisableClocks cfg hw tal c1.1 c1.2
    let dp := PVDECIO_DisableClocks cfg hw tal p1.2.1 p1.2.2
    (PVDECIO_EnableCoreClocks cfg hw tal dc.2.1 dc.2.2).2.trace.getLast? =
      some (.regWrite R o (coreClocks hw)) ∧
    (PVDECIO_EnableCoreClocks cfg hw tal dp.2.1 dp.2.2).2.trace.getLast? =
      some (.regWrite R o (coreClocks hw)) ∧
    (PVDECIO_EnableCoreAndProcClocks cfg hw tal dc.2.1 dc.2.2).2.2.trace.getLast? =
      some (.regWrite R o (coreAndProcClocks hw)) ∧
    (PVDECIO_EnableCoreAndProcClocks cfg hw tal dp.2.1 dp.2.2).2.2.trace.getLast? =
      some (.regWrite R o (coreAndProcClocks hw)) := by
  intro R o c1 p1 dc dp
  obtain ⟨c, hc, hi, hb⟩ := PVDECIO_DisableClocks_context cfg hw tal
    { ctx with bClocks := true } c1.2
  obtain ⟨c', hc', hi', hb'⟩ := PVDECIO_DisableClocks_context cfg hw tal
    { ctx with bClocks := true } p1.2.2
  have hdc : dc.2.1 = some c := hc
  have hdp : dp.2.1 = some c' := hc'
  have hinit1 : c.bInitialised = true := by rw [hi]; exact hinit
  have hinit2 : c'.bInitialised = true := by rw [hi']; exact hinit
  have hbyp1 : CHECK_IO_BYPASS cfg c false = true := by
    unfold CHECK_IO_BYPASS at hbyp ⊢; rw [hb]; exact hbyp
  have hbyp2 : CHECK_IO_BYPASS cfg c' false = true := by
    unfold CHECK_IO_BYPASS at hbyp ⊢; rw [hb']; exact hbyp
  rw [hdc, hdp]
  exact ⟨PVDECIO_EnableCoreClocks_last cfg hw tal _ _ hinit1 hbyp1,
    PVDECIO_EnableCoreClocks_last cfg hw tal _ _ hinit2 hbyp2,
    PVDECIO_EnableCoreAndProcClocks_last cfg hw tal _ _ hinit1 hbyp1,
    PVDECIO_EnableCoreAndProcClocks_last cfg hw tal _ _ hinit2 hbyp2⟩

/-- C10, witness: core and processor clocks enabled, disabled, then re-enabled
by `PVDECIO_EnableCoreAndProcClocks` on the sample context. -/
theorem C10_reenable_writes_own_mask_witness :
    (ctxOn.bInitialised = true ∧ CHECK_IO_BYPASS defaultBuild ctxOn false = true) ∧
    (PVDECIO_EnableCoreAndProcClocks defaultBuild sampleHw (plainStorage sampleHw)
      (PVDECIO_DisableClocks defaultBuild sampleHw (plainStorage sampleHw)
        (PVDECIO_EnableCoreAndProcClocks defaultBuild sampleHw (plainStorage sampleHw)
          (some ctxOn) world0).2.1
        (PVDECIO_EnableCoreAndProcClocks defaultBuild sampleHw (plainStorage sampleHw)
          (some ctxOn) world0).2.2).2.1
      (PVDECIO_DisableClocks defaultBuild sampleHw (plainStorage sampleHw)
        (PVDECIO_EnableCoreAndProcClocks defaultBuild sampleHw (plainStorage sampleHw)
          (some ctxOn) world0).2.1
        (PVDECIO_EnableCoreAndProcClocks defaultBuild sampleHw (plainStorage sampleHw)
          (some ctxOn) world0).2.2).2.2).2.2.trace.getLast? =
      some (.regWrite sampleHw.REGION_PVDEC_CORE_REGSPACE
        sampleHw.PVDEC_CORE_CR_PVDEC_MAN_CLK_ENABLE_OFFSET (coreAndProcClocks sampleHw)) :=
  ⟨⟨rfl, rfl⟩,
    (C10_reenable_writes_own_mask defaultBuild sampleHw (plainStorage sampleHw) ctxOn world0 rfl
      rfl).2.2.2⟩

/-- C10, counterexample. On the sample context over plain storage,
`PVDECIO_EnableCoreAndProcClocks` requests the mask 0x30110 (its last write to
the clock-enable register); after `PVDECIO_DisableClocks`, the re-enable by
`PVDECIO_EnableCoreClocks` ends with the clock-enable register written with
0x30000, not with the mask requested before. -/
theorem C10_counterexample_reenable_by_core_clocks :
    (PVDECIO_EnableCoreAndProcClocks defaultBuild sampleHw (plainStorage sampleHw) (some ctxOn)
      world0).2.2.trace.getLast? = some (.regWrite 1 0x40 0x30110) ∧
    (PVDECIO_EnableCoreClocks defaultBuild sampleHw (plainStorage sampleHw)
      (PVDECIO_DisableClocks defaultBuild sampleHw (plainStorage sampleHw)
        (PVDECIO_EnableCoreAndProcClocks defaultBuild sampleHw (plainStorage sampleHw)
          (some ctxOn) world0).2.1
        (PVDECIO_EnableCoreAndProcClocks defaultBuild sampleHw (plainStorage sampleHw)
          (some ctxOn) world0).2.2).2.1
      (PVDECIO_DisableClocks defaultBuild sampleHw (plainStorage sampleHw)
        (PVDECIO_EnableCoreAndProcClocks defaultBuild sampleHw (plainStorage sampleHw)
          (some ctxOn) world0).2.1
        (PVDECIO_EnableCoreAndProcClocks defaultBuild sampleHw (plainStorage sampleHw)
          (some ctxOn) world0).2.2).2.2).2.trace.getLast? =
      some (.regWrite 1 0x40 0x30000) ∧
    (0x30000 : Nat) ≠ 0x30110 := by
  decide

/-! ## The counterexamples do not depend on the sample register map -/

/-- Writing 1 into a one-bit field sets the bit at its shift. -/
theorem REGIO_WRITE_FIELD_one_testBit_self (reg : Nat) (f : Field) (hf : f.WellFormed 1) :
    (REGIO_WRITE_FIELD reg f 1).testBit f.SHIFT = true := by
  obtain ⟨hm, _⟩ := hf
  simp [REGIO_WRITE_FIELD, hm, Nat.testBit_or, Nat.testBit_and, Nat.testBit_shiftLeft]

/-- Writing 1 into a one-bit field keeps every other bit below 32. -/
theorem REGIO_WRITE_FIELD_one_testBit_other (reg : Nat) (f : Field) (hf : f.WellFormed 1)
    (i : Nat) (hi : i < 32) (hne : i ≠ f.SHIFT) :
    (REGIO_WRITE_FIELD reg f 1).testBit i = reg.testBit i := by
  obtain ⟨hm, _⟩ := hf
  simp only [REGIO_WRITE_FIELD, hm, Nat.testBit_or, Nat.testBit_and, not32_testBit,
    Nat.testBit_shiftLeft, Nat.pow_one, Nat.reduceSub, testBit_one_shift]
  simp [hi, hne]

/-- With one-bit clock fields and the memory-clock bit apart from the
register-clock and core-clock bits, the value written by
`PVDECIO_EnableCoreAndProcClocks` differs from the core-only value. -/
theorem coreAndProcClocks_ne_coreClocks (hw : HwDefs)
    (hr : hw.PVDEC_CORE_CR_PVDEC_MAN_CLK_ENABLE_CR_PVDEC_REG_MAN_CLK_ENABLE.WellFormed 1)
    (hc : hw.PVDEC_CORE_CR_PVDEC_MAN_CLK_ENABLE_CR_CORE_MAN_CLK_ENABLE.WellFormed 1)
    (hm : hw.PVDEC_CORE_CR_PVDEC_MAN_CLK_ENABLE_CR_MEM_MAN_CLK_ENABLE.WellFormed 1)
    (hp : hw.PVDEC_CORE_CR_PVDEC_MAN_CLK_ENABLE_CR_PROC_MAN_CLK_ENABLE.WellFormed 1)
    (h1 : hw.PVDEC_CORE_CR_PVDEC_MAN_CLK_ENABLE_CR_MEM_MAN_CLK_ENABLE.SHIFT ≠
      hw.PVDEC_CORE_CR_PVDEC_MAN_CLK_ENABLE_CR_PVDEC_REG_MAN_CLK_ENABLE.SHIFT)
    (h2 : hw.PVDEC_CORE_CR_PVDEC_MAN_CLK_ENABLE_CR_MEM_MAN_CLK_ENABLE.SHIFT ≠
      hw.PVDEC_CORE_CR_PVDEC_MAN_CLK_ENABLE_CR_CORE_MAN_CLK_ENABLE.SHIFT) :
    coreAndProcClocks hw ≠ coreClocks hw := by
  intro heq
  have hcore := coreClocks_bits hw hr hc
    hw.PVDEC_CORE_CR_PVDEC_MAN_CLK_ENABLE_CR_MEM_MAN_CLK_ENABLE.SHIFT
  have hfalse : (coreClocks hw).testBit
      hw.PVDEC_CORE_CR_PVDEC_MAN_CLK_ENABLE_CR_MEM_MAN_CLK_ENABLE.SHIFT = false := by
    rw [hcore]; simp [h1, h2]
  have hmem := REGIO_WRITE_FIELD_one_testBit_self (coreClocks hw) _ hm
  have hlt : hw.PVDEC_CORE_CR_PVDEC_MAN_CLK_ENABLE_CR_MEM_MAN_CLK_ENABLE.SHIFT < 32 := by
    have := hm.2; omega
  have htrue : (coreAndProcClocks hw).testBit
      hw.PVDEC_CORE_CR_PVDEC_MAN_CLK_ENABLE_CR_MEM_MAN_CLK_ENABLE.SHIFT = true := by
    unfold coreAndProcClocks
    by_cases hpm : hw.PVDEC_CORE_CR_PVDEC_MAN_CLK_ENABLE_CR_MEM_MAN_CLK_ENABLE.SHIFT =
        hw.PVDEC_CORE_CR_PVDEC_MAN_CLK_ENABLE_CR_PROC_MAN_CLK_ENABLE.SHIFT
    · rw [hpm]
      exact REGIO_WRITE_FIELD_one_testBit_self _ _ hp
    · rw [REGIO_WRITE_FIELD_one_testBit_other _ _ hp _ hlt hpm]
      exact hmem
  rw [heq, hfalse] at htrue
  cases htrue

/-- The read-back of the core pipe-select register through pipe 0 does not
depend on the register map: over plain storage the word 1 stored there with
mask 0 is overwritten by the pipe selection of the read, which returns 0. -/
theorem pipe_select_register_read_back (hw : HwDefs) (ctx : PVDECIO_sContext)
    (w : World RegFile) (hinit : ctx.bInitialised = true) (hcount : ctx.ui32MemSpaceCount ≠ 0)
    (hclk : ctx.bClocks = true) :
    (PVDECIO_ReadRegister hw (plainStorage hw) (some ctx) hw.REGION_PVDEC_CORE_REGSPACE
      hw.PVDEC_CORE_CR_PVDEC_HOST_PIPE_SELECT_OFFSET 0
      (PVDECIO_WriteRegister hw (plainStorage hw) (some ctx) hw.REGION_PVDEC_CORE_REGSPACE
        hw.PVDEC_CORE_CR_PVDEC_HOST_PIPE_SELECT_OFFSET 1 0 0 w).2).1 = 0 := by
  have hp : (0 : Nat) ≠ PVDEC_DEF_PIPE := by decide
  have hz : REGIO_WRITE_FIELD 0
      hw.PVDEC_CORE_CR_PVDEC_HOST_PIPE_SELECT_CR_PVDEC_HOST_PIPE_SELECT 0 = 0 := by
    simp [REGIO_WRITE_FIELD]
  rw [PVDECIO_ReadRegister_open hw _ ctx _ _ _ _ hinit hcount hclk (core_lt hw)]
  simp [pvdecio_SelectPipe_other _ _ _ _ _ hp, plainStorage, hz]

/-- Clearing the low three bits of a 32-bit word rounds it down to a multiple
of eight. -/
theorem and_not32_seven (a : Nat) (ha : a < 2 ^ 32) : a &&& not32 7 = a / 8 * 8 := by
  have h1 : a / 8 * 8 = (a >>> 3) <<< 3 := by
    rw [Nat.shiftLeft_eq, Nat.shiftRight_eq_div_pow]
  rw [h1]
  apply Nat.eq_of_testBit_eq
  intro i
  have h7 : (7 : Nat) = 2 ^ 3 - 1 := by norm_num
  rw [Nat.testBit_and, not32_testBit, Nat.testBit_shiftLeft, Nat.testBit_shiftRight, h7,
    Nat.testBit_two_pow_sub_one]
  by_cases h3 : i < 3
  · have : ¬ i ≥ 3 := by omega
    simp [h3, this]
  · have h3' : i ≥ 3 := by omega
    have e : 3 + (i - 3) = i := by omega
    by_cases h32 : i < 32
    · simp [h3, h3', h32, e]
    · have : a.testBit i = false := by
        apply Nat.testBit_lt_two_pow
        exact lt_of_lt_of_le ha (Nat.pow_le_pow_right (by decide) (Nat.not_lt.mp h32))
      simp [h3, h3', h32, e, this]

/-- The transfer length of `pvdecio_startDMA` in plain arithmetic. -/
theorem startDMA_length_eq (n : Nat) (h : n + 15 < 2 ^ 32) :
    startDMA_length n = (n + 7) / 8 * 8 + 8 := by
  unfold startDMA_length
  have h1 : (n + 7) % 2 ^ 32 = n + 7 := Nat.mod_eq_of_lt (by omega)
  rw [h1, and_not32_seven (n + 7) (by omega)]
  apply Nat.mod_eq_of_lt
  omega

/-! ## The DMA wait on a scripted device -/

/-- A bus write leaves the scripted device as it is. -/
theorem TALREG_WriteWord32_scripted (hw : HwDefs) (rd : Nat → Nat) (bg : Nat → Nat → Nat)
    (i o v : Nat) (w : World Nat) :
    (TALREG_WriteWord32 hw (scriptedDMA hw rd bg) i o v w).2.dev = w.dev := by
  unfold TALREG_WriteWord32
  cases pahMemSpace hw i <;> simp [scriptedDMA, World.log]

/-- Pipe selection leaves the scripted device as it is. -/
theorem pvdecio_SelectPipe_scripted (hw : HwDefs) (rd : Nat → Nat) (bg : Nat → Nat → Nat)
    (ctx : PVDECIO_sContext) (p : Nat) (w : World Nat) :
    (pvdecio_SelectPipe hw (scriptedDMA hw rd bg) ctx p w).dev = w.dev := by
  unfold pvdecio_SelectPipe
  split
  · simp only [TALREG_WriteWord32_scripted, IMG_ASSERT_dev]
  · rfl

/-- A register write with the default mask leaves the scripted device as it
is. -/
theorem PVDECIO_WriteRegister_scripted (hw : HwDefs) (rd : Nat → Nat) (bg : Nat → Nat → Nat)
    (h : Option PVDECIO_sContext) (r o v p : Nat) (w : World Nat) :
    (PVDECIO_WriteRegister hw (scriptedDMA hw rd bg) h r o v PVDEC_DEF_REG_MASK p w).2.dev
      = w.dev := by
  unfold PVDECIO_WriteRegister
  cases h with
  | none => simp [REPORT, World.log, IMG_ASSERT]
  | some ctx =>
    by_cases hi : ctx.bInitialised = true <;> by_cases hc : ctx.bClocks = true <;>
      simp [hi, hc, REPORT, World.log, TALREG_WriteWord32_scripted, pvdecio_SelectPipe_scripted,
        IMG_ASSERT_dev]

/-- A bus read outside the pixel DMA region leaves the scripted device as it
is. -/
theorem TALREG_ReadWord32_scripted_other (hw : HwDefs) (rd : Nat → Nat) (bg : Nat → Nat → Nat)
    (i o d : Nat) (w : World Nat) (hi : i ≠ hw.REGION_PVDEC_PIXEL_DMA_REGSPACE) :
    (TALREG_ReadWord32 hw (scriptedDMA hw rd bg) i o d w).2.2.dev = w.dev := by
  unfold TALREG_ReadWord32 pahMemSpace
  split
  · rename_i h heq
    split at heq
    · cases heq
      simp [scriptedDMA, hi]
    · cases heq
  · simp [World.log]

/-- A register read outside the pixel DMA region leaves the scripted device as
it is. -/
theorem PVDECIO_ReadRegister_scripted_other (hw : HwDefs) (rd : Nat → Nat)
    (bg : Nat → Nat → Nat) (h : Option PVDECIO_sContext) (r o p : Nat) (w : World Nat)
    (hr : r ≠ hw.REGION_PVDEC_PIXEL_DMA_REGSPACE) :
    (PVDECIO_ReadRegister hw (scriptedDMA hw rd bg) h r o p w).2.dev = w.dev := by
  unfold PVDECIO_ReadRegister
  cases h with
  | none => simp [REPORT, World.log, IMG_ASSERT]
  | some ctx =>
    by_cases hi : ctx.bInitialised = true <;> by_cases hc : ctx.bClocks = true <;>
      simp [hi, hc, REPORT, World.log, TALREG_ReadWord32_scripted_other _ _ _ _ _ _ _ hr,
        pvdecio_SelectPipe_scripted, IMG_ASSERT_dev]

/-- Setting the clocks leaves the scripted device as it is, the core region
not being the pixel DMA region. -/
theorem pvdecio_SetClocks_scripted (cfg : BuildConfig) (hw : HwDefs) (rd : Nat → Nat)
    (bg : Nat → Nat → Nat) (ctx : PVDECIO_sContext) (req : Nat) (w : World Nat)
    (hr : (hw.REGION_PVDEC_CORE_REGSPACE : Nat) ≠ hw.REGION_PVDEC_PIXEL_DMA_REGSPACE) :
    (pvdecio_SetClocks cfg hw (scriptedDMA hw rd bg) ctx req w).dev = w.dev := by
  unfold pvdecio_SetClocks
  split
  · simp only [PVDEC_CORE_WriteRegister, PVDEC_CORE_ReadRegister, PVDECIO_WriteRegister_scripted,
      IMG_ASSERT_dev, PVDECIO_ReadRegister_scripted_other _ _ _ _ _ _ _ _ hr]
  · rfl

/-- The programming part of `pvdecio_startDMA` leaves the scripted device as
it is, sets the clock flag in the context and hands on the count word with the
enable bit. -/
theorem pvdecio_startDMA_program_scripted (cfg : BuildConfig) (hw : HwDefs) (rd : Nat → Nat)
    (bg : Nat → Nat → Nat) (ctx : PVDECIO_sContext) (p n a : Nat) (w : World Nat)
    (hr : (hw.REGION_PVDEC_CORE_REGSPACE : Nat) ≠ hw.REGION_PVDEC_PIXEL_DMA_REGSPACE) :
    (pvdecio_startDMA.program cfg hw (scriptedDMA hw rd bg) ctx p n a w).2.2.dev = w.dev ∧
    (pvdecio_startDMA.program cfg hw (scriptedDMA hw rd bg) ctx p n a w).1
      = { ctx with bClocks := true } ∧
    (pvdecio_startDMA.program cfg hw (scriptedDMA hw rd bg) ctx p n a w).2.1
      = REGIO_WRITE_FIELD (startDMA_count hw n) hw.DMAC_DMAC_COUNT_EN 1 := by
  refine ⟨?_, rfl, rfl⟩
  simp only [pvdecio_startDMA.program, MTX_CORE_WriteRegister, PVDEC_PIXEL_WritePipeRegister,
    PVDEC_CORE_WriteRegister, PIXEL_DMA_WriteRegMacro, PVDECIO_WriteRegister_scripted,
    IMG_ASSERT_dev, pvdecio_SetClocks_scripted _ _ _ _ _ _ _ hr, World.log]

/-- A read of the count register of channel 0 on the scripted device, the gate
open: the next word of the script is delivered and the script moves on. -/
theorem PIXEL_DMA_ReadRegMacro_scripted (hw : HwDefs) (rd : Nat → Nat) (bg : Nat → Nat → Nat)
    (ctx : PVDECIO_sContext) (p c O S N line : Nat) (w : World Nat)
    (hinit : ctx.bInitialised = true) (hcount : ctx.ui32MemSpaceCount ≠ 0)
    (hclk : ctx.bClocks = true) :
    (PIXEL_DMA_ReadRegMacro hw (scriptedDMA hw rd bg) (some ctx) p c O S N line w).1 = rd w.dev ∧
    (PIXEL_DMA_ReadRegMacro hw (scriptedDMA hw rd bg) (some ctx) p c O S N line w).2.dev
      = w.dev + 1 := by
  have hlt : (hw.REGION_PVDEC_PIXEL_DMA_REGSPACE : Nat) < hw.REGION_PVDEC_MAX :=
    hw.REGION_PVDEC_PIXEL_DMA_REGSPACE.isLt
  simp only [PIXEL_DMA_ReadRegMacro,
    PVDECIO_ReadRegister_open hw _ ctx _ _ _ _ hinit hcount hclk hlt, pvdecio_SelectPipe_scripted,
    IMG_ASSERT_dev]
  simp [scriptedDMA]

/-- One round of the DMA wait on the scripted device, the gate open: the
reading is compared with the count before, and the wait goes on only when it
differs from it and is not zero. -/
theorem pvdecio_startDMA_wait_step (hw : HwDefs) (rd : Nat → Nat) (bg : Nat → Nat → Nat)
    (ctx : PVDECIO_sContext) (p fuel prev : Nat) (w : World Nat)
    (hinit : ctx.bInitialised = true) (hcount : ctx.ui32MemSpaceCount ≠ 0)
    (hclk : ctx.bClocks = true) :
    ∃ w1 : World Nat, w1.dev = w.dev + 1 ∧
      pvdecio_startDMA.wait hw (scriptedDMA hw rd bg) ctx p (fuel + 1) prev w =
        if countAt hw rd w.dev = prev then some (IMG_ERROR_FATAL, REPORT .REPORT_ERR w1)
        else if 0 < countAt hw rd w.dev then
          pvdecio_startDMA.wait hw (scriptedDMA hw rd bg) ctx p fuel (countAt hw rd w.dev) w1
        else some (IMG_SUCCESS, w1) := by
  obtain ⟨h1, h2⟩ := PIXEL_DMA_ReadRegMacro_scripted hw rd bg ctx p 0 hw.DMAC_DMAC_COUNT_OFFSET
    hw.DMAC_DMAC_COUNT_STRIDE hw.DMAC_DMAC_COUNT_NO_ENTRIES 1846 w hinit hcount hclk
  refine ⟨_, h2, ?_⟩
  simp only [pvdecio_startDMA.wait, h1, countAt, beq_iff_eq, gt_iff_lt]

/-- The rounds of the DMA wait that go on: while each reading differs from the
count before and is not zero, the wait moves along the script. -/
theorem pvdecio_startDMA_wait_run (hw : HwDefs) (rd : Nat → Nat) (bg : Nat → Nat → Nat)
    (ctx : PVDECIO_sContext) (p : Nat)
    (hinit : ctx.bInitialised = true) (hcount : ctx.ui32MemSpaceCount ≠ 0)
    (hclk : ctx.bClocks = true) :
    ∀ (k prev : Nat) (w : World Nat) (fuel : Nat),
      (∀ j, j < k → countAt hw rd (w.dev + j) ≠
          (if j = 0 then prev else countAt hw rd (w.dev + (j - 1))) ∧
        countAt hw rd (w.dev + j) ≠ 0) →
      ∃ w1 : World Nat, w1.dev = w.dev + k ∧
        pvdecio_startDMA.wait hw (scriptedDMA hw rd bg) ctx p (k + fuel) prev w =
          pvdecio_startDMA.wait hw (scriptedDMA hw rd bg) ctx p fuel
            (if k = 0 then prev else countAt hw rd (w.dev + (k - 1))) w1 := by
  intro k
  induction k with
  | zero => intro prev w fuel _; exact ⟨w, rfl, by simp⟩
  | succ k ih =>
    intro prev w fuel h
    obtain ⟨w1, hw1, hstep⟩ := pvdecio_startDMA_wait_step hw rd bg ctx p (k + fuel) prev w
      hinit hcount hclk
    have h0 := h 0 (Nat.succ_pos k)
    simp only [Nat.add_zero, if_true] at h0
    have hpos : 0 < countAt hw rd w.dev := Nat.pos_of_ne_zero h0.2
    rw [if_neg h0.1, if_pos hpos] at hstep
    obtain ⟨w2, hw2, hrun⟩ := ih (countAt hw rd w.dev) w1 fuel (by
      intro j hj
      have hj1 := h (j + 1) (Nat.succ_lt_succ hj)
      have e1 : w1.dev + j = w.dev + (j + 1) := by omega
      rw [e1]
      refine ⟨?_, hj1.2⟩
      rcases Nat.eq_zero_or_pos j with hj0 | hjp
      · subst hj0
        simpa using hj1.1
      · have e2 : w1.dev + (j - 1) = w.dev + (j + 1 - 1) := by omega
        have hne : j ≠ 0 := by omega
        simpa [hne, e2] using hj1.1)
    refine ⟨w2, by omega, ?_⟩
    have e3 : k + 1 + fuel = k + fuel + 1 := by omega
    rw [e3, hstep, hrun]
    rcases Nat.eq_zero_or_pos k with hk0 | hkp
    · subst hk0; simp
    · have hne : k ≠ 0 := by omega
      have e4 : w1.dev + (k - 1) = w.dev + (k + 1 - 1) := by omega
      simp [hne, e4]

/-- The DMA wait ends with `IMG_ERROR_FATAL` at the first poll that reads the
count before, when no poll before it has read zero. -/
theorem pvdecio_startDMA_wait_fatal (hw : HwDefs) (rd : Nat → Nat) (bg : Nat → Nat → Nat)
    (ctx : PVDECIO_sContext) (p : Nat)
    (hinit : ctx.bInitialised = true) (hcount : ctx.ui32MemSpaceCount ≠ 0)
    (hclk : ctx.bClocks = true) (k prev : Nat) (w : World Nat) (fuel : Nat)
    (hgo : ∀ j, j < k → countAt hw rd (w.dev + j) ≠
        (if j = 0 then prev else countAt hw rd (w.dev + (j - 1))) ∧
      countAt hw rd (w.dev + j) ≠ 0)
    (hstall : countAt hw rd (w.dev + k) =
      (if k = 0 then prev else countAt hw rd (w.dev + (k - 1))))
    (hfuel : k < fuel) :
    ∃ w1 : World Nat, w1.dev = w.dev + k + 1 ∧
      pvdecio_startDMA.wait hw (scriptedDMA hw rd bg) ctx p fuel prev w =
        some (IMG_ERROR_FATAL, w1) := by
  obtain ⟨f, rfl⟩ : ∃ f, fuel = k + (f + 1) := ⟨fuel - k - 1, by omega⟩
  obtain ⟨w1, hw1, hrun⟩ := pvdecio_startDMA_wait_run hw rd bg ctx p hinit hcount hclk k prev w
    (f + 1) hgo
  obtain ⟨w2, hw2, hstep⟩ := pvdecio_startDMA_wait_step hw rd bg ctx p f
    (if k = 0 then prev else countAt hw rd (w.dev + (k - 1))) w1 hinit hcount hclk
  rw [hw1] at hstep
  rw [if_pos hstall] at hstep
  exact ⟨REPORT .REPORT_ERR w2, by simp [REPORT, World.log, hw2, hw1], by rw [hrun, hstep]⟩

/-- The DMA wait ends with `IMG_SUCCESS` at the first poll that reads zero,
when every poll up to it has read a count other than the one before. -/
theorem pvdecio_startDMA_wait_success (hw : HwDefs) (rd : Nat → Nat) (bg : Nat → Nat → Nat)
    (ctx : PVDECIO_sContext) (p : Nat)
    (hinit : ctx.bInitialised = true) (hcount : ctx.ui32MemSpaceCount ≠ 0)
    (hclk : ctx.bClocks = true) (k prev : Nat) (w : World Nat) (fuel : Nat)
    (hgo : ∀ j, j < k → countAt hw rd (w.dev + j) ≠
        (if j = 0 then prev else countAt hw rd (w.dev + (j - 1))) ∧
      countAt hw rd (w.dev + j) ≠ 0)
    (hmove : countAt hw rd (w.dev + k) ≠
      (if k = 0 then prev else countAt hw rd (w.dev + (k - 1))))
    (hzero : countAt hw rd (w.dev + k) = 0)
    (hfuel : k < fuel) :
    ∃ w1 : World Nat, w1.dev = w.dev + k + 1 ∧
      pvdecio_startDMA.wait hw (scriptedDMA hw rd bg) ctx p fuel prev w =
        some (IMG_SUCCESS, w1) := by
  obtain ⟨f, rfl⟩ : ∃ f, fuel = k + (f + 1) := ⟨fuel - k - 1, by omega⟩
  obtain ⟨w1, hw1, hrun⟩ := pvdecio_startDMA_wait_run hw rd bg ctx p hinit hcount hclk k prev w
    (f + 1) hgo
  obtain ⟨w2, hw2, hstep⟩ := pvdecio_startDMA_wait_step hw rd bg ctx p f
    (if k = 0 then prev else countAt hw rd (w.dev + (k - 1))) w1 hinit hcount hclk
  rw [hw1] at hstep
  rw [if_neg hmove, hzero, if_neg (Nat.lt_irrefl 0)] at hstep
  exact ⟨w2, by omega, by rw [hrun, hstep]⟩

/-- The DMA wait does not end while every poll reads a count that is neither
zero nor the one before. -/
theorem pvdecio_startDMA_wait_none (hw : HwDefs) (rd : Nat → Nat) (bg : Nat → Nat → Nat)
    (ctx : PVDECIO_sContext) (p : Nat)
    (hinit : ctx.bInitialised = true) (hcount : ctx.ui32MemSpaceCount ≠ 0)
    (hclk : ctx.bClocks = true) (prev : Nat) (w : World Nat) (fuel : Nat)
    (hgo : ∀ j, j < fuel → countAt hw rd (w.dev + j) ≠
        (if j = 0 then prev else countAt hw rd (w.dev + (j - 1))) ∧
      countAt hw rd (w.dev + j) ≠ 0) :
    pvdecio_startDMA.wait hw (scriptedDMA hw rd bg) ctx p fuel prev w = none := by
  obtain ⟨w1, _, hrun⟩ := pvdecio_startDMA_wait_run hw rd bg ctx p hinit hcount hclk fuel prev w
    0 hgo
  rw [Nat.add_zero] at hrun
  rw [hrun]
  rfl

/-- On the scripted device `pvdecio_startDMA`, built with the wait, is its wait
run with the programmed count from the untouched script. -/
theorem pvdecio_startDMA_scripted (cfg : BuildConfig) (hw : HwDefs) (rd : Nat → Nat)
    (bg : Nat → Nat → Nat) (ctx : PVDECIO_sContext) (p n a fuel : Nat) (w : World Nat)
    (hb : cfg.SYSBRG_BRIDGING = true)
    (hr : (hw.REGION_PVDEC_CORE_REGSPACE : Nat) ≠ hw.REGION_PVDEC_PIXEL_DMA_REGSPACE) :
    ∃ wp : World Nat, wp.dev = w.dev ∧
      pvdecio_startDMA cfg hw (scriptedDMA hw rd bg) ctx p n a fuel w =
        (pvdecio_startDMA.wait hw (scriptedDMA hw rd bg) { ctx with bClocks := true } p fuel
          (programmedCount hw n) wp).map (fun r => (r.1, { ctx with bClocks := true }, r.2)) := by
  obtain ⟨h1, h2, h3⟩ := pvdecio_startDMA_program_scripted cfg hw rd bg ctx p n a w hr
  refine ⟨_, h1, ?_⟩
  simp only [pvdecio_startDMA, hb, if_true, h2, h3, programmedCount]
  cases pvdecio_startDMA.wait hw (scriptedDMA hw rd bg) { ctx with bClocks := true } p fuel
    (REGIO_READ_FIELD (REGIO_WRITE_FIELD (startDMA_count hw n) hw.DMAC_DMAC_COUNT_EN 1)
      hw.DMAC_DMAC_COUNT_CNT)
    (pvdecio_startDMA.program cfg hw (scriptedDMA hw rd bg) ctx p n a w).2.2 <;> rfl

/-- C14 (amended): in the build that waits for the transfer, on an initialised
context and for every script of count-register readings: when poll `k` reads
the very count of the poll before (the programmed count standing before the
first poll) and no earlier poll has read zero or an unchanged count,
`pvdecio_startDMA` returns `IMG_ERROR_FATAL` at that poll, after `k + 1`
reads of the count register. -/
theorem C14_equal_count_is_fatal (cfg : BuildConfig) (hw : HwDefs) (rd : Nat → Nat)
    (bg : Nat → Nat → Nat) (ctx : PVDECIO_sContext) (p n a k fuel : Nat) (t : List Event)
    (hb : cfg.SYSBRG_BRIDGING = true)
    (hr : (hw.REGION_PVDEC_CORE_REGSPACE : Nat) ≠ hw.REGION_PVDEC_PIXEL_DMA_REGSPACE)
    (hinit : ctx.bInitialised = true) (hcount : ctx.ui32MemSpaceCount ≠ 0)
    (hgo : ∀ j, j < k → countAt hw rd j ≠ prevCount hw n rd j ∧ countAt hw rd j ≠ 0)
    (hstall : countAt hw rd k = prevCount hw n rd k) (hfuel : k < fuel) :
    ∃ (c : PVDECIO_sContext) (w1 : World Nat),
      pvdecio_startDMA cfg hw (scriptedDMA hw rd bg) ctx p n a fuel ⟨0, t⟩ =
        some (IMG_ERROR_FATAL, c, w1) ∧ w1.dev = k + 1 := by
  obtain ⟨wp, hwp, he⟩ := pvdecio_startDMA_scripted cfg hw rd bg ctx p n a fuel ⟨0, t⟩ hb hr
  have hwp0 : wp.dev = 0 := hwp
  obtain ⟨w1, hw1, hwait⟩ := pvdecio_startDMA_wait_fatal hw rd bg { ctx with bClocks := true } p
    hinit hcount rfl k (programmedCount hw n) wp fuel
    (by simpa [hwp0, prevCount] using hgo) (by simpa [hwp0, prevCount] using hstall) hfuel
  refine ⟨{ ctx with bClocks := true }, w1, ?_, by omega⟩
  rw [he, hwait]
  rfl

/-- C14 on the sample map: sixteen words programmed, the readings 12, 7, 7:
the third poll reads the count of the second and the call returns
`IMG_ERROR_FATAL` there. -/
theorem C14_equal_count_is_fatal_witness :
    ∃ (c : PVDECIO_sContext) (w1 : World Nat),
      pvdecio_startDMA bridgingBuild sampleHw
        (scriptedDMA sampleHw (script [12, 7, 7] 0) (fun _ _ => 0)) ctxOn 1 16 0x1000 5
        ⟨0, []⟩ = some (IMG_ERROR_FATAL, c, w1) ∧ w1.dev = 2 + 1 :=
  C14_equal_count_is_fatal bridgingBuild sampleHw (script [12, 7, 7] 0) (fun _ _ => 0) ctxOn 1 16
    0x1000 2 5 [] rfl (by decide) rfl (by decide) (by decide) (by decide) (by decide)

/-- C14, the claim as written fails: sixteen words programmed, the first poll
reads 17, a count larger than the programmed one, and the call does not return
at that poll; it reads on and returns `IMG_SUCCESS` at the second poll, which
reads zero. -/
theorem C14_counterexample_larger_count_not_fatal :
    programmedCount sampleHw 16 = 16 ∧
    countAt sampleHw (script [17, 0] 0) 0 = 17 ∧
    (pvdecio_startDMA bridgingBuild sampleHw
      (scriptedDMA sampleHw (script [17, 0] 0) (fun _ _ => 0)) ctxOn 1 16 0x1000 5
      ⟨0, []⟩).map (fun r => (r.1, r.2.2.dev)) = some (IMG_SUCCESS, 2) := by
  decide

/-- C15 (amended): in the build that waits for the transfer, on an initialised
context, for every transfer size and every script of count-register readings:
when poll `k` is the first to read zero and every poll up to and including it
reads a count other than that of the poll before (the programmed count
standing before the first poll), `pvdecio_startDMA` returns `IMG_SUCCESS` at
that poll, after `k + 1` reads of the count register. -/
theorem C15_count_reaching_zero_is_success (cfg : BuildConfig) (hw : HwDefs) (rd : Nat → Nat)
    (bg : Nat → Nat → Nat) (ctx : PVDECIO_sContext) (p n a k fuel : Nat) (t : List Event)
    (hb : cfg.SYSBRG_BRIDGING = true)
    (hr : (hw.REGION_PVDEC_CORE_REGSPACE : Nat) ≠ hw.REGION_PVDEC_PIXEL_DMA_REGSPACE)
    (hinit : ctx.bInitialised = true) (hcount : ctx.ui32MemSpaceCount ≠ 0)
    (hmove : ∀ j, j ≤ k → countAt hw rd j ≠ prevCount hw n rd j)
    (hfirst : ∀ j, j < k → countAt hw rd j ≠ 0)
    (hzero : countAt hw rd k = 0) (hfuel : k < fuel) :
    ∃ (c : PVDECIO_sContext) (w1 : World Nat),
      pvdecio_startDMA cfg hw (scriptedDMA hw rd bg) ctx p n a fuel ⟨0, t⟩ =
        some (IMG_SUCCESS, c, w1) ∧ w1.dev = k + 1 ∧ c.bClocks = true := by
  obtain ⟨wp, hwp, he⟩ := pvdecio_startDMA_scripted cfg hw rd bg ctx p n a fuel ⟨0, t⟩ hb hr
  have hwp0 : wp.dev = 0 := hwp
  obtain ⟨w1, hw1, hwait⟩ := pvdecio_startDMA_wait_success hw rd bg { ctx with bClocks := true } p
    hinit hcount rfl k (programmedCount hw n) wp fuel
    (by
      intro j hj
      have h1 := hmove j (Nat.le_of_lt hj)
      have h2 := hfirst j hj
      simpa [hwp0, prevCount] using And.intro h1 h2)
    (by simpa [hwp0, prevCount] using hmove k (Nat.le_refl k))
    (by simpa [hwp0] using hzero) hfuel
  refine ⟨{ ctx with bClocks := true }, w1, ?_, by omega, rfl⟩
  rw [he, hwait]
  rfl

/-- C15 on the sample map: sixteen words programmed, the readings 12, 7, 0:
the call returns `IMG_SUCCESS` at the third poll. -/
theorem C15_count_reaching_zero_is_success_witness :
    ∃ (c : PVDECIO_sContext) (w1 : World Nat),
      pvdecio_startDMA bridgingBuild sampleHw
        (scriptedDMA sampleHw (script [12, 7, 0] 9) (fun _ _ => 0)) ctxOn 1 16 0x1000 5
        ⟨0, []⟩ = some (IMG_SUCCESS, c, w1) ∧ w1.dev = 2 + 1 ∧ c.bClocks = true :=
  C15_count_reaching_zero_is_success bridgingBuild sampleHw (script [12, 7, 0] 9) (fun _ _ => 0)
    ctxOn 1 16 0x1000 2 5 [] rfl (by decide) rfl (by decide) (by decide) (by decide) (by decide)
    (by decide)

/-- C15, the claim as written fails. With a transfer size of 0 the first poll
reads zero, which is the programmed count, and the call returns
`IMG_ERROR_FATAL`. With sixteen words programmed and the readings 5, 5, 0 the
counter reaches zero at the third reading, and the call returns
`IMG_ERROR_FATAL` at the second. -/
theorem C15_counterexample_fatal_although_zero_is_reached :
    (programmedCount sampleHw 0 = 0 ∧
      countAt sampleHw (script [0] 0) 0 = 0 ∧
      (pvdecio_startDMA bridgingBuild sampleHw
        (scriptedDMA sampleHw (script [0] 0) (fun _ _ => 0)) ctxOn 1 0 0x1000 5
        ⟨0, []⟩).map (fun r => (r.1, r.2.2.dev)) = some (IMG_ERROR_FATAL, 1)) ∧
    (countAt sampleHw (script [5, 5, 0] 0) 2 = 0 ∧
      (pvdecio_startDMA bridgingBuild sampleHw
        (scriptedDMA sampleHw (script [5, 5, 0] 0) (fun _ _ => 0)) ctxOn 1 16 0x1000 5
        ⟨0, []⟩).map (fun r => (r.1, r.2.2.dev)) = some (IMG_ERROR_FATAL, 2)) := by
  decide

/-! ## Traces of the register accesses -/

/-- The writes to one register in a trace made of two parts. -/
theorem writesTo_append (h o : Nat) (a b : List Event) :
    writesTo h o (a ++ b) = writesTo h o a ++ writesTo h o b := by
  simp [writesTo]

/-- An empty trace holds no write. -/
theorem writesTo_nil (h o : Nat) : writesTo h o [] = [] := rfl

/-- The writes to one register in a trace that starts with `e`. -/
theorem writesTo_cons (h o : Nat) (e : Event) (t : List Event) :
    writesTo h o (e :: t) = (Event.writtenTo h o e).toList ++ writesTo h o t := by
  simp only [writesTo, List.filterMap_cons]
  cases Event.writtenTo h o e <;> rfl

/-- What an assertion records holds no write. -/
theorem writesTo_assertEvents (h o : Nat) (c : Bool) (line : Nat) :
    writesTo h o (assertEvents c line) = [] := by
  cases c <;> rfl

/-- The trace after an assertion. -/
theorem IMG_ASSERT_trace_eq {σ : Type} (c : Bool) (line : Nat) (w : World σ) :
    (IMG_ASSERT c line w).trace = w.trace ++ assertEvents c line := by
  cases c <;> simp [IMG_ASSERT, assertEvents, World.log]

/-- The trace after the pipe selection. -/
theorem pvdecio_SelectPipe_trace_eq {σ : Type} (hw : HwDefs) (tal : TAL σ)
    (ctx : PVDECIO_sContext) (p : Nat) (w : World σ) :
    (pvdecio_SelectPipe hw tal ctx p w).trace = w.trace ++ selectEvents hw p := by
  by_cases hp : p = PVDEC_DEF_PIPE
  · subst hp
    simp [pvdecio_SelectPipe_sentinel, selectEvents]
  · rw [pvdecio_SelectPipe_other hw tal ctx p w hp]
    simp [selectEvents, hp, IMG_ASSERT_trace_eq]

/-- The trace after a register write with the default mask, the gate open. -/
theorem PVDECIO_WriteRegister_open_trace {σ : Type} (hw : HwDefs) (tal : TAL σ)
    (ctx : PVDECIO_sContext) (hinit : ctx.bInitialised = true)
    (hcount : ctx.ui32MemSpaceCount ≠ 0) (hclk : ctx.bClocks = true)
    (r : Fin hw.REGION_PVDEC_MAX) (o v p : Nat) (w : World σ) :
    (PVDECIO_WriteRegister hw tal (some ctx) r o v PVDEC_DEF_REG_MASK p w).2.trace =
      w.trace ++ selectEvents hw p ++ [.regWrite r o v] := by
  rw [PVDECIO_WriteRegister_open hw tal ctx r o v _ p w hinit hcount hclk r.isLt]
  simp [pvdecio_SelectPipe_trace_eq]

/-- The trace after a register read, the gate open. -/
theorem PVDECIO_ReadRegister_open_trace {σ : Type} (hw : HwDefs) (tal : TAL σ)
    (ctx : PVDECIO_sContext) (hinit : ctx.bInitialised = true)
    (hcount : ctx.ui32MemSpaceCount ≠ 0) (hclk : ctx.bClocks = true)
    (r : Fin hw.REGION_PVDEC_MAX) (o p : Nat) (w : World σ) :
    (PVDECIO_ReadRegister hw tal (some ctx) r o p w).2.trace =
      w.trace ++ selectEvents hw p ++
        [.regRead r o (PVDECIO_ReadRegister hw tal (some ctx) r o p w).1] := by
  rw [PVDECIO_ReadRegister_open hw tal ctx r o p w hinit hcount hclk r.isLt]
  simp [pvdecio_SelectPipe_trace_eq]

/-- The trace of the programming part of `pvdecio_startDMA` on an initialised
context: the store of the clock flag, what setting the clocks records, and the
programming writes. -/
theorem pvdecio_startDMA_program_trace {σ : Type} (cfg : BuildConfig) (hw : HwDefs) (tal : TAL σ)
    (ctx : PVDECIO_sContext) (p n a : Nat) (w : World σ)
    (hinit : ctx.bInitialised = true) (hcount : ctx.ui32MemSpaceCount ≠ 0) :
    (pvdecio_startDMA.program cfg hw tal ctx p n a w).2.2.trace =
      (pvdecio_SetClocks cfg hw tal { ctx with bClocks := true } (allClocks hw)
        (w.log (.storeClocks true))).trace ++ startDMA_events hw p n a := by
  have L := PVDECIO_WriteRegister_open_trace hw tal { ctx with bClocks := true } hinit hcount rfl
  simp only [pvdecio_startDMA.program, MTX_CORE_WriteRegister, PVDEC_PIXEL_WritePipeRegister,
    PVDEC_CORE_WriteRegister, PIXEL_DMA_WriteRegMacro, L, IMG_ASSERT_trace_eq, startDMA_events,
    List.append_assoc]
  simp [selectEvents]

/-- The sentinel pipe records no selection. -/
theorem selectEvents_sentinel (hw : HwDefs) : selectEvents hw PVDEC_DEF_PIPE = [] := by
  simp [selectEvents]

/-- The selection of a pipe writes to no register but the pipe select register
of the core region. -/
theorem writesTo_selectEvents (hw : HwDefs) (p h o : Nat)
    (hmiss : ¬ ((hw.REGION_PVDEC_CORE_REGSPACE : Nat) = h ∧
      hw.PVDEC_CORE_CR_PVDEC_HOST_PIPE_SELECT_OFFSET = o)) :
    writesTo h o (selectEvents hw p) = [] := by
  unfold selectEvents
  split
  · rfl
  · simp [writesTo_append, writesTo_assertEvents, writesTo_cons, writesTo_nil, Event.writtenTo,
      hmiss]

/-- A bus write call adds no write to a register other than its target. -/
theorem writesTo_TALREG_WriteWord32_miss {σ : Type} (hw : HwDefs) (tal : TAL σ)
    (r o v : Nat) (w : World σ) (h o1 : Nat) (hmiss : ¬ (r = h ∧ o = o1)) :
    writesTo h o1 (TALREG_WriteWord32 hw tal r o v w).2.trace = writesTo h o1 w.trace := by
  unfold TALREG_WriteWord32 pahMemSpace
  split
  · rename_i x heq
    split at heq
    · cases heq
      simp [writesTo_append, writesTo_cons, writesTo_nil, Event.writtenTo, hmiss]
    · cases heq
  · simp [World.log, writesTo_append, writesTo_cons, writesTo_nil, Event.writtenTo]

/-- A bus read call adds no write. -/
theorem writesTo_TALREG_ReadWord32 {σ : Type} (hw : HwDefs) (tal : TAL σ)
    (r o d : Nat) (w : World σ) (h o1 : Nat) :
    writesTo h o1 (TALREG_ReadWord32 hw tal r o d w).2.2.trace = writesTo h o1 w.trace := by
  unfold TALREG_ReadWord32
  split <;> simp [World.log, writesTo_append, writesTo_cons, writesTo_nil, Event.writtenTo]

/-- A register write with the default mask, whatever the state of the gate,
adds no write to a register that is neither its target nor touched by its pipe
selection. -/
theorem writesTo_PVDECIO_WriteRegister_miss {σ : Type} (hw : HwDefs) (tal : TAL σ)
    (hctx : Option PVDECIO_sContext) (r o v p : Nat) (w : World σ) (h o1 : Nat)
    (hmiss : ¬ (r = h ∧ o = o1)) (hsel : writesTo h o1 (selectEvents hw p) = []) :
    writesTo h o1 (PVDECIO_WriteRegister hw tal hctx r o v PVDEC_DEF_REG_MASK p w).2.trace =
      writesTo h o1 w.trace := by
  unfold PVDECIO_WriteRegister
  cases hctx with
  | none =>
    simp [REPORT, World.log, IMG_ASSERT_trace_eq, writesTo_append, writesTo_cons, writesTo_nil,
      Event.writtenTo, assertEvents]
  | some ctx =>
    by_cases hi : ctx.bInitialised = true <;> by_cases hc : ctx.bClocks = true <;>
      simp [hi, hc, REPORT, World.log, IMG_ASSERT_trace_eq, writesTo_append, writesTo_cons,
        writesTo_nil, Event.writtenTo, writesTo_assertEvents, pvdecio_SelectPipe_trace_eq, hsel,
        writesTo_TALREG_WriteWord32_miss _ _ _ _ _ _ _ _ hmiss]

/-- A register read, whatever the state of the gate, adds no write to a
register that its pipe selection does not touch. -/
theorem writesTo_PVDECIO_ReadRegister {σ : Type} (hw : HwDefs) (tal : TAL σ)
    (hctx : Option PVDECIO_sContext) (r o p : Nat) (w : World σ) (h o1 : Nat)
    (hsel : writesTo h o1 (selectEvents hw p) = []) :
    writesTo h o1 (PVDECIO_ReadRegister hw tal hctx r o p w).2.trace = writesTo h o1 w.trace := by
  unfold PVDECIO_ReadRegister
  cases hctx with
  | none =>
    simp [REPORT, World.log, IMG_ASSERT_trace_eq, writesTo_append, writesTo_cons, writesTo_nil,
      Event.writtenTo, assertEvents]
  | some ctx =>
    by_cases hi : ctx.bInitialised = true <;> by_cases hc : ctx.bClocks = true <;>
      simp [hi, hc, REPORT, World.log, IMG_ASSERT_trace_eq, writesTo_append, writesTo_cons,
        writesTo_nil, Event.writtenTo, writesTo_assertEvents, pvdecio_SelectPipe_trace_eq, hsel,
        writesTo_TALREG_ReadWord32]

/-- Setting the clocks, whatever the state of the gate, writes to no register
but the clock enable register of the core region. -/
theorem writesTo_pvdecio_SetClocks {σ : Type} (cfg : BuildConfig) (hw : HwDefs) (tal : TAL σ)
    (ctx : PVDECIO_sContext) (req : Nat) (w : World σ) (h o : Nat)
    (hmiss : ¬ ((hw.REGION_PVDEC_CORE_REGSPACE : Nat) = h ∧
      hw.PVDEC_CORE_CR_PVDEC_MAN_CLK_ENABLE_OFFSET = o)) :
    writesTo h o (pvdecio_SetClocks cfg hw tal ctx req w).trace = writesTo h o w.trace := by
  unfold pvdecio_SetClocks
  split
  · have hs : writesTo h o (selectEvents hw PVDEC_DEF_PIPE) = [] := by
      rw [selectEvents_sentinel]; rfl
    simp only [PVDEC_CORE_WriteRegister, PVDEC_CORE_ReadRegister]
    rw [writesTo_PVDECIO_WriteRegister_miss _ _ _ _ _ _ _ _ _ _ hmiss hs, IMG_ASSERT_trace_eq,
      writesTo_append, writesTo_assertEvents, List.append_nil,
      writesTo_PVDECIO_ReadRegister _ _ _ _ _ _ _ _ _ hs,
      writesTo_PVDECIO_WriteRegister_miss _ _ _ _ _ _ _ _ _ _ hmiss hs]
  · rfl

/-- The wait of `pvdecio_LoadFW` after a word writes to no register. -/
theorem writesTo_pvdecio_LoadFW_wait {σ : Type} (hw : HwDefs) (tal : TAL σ)
    (ctx : PVDECIO_sContext) (h o : Nat) :
    ∀ (t : Nat) (w : World σ),
      writesTo h o (pvdecio_LoadFW.wait hw tal ctx t w).2.trace = writesTo h o w.trace
  | 0, w => rfl
  | t + 1, w => by
    have hs : writesTo h o (selectEvents hw PVDEC_DEF_PIPE) = [] := by
      rw [selectEvents_sentinel]; rfl
    unfold pvdecio_LoadFW.wait
    simp only [MTX_CORE_ReadRegister]
    split
    · simp only [REPORT, World.log, writesTo_append, writesTo_cons, writesTo_nil,
        Event.writtenTo, writesTo_PVDECIO_ReadRegister _ _ _ _ _ _ _ _ _ hs]
      simp
    · split
      · rw [writesTo_pvdecio_LoadFW_wait hw tal ctx h o t,
          writesTo_PVDECIO_ReadRegister _ _ _ _ _ _ _ _ _ hs,
          writesTo_PVDECIO_ReadRegister _ _ _ _ _ _ _ _ _ hs]
      · simp only [writesTo_PVDECIO_ReadRegister _ _ _ _ _ _ _ _ _ hs]

/-- The word loop of `pvdecio_LoadFW` writes to no register but the RAM access
control and data transfer registers of the MTX region. -/
theorem writesTo_pvdecio_LoadFW_words {σ : Type} (hw : HwDefs) (tal : TAL σ)
    (ctx : PVDECIO_sContext) (bank size : Nat) (buf : List Nat) (h o : Nat)
    (hc : ¬ ((hw.REGION_PVDEC_MTX_CORE_REGSPACE : Nat) = h ∧
      hw.MTX_CORE_CR_MTX_RAM_ACCESS_CONTROL_OFFSET = o))
    (hd : ¬ ((hw.REGION_PVDEC_MTX_CORE_REGSPACE : Nat) = h ∧
      hw.MTX_CORE_CR_MTX_RAM_ACCESS_DATA_TRANSFER_OFFSET = o)) :
    ∀ (n i addr id : Nat) (w : World σ),
      writesTo h o (pvdecio_LoadFW.words hw tal ctx bank size buf n i addr id w).trace =
        writesTo h o w.trace
  | 0, _, _, _, w => rfl
  | n + 1, i, addr, id, w => by
    have hs : writesTo h o (selectEvents hw PVDEC_DEF_PIPE) = [] := by
      rw [selectEvents_sentinel]; rfl
    unfold pvdecio_LoadFW.words
    simp only []
    rw [writesTo_pvdecio_LoadFW_words hw tal ctx bank size buf h o hc hd n]
    have e1 : ∀ (t : Nat × World σ),
        writesTo h o (if (t.1 == 0) = true then
          REPORT .REPORT_ERR (MTX_CORE_ReadRegister hw tal (some ctx)
            hw.MTX_CORE_CR_MTX_RAM_ACCESS_STATUS_OFFSET t.2).2 else t.2).trace =
          writesTo h o t.2.trace := by
      intro t
      split
      · simp [MTX_CORE_ReadRegister, REPORT, World.log, writesTo_append, writesTo_cons,
          writesTo_nil, Event.writtenTo, writesTo_PVDECIO_ReadRegister _ _ _ _ _ _ _ _ _ hs]
      · rfl
    rw [e1, writesTo_pvdecio_LoadFW_wait]
    have e2 : ∀ (c : Bool) (w1 : World σ),
        writesTo h o (if c = true then REPORT .REPORT_ERR w1 else w1).trace =
          writesTo h o w1.trace := by
      intro c w1
      cases c <;> simp [REPORT, World.log, writesTo_append, writesTo_cons, writesTo_nil,
        Event.writtenTo]
    rw [e2]
    simp only [MTX_CORE_WriteRegister]
    rw [writesTo_PVDECIO_WriteRegister_miss _ _ _ _ _ _ _ _ _ _ hd hs]
    split
    · simp only [REPORT, World.log, writesTo_append, writesTo_cons, writesTo_nil,
        Event.writtenTo, writesTo_PVDECIO_WriteRegister_miss _ _ _ _ _ _ _ _ _ _ hc hs]
      simp
    · rfl

/-- Two entries at different places of a list without repetition differ. -/
theorem nodup_ne {α : Type} {l : List α} (hl : l.Nodup) (i j : Nat) {a b : α}
    (ha : l[i]? = some a) (hb : l[j]? = some b) (hij : i ≠ j) : a ≠ b := by
  intro h
  obtain ⟨hi, ea⟩ := List.getElem?_eq_some.mp ha
  obtain ⟨hj, eb⟩ := List.getElem?_eq_some.mp hb
  exact hij ((List.Nodup.getElem_inj_iff hl).mp (by rw [ea, eb, h]))

/-- Three single events appended one by one. -/
theorem append_three (x : List Event) (a b c : Event) :
    ((x ++ [a]) ++ [b]) ++ [c] = x ++ [a, b, c] := by
  simp

/-- The last writes of `pvdecio_LoadFW` on an initialised context: the entry
point to the MTX register data register, the request that moves it into the
program counter, and 1 to the MTX enable register; none of these registers is
written before. -/
theorem pvdecio_LoadFW_last_writes {σ : Type} (cfg : BuildConfig) (hw : HwDefs) (tal : TAL σ)
    (ctx : PVDECIO_sContext) (p : Nat) (w : World σ) (hap : hw.Apart)
    (hinit : ctx.bInitialised = true) (hcount : ctx.ui32MemSpaceCount ≠ 0) :
    ∃ t2, (pvdecio_LoadFW cfg hw tal ctx p w).2.trace = t2 ++
        [.regWrite hw.REGION_PVDEC_MTX_CORE_REGSPACE
          hw.MTX_CORE_CR_MTX_REGISTER_READ_WRITE_DATA_OFFSET 0x80900000,
        .regWrite hw.REGION_PVDEC_MTX_CORE_REGSPACE
          hw.MTX_CORE_CR_MTX_REGISTER_READ_WRITE_REQUEST_OFFSET
          (REGIO_WRITE_FIELD (REGIO_WRITE_FIELD (REGIO_WRITE_FIELD 0
            hw.MTX_CORE_CR_MTX_REGISTER_READ_WRITE_REQUEST_MTX_RNW 0)
            hw.MTX_CORE_CR_MTX_REGISTER_READ_WRITE_REQUEST_MTX_USPECIFIER 5)
            hw.MTX_CORE_CR_MTX_REGISTER_READ_WRITE_REQUEST_MTX_RSPECIFIER 0),
        .regWrite hw.REGION_PVDEC_MTX_CORE_REGSPACE hw.MTX_CORE_CR_MTX_ENABLE_OFFSET 1] ∧
      writesTo hw.REGION_PVDEC_MTX_CORE_REGSPACE
        hw.MTX_CORE_CR_MTX_REGISTER_READ_WRITE_DATA_OFFSET t2 =
        writesTo hw.REGION_PVDEC_MTX_CORE_REGSPACE
          hw.MTX_CORE_CR_MTX_REGISTER_READ_WRITE_DATA_OFFSET w.trace ∧
      writesTo hw.REGION_PVDEC_MTX_CORE_REGSPACE
        hw.MTX_CORE_CR_MTX_REGISTER_READ_WRITE_REQUEST_OFFSET t2 =
        writesTo hw.REGION_PVDEC_MTX_CORE_REGSPACE
          hw.MTX_CORE_CR_MTX_REGISTER_READ_WRITE_REQUEST_OFFSET w.trace ∧
      writesTo hw.REGION_PVDEC_MTX_CORE_REGSPACE hw.MTX_CORE_CR_MTX_ENABLE_OFFSET t2 =
        writesTo hw.REGION_PVDEC_MTX_CORE_REGSPACE hw.MTX_CORE_CR_MTX_ENABLE_OFFSET w.trace := by
  obtain ⟨hr, _, hm, _⟩ := hap
  have hcm : (hw.REGION_PVDEC_CORE_REGSPACE : Nat) ≠ hw.REGION_PVDEC_MTX_CORE_REGSPACE :=
    Fin.val_ne_of_ne (nodup_ne hr 0 1 rfl rfl (by decide))
  have hdm : (hw.REGION_PVDEC_PIXEL_DMA_REGSPACE : Nat) ≠ hw.REGION_PVDEC_MTX_CORE_REGSPACE :=
    Fin.val_ne_of_ne (nodup_ne hr 2 1 rfl rfl (by decide))
  have L := PVDECIO_WriteRegister_open_trace hw tal { ctx with bClocks := true } hinit hcount rfl
    hw.REGION_PVDEC_MTX_CORE_REGSPACE
  have frame : ∀ o : Nat, hw.MTX_CORE_CR_MTX_RAM_ACCESS_CONTROL_OFFSET ≠ o →
      hw.MTX_CORE_CR_MTX_RAM_ACCESS_DATA_TRANSFER_OFFSET ≠ o →
      ∀ (a : Nat × World σ) (hdef : a = PVDECIO_WriteRegister hw tal
          (some { ctx with bClocks := true }) hw.REGION_PVDEC_PIXEL_DMA_REGSPACE
          ((hw.DMAC_DMAC_SETUP_OFFSET + 0 * hw.DMAC_DMAC_SETUP_STRIDE) % 2 ^ 32)
          ctx.sFwInfo.ui32BlobDevVirtAddr PVDEC_DEF_REG_MASK 0
          (IMG_ASSERT (decide (0 < hw.DMAC_DMAC_SETUP_NO_ENTRIES)) 1701
            (pvdecio_LoadFW.words hw tal { ctx with bClocks := true }
              ((1 <<< (ctx.sMTXRamInfo.ui32MTXBankSize + 2)) % 2 ^ 32) ctx.sFwInfo.ui32CoreSize
              ctx.sFwInfo.pvBlobCpuAddr ctx.sFwInfo.ui32CoreSize 0 0 0xFFFFFFFF
              (REPORT .REPORT_ERR ((pvdecio_SetClocks cfg hw tal ctx (allClocks hw) w).log
                (.storeClocks true)))))),
        writesTo hw.REGION_PVDEC_MTX_CORE_REGSPACE o a.2.trace =
          writesTo hw.REGION_PVDEC_MTX_CORE_REGSPACE o w.trace := by
    intro o h1 h2 a hdef
    subst hdef
    rw [writesTo_PVDECIO_WriteRegister_miss _ _ _ _ _ _ _ _ _ _ (fun hh => hdm hh.1)
        (writesTo_selectEvents hw 0 _ _ (fun hh => hcm hh.1)),
      IMG_ASSERT_trace_eq, writesTo_append, writesTo_assertEvents, List.append_nil,
      writesTo_pvdecio_LoadFW_words hw tal _ _ _ _ _ _ (fun hh => h1 hh.2) (fun hh => h2 hh.2)]
    simp only [REPORT, World.log, writesTo_append, writesTo_cons, writesTo_nil, Event.writtenTo,
      Option.toList, List.append_nil]
    exact writesTo_pvdecio_SetClocks cfg hw tal ctx _ w _ _ (fun hh => hcm hh.1)
  simp only [pvdecio_LoadFW, MTX_CORE_WriteRegister, L, selectEvents_sentinel, List.append_nil]
  rw [append_three]
  refine ⟨_, rfl, ?_, ?_, ?_⟩
  · exact frame _ (nodup_ne hm 4 1 rfl rfl (by decide))
      (nodup_ne hm 3 1 rfl rfl (by decide)) _ rfl
  · exact frame _ (nodup_ne hm 4 2 rfl rfl (by decide))
      (nodup_ne hm 3 2 rfl rfl (by decide)) _ rfl
  · exact frame _ (nodup_ne hm 4 0 rfl rfl (by decide))
      (nodup_ne hm 3 0 rfl rfl (by decide)) _ rfl

/-- The programming writes of `pvdecio_startDMA` touch three registers of the
MTX region only: the timer divider and the DMA address and control registers. -/
theorem writesTo_startDMA_events_mtx (hw : HwDefs) (p n a o : Nat) (hap : hw.Apart)
    (h1 : hw.MTX_CORE_CR_MTX_SYSC_TIMERDIV_OFFSET ≠ o)
    (h2 : hw.MTX_CORE_CR_MTX_SYSC_CDMAA_OFFSET ≠ o)
    (h3 : hw.MTX_CORE_CR_MTX_SYSC_CDMAC_OFFSET ≠ o) :
    writesTo hw.REGION_PVDEC_MTX_CORE_REGSPACE o (startDMA_events hw p n a) = [] := by
  obtain ⟨hr, _, _, _⟩ := hap
  have hcm : (hw.REGION_PVDEC_CORE_REGSPACE : Nat) ≠ hw.REGION_PVDEC_MTX_CORE_REGSPACE :=
    Fin.val_ne_of_ne (nodup_ne hr 0 1 rfl rfl (by decide))
  have hdm : (hw.REGION_PVDEC_PIXEL_DMA_REGSPACE : Nat) ≠ hw.REGION_PVDEC_MTX_CORE_REGSPACE :=
    Fin.val_ne_of_ne (nodup_ne hr 2 1 rfl rfl (by decide))
  have hpm : (hw.REGION_PVDEC_PIXEL_PIPE_REGSPACE : Nat) ≠ hw.REGION_PVDEC_MTX_CORE_REGSPACE :=
    Fin.val_ne_of_ne (nodup_ne hr 3 1 rfl rfl (by decide))
  have hs := writesTo_selectEvents hw p hw.REGION_PVDEC_MTX_CORE_REGSPACE o
    (fun hh => hcm hh.1)
  simp [startDMA_events, writesTo_append, writesTo_cons, writesTo_nil, writesTo_assertEvents,
    Event.writtenTo, hs, hcm, hdm, hpm, h1, h2, h3]

/-- The DMA wait, when it ends, has written to no register that the pipe
selection does not touch. -/
theorem writesTo_pvdecio_startDMA_wait {σ : Type} (hw : HwDefs) (tal : TAL σ)
    (ctx : PVDECIO_sContext) (p h o : Nat) (hsel : writesTo h o (selectEvents hw p) = []) :
    ∀ (fuel prev : Nat) (w : World σ) (r : Nat × World σ),
      pvdecio_startDMA.wait hw tal ctx p fuel prev w = some r →
      writesTo h o r.2.trace = writesTo h o w.trace
  | 0, _, _, _, hr => by simp [pvdecio_startDMA.wait] at hr
  | fuel + 1, prev, w, r, hr => by
    have hrd : writesTo h o (PIXEL_DMA_ReadRegMacro hw tal (some ctx) p 0
        hw.DMAC_DMAC_COUNT_OFFSET hw.DMAC_DMAC_COUNT_STRIDE hw.DMAC_DMAC_COUNT_NO_ENTRIES 1846
        w).2.trace = writesTo h o w.trace := by
      simp only [PIXEL_DMA_ReadRegMacro]
      rw [writesTo_PVDECIO_ReadRegister _ _ _ _ _ _ _ _ _ hsel, IMG_ASSERT_trace_eq,
        writesTo_append, writesTo_assertEvents, List.append_nil]
    unfold pvdecio_startDMA.wait at hr
    simp only [] at hr
    split at hr
    · cases hr
      simp only [REPORT, World.log, writesTo_append, writesTo_cons, writesTo_nil,
        Event.writtenTo, Option.toList, List.append_nil]
      exact hrd
    · split at hr
      · rw [writesTo_pvdecio_startDMA_wait hw tal ctx p h o hsel fuel _ _ r hr, hrd]
      · cases hr
        exact hrd

/-- `pvdecio_startDMA` on an initialised context, when it returns, has written
to no register of the MTX region but the timer divider and the DMA address and
control registers. -/
theorem writesTo_pvdecio_startDMA_mtx {σ : Type} (cfg : BuildConfig) (hw : HwDefs) (tal : TAL σ)
    (ctx : PVDECIO_sContext) (p n a fuel o : Nat) (w : World σ)
    (r : Nat × PVDECIO_sContext × World σ) (hap : hw.Apart)
    (hinit : ctx.bInitialised = true) (hcount : ctx.ui32MemSpaceCount ≠ 0)
    (h1 : hw.MTX_CORE_CR_MTX_SYSC_TIMERDIV_OFFSET ≠ o)
    (h2 : hw.MTX_CORE_CR_MTX_SYSC_CDMAA_OFFSET ≠ o)
    (h3 : hw.MTX_CORE_CR_MTX_SYSC_CDMAC_OFFSET ≠ o)
    (hret : pvdecio_startDMA cfg hw tal ctx p n a fuel w = some r) :
    writesTo hw.REGION_PVDEC_MTX_CORE_REGSPACE o r.2.2.trace =
      writesTo hw.REGION_PVDEC_MTX_CORE_REGSPACE o w.trace := by
  have hcm : (hw.REGION_PVDEC_CORE_REGSPACE : Nat) ≠ hw.REGION_PVDEC_MTX_CORE_REGSPACE :=
    Fin.val_ne_of_ne (nodup_ne hap.1 0 1 rfl rfl (by decide))
  have hprog : writesTo hw.REGION_PVDEC_MTX_CORE_REGSPACE o
      (pvdecio_startDMA.program cfg hw tal ctx p n a w).2.2.trace =
      writesTo hw.REGION_PVDEC_MTX_CORE_REGSPACE o w.trace := by
    rw [pvdecio_startDMA_program_trace cfg hw tal ctx p n a w hinit hcount, writesTo_append,
      writesTo_startDMA_events_mtx hw p n a o hap h1 h2 h3, List.append_nil,
      writesTo_pvdecio_SetClocks cfg hw tal _ _ _ _ _ (fun hh => hcm hh.1)]
    simp [World.log, writesTo_append, writesTo_cons, writesTo_nil, Event.writtenTo]
  unfold pvdecio_startDMA at hret
  simp only [] at hret
  split at hret
  · split at hret
    · rename_i r1 heq
      cases hret
      rw [writesTo_pvdecio_startDMA_wait hw tal _ p _ o
        (writesTo_selectEvents hw p _ _ (fun hh => hcm hh.1)) fuel _ _ r1 heq, hprog]
    · cases hret
  · cases hret
    exact hprog

/-- C13 (amended): on an initialised context and a register map whose
registers lie apart, `pvdecio_LoadFW` (register upload) ends with exactly these
three writes, after everything else it records and so after all firmware
words: the entry point 0x80900000 to the MTX register data register, the
request that moves it into the program counter, and 1 to the MTX enable
register; it writes to none of the three registers before. `pvdecio_startDMA`
(DMA strategy) writes to none of the three registers whenever it returns, and
in the build without the wait it returns `IMG_SUCCESS`. -/
theorem C13_only_register_upload_writes_pc_and_enable {σ : Type} (cfg : BuildConfig)
    (hw : HwDefs) (tal : TAL σ) (ctx : PVDECIO_sContext) (p n a : Nat) (w : World σ)
    (hap : hw.Apart) (hinit : ctx.bInitialised = true) (hcount : ctx.ui32MemSpaceCount ≠ 0) :
    (∃ t2, (pvdecio_LoadFW cfg hw tal ctx p w).2.trace = t2 ++
        [.regWrite hw.REGION_PVDEC_MTX_CORE_REGSPACE
          hw.MTX_CORE_CR_MTX_REGISTER_READ_WRITE_DATA_OFFSET 0x80900000,
        .regWrite hw.REGION_PVDEC_MTX_CORE_REGSPACE
          hw.MTX_CORE_CR_MTX_REGISTER_READ_WRITE_REQUEST_OFFSET
          (REGIO_WRITE_FIELD (REGIO_WRITE_FIELD (REGIO_WRITE_FIELD 0
            hw.MTX_CORE_CR_MTX_REGISTER_READ_WRITE_REQUEST_MTX_RNW 0)
            hw.MTX_CORE_CR_MTX_REGISTER_READ_WRITE_REQUEST_MTX_USPECIFIER 5)
            hw.MTX_CORE_CR_MTX_REGISTER_READ_WRITE_REQUEST_MTX_RSPECIFIER 0),
        .regWrite hw.REGION_PVDEC_MTX_CORE_REGSPACE hw.MTX_CORE_CR_MTX_ENABLE_OFFSET 1] ∧
      writesTo hw.REGION_PVDEC_MTX_CORE_REGSPACE
        hw.MTX_CORE_CR_MTX_REGISTER_READ_WRITE_DATA_OFFSET t2 =
        writesTo hw.REGION_PVDEC_MTX_CORE_REGSPACE
          hw.MTX_CORE_CR_MTX_REGISTER_READ_WRITE_DATA_OFFSET w.trace ∧
      writesTo hw.REGION_PVDEC_MTX_CORE_REGSPACE
        hw.MTX_CORE_CR_MTX_REGISTER_READ_WRITE_REQUEST_OFFSET t2 =
        writesTo hw.REGION_PVDEC_MTX_CORE_REGSPACE
          hw.MTX_CORE_CR_MTX_REGISTER_READ_WRITE_REQUEST_OFFSET w.trace ∧
      writesTo hw.REGION_PVDEC_MTX_CORE_REGSPACE hw.MTX_CORE_CR_MTX_ENABLE_OFFSET t2 =
        writesTo hw.REGION_PVDEC_MTX_CORE_REGSPACE hw.MTX_CORE_CR_MTX_ENABLE_OFFSET w.trace) ∧
    (∀ (fuel : Nat) (r : Nat × PVDECIO_sContext × World σ),
      pvdecio_startDMA cfg hw tal ctx p n a fuel w = some r →
      writesTo hw.REGION_PVDEC_MTX_CORE_REGSPACE
        hw.MTX_CORE_CR_MTX_REGISTER_READ_WRITE_DATA_OFFSET r.2.2.trace =
        writesTo hw.REGION_PVDEC_MTX_CORE_REGSPACE
          hw.MTX_CORE_CR_MTX_REGISTER_READ_WRITE_DATA_OFFSET w.trace ∧
      writesTo hw.REGION_PVDEC_MTX_CORE_REGSPACE
        hw.MTX_CORE_CR_MTX_REGISTER_READ_WRITE_REQUEST_OFFSET r.2.2.trace =
        writesTo hw.REGION_PVDEC_MTX_CORE_REGSPACE
          hw.MTX_CORE_CR_MTX_REGISTER_READ_WRITE_REQUEST_OFFSET w.trace ∧
      writesTo hw.REGION_PVDEC_MTX_CORE_REGSPACE hw.MTX_CORE_CR_MTX_ENABLE_OFFSET r.2.2.trace =
        writesTo hw.REGION_PVDEC_MTX_CORE_REGSPACE hw.MTX_CORE_CR_MTX_ENABLE_OFFSET w.trace) ∧
    (cfg.SYSBRG_BRIDGING = false → ∀ fuel : Nat, ∃ (c : PVDECIO_sContext) (w1 : World σ),
      pvdecio_startDMA cfg hw tal ctx p n a fuel w = some (IMG_SUCCESS, c, w1)) := by
  have hm := hap.2.2.1
  refine ⟨pvdecio_LoadFW_last_writes cfg hw tal ctx p w hap hinit hcount, ?_, ?_⟩
  · intro fuel r hret
    exact ⟨writesTo_pvdecio_startDMA_mtx cfg hw tal ctx p n a fuel _ w r hap hinit hcount
        (nodup_ne hm 5 1 rfl rfl (by decide)) (nodup_ne hm 6 1 rfl rfl (by decide))
        (nodup_ne hm 7 1 rfl rfl (by decide)) hret,
      writesTo_pvdecio_startDMA_mtx cfg hw tal ctx p n a fuel _ w r hap hinit hcount
        (nodup_ne hm 5 2 rfl rfl (by decide)) (nodup_ne hm 6 2 rfl rfl (by decide))
        (nodup_ne hm 7 2 rfl rfl (by decide)) hret,
      writesTo_pvdecio_startDMA_mtx cfg hw tal ctx p n a fuel _ w r hap hinit hcount
        (nodup_ne hm 5 0 rfl rfl (by decide)) (nodup_ne hm 6 0 rfl rfl (by decide))
        (nodup_ne hm 7 0 rfl rfl (by decide)) hret⟩
  · intro hnb fuel
    exact ⟨(pvdecio_startDMA.program cfg hw tal ctx p n a w).1,
      (pvdecio_startDMA.program cfg hw tal ctx p n a w).2.2, by simp [pvdecio_startDMA, hnb]⟩

/-- C13 on the sample map and plain storage, from the context `ctxOn`: the
hypotheses hold and the DMA strategy returns `IMG_SUCCESS`. -/
theorem C13_only_register_upload_writes_pc_and_enable_witness :
    sampleHw.Apart ∧ ctxOn.bInitialised = true ∧ ctxOn.ui32MemSpaceCount ≠ 0 ∧
    ∃ (c : PVDECIO_sContext) (w1 : World RegFile),
      pvdecio_startDMA defaultBuild sampleHw (plainStorage sampleHw) ctxOn 1 16 0x1000 0 world0 =
        some (IMG_SUCCESS, c, w1) :=
  ⟨by decide, rfl, by decide,
    (C13_only_register_upload_writes_pc_and_enable defaultBuild sampleHw (plainStorage sampleHw)
      ctxOn 1 16 0x1000 world0 (by decide) rfl (by decide)).2.2 rfl 0⟩

/-- C13, the claim as written fails for the DMA strategy: `pvdecio_startDMA`
for a firmware of sixteen words at 0x1000 returns `IMG_SUCCESS` and has
written neither to the MTX register data register, nor to the request register
that sets the program counter, nor to the MTX enable register; the register
upload on the same context writes each of them once. -/
theorem C13_counterexample_startDMA_writes_no_pc_no_enable :
    (pvdecio_startDMA defaultBuild sampleHw (plainStorage sampleHw) ctxOn 1 16 0x1000 0
      world0).map (fun r => (r.1,
        writesTo sampleHw.REGION_PVDEC_MTX_CORE_REGSPACE
          sampleHw.MTX_CORE_CR_MTX_REGISTER_READ_WRITE_DATA_OFFSET r.2.2.trace,
        writesTo sampleHw.REGION_PVDEC_MTX_CORE_REGSPACE
          sampleHw.MTX_CORE_CR_MTX_REGISTER_READ_WRITE_REQUEST_OFFSET r.2.2.trace,
        writesTo sampleHw.REGION_PVDEC_MTX_CORE_REGSPACE
          sampleHw.MTX_CORE_CR_MTX_ENABLE_OFFSET r.2.2.trace)) =
      some (IMG_SUCCESS, [], [], []) ∧
    (fun t => (writesTo sampleHw.REGION_PVDEC_MTX_CORE_REGSPACE
          sampleHw.MTX_CORE_CR_MTX_REGISTER_READ_WRITE_DATA_OFFSET t,
        writesTo sampleHw.REGION_PVDEC_MTX_CORE_REGSPACE
          sampleHw.MTX_CORE_CR_MTX_REGISTER_READ_WRITE_REQUEST_OFFSET t,
        writesTo sampleHw.REGION_PVDEC_MTX_CORE_REGSPACE
          sampleHw.MTX_CORE_CR_MTX_ENABLE_OFFSET t))
      (pvdecio_LoadFW regUploadBuild sampleHw (plainStorage sampleHw) ctxOn 1 world0).2.trace =
      ([0x80900000], [5], [1]) := by
  decide

/-- The bits of the mask of a well-formed field lie inside the 32-bit word. -/
theorem Field_WellFormed_testBit (f : Field) (len : Nat) (hf : f.WellFormed len) (j : Nat) :
    f.MASK.testBit j = (decide (f.SHIFT ≤ j) && decide (j - f.SHIFT < len)) ∧
    (f.MASK.testBit j = true → j < 32) := by
  obtain ⟨hm, hs⟩ := hf
  have e : f.MASK.testBit j = (decide (f.SHIFT ≤ j) && decide (j - f.SHIFT < len)) := by
    rw [hm, Nat.testBit_shiftLeft, Nat.testBit_two_pow_sub_one]
  refine ⟨e, ?_⟩
  rw [e]
  simp only [Bool.and_eq_true, decide_eq_true_eq]
  omega

/-- A well-formed field gives back the value written to it, whatever the word
held before, when the value fits the field. -/
theorem REGIO_READ_WRITE_FIELD_same (reg : Nat) (f : Field) (len v : Nat)
    (hf : f.WellFormed len) (hv : v < 2 ^ len) :
    REGIO_READ_FIELD (REGIO_WRITE_FIELD reg f v) f = v := by
  apply Nat.eq_of_testBit_eq
  intro i
  have hb := (Field_WellFormed_testBit f len hf (f.SHIFT + i)).1
  simp only [REGIO_READ_FIELD, REGIO_WRITE_FIELD, Nat.testBit_shiftRight, Nat.testBit_and,
    Nat.testBit_or, Nat.testBit_shiftLeft, not32_testBit, hb, Nat.add_sub_cancel_left,
    Nat.le_add_right, decide_True, Bool.true_and, ge_iff_le]
  by_cases hi : i < len
  · simp [hi]
  · have : v.testBit i = false := by
      apply Nat.testBit_lt_two_pow
      exact lt_of_lt_of_le hv (Nat.pow_le_pow_right (by decide) (Nat.not_lt.mp hi))
    simp [hi, this]

/-- Writing a field leaves a well-formed field that shares no bit with it as it
was. -/
theorem REGIO_READ_WRITE_FIELD_other (reg : Nat) (f g : Field) (len v : Nat)
    (hg : g.WellFormed len) (hfg : f.MASK &&& g.MASK = 0) :
    REGIO_READ_FIELD (REGIO_WRITE_FIELD reg f v) g = REGIO_READ_FIELD reg g := by
  apply Nat.eq_of_testBit_eq
  intro i
  have h32 := (Field_WellFormed_testBit g len hg (g.SHIFT + i)).2
  have hd : (f.MASK.testBit (g.SHIFT + i) && g.MASK.testBit (g.SHIFT + i)) = false := by
    rw [← Nat.testBit_and, hfg, Nat.zero_testBit]
  simp only [REGIO_READ_FIELD, REGIO_WRITE_FIELD, Nat.testBit_shiftRight, Nat.testBit_and,
    Nat.testBit_or, not32_testBit]
  cases hgb : g.MASK.testBit (g.SHIFT + i)
  · simp
  · have h1 := h32 hgb
    rw [hgb] at hd
    have hfb : f.MASK.testBit (g.SHIFT + i) = false := by simpa using hd
    simp [hfb, h1]

/-- Among the programming writes of `pvdecio_startDMA` exactly two go to the
count register of DMA channel 0: the count word, then the count word with the
enable bit. -/
theorem writesTo_startDMA_events_count (hw : HwDefs) (p n a : Nat) (hap : hw.Apart) :
    writesTo hw.REGION_PVDEC_PIXEL_DMA_REGSPACE (hw.DMAC_DMAC_COUNT_OFFSET % 2 ^ 32)
      (startDMA_events hw p n a) =
      [startDMA_count hw n, REGIO_WRITE_FIELD (startDMA_count hw n) hw.DMAC_DMAC_COUNT_EN 1] := by
  obtain ⟨hr, _, _, hd⟩ := hap
  have hcd : (hw.REGION_PVDEC_CORE_REGSPACE : Nat) ≠ hw.REGION_PVDEC_PIXEL_DMA_REGSPACE :=
    Fin.val_ne_of_ne (nodup_ne hr 0 2 rfl rfl (by decide))
  have hmd : (hw.REGION_PVDEC_MTX_CORE_REGSPACE : Nat) ≠ hw.REGION_PVDEC_PIXEL_DMA_REGSPACE :=
    Fin.val_ne_of_ne (nodup_ne hr 1 2 rfl rfl (by decide))
  have hpd : (hw.REGION_PVDEC_PIXEL_PIPE_REGSPACE : Nat) ≠ hw.REGION_PVDEC_PIXEL_DMA_REGSPACE :=
    Fin.val_ne_of_ne (nodup_ne hr 3 2 rfl rfl (by decide))
  have hs := writesTo_selectEvents hw p hw.REGION_PVDEC_PIXEL_DMA_REGSPACE
    (hw.DMAC_DMAC_COUNT_OFFSET % 2 ^ 32) (fun hh => hcd hh.1)
  have d0 : hw.DMAC_DMAC_SETUP_OFFSET % 2 ^ 32 ≠ hw.DMAC_DMAC_COUNT_OFFSET % 2 ^ 32 :=
    nodup_ne hd 0 1 rfl rfl (by decide)
  have d2 : hw.DMAC_DMAC_PERIPH_OFFSET % 2 ^ 32 ≠ hw.DMAC_DMAC_COUNT_OFFSET % 2 ^ 32 :=
    nodup_ne hd 2 1 rfl rfl (by decide)
  have d3 : hw.DMAC_DMAC_IRQ_STAT_OFFSET % 2 ^ 32 ≠ hw.DMAC_DMAC_COUNT_OFFSET % 2 ^ 32 :=
    nodup_ne hd 3 1 rfl rfl (by decide)
  have d4 : hw.DMAC_DMAC_PERIPHERAL_ADDR_OFFSET % 2 ^ 32 ≠ hw.DMAC_DMAC_COUNT_OFFSET % 2 ^ 32 :=
    nodup_ne hd 4 1 rfl rfl (by decide)
  have d5 : hw.DMAC_DMAC_PER_HOLD_OFFSET % 2 ^ 32 ≠ hw.DMAC_DMAC_COUNT_OFFSET % 2 ^ 32 :=
    nodup_ne hd 5 1 rfl rfl (by decide)
  simp [-Nat.reducePow, startDMA_events, writesTo_append, writesTo_cons, writesTo_nil, writesTo_assertEvents,
    Event.writtenTo, hs, hcd, hmd, hpd, d0, d2, d3, d4, d5]

/-- Among the programming writes of `pvdecio_startDMA` exactly one goes to the
MTX DMA control register: the control word with the rounded length. -/
theorem writesTo_startDMA_events_cdmac (hw : HwDefs) (p n a : Nat) (hap : hw.Apart) :
    writesTo hw.REGION_PVDEC_MTX_CORE_REGSPACE hw.MTX_CORE_CR_MTX_SYSC_CDMAC_OFFSET
      (startDMA_events hw p n a) = [startDMA_cdmac hw n] := by
  obtain ⟨hr, _, hm, _⟩ := hap
  have hcm : (hw.REGION_PVDEC_CORE_REGSPACE : Nat) ≠ hw.REGION_PVDEC_MTX_CORE_REGSPACE :=
    Fin.val_ne_of_ne (nodup_ne hr 0 1 rfl rfl (by decide))
  have hdm : (hw.REGION_PVDEC_PIXEL_DMA_REGSPACE : Nat) ≠ hw.REGION_PVDEC_MTX_CORE_REGSPACE :=
    Fin.val_ne_of_ne (nodup_ne hr 2 1 rfl rfl (by decide))
  have hpm : (hw.REGION_PVDEC_PIXEL_PIPE_REGSPACE : Nat) ≠ hw.REGION_PVDEC_MTX_CORE_REGSPACE :=
    Fin.val_ne_of_ne (nodup_ne hr 3 1 rfl rfl (by decide))
  have hs := writesTo_selectEvents hw p hw.REGION_PVDEC_MTX_CORE_REGSPACE
    hw.MTX_CORE_CR_MTX_SYSC_CDMAC_OFFSET (fun hh => hcm hh.1)
  have m5 : hw.MTX_CORE_CR_MTX_SYSC_TIMERDIV_OFFSET ≠ hw.MTX_CORE_CR_MTX_SYSC_CDMAC_OFFSET :=
    nodup_ne hm 5 7 rfl rfl (by decide)
  have m6 : hw.MTX_CORE_CR_MTX_SYSC_CDMAA_OFFSET ≠ hw.MTX_CORE_CR_MTX_SYSC_CDMAC_OFFSET :=
    nodup_ne hm 6 7 rfl rfl (by decide)
  simp [startDMA_events, writesTo_append, writesTo_cons, writesTo_nil, writesTo_assertEvents,
    Event.writtenTo, hs, hcm, hdm, hpm, m5, m6]

/-- The watchdog configuration writes to the pixel and entropy regions, and to
the core region for the pipe selection, only. -/
theorem writesTo_pvdecio_SetWDTConfiguration {σ : Type} (hw : HwDefs) (tal : TAL σ)
    (hctx : Option PVDECIO_sContext) (w : World σ) (h o : Nat)
    (hc : (hw.REGION_PVDEC_CORE_REGSPACE : Nat) ≠ h)
    (hp : (hw.REGION_PVDEC_PIXEL_PIPE_REGSPACE : Nat) ≠ h)
    (he : (hw.REGION_PVDEC_ENTROPY_PIPE_REGSPACE : Nat) ≠ h) :
    writesTo h o (pvdecio_SetWDTConfiguration hw tal hctx w).trace = writesTo h o w.trace := by
  have hs1 := writesTo_selectEvents hw 1 h o (fun hh => hc hh.1)
  have hs : writesTo h o (selectEvents hw PVDEC_DEF_PIPE) = [] := by
    rw [selectEvents_sentinel]; rfl
  unfold pvdecio_SetWDTConfiguration
  cases hctx with
  | none => rfl
  | some ctx =>
    simp only []
    split
    · simp only [PVDEC_PIXEL_WritePipeRegister, PVDEC_ENTROPY_WriteRegister]
      rw [writesTo_PVDECIO_WriteRegister_miss _ _ _ _ _ _ _ _ _ _ (fun hh => hp hh.1) hs1,
        writesTo_PVDECIO_WriteRegister_miss _ _ _ _ _ _ _ _ _ _ (fun hh => he hh.1) hs,
        writesTo_PVDECIO_WriteRegister_miss _ _ _ _ _ _ _ _ _ _ (fun hh => hp hh.1) hs1]
    · rfl

/-- The interrupt enabling writes to the core region only. -/
theorem writesTo_pvdecio_EnableMTXInterrupts {σ : Type} (cfg : BuildConfig) (hw : HwDefs)
    (tal : TAL σ) (hctx : Option PVDECIO_sContext) (w : World σ) (h o : Nat)
    (hc : (hw.REGION_PVDEC_CORE_REGSPACE : Nat) ≠ h) :
    writesTo h o (pvdecio_EnableMTXInterrupts cfg hw tal hctx w).trace = writesTo h o w.trace := by
  have hs : writesTo h o (selectEvents hw PVDEC_DEF_PIPE) = [] := by
    rw [selectEvents_sentinel]; rfl
  unfold pvdecio_EnableMTXInterrupts
  cases hctx with
  | none => rfl
  | some ctx =>
    simp only []
    split
    · simp only [PVDEC_CORE_WriteRegister, PVDEC_CORE_ReadRegister]
      rw [writesTo_PVDECIO_WriteRegister_miss _ _ _ _ _ _ _ _ _ _ (fun hh => hc hh.1) hs,
        writesTo_PVDECIO_ReadRegister _ _ _ _ _ _ _ _ _ hs]
      split <;> simp [REPORT, World.log, writesTo_append, writesTo_cons, writesTo_nil,
        Event.writtenTo]
    · rfl

/-- In the build without the wait `pvdecio_startDMA` is its programming part
and returns `IMG_SUCCESS`. -/
theorem pvdecio_startDMA_no_wait {σ : Type} (cfg : BuildConfig) (hw : HwDefs) (tal : TAL σ)
    (ctx : PVDECIO_sContext) (p n a fuel : Nat) (w : World σ)
    (hnb : cfg.SYSBRG_BRIDGING = false) :
    pvdecio_startDMA cfg hw tal ctx p n a fuel w =
      some (IMG_SUCCESS, (pvdecio_startDMA.program cfg hw tal ctx p n a w).1,
        (pvdecio_startDMA.program cfg hw tal ctx p n a w).2.2) := by
  simp [pvdecio_startDMA, hnb]

/-- The writes of the programming part of `pvdecio_startDMA`, on an
initialised context, to a register outside the core region: those of its
programming writes. -/
theorem writesTo_pvdecio_startDMA_program {σ : Type} (cfg : BuildConfig) (hw : HwDefs)
    (tal : TAL σ) (ctx : PVDECIO_sContext) (p n a : Nat) (w : World σ) (h o : Nat)
    (hinit : ctx.bInitialised = true) (hcount : ctx.ui32MemSpaceCount ≠ 0)
    (hne : (hw.REGION_PVDEC_CORE_REGSPACE : Nat) ≠ h) :
    writesTo h o (pvdecio_startDMA.program cfg hw tal ctx p n a w).2.2.trace =
      writesTo h o w.trace ++ writesTo h o (startDMA_events hw p n a) := by
  rw [pvdecio_startDMA_program_trace cfg hw tal ctx p n a w hinit hcount, writesTo_append,
    writesTo_pvdecio_SetClocks cfg hw tal _ _ _ _ _ (fun hh => hne hh.1)]
  simp [World.log, writesTo_append, writesTo_cons, writesTo_nil, Event.writtenTo]

/-- `PVDECIO_LoadBaseFirmware` in the DMA strategy without the wait, the
mailbox initialisation succeeding: the call of the mailbox, the programming
part of `pvdecio_startDMA`, the watchdog configuration and the interrupt
enabling; the result is `IMG_SUCCESS`. -/
theorem PVDECIO_LoadBaseFirmware_dma {σ : Type} (cfg : BuildConfig) (hw : HwDefs)
    (tal : TAL σ) (dev : DEVAIO σ) (ctx : PVDECIO_sContext) (fuel : Nat) (w : World σ)
    (hdma : cfg.PVDEC_REG_FW_UPLOAD = false) (hnb : cfg.SYSBRG_BRIDGING = false)
    (hcomms : (dev.InitMTXComms w.dev ctx.sMsgContext
      (if cfg.VDEC_USE_PVDEC_SEC then ctx.bSecureFw else false)).1 = IMG_SUCCESS) :
    PVDECIO_LoadBaseFirmware cfg hw tal dev (some ctx) fuel w =
      let c := dev.InitMTXComms w.dev ctx.sMsgContext
        (if cfg.VDEC_USE_PVDEC_SEC then ctx.bSecureFw else false)
      let p := pvdecio_startDMA.program cfg hw tal { ctx with sMsgContext := c.2.1 } 1
        ctx.sFwInfo.ui32CoreSize ctx.sFwInfo.ui32BlobDevVirtAddr
        ⟨c.2.2, w.trace ++ [.call .DEVAIO_InitMTXComms]⟩
      some (IMG_SUCCESS, some p.1, pvdecio_EnableMTXInterrupts cfg hw tal (some p.1)
        (pvdecio_SetWDTConfiguration hw tal (some p.1) p.2.2)) := by
  have hcb : (dev.InitMTXComms w.dev ctx.sMsgContext
      (cfg.VDEC_USE_PVDEC_SEC && ctx.bSecureFw)).1 = 0 := by
    simpa [IMG_SUCCESS] using hcomms
  simp [PVDECIO_LoadBaseFirmware, World.log, hcb, pvdecio_startDMA_no_wait _ _ _ _ _ _ _ _ _ hnb,
    hdma, IMG_SUCCESS]

/-- C12 (amended): in the DMA strategy without the wait, on an initialised
context, a register map whose registers lie apart, a well-formed `CNT` field
that shares no bit with `EN` and holds the firmware size, and a mailbox whose
initialisation succeeds, `PVDECIO_LoadBaseFirmware` returns `IMG_SUCCESS` and
has written exactly twice to the count register of DMA channel 0: first the
count word, then the same word with the enable bit set; both carry the
firmware size in words in `CNT`. The rounded length goes, once, into the MTX
DMA control register. -/
theorem C12_count_register_written_twice_with_size {σ : Type} (cfg : BuildConfig) (hw : HwDefs)
    (tal : TAL σ) (dev : DEVAIO σ) (ctx : PVDECIO_sContext) (fuel len : Nat) (w : World σ)
    (hdma : cfg.PVDEC_REG_FW_UPLOAD = false) (hnb : cfg.SYSBRG_BRIDGING = false)
    (hap : hw.Apart) (hinit : ctx.bInitialised = true) (hcount : ctx.ui32MemSpaceCount ≠ 0)
    (hcomms : (dev.InitMTXComms w.dev ctx.sMsgContext
      (if cfg.VDEC_USE_PVDEC_SEC then ctx.bSecureFw else false)).1 = IMG_SUCCESS)
    (hcnt : hw.DMAC_DMAC_COUNT_CNT.WellFormed len)
    (hen : hw.DMAC_DMAC_COUNT_EN.MASK &&& hw.DMAC_DMAC_COUNT_CNT.MASK = 0)
    (hsize : ctx.sFwInfo.ui32CoreSize < 2 ^ len) :
    ∃ (c : PVDECIO_sContext) (w1 : World σ) (c1 c2 : Nat),
      PVDECIO_LoadBaseFirmware cfg hw tal dev (some ctx) fuel w = some (IMG_SUCCESS, some c, w1) ∧
      writesTo hw.REGION_PVDEC_PIXEL_DMA_REGSPACE (hw.DMAC_DMAC_COUNT_OFFSET % 2 ^ 32) w1.trace =
        writesTo hw.REGION_PVDEC_PIXEL_DMA_REGSPACE (hw.DMAC_DMAC_COUNT_OFFSET % 2 ^ 32) w.trace
          ++ [c1, c2] ∧
      c2 = REGIO_WRITE_FIELD c1 hw.DMAC_DMAC_COUNT_EN 1 ∧
      REGIO_READ_FIELD c1 hw.DMAC_DMAC_COUNT_CNT = ctx.sFwInfo.ui32CoreSize ∧
      REGIO_READ_FIELD c2 hw.DMAC_DMAC_COUNT_CNT = ctx.sFwInfo.ui32CoreSize ∧
      writesTo hw.REGION_PVDEC_MTX_CORE_REGSPACE hw.MTX_CORE_CR_MTX_SYSC_CDMAC_OFFSET w1.trace =
        writesTo hw.REGION_PVDEC_MTX_CORE_REGSPACE hw.MTX_CORE_CR_MTX_SYSC_CDMAC_OFFSET w.trace
          ++ [REGIO_WRITE_FIELD (REGIO_WRITE_FIELD (REGIO_WRITE_FIELD (REGIO_WRITE_FIELD 0
            hw.MTX_CORE_CR_MTX_SYSC_CDMAC_BURSTSIZE 0) hw.MTX_CORE_CR_MTX_SYSC_CDMAC_RNW 0)
            hw.MTX_CORE_CR_MTX_SYSC_CDMAC_ENABLE 1) hw.MTX_CORE_CR_MTX_SYSC_CDMAC_LENGTH
            (startDMA_length ctx.sFwInfo.ui32CoreSize)] := by
  have hr := hap.1
  have hcd : (hw.REGION_PVDEC_CORE_REGSPACE : Nat) ≠ hw.REGION_PVDEC_PIXEL_DMA_REGSPACE :=
    Fin.val_ne_of_ne (nodup_ne hr 0 2 rfl rfl (by decide))
  have hpd : (hw.REGION_PVDEC_PIXEL_PIPE_REGSPACE : Nat) ≠ hw.REGION_PVDEC_PIXEL_DMA_REGSPACE :=
    Fin.val_ne_of_ne (nodup_ne hr 3 2 rfl rfl (by decide))
  have hed : (hw.REGION_PVDEC_ENTROPY_PIPE_REGSPACE : Nat) ≠ hw.REGION_PVDEC_PIXEL_DMA_REGSPACE :=
    Fin.val_ne_of_ne (nodup_ne hr 4 2 rfl rfl (by decide))
  have hcm : (hw.REGION_PVDEC_CORE_REGSPACE : Nat) ≠ hw.REGION_PVDEC_MTX_CORE_REGSPACE :=
    Fin.val_ne_of_ne (nodup_ne hr 0 1 rfl rfl (by decide))
  have hpm : (hw.REGION_PVDEC_PIXEL_PIPE_REGSPACE : Nat) ≠ hw.REGION_PVDEC_MTX_CORE_REGSPACE :=
    Fin.val_ne_of_ne (nodup_ne hr 3 1 rfl rfl (by decide))
  have hem : (hw.REGION_PVDEC_ENTROPY_PIPE_REGSPACE : Nat) ≠ hw.REGION_PVDEC_MTX_CORE_REGSPACE :=
    Fin.val_ne_of_ne (nodup_ne hr 4 1 rfl rfl (by decide))
  have P := fun (h o : Nat) (hne : (hw.REGION_PVDEC_CORE_REGSPACE : Nat) ≠ h) =>
    writesTo_pvdecio_startDMA_program cfg hw tal
      { ctx with sMsgContext := (dev.InitMTXComms w.dev ctx.sMsgContext
        (if cfg.VDEC_USE_PVDEC_SEC then ctx.bSecureFw else false)).2.1 } 1
      ctx.sFwInfo.ui32CoreSize ctx.sFwInfo.ui32BlobDevVirtAddr
      ⟨(dev.InitMTXComms w.dev ctx.sMsgContext
        (if cfg.VDEC_USE_PVDEC_SEC then ctx.bSecureFw else false)).2.2,
        w.trace ++ [.call .DEVAIO_InitMTXComms]⟩ h o hinit hcount hne
  rw [PVDECIO_LoadBaseFirmware_dma cfg hw tal dev ctx fuel w hdma hnb hcomms]
  refine ⟨_, _, startDMA_count hw ctx.sFwInfo.ui32CoreSize,
    REGIO_WRITE_FIELD (startDMA_count hw ctx.sFwInfo.ui32CoreSize) hw.DMAC_DMAC_COUNT_EN 1,
    rfl, ?_, rfl, ?_, ?_, ?_⟩
  · rw [writesTo_pvdecio_EnableMTXInterrupts _ _ _ _ _ _ _ hcd,
      writesTo_pvdecio_SetWDTConfiguration _ _ _ _ _ _ hcd hpd hed,
      P _ _ hcd,
      writesTo_startDMA_events_count hw _ _ _ hap]
    simp [writesTo_append, writesTo_cons, writesTo_nil, Event.writtenTo]
  · exact REGIO_READ_WRITE_FIELD_same _ _ len _ hcnt hsize
  · rw [REGIO_READ_WRITE_FIELD_other _ _ _ len _ hcnt hen]
    exact REGIO_READ_WRITE_FIELD_same _ _ len _ hcnt hsize
  · rw [writesTo_pvdecio_EnableMTXInterrupts _ _ _ _ _ _ _ hcm,
      writesTo_pvdecio_SetWDTConfiguration _ _ _ _ _ _ hcm hpm hem,
      P _ _ hcm,
      writesTo_startDMA_events_cdmac hw _ _ _ hap]
    simp [writesTo_append, writesTo_cons, writesTo_nil, Event.writtenTo, startDMA_cdmac]

/-- C12 on the sample map and plain storage, for the prepared firmware of
sixteen words: the hypotheses hold and the count register is written twice. -/
theorem C12_count_register_written_twice_with_size_witness :
    sampleHw.Apart ∧ sampleHw.DMAC_DMAC_COUNT_CNT.WellFormed 16 ∧
    ctxFw.sFwInfo.ui32CoreSize = 16 ∧
    ∃ (c : PVDECIO_sContext) (w1 : World RegFile) (c1 c2 : Nat),
      PVDECIO_LoadBaseFirmware defaultBuild sampleHw (plainStorage sampleHw)
        (quietMailbox RegFile 0 0) (some ctxFw) 0 world0 = some (IMG_SUCCESS, some c, w1) ∧
      writesTo sampleHw.REGION_PVDEC_PIXEL_DMA_REGSPACE
        (sampleHw.DMAC_DMAC_COUNT_OFFSET % 2 ^ 32) w1.trace =
        writesTo sampleHw.REGION_PVDEC_PIXEL_DMA_REGSPACE
          (sampleHw.DMAC_DMAC_COUNT_OFFSET % 2 ^ 32) world0.trace ++ [c1, c2] ∧
      c2 = REGIO_WRITE_FIELD c1 sampleHw.DMAC_DMAC_COUNT_EN 1 ∧
      REGIO_READ_FIELD c1 sampleHw.DMAC_DMAC_COUNT_CNT = ctxFw.sFwInfo.ui32CoreSize ∧
      REGIO_READ_FIELD c2 sampleHw.DMAC_DMAC_COUNT_CNT = ctxFw.sFwInfo.ui32CoreSize ∧
      writesTo sampleHw.REGION_PVDEC_MTX_CORE_REGSPACE
        sampleHw.MTX_CORE_CR_MTX_SYSC_CDMAC_OFFSET w1.trace =
        writesTo sampleHw.REGION_PVDEC_MTX_CORE_REGSPACE
          sampleHw.MTX_CORE_CR_MTX_SYSC_CDMAC_OFFSET world0.trace
          ++ [REGIO_WRITE_FIELD (REGIO_WRITE_FIELD (REGIO_WRITE_FIELD (REGIO_WRITE_FIELD 0
            sampleHw.MTX_CORE_CR_MTX_SYSC_CDMAC_BURSTSIZE 0)
            sampleHw.MTX_CORE_CR_MTX_SYSC_CDMAC_RNW 0)
            sampleHw.MTX_CORE_CR_MTX_SYSC_CDMAC_ENABLE 1)
            sampleHw.MTX_CORE_CR_MTX_SYSC_CDMAC_LENGTH
            (startDMA_length ctxFw.sFwInfo.ui32CoreSize)] :=
  ⟨by decide, ⟨by decide, by decide⟩, rfl,
    C12_count_register_written_twice_with_size defaultBuild sampleHw (plainStorage sampleHw)
      (quietMailbox RegFile 0 0) ctxFw 0 16 world0 rfl rfl (by decide) rfl (by decide) rfl
      ⟨by decide, by decide⟩ (by decide) (by decide)⟩

/-- C12, the claim as written fails: in the scenario of the specification
(initialisation with the bypass off, core clocks, base firmware of sixteen
words at 0x1000, DMA strategy) the last call returns `IMG_SUCCESS` and the
count register of DMA channel 0 has been written twice, not once, and both
words carry 16 in `CNT`, not 24: the first without, the second with the
enable bit. The value 24 is the `LENGTH` field of the one word written to the
MTX DMA control register. -/
theorem C12_counterexample_two_count_writes_with_size :
    firmwareStartScenario.map (fun r => (r.1,
      (writesTo sampleHw.REGION_PVDEC_PIXEL_DMA_REGSPACE sampleHw.DMAC_DMAC_COUNT_OFFSET r.2).map
        (fun v => (REGIO_READ_FIELD v sampleHw.DMAC_DMAC_COUNT_CNT,
          REGIO_READ_FIELD v sampleHw.DMAC_DMAC_COUNT_EN)),
      (writesTo sampleHw.REGION_PVDEC_MTX_CORE_REGSPACE
        sampleHw.MTX_CORE_CR_MTX_SYSC_CDMAC_OFFSET r.2).map
        (fun v => REGIO_READ_FIELD v sampleHw.MTX_CORE_CR_MTX_SYSC_CDMAC_LENGTH))) =
      some (IMG_SUCCESS, [(16, 0), (16, 1)], [24]) ∧
    startDMA_length 16 = 24 := by
  decide

/-! ## The interrupt handler -/

/-- The number of calls of a collaborator in a trace made of two parts. -/
theorem callsOf_append (c : Collaborator) (a b : List Event) :
    callsOf c (a ++ b) = callsOf c a + callsOf c b := by
  simp [callsOf]

/-- What an assertion records holds no call. -/
theorem callsOf_assertEvents (c : Collaborator) (b : Bool) (line : Nat) :
    callsOf c (assertEvents b line) = 0 := by
  cases b <;> simp [callsOf, assertEvents]

/-- Clearing a field: the bits of its mask are taken out of the word. -/
theorem REGIO_WRITE_FIELD_zero (reg : Nat) (f : Field) :
    REGIO_WRITE_FIELD reg f 0 = reg &&& not32 f.MASK := by
  simp [REGIO_WRITE_FIELD]

/-- The two reads of the interrupt handler with the gate open: the trace. -/
theorem PVDECIO_HandleInterrupts_reads_open {σ : Type} (hw : HwDefs) (tal : TAL σ)
    (ctx : PVDECIO_sContext) (w : World σ) (hinit : ctx.bInitialised = true)
    (hcount : ctx.ui32MemSpaceCount ≠ 0) (hclk : ctx.bClocks = true) :
    (PVDECIO_HandleInterrupts.reads hw tal ctx w).2.2.trace = w.trace ++
      [.regRead hw.REGION_PVDEC_CORE_REGSPACE hw.PVDEC_CORE_CR_PVDEC_HOST_INTERRUPT_STATUS_OFFSET
        (PVDECIO_HandleInterrupts.reads hw tal ctx w).1,
       .regRead hw.REGION_PVDEC_CORE_REGSPACE hw.PVDEC_CORE_CR_PVDEC_HOST_INTERRUPT_ENABLE_OFFSET
        (PVDECIO_HandleInterrupts.reads hw tal ctx w).2.1] := by
  have L := PVDECIO_ReadRegister_open_trace hw tal ctx hinit hcount hclk
    hw.REGION_PVDEC_CORE_REGSPACE
  simp only [PVDECIO_HandleInterrupts.reads, PVDEC_CORE_ReadRegister, L, selectEvents_sentinel,
    List.append_nil, List.append_assoc, List.singleton_append]

/-- The two reads of the interrupt handler with the gate closed deliver zero
and touch neither the device nor the bus. -/
theorem PVDECIO_HandleInterrupts_reads_closed {σ : Type} (hw : HwDefs) (tal : TAL σ)
    (ctx : PVDECIO_sContext) (w : World σ)
    (hc : ctx.bInitialised = false ∨ ctx.bClocks = false) :
    (PVDECIO_HandleInterrupts.reads hw tal ctx w).1 = 0 ∧
    (PVDECIO_HandleInterrupts.reads hw tal ctx w).2.1 = 0 := by
  rcases hc with hc | hc
  · simp [PVDECIO_HandleInterrupts.reads, PVDEC_CORE_ReadRegister, PVDECIO_ReadRegister, hc]
  · by_cases hi : ctx.bInitialised = true <;>
      simp [PVDECIO_HandleInterrupts.reads, PVDEC_CORE_ReadRegister, PVDECIO_ReadRegister, hc, hi]

/-- A pending cause means that the gate was open: the context is initialised
and its clock flag is on. -/
theorem maskedPending_ne_zero {σ : Type} (hw : HwDefs) (tal : TAL σ)
    (ctx : PVDECIO_sContext) (w : World σ) (m : Nat)
    (hp : maskedPending hw tal ctx w &&& m ≠ 0) :
    ctx.bInitialised = true ∧ ctx.bClocks = true := by
  by_contra hcon
  have hc : ctx.bInitialised = false ∨ ctx.bClocks = false := by
    cases hi : ctx.bInitialised <;> cases hk : ctx.bClocks <;> simp_all
  obtain ⟨h1, _⟩ := PVDECIO_HandleInterrupts_reads_closed hw tal ctx w hc
  apply hp
  simp [maskedPending, h1]

/-- The MMU fault block with the gate open: what it records, and what it leaves
as it was. -/
theorem PVDECIO_HandleInterrupts_mmu_open {σ : Type} (hw : HwDefs) (tal : TAL σ)
    (dev : DEVAIO σ) (ctx : PVDECIO_sContext) (st : VXD_sIntStatus) (en : Nat) (w : World σ)
    (hinit : ctx.bInitialised = true) (hcount : ctx.ui32MemSpaceCount ≠ 0)
    (hclk : ctx.bClocks = true) :
    (PVDECIO_HandleInterrupts.mmu hw tal dev ctx st en w).2.2.2.trace = w.trace ++
      [.regWrite hw.REGION_PVDEC_CORE_REGSPACE hw.PVDEC_CORE_CR_PVDEC_HOST_INTERRUPT_ENABLE_OFFSET
        (REGIO_WRITE_FIELD en hw.PVDEC_CORE_CR_PVDEC_HOST_INTERRUPT_STATUS_CR_HOST_MMU_FAULT_IRQ 0),
       .call .DEVAIO_ProcessMMUReport] ++
      assertEvents ((PVDECIO_HandleInterrupts.mmu hw tal dev ctx st en w).1 == IMG_SUCCESS) 2052 ∧
    (PVDECIO_HandleInterrupts.mmu hw tal dev ctx st en w).2.1.bInitialised = true ∧
    (PVDECIO_HandleInterrupts.mmu hw tal dev ctx st en w).2.1.ui32MemSpaceCount ≠ 0 ∧
    (PVDECIO_HandleInterrupts.mmu hw tal dev ctx st en w).2.1.bClocks = true ∧
    (PVDECIO_HandleInterrupts.mmu hw tal dev ctx st en w).2.2.1.ui32Pending = st.ui32Pending ∧
    (PVDECIO_HandleInterrupts.mmu hw tal dev ctx st en w).2.2.1.psMsgQueue = st.psMsgQueue := by
  have L := PVDECIO_WriteRegister_open_trace hw tal ctx hinit hcount hclk
    hw.REGION_PVDEC_CORE_REGSPACE
  refine ⟨?_, hinit, hcount, hclk, rfl, rfl⟩
  simp only [PVDECIO_HandleInterrupts.mmu, PVDEC_CORE_WriteRegister, IMG_ASSERT_trace_eq,
    World.log, L, selectEvents_sentinel, List.append_nil, List.append_assoc,
    List.singleton_append]

/-- The message block with the gate open: what it records. -/
theorem PVDECIO_HandleInterrupts_messages_open {σ : Type} (hw : HwDefs) (tal : TAL σ)
    (dev : DEVAIO σ) (res : Nat) (ctx : PVDECIO_sContext) (st : VXD_sIntStatus) (w : World σ)
    (hinit : ctx.bInitialised = true) (hcount : ctx.ui32MemSpaceCount ≠ 0)
    (hclk : ctx.bClocks = true) :
    (PVDECIO_HandleInterrupts.messages hw tal dev res ctx st w).2.2.2.trace = w.trace ++
      (if (st.ui32Pending &&&
            hw.PVDEC_CORE_CR_PVDEC_HOST_INTERRUPT_STATUS_CR_HOST_PROC_IRQ.MASK ≠ 0
          ∨ st.psMsgQueue.bEmpty = false) ∧ st.psMsgQueue.sFreeMsgList ≠ [] then
        [.regWrite hw.REGION_PVDEC_CORE_REGSPACE hw.PVDEC_CORE_CR_PVDEC_INTERRUPT_CLEAR_OFFSET
          hw.PVDEC_CORE_CR_PVDEC_HOST_INTERRUPT_STATUS_CR_HOST_PROC_IRQ.MASK,
         .call .DEVAIO_ProcessMTXMsgs] ++
        assertEvents
          ((PVDECIO_HandleInterrupts.messages hw tal dev res ctx st w).1 == IMG_SUCCESS) 2087
      else []) := by
  have L := PVDECIO_WriteRegister_open_trace hw tal ctx hinit hcount hclk
    hw.REGION_PVDEC_CORE_REGSPACE
  by_cases h1 : st.ui32Pending &&&
      hw.PVDEC_CORE_CR_PVDEC_HOST_INTERRUPT_STATUS_CR_HOST_PROC_IRQ.MASK ≠ 0
      ∨ st.psMsgQueue.bEmpty = false
  · by_cases h2 : st.psMsgQueue.sFreeMsgList = []
    · have hc : ¬ ((st.ui32Pending &&&
            hw.PVDEC_CORE_CR_PVDEC_HOST_INTERRUPT_STATUS_CR_HOST_PROC_IRQ.MASK ≠ 0
          ∨ st.psMsgQueue.bEmpty = false) ∧ st.psMsgQueue.sFreeMsgList ≠ []) := fun hh => hh.2 h2
      rw [if_neg hc]
      simp [PVDECIO_HandleInterrupts.messages, LST_empty, h2]
    · rw [if_pos ⟨h1, h2⟩]
      have hb : (st.ui32Pending &&&
          hw.PVDEC_CORE_CR_PVDEC_HOST_INTERRUPT_STATUS_CR_HOST_PROC_IRQ.MASK != 0
          || !st.psMsgQueue.bEmpty) = true := by
        rcases h1 with h1 | h1
        · simp [h1]
        · simp [h1]
      have hl : (!LST_empty st.psMsgQueue.sFreeMsgList) = true := by
        simp [LST_empty, h2]
      simp only [PVDECIO_HandleInterrupts.messages, hb, hl, if_true, PVDEC_CORE_WriteRegister,
        IMG_ASSERT_trace_eq, World.log, L, selectEvents_sentinel, List.append_nil,
        List.append_assoc, List.singleton_append]
  · have hc : ¬ ((st.ui32Pending &&&
          hw.PVDEC_CORE_CR_PVDEC_HOST_INTERRUPT_STATUS_CR_HOST_PROC_IRQ.MASK ≠ 0
        ∨ st.psMsgQueue.bEmpty = false) ∧ st.psMsgQueue.sFreeMsgList ≠ []) := fun hh => h1 hh.1
    rw [if_neg hc]
    have hb : (st.ui32Pending &&&
        hw.PVDEC_CORE_CR_PVDEC_HOST_INTERRUPT_STATUS_CR_HOST_PROC_IRQ.MASK != 0
        || !st.psMsgQueue.bEmpty) = false := by
      simp only [not_or] at h1
      simp only [Bool.or_eq_false_iff, bne_eq_false_iff_eq, Bool.not_eq_false']
      exact ⟨by simpa using h1.1, by simpa using h1.2⟩
    simp [PVDECIO_HandleInterrupts.messages, hb]

/-- The message block hands back a status with the pending mask it was given. -/
theorem PVDECIO_HandleInterrupts_messages_status {σ : Type} (hw : HwDefs) (tal : TAL σ)
    (dev : DEVAIO σ) (res : Nat) (ctx : PVDECIO_sContext) (st : VXD_sIntStatus) (w : World σ) :
    ∃ st1, (PVDECIO_HandleInterrupts.messages hw tal dev res ctx st w).2.2.1 = some st1 ∧
      st1.ui32Pending = st.ui32Pending := by
  unfold PVDECIO_HandleInterrupts.messages
  split
  · split
    · exact ⟨_, rfl, rfl⟩
    · exact ⟨_, rfl, rfl⟩
  · exact ⟨_, rfl, rfl⟩

/-- The interrupt handler on a non-null context and a non-null status is its
message block run after its two reads and, when the MMU fault cause is
pending, its MMU fault block. -/
theorem PVDECIO_HandleInterrupts_some {σ : Type} (hw : HwDefs) (tal : TAL σ)
    (dev : DEVAIO σ) (ctx : PVDECIO_sContext) (st : VXD_sIntStatus) (w : World σ) :
    PVDECIO_HandleInterrupts hw tal dev (some ctx) (some st) w =
      if maskedPending hw tal ctx w &&&
          hw.PVDEC_CORE_CR_PVDEC_HOST_INTERRUPT_STATUS_CR_HOST_MMU_FAULT_IRQ.MASK ≠ 0 then
        PVDECIO_HandleInterrupts.messages hw tal dev
          (PVDECIO_HandleInterrupts.mmu hw tal dev ctx
            { st with ui32Pending := maskedPending hw tal ctx w }
            (PVDECIO_HandleInterrupts.reads hw tal ctx w).2.1
            (PVDECIO_HandleInterrupts.reads hw tal ctx w).2.2).1
          (PVDECIO_HandleInterrupts.mmu hw tal dev ctx
            { st with ui32Pending := maskedPending hw tal ctx w }
            (PVDECIO_HandleInterrupts.reads hw tal ctx w).2.1
            (PVDECIO_HandleInterrupts.reads hw tal ctx w).2.2).2.1
          (PVDECIO_HandleInterrupts.mmu hw tal dev ctx
            { st with ui32Pending := maskedPending hw tal ctx w }
            (PVDECIO_HandleInterrupts.reads hw tal ctx w).2.1
            (PVDECIO_HandleInterrupts.reads hw tal ctx w).2.2).2.2.1
          (PVDECIO_HandleInterrupts.mmu hw tal dev ctx
            { st with ui32Pending := maskedPending hw tal ctx w }
            (PVDECIO_HandleInterrupts.reads hw tal ctx w).2.1
            (PVDECIO_HandleInterrupts.reads hw tal ctx w).2.2).2.2.2
      else
        PVDECIO_HandleInterrupts.messages hw tal dev IMG_SUCCESS ctx
          { st with ui32Pending := maskedPending hw tal ctx w }
          (PVDECIO_HandleInterrupts.reads hw tal ctx w).2.2 := by
  by_cases hm : maskedPending hw tal ctx w &&&
      hw.PVDEC_CORE_CR_PVDEC_HOST_INTERRUPT_STATUS_CR_HOST_MMU_FAULT_IRQ.MASK ≠ 0
  · have hmb : ((PVDECIO_HandleInterrupts.reads hw tal ctx w).1 &&&
        (PVDECIO_HandleInterrupts.reads hw tal ctx w).2.1 &&&
        hw.PVDEC_CORE_CR_PVDEC_HOST_INTERRUPT_STATUS_CR_HOST_MMU_FAULT_IRQ.MASK != 0) = true := by
      simpa [maskedPending] using hm
    rw [if_pos hm]
    simp only [PVDECIO_HandleInterrupts, hmb, if_true, maskedPending]
  · have hmb : ((PVDECIO_HandleInterrupts.reads hw tal ctx w).1 &&&
        (PVDECIO_HandleInterrupts.reads hw tal ctx w).2.1 &&&
        hw.PVDEC_CORE_CR_PVDEC_HOST_INTERRUPT_STATUS_CR_HOST_MMU_FAULT_IRQ.MASK != 0) = false := by
      simpa [maskedPending] using hm
    rw [if_neg hm]
    simp only [PVDECIO_HandleInterrupts, hmb, maskedPending]
    rfl

/-- The interrupt handler on a non-null context with the gate open and a
non-null status: all it records, in order, and the pending mask it hands
back. The two reads; when the MMU fault cause is pending, the write of the
enable word without that cause and the call of the MMU report; when the
processor cause is pending or the queue is not empty, and the free list is not
empty, the write of the processor cause to the clear register and the call of
the drain. Each call may be followed by a failed assertion on its result. -/
theorem PVDECIO_HandleInterrupts_open_trace {σ : Type} (hw : HwDefs) (tal : TAL σ)
    (dev : DEVAIO σ) (ctx : PVDECIO_sContext) (st : VXD_sIntStatus) (w : World σ)
    (hinit : ctx.bInitialised = true) (hcount : ctx.ui32MemSpaceCount ≠ 0)
    (hclk : ctx.bClocks = true) :
    ∃ (b1 b2 : Bool) (st1 : VXD_sIntStatus),
      (PVDECIO_HandleInterrupts hw tal dev (some ctx) (some st) w).2.2.1 = some st1 ∧
      st1.ui32Pending = maskedPending hw tal ctx w ∧
      (PVDECIO_HandleInterrupts hw tal dev (some ctx) (some st) w).2.2.2.trace = w.trace ++
        [.regRead hw.REGION_PVDEC_CORE_REGSPACE
          hw.PVDEC_CORE_CR_PVDEC_HOST_INTERRUPT_STATUS_OFFSET
          (PVDECIO_HandleInterrupts.reads hw tal ctx w).1,
         .regRead hw.REGION_PVDEC_CORE_REGSPACE
          hw.PVDEC_CORE_CR_PVDEC_HOST_INTERRUPT_ENABLE_OFFSET
          (PVDECIO_HandleInterrupts.reads hw tal ctx w).2.1] ++
        (if maskedPending hw tal ctx w &&&
            hw.PVDEC_CORE_CR_PVDEC_HOST_INTERRUPT_STATUS_CR_HOST_MMU_FAULT_IRQ.MASK ≠ 0 then
          [.regWrite hw.REGION_PVDEC_CORE_REGSPACE
            hw.PVDEC_CORE_CR_PVDEC_HOST_INTERRUPT_ENABLE_OFFSET
            (REGIO_WRITE_FIELD (PVDECIO_HandleInterrupts.reads hw tal ctx w).2.1
              hw.PVDEC_CORE_CR_PVDEC_HOST_INTERRUPT_STATUS_CR_HOST_MMU_FAULT_IRQ 0),
           .call .DEVAIO_ProcessMMUReport] ++ assertEvents b1 2052
         else []) ++
        (if (maskedPending hw tal ctx w &&&
              hw.PVDEC_CORE_CR_PVDEC_HOST_INTERRUPT_STATUS_CR_HOST_PROC_IRQ.MASK ≠ 0
            ∨ st.psMsgQueue.bEmpty = false) ∧ st.psMsgQueue.sFreeMsgList ≠ [] then
          [.regWrite hw.REGION_PVDEC_CORE_REGSPACE hw.PVDEC_CORE_CR_PVDEC_INTERRUPT_CLEAR_OFFSET
            hw.PVDEC_CORE_CR_PVDEC_HOST_INTERRUPT_STATUS_CR_HOST_PROC_IRQ.MASK,
           .call .DEVAIO_ProcessMTXMsgs] ++ assertEvents b2 2087
         else []) := by
  have hrd := PVDECIO_HandleInterrupts_reads_open hw tal ctx w hinit hcount hclk
  rw [PVDECIO_HandleInterrupts_some]
  by_cases hm : maskedPending hw tal ctx w &&&
      hw.PVDEC_CORE_CR_PVDEC_HOST_INTERRUPT_STATUS_CR_HOST_MMU_FAULT_IRQ.MASK ≠ 0
  · simp only [if_pos hm]
    obtain ⟨ht, hi, hc, hk, hp, hq⟩ := PVDECIO_HandleInterrupts_mmu_open hw tal dev ctx
      { st with ui32Pending := maskedPending hw tal ctx w }
      (PVDECIO_HandleInterrupts.reads hw tal ctx w).2.1
      (PVDECIO_HandleInterrupts.reads hw tal ctx w).2.2 hinit hcount hclk
    generalize PVDECIO_HandleInterrupts.mmu hw tal dev ctx
      { st with ui32Pending := maskedPending hw tal ctx w }
      (PVDECIO_HandleInterrupts.reads hw tal ctx w).2.1
      (PVDECIO_HandleInterrupts.reads hw tal ctx w).2.2 = m at ht hi hc hk hp hq ⊢
    obtain ⟨st1, hs1, hs2⟩ := PVDECIO_HandleInterrupts_messages_status hw tal dev m.1 m.2.1
      m.2.2.1 m.2.2.2
    have hmsg := PVDECIO_HandleInterrupts_messages_open hw tal dev m.1 m.2.1 m.2.2.1 m.2.2.2
      hi hc hk
    rw [hp, hq, ht, hrd] at hmsg
    refine ⟨m.1 == IMG_SUCCESS,
      (PVDECIO_HandleInterrupts.messages hw tal dev m.1 m.2.1 m.2.2.1 m.2.2.2).1 == IMG_SUCCESS,
      st1, hs1, by rw [hs2, hp], ?_⟩
    rw [hmsg]
    simp only [List.append_assoc]
  · simp only [if_neg hm]
    obtain ⟨st1, hs1, hs2⟩ := PVDECIO_HandleInterrupts_messages_status hw tal dev IMG_SUCCESS ctx
      { st with ui32Pending := maskedPending hw tal ctx w }
      (PVDECIO_HandleInterrupts.reads hw tal ctx w).2.2
    have hmsg := PVDECIO_HandleInterrupts_messages_open hw tal dev IMG_SUCCESS ctx
      { st with ui32Pending := maskedPending hw tal ctx w }
      (PVDECIO_HandleInterrupts.reads hw tal ctx w).2.2 hinit hcount hclk
    rw [hrd] at hmsg
    refine ⟨true,
      (PVDECIO_HandleInterrupts.messages hw tal dev IMG_SUCCESS ctx
        { st with ui32Pending := maskedPending hw tal ctx w }
        (PVDECIO_HandleInterrupts.reads hw tal ctx w).2.2).1 == IMG_SUCCESS,
      st1, hs1, hs2, ?_⟩
    rw [hmsg]
    simp

/-- The two reads of the interrupt handler write to no register, whatever the
state of the gate. -/
theorem writesTo_PVDECIO_HandleInterrupts_reads {σ : Type} (hw : HwDefs) (tal : TAL σ)
    (ctx : PVDECIO_sContext) (w : World σ) (h o : Nat) :
    writesTo h o (PVDECIO_HandleInterrupts.reads hw tal ctx w).2.2.trace =
      writesTo h o w.trace := by
  have hs : writesTo h o (selectEvents hw PVDEC_DEF_PIPE) = [] := by
    rw [selectEvents_sentinel]; rfl
  simp only [PVDECIO_HandleInterrupts.reads, PVDEC_CORE_ReadRegister]
  rw [writesTo_PVDECIO_ReadRegister _ _ _ _ _ _ _ _ _ hs,
    writesTo_PVDECIO_ReadRegister _ _ _ _ _ _ _ _ _ hs]

/-- The message block of the interrupt handler writes to no register but the
interrupt clear register of the core region, whatever the state of the gate. -/
theorem writesTo_PVDECIO_HandleInterrupts_messages {σ : Type} (hw : HwDefs) (tal : TAL σ)
    (dev : DEVAIO σ) (res : Nat) (ctx : PVDECIO_sContext) (st : VXD_sIntStatus) (w : World σ)
    (h o : Nat)
    (hmiss : ¬ ((hw.REGION_PVDEC_CORE_REGSPACE : Nat) = h ∧
      hw.PVDEC_CORE_CR_PVDEC_INTERRUPT_CLEAR_OFFSET = o)) :
    writesTo h o (PVDECIO_HandleInterrupts.messages hw tal dev res ctx st w).2.2.2.trace =
      writesTo h o w.trace := by
  have hs : writesTo h o (selectEvents hw PVDEC_DEF_PIPE) = [] := by
    rw [selectEvents_sentinel]; rfl
  unfold PVDECIO_HandleInterrupts.messages
  split
  · split
    · simp only [PVDEC_CORE_WriteRegister, IMG_ASSERT_trace_eq, World.log, writesTo_append,
        writesTo_assertEvents, writesTo_cons, writesTo_nil, Event.writtenTo, Option.toList,
        List.append_nil, writesTo_PVDECIO_WriteRegister_miss _ _ _ _ _ _ _ _ _ _ hmiss hs]
    · rfl
  · rfl

/-- The state of the device after the two reads of the interrupt handler, and
the words read, depend on the state of the device before only. -/
theorem PVDECIO_HandleInterrupts_reads_dev {σ : Type} (hw : HwDefs) (tal : TAL σ)
    (ctx : PVDECIO_sContext) (w w1 : World σ) (hd : w.dev = w1.dev) :
    (PVDECIO_HandleInterrupts.reads hw tal ctx w).1 =
      (PVDECIO_HandleInterrupts.reads hw tal ctx w1).1 ∧
    (PVDECIO_HandleInterrupts.reads hw tal ctx w).2.1 =
      (PVDECIO_HandleInterrupts.reads hw tal ctx w1).2.1 ∧
    (PVDECIO_HandleInterrupts.reads hw tal ctx w).2.2.dev =
      (PVDECIO_HandleInterrupts.reads hw tal ctx w1).2.2.dev := by
  have hc := core_lt hw
  by_cases hi : ctx.bInitialised = true <;> by_cases hk : ctx.bClocks = true <;>
    simp [PVDECIO_HandleInterrupts.reads, PVDEC_CORE_ReadRegister, PVDECIO_ReadRegister, hi, hk,
      pvdecio_SelectPipe_sentinel, TALREG_ReadWord32, pahMemSpace, hc, REPORT, World.log, hd]

/-- With reads that leave the device as it is, the two reads of the interrupt
handler leave the device as it is. -/
theorem PVDECIO_HandleInterrupts_reads_pure {σ : Type} (hw : HwDefs) (tal : TAL σ)
    (ctx : PVDECIO_sContext) (w : World σ)
    (hpure : ∀ s h o, (tal.ReadWord32 s h o).2.2 = s) :
    (PVDECIO_HandleInterrupts.reads hw tal ctx w).2.2.dev = w.dev := by
  have hc := core_lt hw
  by_cases hi : ctx.bInitialised = true <;> by_cases hk : ctx.bClocks = true <;>
    simp [PVDECIO_HandleInterrupts.reads, PVDEC_CORE_ReadRegister, PVDECIO_ReadRegister, hi, hk,
      pvdecio_SelectPipe_sentinel, TALREG_ReadWord32, pahMemSpace, hc, REPORT, World.log, hpure]

/-- C17: for a non-null context (its region count not zero) and a non-null
status, on a register map whose registers lie apart. When the masked pending
value (status word and enable word read, and-ed) has a bit of the MMU fault
cause, `PVDECIO_HandleInterrupts` writes the interrupt enable register exactly
once, with the enable word read less the bits of that cause, every other bit
of the 32 as read, and the pending mask handed back is the masked pending
value, the MMU fault cause still in it. When the masked pending value has no
bit of the MMU fault cause, the enable register is not written. -/
theorem C17_mmu_fault_disabled_once {σ : Type} (hw : HwDefs) (tal : TAL σ) (dev : DEVAIO σ)
    (ctx : PVDECIO_sContext) (st : VXD_sIntStatus) (w : World σ) (hap : hw.Apart)
    (hcount : ctx.ui32MemSpaceCount ≠ 0) :
    (maskedPending hw tal ctx w &&&
        hw.PVDEC_CORE_CR_PVDEC_HOST_INTERRUPT_STATUS_CR_HOST_MMU_FAULT_IRQ.MASK ≠ 0 →
      ∃ (v : Nat) (st1 : VXD_sIntStatus),
        writesTo hw.REGION_PVDEC_CORE_REGSPACE hw.PVDEC_CORE_CR_PVDEC_HOST_INTERRUPT_ENABLE_OFFSET
          (PVDECIO_HandleInterrupts hw tal dev (some ctx) (some st) w).2.2.2.trace =
          writesTo hw.REGION_PVDEC_CORE_REGSPACE
            hw.PVDEC_CORE_CR_PVDEC_HOST_INTERRUPT_ENABLE_OFFSET w.trace ++ [v] ∧
        (∀ i, v.testBit i = ((PVDECIO_HandleInterrupts.reads hw tal ctx w).2.1.testBit i &&
          (decide (i < 32) &&
            !hw.PVDEC_CORE_CR_PVDEC_HOST_INTERRUPT_STATUS_CR_HOST_MMU_FAULT_IRQ.MASK.testBit
              i))) ∧
        (PVDECIO_HandleInterrupts hw tal dev (some ctx) (some st) w).2.2.1 = some st1 ∧
        st1.ui32Pending = maskedPending hw tal ctx w ∧
        st1.ui32Pending &&&
          hw.PVDEC_CORE_CR_PVDEC_HOST_INTERRUPT_STATUS_CR_HOST_MMU_FAULT_IRQ.MASK ≠ 0) ∧
    (maskedPending hw tal ctx w &&&
        hw.PVDEC_CORE_CR_PVDEC_HOST_INTERRUPT_STATUS_CR_HOST_MMU_FAULT_IRQ.MASK = 0 →
      writesTo hw.REGION_PVDEC_CORE_REGSPACE hw.PVDEC_CORE_CR_PVDEC_HOST_INTERRUPT_ENABLE_OFFSET
        (PVDECIO_HandleInterrupts hw tal dev (some ctx) (some st) w).2.2.2.trace =
        writesTo hw.REGION_PVDEC_CORE_REGSPACE
          hw.PVDEC_CORE_CR_PVDEC_HOST_INTERRUPT_ENABLE_OFFSET w.trace) := by
  have hce : hw.PVDEC_CORE_CR_PVDEC_INTERRUPT_CLEAR_OFFSET ≠
      hw.PVDEC_CORE_CR_PVDEC_HOST_INTERRUPT_ENABLE_OFFSET :=
    nodup_ne hap.2.1 5 4 rfl rfl (by decide)
  constructor
  · intro hm
    obtain ⟨hinit, hclk⟩ := maskedPending_ne_zero hw tal ctx w _ hm
    obtain ⟨b1, b2, st1, hs1, hs2, ht⟩ := PVDECIO_HandleInterrupts_open_trace hw tal dev ctx st w
      hinit hcount hclk
    refine ⟨REGIO_WRITE_FIELD (PVDECIO_HandleInterrupts.reads hw tal ctx w).2.1
      hw.PVDEC_CORE_CR_PVDEC_HOST_INTERRUPT_STATUS_CR_HOST_MMU_FAULT_IRQ 0, st1, ?_, ?_, hs1, hs2,
      by rw [hs2]; exact hm⟩
    · rw [ht, if_pos hm]
      simp only [writesTo_append, writesTo_cons, writesTo_nil, writesTo_assertEvents,
        Event.writtenTo, Option.toList, List.append_nil, and_self, if_true, and_true]
      split <;> simp [writesTo_append, writesTo_cons, writesTo_nil, writesTo_assertEvents,
        Event.writtenTo, hce]
    · intro i
      rw [REGIO_WRITE_FIELD_zero, Nat.testBit_and, not32_testBit]
  · intro hm
    have hm1 : ¬ (maskedPending hw tal ctx w &&&
        hw.PVDEC_CORE_CR_PVDEC_HOST_INTERRUPT_STATUS_CR_HOST_MMU_FAULT_IRQ.MASK ≠ 0) :=
      fun hh => hh hm
    rw [PVDECIO_HandleInterrupts_some, if_neg hm1,
      writesTo_PVDECIO_HandleInterrupts_messages _ _ _ _ _ _ _ _ _ (fun hh => hce hh.2),
      writesTo_PVDECIO_HandleInterrupts_reads]

/-- C17 on the sample map and plain storage: the status register holds the MMU
fault cause, the enable register the MMU fault and the processor causes; the
hypotheses hold, the cause is pending, and the enable register is written
once. -/
theorem C17_mmu_fault_disabled_once_witness :
    sampleHw.Apart ∧ ctxOn.ui32MemSpaceCount ≠ 0 ∧
    maskedPending sampleHw (plainStorage sampleHw) ctxOn (worldIrq 0x10000 0x1010000) &&&
      sampleHw.PVDEC_CORE_CR_PVDEC_HOST_INTERRUPT_STATUS_CR_HOST_MMU_FAULT_IRQ.MASK ≠ 0 ∧
    ∃ (v : Nat) (st1 : VXD_sIntStatus),
      writesTo sampleHw.REGION_PVDEC_CORE_REGSPACE
        sampleHw.PVDEC_CORE_CR_PVDEC_HOST_INTERRUPT_ENABLE_OFFSET
        (PVDECIO_HandleInterrupts sampleHw (plainStorage sampleHw) (quietMailbox RegFile 0 0)
          (some ctxOn) (some (statusWith true [])) (worldIrq 0x10000 0x1010000)).2.2.2.trace =
        writesTo sampleHw.REGION_PVDEC_CORE_REGSPACE
          sampleHw.PVDEC_CORE_CR_PVDEC_HOST_INTERRUPT_ENABLE_OFFSET
          (worldIrq 0x10000 0x1010000).trace ++ [v] ∧
      (∀ i, v.testBit i = ((PVDECIO_HandleInterrupts.reads sampleHw (plainStorage sampleHw) ctxOn
          (worldIrq 0x10000 0x1010000)).2.1.testBit i &&
        (decide (i < 32) &&
          !sampleHw.PVDEC_CORE_CR_PVDEC_HOST_INTERRUPT_STATUS_CR_HOST_MMU_FAULT_IRQ.MASK.testBit
            i))) ∧
      (PVDECIO_HandleInterrupts sampleHw (plainStorage sampleHw) (quietMailbox RegFile 0 0)
        (some ctxOn) (some (statusWith true [])) (worldIrq 0x10000 0x1010000)).2.2.1 = some st1 ∧
      st1.ui32Pending = maskedPending sampleHw (plainStorage sampleHw) ctxOn
        (worldIrq 0x10000 0x1010000) ∧
      st1.ui32Pending &&&
        sampleHw.PVDEC_CORE_CR_PVDEC_HOST_INTERRUPT_STATUS_CR_HOST_MMU_FAULT_IRQ.MASK ≠ 0 :=
  ⟨by decide, by decide, by decide,
    (C17_mmu_fault_disabled_once sampleHw (plainStorage sampleHw) (quietMailbox RegFile 0 0) ctxOn
      (statusWith true []) (worldIrq 0x10000 0x1010000) (by decide) (by decide)).1 (by decide)⟩

/-- C18: for a non-null context (its region count not zero) and a non-null
status, on a register map whose registers lie apart, with the processor cause
in the masked pending value and a free list that is not empty: what
`PVDECIO_HandleInterrupts` records is `pre`, then the write of the processor
cause to the interrupt clear register, then at once the call of the drain,
then `post`; neither `pre` nor `post` holds a write to the clear register or a
call of the drain. So the clear is written once, before the drain, and not
after it. -/
theorem C18_clear_written_once_before_drain {σ : Type} (hw : HwDefs) (tal : TAL σ)
    (dev : DEVAIO σ) (ctx : PVDECIO_sContext) (st : VXD_sIntStatus) (w : World σ)
    (hap : hw.Apart) (hcount : ctx.ui32MemSpaceCount ≠ 0)
    (hproc : maskedPending hw tal ctx w &&&
      hw.PVDEC_CORE_CR_PVDEC_HOST_INTERRUPT_STATUS_CR_HOST_PROC_IRQ.MASK ≠ 0)
    (hfree : st.psMsgQueue.sFreeMsgList ≠ []) :
    ∃ pre post : List Event,
      (PVDECIO_HandleInterrupts hw tal dev (some ctx) (some st) w).2.2.2.trace =
        w.trace ++ pre ++
          [.regWrite hw.REGION_PVDEC_CORE_REGSPACE hw.PVDEC_CORE_CR_PVDEC_INTERRUPT_CLEAR_OFFSET
            hw.PVDEC_CORE_CR_PVDEC_HOST_INTERRUPT_STATUS_CR_HOST_PROC_IRQ.MASK,
           .call .DEVAIO_ProcessMTXMsgs] ++ post ∧
      writesTo hw.REGION_PVDEC_CORE_REGSPACE hw.PVDEC_CORE_CR_PVDEC_INTERRUPT_CLEAR_OFFSET pre
        = [] ∧
      callsOf .DEVAIO_ProcessMTXMsgs pre = 0 ∧
      writesTo hw.REGION_PVDEC_CORE_REGSPACE hw.PVDEC_CORE_CR_PVDEC_INTERRUPT_CLEAR_OFFSET post
        = [] ∧
      callsOf .DEVAIO_ProcessMTXMsgs post = 0 := by
  have hec : hw.PVDEC_CORE_CR_PVDEC_HOST_INTERRUPT_ENABLE_OFFSET ≠
      hw.PVDEC_CORE_CR_PVDEC_INTERRUPT_CLEAR_OFFSET :=
    nodup_ne hap.2.1 4 5 rfl rfl (by decide)
  obtain ⟨hinit, hclk⟩ := maskedPending_ne_zero hw tal ctx w _ hproc
  obtain ⟨b1, b2, st1, _, _, ht⟩ := PVDECIO_HandleInterrupts_open_trace hw tal dev ctx st w
    hinit hcount hclk
  have hc : (maskedPending hw tal ctx w &&&
        hw.PVDEC_CORE_CR_PVDEC_HOST_INTERRUPT_STATUS_CR_HOST_PROC_IRQ.MASK ≠ 0
      ∨ st.psMsgQueue.bEmpty = false) ∧ st.psMsgQueue.sFreeMsgList ≠ [] :=
    ⟨Or.inl hproc, hfree⟩
  simp only [if_pos hc] at ht
  refine ⟨[.regRead hw.REGION_PVDEC_CORE_REGSPACE
        hw.PVDEC_CORE_CR_PVDEC_HOST_INTERRUPT_STATUS_OFFSET
        (PVDECIO_HandleInterrupts.reads hw tal ctx w).1,
      .regRead hw.REGION_PVDEC_CORE_REGSPACE hw.PVDEC_CORE_CR_PVDEC_HOST_INTERRUPT_ENABLE_OFFSET
        (PVDECIO_HandleInterrupts.reads hw tal ctx w).2.1] ++
      (if maskedPending hw tal ctx w &&&
          hw.PVDEC_CORE_CR_PVDEC_HOST_INTERRUPT_STATUS_CR_HOST_MMU_FAULT_IRQ.MASK ≠ 0 then
        [.regWrite hw.REGION_PVDEC_CORE_REGSPACE
          hw.PVDEC_CORE_CR_PVDEC_HOST_INTERRUPT_ENABLE_OFFSET
          (REGIO_WRITE_FIELD (PVDECIO_HandleInterrupts.reads hw tal ctx w).2.1
            hw.PVDEC_CORE_CR_PVDEC_HOST_INTERRUPT_STATUS_CR_HOST_MMU_FAULT_IRQ 0),
         .call .DEVAIO_ProcessMMUReport] ++ assertEvents b1 2052
       else []), assertEvents b2 2087, ?_, ?_, ?_, writesTo_assertEvents _ _ _ _,
    callsOf_assertEvents _ _ _⟩
  · rw [ht]
    simp only [List.append_assoc]
  · simp only [writesTo_append, writesTo_cons, writesTo_nil, Event.writtenTo, Option.toList]
    split <;> simp [writesTo_append, writesTo_cons, writesTo_nil, writesTo_assertEvents,
      Event.writtenTo, hec]
  · simp only [callsOf_append]
    split
    · have ha := callsOf_assertEvents .DEVAIO_ProcessMTXMsgs b1 2052
      simp [callsOf, List.count_cons] at ha ⊢
      exact ha
    · simp [callsOf]

/-- C18 on the sample map and plain storage: the processor cause is raised and
enabled, one slot is free; the hypotheses hold and the clear is written once,
right before the drain. -/
theorem C18_clear_written_once_before_drain_witness :
    sampleHw.Apart ∧ ctxOn.ui32MemSpaceCount ≠ 0 ∧
    maskedPending sampleHw (plainStorage sampleHw) ctxOn (worldIrq 0x1000000 0x1010000) &&&
      sampleHw.PVDEC_CORE_CR_PVDEC_HOST_INTERRUPT_STATUS_CR_HOST_PROC_IRQ.MASK ≠ 0 ∧
    (statusWith true [7]).psMsgQueue.sFreeMsgList ≠ [] ∧
    ∃ pre post : List Event,
      (PVDECIO_HandleInterrupts sampleHw (plainStorage sampleHw) (quietMailbox RegFile 0 0)
        (some ctxOn) (some (statusWith true [7])) (worldIrq 0x1000000 0x1010000)).2.2.2.trace =
        (worldIrq 0x1000000 0x1010000).trace ++ pre ++
          [.regWrite sampleHw.REGION_PVDEC_CORE_REGSPACE
            sampleHw.PVDEC_CORE_CR_PVDEC_INTERRUPT_CLEAR_OFFSET
            sampleHw.PVDEC_CORE_CR_PVDEC_HOST_INTERRUPT_STATUS_CR_HOST_PROC_IRQ.MASK,
           .call .DEVAIO_ProcessMTXMsgs] ++ post ∧
      writesTo sampleHw.REGION_PVDEC_CORE_REGSPACE
        sampleHw.PVDEC_CORE_CR_PVDEC_INTERRUPT_CLEAR_OFFSET pre = [] ∧
      callsOf .DEVAIO_ProcessMTXMsgs pre = 0 ∧
      writesTo sampleHw.REGION_PVDEC_CORE_REGSPACE
        sampleHw.PVDEC_CORE_CR_PVDEC_INTERRUPT_CLEAR_OFFSET post = [] ∧
      callsOf .DEVAIO_ProcessMTXMsgs post = 0 :=
  ⟨by decide, by decide, by decide, by decide,
    C18_clear_written_once_before_drain sampleHw (plainStorage sampleHw)
      (quietMailbox RegFile 0 0) ctxOn (statusWith true [7]) (worldIrq 0x1000000 0x1010000)
      (by decide) (by decide) (by decide) (by decide)⟩

/-- C19: for an initialised, clocked context and a non-null status, on a
register map whose registers lie apart. `PVDECIO_HandleInterrupts` writes the
processor cause to the interrupt clear register, once, and calls the drain,
once, when the free list is not empty and the processor cause is in the masked
pending value or the flag `bEmpty` of the queue is false; otherwise, so with an
empty free list, it does neither. The masked pending value depends on the
context and on the state of the device only; with an empty free list, no MMU
fault cause pending and reads that leave the device as it is, the call leaves
context and device as they were, so that a second call evaluates the same
pending value. -/
theorem C19_clear_and_drain_exactly_when {σ : Type} (hw : HwDefs) (tal : TAL σ)
    (dev : DEVAIO σ) (ctx : PVDECIO_sContext) (st : VXD_sIntStatus) (w : World σ)
    (hap : hw.Apart) (hinit : ctx.bInitialised = true) (hcount : ctx.ui32MemSpaceCount ≠ 0)
    (hclk : ctx.bClocks = true) :
    ((st.psMsgQueue.sFreeMsgList ≠ [] ∧
        (maskedPending hw tal ctx w &&&
            hw.PVDEC_CORE_CR_PVDEC_HOST_INTERRUPT_STATUS_CR_HOST_PROC_IRQ.MASK ≠ 0
          ∨ st.psMsgQueue.bEmpty = false) →
      writesTo hw.REGION_PVDEC_CORE_REGSPACE hw.PVDEC_CORE_CR_PVDEC_INTERRUPT_CLEAR_OFFSET
        (PVDECIO_HandleInterrupts hw tal dev (some ctx) (some st) w).2.2.2.trace =
        writesTo hw.REGION_PVDEC_CORE_REGSPACE hw.PVDEC_CORE_CR_PVDEC_INTERRUPT_CLEAR_OFFSET
          w.trace ++ [hw.PVDEC_CORE_CR_PVDEC_HOST_INTERRUPT_STATUS_CR_HOST_PROC_IRQ.MASK] ∧
      callsOf .DEVAIO_ProcessMTXMsgs
        (PVDECIO_HandleInterrupts hw tal dev (some ctx) (some st) w).2.2.2.trace =
        callsOf .DEVAIO_ProcessMTXMsgs w.trace + 1) ∧
    (¬ (st.psMsgQueue.sFreeMsgList ≠ [] ∧
        (maskedPending hw tal ctx w &&&
            hw.PVDEC_CORE_CR_PVDEC_HOST_INTERRUPT_STATUS_CR_HOST_PROC_IRQ.MASK ≠ 0
          ∨ st.psMsgQueue.bEmpty = false)) →
      writesTo hw.REGION_PVDEC_CORE_REGSPACE hw.PVDEC_CORE_CR_PVDEC_INTERRUPT_CLEAR_OFFSET
        (PVDECIO_HandleInterrupts hw tal dev (some ctx) (some st) w).2.2.2.trace =
        writesTo hw.REGION_PVDEC_CORE_REGSPACE hw.PVDEC_CORE_CR_PVDEC_INTERRUPT_CLEAR_OFFSET
          w.trace ∧
      callsOf .DEVAIO_ProcessMTXMsgs
        (PVDECIO_HandleInterrupts hw tal dev (some ctx) (some st) w).2.2.2.trace =
        callsOf .DEVAIO_ProcessMTXMsgs w.trace)) ∧
    (∀ w1 : World σ, w1.dev = w.dev →
      maskedPending hw tal ctx w1 = maskedPending hw tal ctx w) ∧
    (st.psMsgQueue.sFreeMsgList = [] →
      maskedPending hw tal ctx w &&&
        hw.PVDEC_CORE_CR_PVDEC_HOST_INTERRUPT_STATUS_CR_HOST_MMU_FAULT_IRQ.MASK = 0 →
      (∀ s h o, (tal.ReadWord32 s h o).2.2 = s) →
      (PVDECIO_HandleInterrupts hw tal dev (some ctx) (some st) w).2.1 = some ctx ∧
      (PVDECIO_HandleInterrupts hw tal dev (some ctx) (some st) w).2.2.2.dev = w.dev ∧
      maskedPending hw tal ctx (PVDECIO_HandleInterrupts hw tal dev (some ctx) (some st) w).2.2.2
        = maskedPending hw tal ctx w) := by
  have hec : hw.PVDEC_CORE_CR_PVDEC_HOST_INTERRUPT_ENABLE_OFFSET ≠
      hw.PVDEC_CORE_CR_PVDEC_INTERRUPT_CLEAR_OFFSET :=
    nodup_ne hap.2.1 4 5 rfl rfl (by decide)
  obtain ⟨b1, b2, st1, _, _, ht⟩ := PVDECIO_HandleInterrupts_open_trace hw tal dev ctx st w
    hinit hcount hclk
  have hmmuW : ∀ b : Bool, writesTo hw.REGION_PVDEC_CORE_REGSPACE
      hw.PVDEC_CORE_CR_PVDEC_INTERRUPT_CLEAR_OFFSET
      (if maskedPending hw tal ctx w &&&
          hw.PVDEC_CORE_CR_PVDEC_HOST_INTERRUPT_STATUS_CR_HOST_MMU_FAULT_IRQ.MASK ≠ 0 then
        [.regWrite hw.REGION_PVDEC_CORE_REGSPACE
          hw.PVDEC_CORE_CR_PVDEC_HOST_INTERRUPT_ENABLE_OFFSET
          (REGIO_WRITE_FIELD (PVDECIO_HandleInterrupts.reads hw tal ctx w).2.1
            hw.PVDEC_CORE_CR_PVDEC_HOST_INTERRUPT_STATUS_CR_HOST_MMU_FAULT_IRQ 0),
         .call .DEVAIO_ProcessMMUReport] ++ assertEvents b 2052
       else []) = [] := by
    intro b
    split <;> simp [writesTo_append, writesTo_cons, writesTo_nil, writesTo_assertEvents,
      Event.writtenTo, hec]
  have hmmuC : ∀ b : Bool, callsOf .DEVAIO_ProcessMTXMsgs
      (if maskedPending hw tal ctx w &&&
          hw.PVDEC_CORE_CR_PVDEC_HOST_INTERRUPT_STATUS_CR_HOST_MMU_FAULT_IRQ.MASK ≠ 0 then
        [.regWrite hw.REGION_PVDEC_CORE_REGSPACE
          hw.PVDEC_CORE_CR_PVDEC_HOST_INTERRUPT_ENABLE_OFFSET
          (REGIO_WRITE_FIELD (PVDECIO_HandleInterrupts.reads hw tal ctx w).2.1
            hw.PVDEC_CORE_CR_PVDEC_HOST_INTERRUPT_STATUS_CR_HOST_MMU_FAULT_IRQ 0),
         .call .DEVAIO_ProcessMMUReport] ++ assertEvents b 2052
       else []) = 0 := by
    intro b
    split
    · have ha := callsOf_assertEvents .DEVAIO_ProcessMTXMsgs b 2052
      simp [callsOf, List.count_cons] at ha ⊢
      exact ha
    · simp [callsOf]
  refine ⟨⟨?_, ?_⟩, ?_, ?_⟩
  · intro hc
    have hc1 : (maskedPending hw tal ctx w &&&
          hw.PVDEC_CORE_CR_PVDEC_HOST_INTERRUPT_STATUS_CR_HOST_PROC_IRQ.MASK ≠ 0
        ∨ st.psMsgQueue.bEmpty = false) ∧ st.psMsgQueue.sFreeMsgList ≠ [] := ⟨hc.2, hc.1⟩
    rw [ht, if_pos hc1]
    constructor
    · simp only [writesTo_append, hmmuW, writesTo_assertEvents, List.append_nil]
      simp [writesTo_cons, writesTo_nil, Event.writtenTo]
    · have ha := callsOf_assertEvents .DEVAIO_ProcessMTXMsgs b2 2087
      simp only [callsOf_append, hmmuC, ha]
      simp [callsOf, List.count_cons]
  · intro hc
    have hc1 : ¬ ((maskedPending hw tal ctx w &&&
          hw.PVDEC_CORE_CR_PVDEC_HOST_INTERRUPT_STATUS_CR_HOST_PROC_IRQ.MASK ≠ 0
        ∨ st.psMsgQueue.bEmpty = false) ∧ st.psMsgQueue.sFreeMsgList ≠ []) :=
      fun hh => hc ⟨hh.2, hh.1⟩
    rw [ht, if_neg hc1]
    constructor
    · simp only [writesTo_append, hmmuW, List.append_nil]
      simp [writesTo_cons, writesTo_nil, Event.writtenTo]
    · simp only [callsOf_append, hmmuC]
      simp [callsOf, List.count_cons]
  · intro w1 hd
    obtain ⟨h1, h2, _⟩ := PVDECIO_HandleInterrupts_reads_dev hw tal ctx w1 w hd
    simp only [maskedPending, h1, h2]
  · intro hfree hm hpure
    have hm1 : ¬ (maskedPending hw tal ctx w &&&
        hw.PVDEC_CORE_CR_PVDEC_HOST_INTERRUPT_STATUS_CR_HOST_MMU_FAULT_IRQ.MASK ≠ 0) :=
      fun hh => hh hm
    have hres : PVDECIO_HandleInterrupts hw tal dev (some ctx) (some st) w =
        (IMG_SUCCESS, some ctx, some { st with ui32Pending := maskedPending hw tal ctx w },
          (PVDECIO_HandleInterrupts.reads hw tal ctx w).2.2) := by
      rw [PVDECIO_HandleInterrupts_some, if_neg hm1]
      unfold PVDECIO_HandleInterrupts.messages
      simp [LST_empty, hfree]
    have hdev := PVDECIO_HandleInterrupts_reads_pure hw tal ctx w hpure
    rw [hres]
    refine ⟨rfl, hdev, ?_⟩
    obtain ⟨h1, h2, _⟩ := PVDECIO_HandleInterrupts_reads_dev hw tal ctx
      (PVDECIO_HandleInterrupts.reads hw tal ctx w).2.2 w hdev
    simp only [maskedPending, h1, h2]

/-- C19 on the sample map and plain storage: the processor cause is raised and
enabled, the queue is not empty, and no slot is free; the hypotheses hold, and
neither the clear nor the drain occurs. -/
theorem C19_clear_and_drain_exactly_when_witness :
    sampleHw.Apart ∧ ctxOn.bInitialised = true ∧ ctxOn.ui32MemSpaceCount ≠ 0 ∧
    ctxOn.bClocks = true ∧
    maskedPending sampleHw (plainStorage sampleHw) ctxOn (worldIrq 0x1000000 0x1010000) &&&
      sampleHw.PVDEC_CORE_CR_PVDEC_HOST_INTERRUPT_STATUS_CR_HOST_PROC_IRQ.MASK ≠ 0 ∧
    writesTo sampleHw.REGION_PVDEC_CORE_REGSPACE
      sampleHw.PVDEC_CORE_CR_PVDEC_INTERRUPT_CLEAR_OFFSET
      (PVDECIO_HandleInterrupts sampleHw (plainStorage sampleHw) (quietMailbox RegFile 0 0)
        (some ctxOn) (some (statusWith false [])) (worldIrq 0x1000000 0x1010000)).2.2.2.trace =
      writesTo sampleHw.REGION_PVDEC_CORE_REGSPACE
        sampleHw.PVDEC_CORE_CR_PVDEC_INTERRUPT_CLEAR_OFFSET
        (worldIrq 0x1000000 0x1010000).trace ∧
    callsOf .DEVAIO_ProcessMTXMsgs
      (PVDECIO_HandleInterrupts sampleHw (plainStorage sampleHw) (quietMailbox RegFile 0 0)
        (some ctxOn) (some (statusWith false [])) (worldIrq 0x1000000 0x1010000)).2.2.2.trace =
      callsOf .DEVAIO_ProcessMTXMsgs (worldIrq 0x1000000 0x1010000).trace :=
  ⟨by decide, rfl, by decide, rfl, by decide,
    (C19_clear_and_drain_exactly_when sampleHw (plainStorage sampleHw) (quietMailbox RegFile 0 0)
      ctxOn (statusWith false []) (worldIrq 0x1000000 0x1010000) (by decide) rfl (by decide)
      rfl).1.2 (by decide)⟩

/-- C20: `PVDECIO_HandleInterrupts` with a null context or a null status
returns `IMG_ERROR_INVALID_PARAMETERS` at once: it records the failed
assertion on the null pointer and the error report and nothing else, so no
register is read or written and no collaborator is called, and it hands back
context, status and device as they were. -/
theorem C20_null_argument_rejected {σ : Type} (hw : HwDefs) (tal : TAL σ) (dev : DEVAIO σ)
    (hCoreContext : Option PVDECIO_sContext) (psIntStatus : Option VXD_sIntStatus)
    (w : World σ) (hnull : hCoreContext = none ∨ psIntStatus = none) :
    (PVDECIO_HandleInterrupts hw tal dev hCoreContext psIntStatus w).1 =
      IMG_ERROR_INVALID_PARAMETERS ∧
    (PVDECIO_HandleInterrupts hw tal dev hCoreContext psIntStatus w).2.1 = hCoreContext ∧
    (PVDECIO_HandleInterrupts hw tal dev hCoreContext psIntStatus w).2.2.1 = psIntStatus ∧
    (PVDECIO_HandleInterrupts hw tal dev hCoreContext psIntStatus w).2.2.2.dev = w.dev ∧
    (PVDECIO_HandleInterrupts hw tal dev hCoreContext psIntStatus w).2.2.2.trace =
      w.trace ++ [.assertFail (if hCoreContext = none then 2022 else 2030),
        .report .REPORT_ERR] ∧
    busEvents (PVDECIO_HandleInterrupts hw tal dev hCoreContext psIntStatus w).2.2.2.trace =
      busEvents w.trace ∧
    ∀ c, callsOf c (PVDECIO_HandleInterrupts hw tal dev hCoreContext psIntStatus w).2.2.2.trace =
      callsOf c w.trace := by
  have key : (PVDECIO_HandleInterrupts hw tal dev hCoreContext psIntStatus w) =
      (IMG_ERROR_INVALID_PARAMETERS, hCoreContext, psIntStatus,
        ⟨w.dev, w.trace ++ [.assertFail (if hCoreContext = none then 2022 else 2030),
          .report .REPORT_ERR]⟩) := by
    cases hCoreContext with
    | none => simp [PVDECIO_HandleInterrupts, IMG_ASSERT, REPORT, World.log]
    | some ctx =>
      cases psIntStatus with
      | none => simp [PVDECIO_HandleInterrupts, IMG_ASSERT, REPORT, World.log]
      | some st => simp at hnull
  rw [key]
  refine ⟨rfl, rfl, rfl, rfl, rfl, ?_, ?_⟩
  · simp [busEvents, List.filter_append, Event.isBus]
  · intro c
    simp [callsOf, List.count_cons]

/-- C20 with a null status and the context `ctxOn`. -/
theorem C20_null_argument_rejected_witness :
    (PVDECIO_HandleInterrupts sampleHw (plainStorage sampleHw) (quietMailbox RegFile 0 0)
      (some ctxOn) none (worldIrq 0x1000000 0x1010000)).1 = IMG_ERROR_INVALID_PARAMETERS ∧
    (PVDECIO_HandleInterrupts sampleHw (plainStorage sampleHw) (quietMailbox RegFile 0 0)
      (some ctxOn) none (worldIrq 0x1000000 0x1010000)).2.2.2.trace =
      [.assertFail 2030, .report .REPORT_ERR] :=
  ⟨(C20_null_argument_rejected sampleHw (plainStorage sampleHw) (quietMailbox RegFile 0 0)
      (some ctxOn) none (worldIrq 0x1000000 0x1010000) (Or.inr rfl)).1,
    (C20_null_argument_rejected sampleHw (plainStorage sampleHw) (quietMailbox RegFile 0 0)
      (some ctxOn) none (worldIrq 0x1000000 0x1010000) (Or.inr rfl)).2.2.2.2.1⟩

/-! ## Termination -/

/-- `pvdecio_startDMA` with the wait, on an initialised context and the
scripted device, does not return while every poll reads a count that is
neither zero nor the count before. -/
theorem pvdecio_startDMA_scripted_none (cfg : BuildConfig) (hw : HwDefs) (rd : Nat → Nat)
    (bg : Nat → Nat → Nat) (ctx : PVDECIO_sContext) (p n a fuel : Nat) (t : List Event)
    (hb : cfg.SYSBRG_BRIDGING = true)
    (hr : (hw.REGION_PVDEC_CORE_REGSPACE : Nat) ≠ hw.REGION_PVDEC_PIXEL_DMA_REGSPACE)
    (hinit : ctx.bInitialised = true) (hcount : ctx.ui32MemSpaceCount ≠ 0)
    (hgo : ∀ j, j < fuel → countAt hw rd j ≠ prevCount hw n rd j ∧ countAt hw rd j ≠ 0) :
    pvdecio_startDMA cfg hw (scriptedDMA hw rd bg) ctx p n a fuel ⟨0, t⟩ = none := by
  obtain ⟨wp, hwp, he⟩ := pvdecio_startDMA_scripted cfg hw rd bg ctx p n a fuel ⟨0, t⟩ hb hr
  have hwp0 : wp.dev = 0 := hwp
  rw [he, pvdecio_startDMA_wait_none hw rd bg { ctx with bClocks := true } p hinit hcount rfl
    (programmedCount hw n) wp fuel (by simpa [hwp0, prevCount] using hgo)]
  rfl

/-- `pvdecio_startDMA` with the wait, on an initialised context and the
scripted device, returns within `k + 1` polls when poll `k` reads zero or the
count before. -/
theorem pvdecio_startDMA_scripted_some (cfg : BuildConfig) (hw : HwDefs) (rd : Nat → Nat)
    (bg : Nat → Nat → Nat) (ctx : PVDECIO_sContext) (p n a k : Nat) (t : List Event)
    (hb : cfg.SYSBRG_BRIDGING = true)
    (hr : (hw.REGION_PVDEC_CORE_REGSPACE : Nat) ≠ hw.REGION_PVDEC_PIXEL_DMA_REGSPACE)
    (hinit : ctx.bInitialised = true) (hcount : ctx.ui32MemSpaceCount ≠ 0)
    (hend : countAt hw rd k = 0 ∨ countAt hw rd k = prevCount hw n rd k) :
    ∃ r, pvdecio_startDMA cfg hw (scriptedDMA hw rd bg) ctx p n a (k + 1) ⟨0, t⟩ = some r := by
  classical
  have hex : ∃ m, countAt hw rd m = 0 ∨ countAt hw rd m = prevCount hw n rd m := ⟨k, hend⟩
  have hmin : ∀ j, j < Nat.find hex →
      ¬ (countAt hw rd j = 0 ∨ countAt hw rd j = prevCount hw n rd j) :=
    fun j hj => Nat.find_min hex hj
  have hspec := Nat.find_spec hex
  have hle : Nat.find hex ≤ k := Nat.find_min' hex hend
  generalize Nat.find hex = m at hmin hspec hle
  obtain ⟨wp, hwp, he⟩ := pvdecio_startDMA_scripted cfg hw rd bg ctx p n a (k + 1) ⟨0, t⟩ hb hr
  have hwp0 : wp.dev = 0 := hwp
  have hgo : ∀ j, j < m → countAt hw rd (wp.dev + j) ≠
      (if j = 0 then programmedCount hw n else countAt hw rd (wp.dev + (j - 1))) ∧
      countAt hw rd (wp.dev + j) ≠ 0 := by
    intro j hj
    have h := hmin j hj
    simp only [not_or] at h
    simpa [hwp0, prevCount] using And.intro h.2 h.1
  by_cases hst : countAt hw rd m = prevCount hw n rd m
  · obtain ⟨w1, _, hwait⟩ := pvdecio_startDMA_wait_fatal hw rd bg { ctx with bClocks := true } p
      hinit hcount rfl m (programmedCount hw n) wp (k + 1) hgo
      (by simpa [hwp0, prevCount] using hst) (by omega)
    exact ⟨_, by rw [he, hwait]; rfl⟩
  · have hz : countAt hw rd m = 0 := by
      rcases hspec with h | h
      · exact h
      · exact absurd h hst
    obtain ⟨w1, _, hwait⟩ := pvdecio_startDMA_wait_success hw rd bg { ctx with bClocks := true }
      p hinit hcount rfl m (programmedCount hw n) wp (k + 1) hgo
      (by simpa [hwp0, prevCount] using hst) (by simpa [hwp0] using hz) (by omega)
    exact ⟨_, by rw [he, hwait]; rfl⟩

/-! ## Claim C21: the range of the region index -/

/-- The lookup of a region index that is not below `REGION_PVDEC_MAX` is
outside the handle table. -/
theorem pahMemSpace_out (hw : HwDefs) (region : Nat) (h : hw.REGION_PVDEC_MAX ≤ region) :
    pahMemSpace hw region = none := by
  simp [pahMemSpace, Nat.not_lt.mpr h]

/-- Only `PVDECIO_Poll` tests the region index. For every register map, bus
and initialised, clocked context with a handle table, and every region index
that is not below `REGION_PVDEC_MAX`: `PVDECIO_Poll` rejects it with
`IMG_ERROR_INVALID_PARAMETERS` and one report, while `PVDECIO_ReadRegister`,
`PVDECIO_WriteRegister`, `PVDECIO_VLRWriteWords` and `PVDECIO_VLRReadWords`
go on to the lookup outside the table. -/
theorem region_index_tested_by_poll_only {σ : Type} (cfg : BuildConfig) (hw : HwDefs)
    (tal : TAL σ) (ctx : PVDECIO_sContext) (region o v n : Nat) (vals : List Nat)
    (mode : VXDIO_ePollMode) (w : World σ)
    (hinit : ctx.bInitialised = true) (hcount : ctx.ui32MemSpaceCount ≠ 0)
    (hclk : ctx.bClocks = true) (hreg : hw.REGION_PVDEC_MAX ≤ region)
    (ho : o &&& 0x3 = 0) (hn : n ≠ 0) :
    PVDECIO_Poll cfg hw tal (some ctx) region o v 0xFFFFFFFF mode w =
      (IMG_ERROR_INVALID_PARAMETERS, REPORT .REPORT_ERR w) ∧
    (PVDECIO_ReadRegister hw tal (some ctx) region o PVDEC_DEF_PIPE w).2.trace =
      w.trace ++ [.outOfTable region] ∧
    (PVDECIO_WriteRegister hw tal (some ctx) region o v PVDEC_DEF_REG_MASK PVDEC_DEF_PIPE
      w).2.trace = w.trace ++ [.outOfTable region] ∧
    (PVDECIO_VLRWriteWords hw tal (some ctx) region o n (some vals) w).2.trace =
      w.trace ++ [.outOfTable region] ∧
    (PVDECIO_VLRReadWords cfg hw tal (some ctx) region o n (some vals) false w).2.2.trace =
      w.trace ++ [.outOfTable region] := by
  have hp := pahMemSpace_out hw region hreg
  have hc : (ctx.ui32MemSpaceCount != 0) = true := by simpa using hcount
  obtain ⟨m, rfl⟩ : ∃ m, n = m + 1 := ⟨n - 1, by omega⟩
  refine ⟨?_, ?_, ?_, ?_, ?_⟩
  · simp [PVDECIO_Poll, hreg]
  · simp [PVDECIO_ReadRegister, hinit, hclk, hc, IMG_ASSERT, pvdecio_SelectPipe_sentinel,
      TALREG_ReadWord32, hp, World.log]
  · simp [PVDECIO_WriteRegister, hinit, hclk, hc, IMG_ASSERT, pvdecio_SelectPipe_sentinel,
      TALREG_WriteWord32, hp, World.log, PVDEC_DEF_REG_MASK]
  · simp [PVDECIO_VLRWriteWords, PVDECIO_VLRWriteWords.loop, ho, TALREG_WriteWord32, hp,
      World.log, IMG_ERROR_FATAL, IMG_SUCCESS]
  · simp [PVDECIO_VLRReadWords, PVDECIO_VLRReadWords.loop, ho, TALREG_ReadWord32, hp,
      World.log, IMG_ERROR_FATAL, IMG_SUCCESS]

/-- C21, the failing input. On the sample register map the handle table has 17
entries. With the region index 17, on an initialised, clocked context:
`PVDECIO_Poll` returns `IMG_ERROR_INVALID_PARAMETERS` and reaches neither the
table nor the bus; `PVDECIO_ReadRegister` and `PVDECIO_WriteRegister`, called
for pipe 2, first write the pipe select register and then look the handle up
at index 17, outside the table (the masked write twice, for its read and for
its write); `PVDECIO_VLRWriteWords` and `PVDECIO_VLRReadWords` look the handle
up at index 17 as well. -/
theorem C21_region_index_not_tested_before_lookup :
    sampleHw.REGION_PVDEC_MAX = 17 ∧ ctxOn.bInitialised = true ∧ ctxOn.bClocks = true ∧
    (PVDECIO_Poll defaultBuild sampleHw (plainStorage sampleHw) (some ctxOn) 17 0 0 0xFFFFFFFF
      .VXDIO_POLL_EQUAL world0).1 = IMG_ERROR_INVALID_PARAMETERS ∧
    (PVDECIO_Poll defaultBuild sampleHw (plainStorage sampleHw) (some ctxOn) 17 0 0 0xFFFFFFFF
      .VXDIO_POLL_EQUAL world0).2.trace = [.report .REPORT_ERR] ∧
    (PVDECIO_ReadRegister sampleHw (plainStorage sampleHw) (some ctxOn) 17 0 2 world0).2.trace =
      [.regWrite 1 0x38 2, .outOfTable 17] ∧
    (PVDECIO_WriteRegister sampleHw (plainStorage sampleHw) (some ctxOn) 17 0 1 0xFF 2
      world0).2.trace = [.regWrite 1 0x38 2, .outOfTable 17, .outOfTable 17] ∧
    (PVDECIO_VLRWriteWords sampleHw (plainStorage sampleHw) (some ctxOn) 17 0 2 (some [1, 2])
      world0).2.trace = [.outOfTable 17] ∧
    (PVDECIO_VLRReadWords defaultBuild sampleHw (plainStorage sampleHw) (some ctxOn) 17 0 2
      (some [0, 0]) false world0).2.2.trace = [.outOfTable 17] := by
  decide

/-! ## Projections of the trace -/

/-- An event that is no bus transaction adds nothing to a projection that sees
bus transactions only. -/
theorem filterMap_log {α σ : Type} (f : Event → Option α) (hd : SeesBusOnly f) (e : Event)
    (he : e.isBus = false) (w : World σ) :
    (w.log e).trace.filterMap f = w.trace.filterMap f := by
  simp [World.log, List.filterMap_append, hd e he]

/-- What an assertion records is no bus transaction. -/
theorem filterMap_assertEvents {α : Type} (f : Event → Option α) (hd : SeesBusOnly f)
    (c : Bool) (line : Nat) : (assertEvents c line).filterMap f = [] := by
  cases c
  · simp [assertEvents, hd (.assertFail line) rfl]
  · rfl

/-- An assertion adds nothing to a projection that sees bus transactions
only. -/
theorem filterMap_IMG_ASSERT {α σ : Type} (f : Event → Option α) (hd : SeesBusOnly f)
    (c : Bool) (line : Nat) (w : World σ) :
    (IMG_ASSERT c line w).trace.filterMap f = w.trace.filterMap f := by
  rw [IMG_ASSERT_trace_eq, List.filterMap_append, filterMap_assertEvents f hd, List.append_nil]

/-- A report adds nothing to a projection that sees bus transactions only. -/
theorem filterMap_REPORT {α σ : Type} (f : Event → Option α) (hd : SeesBusOnly f)
    (l : ReportLevel) (w : World σ) :
    (REPORT l w).trace.filterMap f = w.trace.filterMap f := by
  simp [REPORT, World.log, List.filterMap_append, hd (.report l) rfl]

/-- The pipe selection adds nothing to a projection that sees bus transactions
only and not the writes to the pipe select register. -/
theorem filterMap_selectEvents {α : Type} (hw : HwDefs) (f : Event → Option α)
    (hd : SeesBusOnly f)
    (hsel : ∀ v, f (.regWrite hw.REGION_PVDEC_CORE_REGSPACE
      hw.PVDEC_CORE_CR_PVDEC_HOST_PIPE_SELECT_OFFSET v) = none) (p : Nat) :
    (selectEvents hw p).filterMap f = [] := by
  unfold selectEvents
  split
  · rfl
  · simp [List.filterMap_append, filterMap_assertEvents f hd, hsel]

/-- A bus read adds nothing to a projection that does not see the reads of its
register. -/
theorem filterMap_TALREG_ReadWord32 {α σ : Type} (hw : HwDefs) (tal : TAL σ)
    (f : Event → Option α) (hd : SeesBusOnly f) (r o d : Nat) (w : World σ)
    (hmiss : ∀ v, f (.regRead r o v) = none) :
    (TALREG_ReadWord32 hw tal r o d w).2.2.trace.filterMap f = w.trace.filterMap f := by
  unfold TALREG_ReadWord32 pahMemSpace
  split
  · rename_i x heq
    split at heq
    · cases heq
      simp [List.filterMap_append, hmiss]
    · cases heq
  · simp [World.log, List.filterMap_append, hd (.outOfTable r) rfl]

/-- A bus write adds nothing to a projection that does not see the writes to
its register. -/
theorem filterMap_TALREG_WriteWord32 {α σ : Type} (hw : HwDefs) (tal : TAL σ)
    (f : Event → Option α) (hd : SeesBusOnly f) (r o v : Nat) (w : World σ)
    (hmiss : f (.regWrite r o v) = none) :
    (TALREG_WriteWord32 hw tal r o v w).2.trace.filterMap f = w.trace.filterMap f := by
  unfold TALREG_WriteWord32 pahMemSpace
  split
  · rename_i x heq
    split at heq
    · cases heq
      simp [List.filterMap_append, hmiss]
    · cases heq
  · simp [World.log, List.filterMap_append, hd (.outOfTable r) rfl]

/-- A register read, whatever the state of the gate, adds nothing to a
projection that sees neither the writes to the pipe select register nor the
reads of its register. -/
theorem filterMap_PVDECIO_ReadRegister {α σ : Type} (hw : HwDefs) (tal : TAL σ)
    (f : Event → Option α) (hd : SeesBusOnly f)
    (hsel : ∀ v, f (.regWrite hw.REGION_PVDEC_CORE_REGSPACE
      hw.PVDEC_CORE_CR_PVDEC_HOST_PIPE_SELECT_OFFSET v) = none)
    (hctx : Option PVDECIO_sContext) (r o p : Nat) (w : World σ)
    (hmiss : ∀ v, f (.regRead r o v) = none) :
    (PVDECIO_ReadRegister hw tal hctx r o p w).2.trace.filterMap f = w.trace.filterMap f := by
  unfold PVDECIO_ReadRegister
  cases hctx with
  | none => simp [filterMap_REPORT f hd, filterMap_IMG_ASSERT f hd, filterMap_log f hd (.assertFail _) rfl]
  | some ctx =>
    by_cases hi : ctx.bInitialised = true <;> by_cases hc : ctx.bClocks = true <;>
      simp [hi, hc, filterMap_REPORT f hd, filterMap_IMG_ASSERT f hd,
        filterMap_TALREG_ReadWord32 hw tal f hd _ _ _ _ hmiss, pvdecio_SelectPipe_trace_eq,
        List.filterMap_append, filterMap_selectEvents hw f hd hsel]

/-- A register write with the default mask, whatever the state of the gate,
adds nothing to a projection that sees neither the writes to the pipe select
register nor the writes to its register. -/
theorem filterMap_PVDECIO_WriteRegister {α σ : Type} (hw : HwDefs) (tal : TAL σ)
    (f : Event → Option α) (hd : SeesBusOnly f)
    (hsel : ∀ v, f (.regWrite hw.REGION_PVDEC_CORE_REGSPACE
      hw.PVDEC_CORE_CR_PVDEC_HOST_PIPE_SELECT_OFFSET v) = none)
    (hctx : Option PVDECIO_sContext) (r o v p : Nat) (w : World σ)
    (hmiss : f (.regWrite r o v) = none) :
    (PVDECIO_WriteRegister hw tal hctx r o v PVDEC_DEF_REG_MASK p w).2.trace.filterMap f =
      w.trace.filterMap f := by
  unfold PVDECIO_WriteRegister
  cases hctx with
  | none => simp [filterMap_REPORT f hd, filterMap_IMG_ASSERT f hd, filterMap_log f hd (.assertFail _) rfl]
  | some ctx =>
    by_cases hi : ctx.bInitialised = true <;> by_cases hc : ctx.bClocks = true <;>
      simp [hi, hc, filterMap_REPORT f hd, filterMap_IMG_ASSERT f hd,
        filterMap_TALREG_WriteWord32 hw tal f hd _ _ _ _ hmiss, pvdecio_SelectPipe_trace_eq,
        List.filterMap_append, filterMap_selectEvents hw f hd hsel]

/-- The projection on the reads of one register sees bus transactions only. -/
theorem readFrom_SeesBusOnly (h o : Nat) : SeesBusOnly (Event.readFrom h o) := by
  intro e he
  cases e <;> first | rfl | simp [Event.isBus] at he

/-- The projection on the reads of one register sees no write. -/
theorem readFrom_regWrite (h o h1 o1 v : Nat) : Event.readFrom h o (.regWrite h1 o1 v) = none :=
  rfl

/-- The projection on the reads of one register sees no read of another. -/
theorem readFrom_regRead_miss (h o h1 o1 v : Nat) (hmiss : ¬ (h1 = h ∧ o1 = o)) :
    Event.readFrom h o (.regRead h1 o1 v) = none := by
  simp [Event.readFrom, hmiss]

/-- The reads of one register in a trace made of two parts. -/
theorem readsFrom_append (h o : Nat) (a b : List Event) :
    readsFrom h o (a ++ b) = readsFrom h o a ++ readsFrom h o b := by
  simp [readsFrom]

/-- A register read, whatever the state of the gate, adds no read of another
register. -/
theorem readsFrom_PVDECIO_ReadRegister_miss {σ : Type} (hw : HwDefs) (tal : TAL σ)
    (hctx : Option PVDECIO_sContext) (r o p : Nat) (w : World σ) (h o1 : Nat)
    (hmiss : ¬ (r = h ∧ o = o1)) :
    readsFrom h o1 (PVDECIO_ReadRegister hw tal hctx r o p w).2.trace = readsFrom h o1 w.trace :=
  filterMap_PVDECIO_ReadRegister hw tal _ (readFrom_SeesBusOnly h o1) (fun _ => rfl) hctx r o p w
    (fun v => readFrom_regRead_miss h o1 r o v hmiss)

/-- A register write with the default mask adds no read. -/
theorem readsFrom_PVDECIO_WriteRegister {σ : Type} (hw : HwDefs) (tal : TAL σ)
    (hctx : Option PVDECIO_sContext) (r o v p : Nat) (w : World σ) (h o1 : Nat) :
    readsFrom h o1 (PVDECIO_WriteRegister hw tal hctx r o v PVDEC_DEF_REG_MASK p w).2.trace =
      readsFrom h o1 w.trace :=
  filterMap_PVDECIO_WriteRegister hw tal _ (readFrom_SeesBusOnly h o1) (fun _ => rfl) hctx r o v
    p w rfl

/-- The read loop of `PVDECIO_VLRReadWords`, without the verifying poll, adds
no read of a register whose offset is none of the addresses it visits. -/
theorem readsFrom_PVDECIO_VLRReadWords_loop {σ : Type} (cfg : BuildConfig) (hw : HwDefs)
    (tal : TAL σ) (ctx : PVDECIO_sContext) (r h o : Nat) :
    ∀ (n a : Nat) (acc : List Nat) (w : World σ), o ∉ wordAddrs n a →
      readsFrom h o (PVDECIO_VLRReadWords.loop cfg hw tal ctx r false n a acc w).2.2.trace =
        readsFrom h o w.trace := by
  intro n
  induction n with
  | zero => intro a acc w _; rfl
  | succ n ih =>
    intro a acc w hout
    simp only [wordAddrs, List.mem_cons, not_or] at hout
    have hm : readsFrom h o (TALREG_ReadWord32 hw tal r a 0 w).2.2.trace = readsFrom h o w.trace :=
      filterMap_TALREG_ReadWord32 hw tal _ (readFrom_SeesBusOnly h o) r a 0 w
        (fun v => readFrom_regRead_miss h o r a v (fun hh => hout.1 hh.2.symm))
    simp only [PVDECIO_VLRReadWords.loop, Bool.and_false, Bool.false_eq_true, if_false]
    split
    · exact hm
    · rw [ih _ _ _ hout.2, hm]

/-- The call `PVDECIO_VLRReadWords` without the verifying poll adds no read of
a register whose offset is none of the addresses it visits. -/
theorem readsFrom_PVDECIO_VLRReadWords {σ : Type} (cfg : BuildConfig) (hw : HwDefs)
    (tal : TAL σ) (hctx : Option PVDECIO_sContext) (r a n : Nat) (buf : Option (List Nat))
    (w : World σ) (h o : Nat) (hout : o ∉ wordAddrs n a) :
    readsFrom h o (PVDECIO_VLRReadWords cfg hw tal hctx r a n buf false w).2.2.trace =
      readsFrom h o w.trace := by
  have hd := readFrom_SeesBusOnly h o
  unfold PVDECIO_VLRReadWords
  cases hctx with
  | none =>
    simp only []
    exact (filterMap_REPORT _ hd _ _).trans (filterMap_IMG_ASSERT _ hd _ _ _)
  | some ctx =>
    cases buf with
    | none => exact filterMap_REPORT _ hd _ _
    | some b =>
      simp only []
      split
      · exact filterMap_REPORT _ hd _ _
      · exact readsFrom_PVDECIO_VLRReadWords_loop cfg hw tal ctx r h o n a [] w hout

/-! ## Claim C24: no RAM bank reported -/

/-- The result of `pvdecio_MTXGetRamInfo` by the bank count in the word that
its read of the debug register delivers. -/
theorem pvdecio_MTXGetRamInfo_banks {σ : Type} (hw : HwDefs) (tal : TAL σ)
    (ctx : PVDECIO_sContext) (w : World σ) :
    (REGIO_READ_FIELD (PVDEC_CORE_ReadRegister hw tal (some ctx)
        hw.PVDEC_CORE_CR_PROC_DEBUG_OFFSET w).1 hw.PVDEC_CORE_CR_PROC_DEBUG_CR_MTX_RAM_BANKS = 0 →
      pvdecio_MTXGetRamInfo hw tal ctx w = (IMG_ERROR_FATAL, ctx, REPORT .REPORT_ERR
        (PVDEC_CORE_ReadRegister hw tal (some ctx) hw.PVDEC_CORE_CR_PROC_DEBUG_OFFSET w).2)) ∧
    (REGIO_READ_FIELD (PVDEC_CORE_ReadRegister hw tal (some ctx)
        hw.PVDEC_CORE_CR_PROC_DEBUG_OFFSET w).1 hw.PVDEC_CORE_CR_PROC_DEBUG_CR_MTX_RAM_BANKS ≠ 0 →
      (pvdecio_MTXGetRamInfo hw tal ctx w).1 = IMG_SUCCESS) := by
  constructor
  · intro hz
    simp [pvdecio_MTXGetRamInfo, hz]
  · intro hz
    simp [pvdecio_MTXGetRamInfo, hz]

/-- On a bus whose debug register always delivers a word with the bank count
0, `pvdecio_MTXGetRamInfo` fails on every context. -/
theorem pvdecio_MTXGetRamInfo_no_bank {σ : Type} (hw : HwDefs) (tal : TAL σ)
    (ctx : PVDECIO_sContext) (w : World σ)
    (hzero : ∀ s, REGIO_READ_FIELD (tal.ReadWord32 s hw.REGION_PVDEC_CORE_REGSPACE
      hw.PVDEC_CORE_CR_PROC_DEBUG_OFFSET).2.1 hw.PVDEC_CORE_CR_PROC_DEBUG_CR_MTX_RAM_BANKS = 0) :
    (pvdecio_MTXGetRamInfo hw tal ctx w).1 = IMG_ERROR_FATAL := by
  have hv : REGIO_READ_FIELD (PVDEC_CORE_ReadRegister hw tal (some ctx)
      hw.PVDEC_CORE_CR_PROC_DEBUG_OFFSET w).1 hw.PVDEC_CORE_CR_PROC_DEBUG_CR_MTX_RAM_BANKS = 0 := by
    have hc := core_lt hw
    have hf0 : REGIO_READ_FIELD 0 hw.PVDEC_CORE_CR_PROC_DEBUG_CR_MTX_RAM_BANKS = 0 := by
      simp [REGIO_READ_FIELD]
    by_cases hi : ctx.bInitialised = true <;> by_cases hk : ctx.bClocks = true <;>
      simp [PVDEC_CORE_ReadRegister, PVDECIO_ReadRegister, hi, hk, pvdecio_SelectPipe_sentinel,
        TALREG_ReadWord32, pahMemSpace, hc, hzero, hf0]
  rw [(pvdecio_MTXGetRamInfo_banks hw tal ctx w).1 hv]

/-- C24: `pvdecio_MTXGetRamInfo` by the bank count in the word that its read of
the debug register delivers: with the count 0 it returns `IMG_ERROR_FATAL` and
hands the context back as it was, the stored RAM info included; with a count
other than 0 it returns `IMG_SUCCESS`. And on a bus whose debug register always
delivers the bank count 0, `PVDECIO_Initialise` with the I/O bypass off (or
built without `VDEC_USE_PVDEC_SEC`), a handle container and both allocations
succeeding returns `IMG_ERROR_FATAL`, the code of `pvdecio_MTXGetRamInfo`, and
stores the null handle in the container. -/
theorem C24_no_bank_is_fatal {σ : Type} (cfg : BuildConfig) (hw : HwDefs) (tal : TAL σ)
    (ctx : PVDECIO_sContext) (bIOBypass : Bool) (old : Option PVDECIO_sContext) (w : World σ) :
    (REGIO_READ_FIELD (PVDEC_CORE_ReadRegister hw tal (some ctx)
        hw.PVDEC_CORE_CR_PROC_DEBUG_OFFSET w).1 hw.PVDEC_CORE_CR_PROC_DEBUG_CR_MTX_RAM_BANKS = 0 →
      (pvdecio_MTXGetRamInfo hw tal ctx w).1 = IMG_ERROR_FATAL ∧
      (pvdecio_MTXGetRamInfo hw tal ctx w).2.1 = ctx ∧
      (pvdecio_MTXGetRamInfo hw tal ctx w).2.1.sMTXRamInfo = ctx.sMTXRamInfo) ∧
    (REGIO_READ_FIELD (PVDEC_CORE_ReadRegister hw tal (some ctx)
        hw.PVDEC_CORE_CR_PROC_DEBUG_OFFSET w).1 hw.PVDEC_CORE_CR_PROC_DEBUG_CR_MTX_RAM_BANKS ≠ 0 →
      (pvdecio_MTXGetRamInfo hw tal ctx w).1 = IMG_SUCCESS) ∧
    ((∀ s, REGIO_READ_FIELD (tal.ReadWord32 s hw.REGION_PVDEC_CORE_REGSPACE
        hw.PVDEC_CORE_CR_PROC_DEBUG_OFFSET).2.1 hw.PVDEC_CORE_CR_PROC_DEBUG_CR_MTX_RAM_BANKS = 0) →
      (cfg.VDEC_USE_PVDEC_SEC = false ∨ bIOBypass = false) →
      (PVDECIO_Initialise cfg hw tal bIOBypass (some old) true true w).1 = IMG_ERROR_FATAL ∧
      (PVDECIO_Initialise cfg hw tal bIOBypass (some old) true true w).2.1 = some none) := by
  refine ⟨?_, (pvdecio_MTXGetRamInfo_banks hw tal ctx w).2, ?_⟩
  · intro hz
    rw [(pvdecio_MTXGetRamInfo_banks hw tal ctx w).1 hz]
    exact ⟨rfl, rfl, rfl⟩
  · intro hzero hbyp
    have hk : ∀ (c : PVDECIO_sContext) (w0 : World σ),
        (pvdecio_MTXGetRamInfo hw tal c w0).1 = IMG_ERROR_FATAL :=
      fun c w0 => pvdecio_MTXGetRamInfo_no_bank hw tal c w0 hzero
    have hne : IMG_ERROR_FATAL ≠ IMG_SUCCESS := by decide
    rcases hbyp with hb | hb
    · simp [PVDECIO_Initialise, CHECK_IO_BYPASS, hb, hk, hne]
    · cases hs : cfg.VDEC_USE_PVDEC_SEC <;>
        simp [PVDECIO_Initialise, CHECK_IO_BYPASS, hb, hs, hk, hne, PVDECIO_EnableCoreClocks]

/-- C24 on the sample map. On plain storage with every register zero the debug
register delivers the bank count 0 and `pvdecio_MTXGetRamInfo` returns
`IMG_ERROR_FATAL`; with the debug word 0x100 (one bank) it returns
`IMG_SUCCESS`; on the bus that delivers zero for every read,
`PVDECIO_Initialise` returns `IMG_ERROR_FATAL` and stores the null handle. -/
theorem C24_no_bank_is_fatal_witness :
    ((pvdecio_MTXGetRamInfo sampleHw (plainStorage sampleHw) ctxOn world0).1 = IMG_ERROR_FATAL ∧
      (pvdecio_MTXGetRamInfo sampleHw (plainStorage sampleHw) ctxOn world0).2.1 = ctxOn ∧
      (pvdecio_MTXGetRamInfo sampleHw (plainStorage sampleHw) ctxOn world0).2.1.sMTXRamInfo =
        ctxOn.sMTXRamInfo) ∧
    (pvdecio_MTXGetRamInfo sampleHw (plainStorage sampleHw) ctxOn worldBanks).1 = IMG_SUCCESS ∧
    ((PVDECIO_Initialise defaultBuild sampleHw unresponsive false (some none) true true
        ⟨(), []⟩).1 = IMG_ERROR_FATAL ∧
      (PVDECIO_Initialise defaultBuild sampleHw unresponsive false (some none) true true
        ⟨(), []⟩).2.1 = some none) :=
  ⟨(C24_no_bank_is_fatal defaultBuild sampleHw (plainStorage sampleHw) ctxOn false none
      world0).1 (by decide),
    (C24_no_bank_is_fatal defaultBuild sampleHw (plainStorage sampleHw) ctxOn false none
      worldBanks).2.1 (by decide),
    (C24_no_bank_is_fatal defaultBuild sampleHw unresponsive ctxOn false none ⟨(), []⟩).2.2
      (fun _ => by simp [unresponsive, REGIO_READ_FIELD]) (Or.inl rfl)⟩

/-! ## Claim C28: size and mask of the MTX RAM -/

/-- One step of the smearing of the mask: when bit `i` of `m` is set exactly
when one of the `k` bits of `x` from `i` on is set, bit `i` of
`m | (m >> k)` is set exactly when one of the `2 * k` bits of `x` from `i` on
is set. -/
theorem smear_step (x m k : Nat)
    (h : ∀ i, m.testBit i = true ↔ ∃ d, d < k ∧ x.testBit (i + d) = true) (i : Nat) :
    (m ||| m >>> k).testBit i = true ↔ ∃ d, d < 2 * k ∧ x.testBit (i + d) = true := by
  rw [Nat.testBit_or, Nat.testBit_shiftRight, Bool.or_eq_true, h, h]
  constructor
  · rintro (⟨d, hd, hb⟩ | ⟨d, hd, hb⟩)
    · exact ⟨d, by omega, hb⟩
    · exact ⟨k + d, by omega, by rw [← hb]; congr 1; omega⟩
  · rintro ⟨d, hd, hb⟩
    by_cases hk : d < k
    · exact Or.inl ⟨d, hk, hb⟩
    · exact Or.inr ⟨d - k, by omega, by rw [← hb]; congr 1; omega⟩

/-- The five smearing steps of `pvdecio_MTXGetRamInfo` turn a 32-bit word `x`
into the word with all bits below the length of `x` set. -/
theorem smear_eq (x : Nat) (hx : x < 2 ^ 32) :
    ((((x ||| x >>> 1) ||| (x ||| x >>> 1) >>> 2) |||
        ((x ||| x >>> 1) ||| (x ||| x >>> 1) >>> 2) >>> 4) |||
      (((x ||| x >>> 1) ||| (x ||| x >>> 1) >>> 2) |||
        ((x ||| x >>> 1) ||| (x ||| x >>> 1) >>> 2) >>> 4) >>> 8) |||
    ((((x ||| x >>> 1) ||| (x ||| x >>> 1) >>> 2) |||
        ((x ||| x >>> 1) ||| (x ||| x >>> 1) >>> 2) >>> 4) |||
      (((x ||| x >>> 1) ||| (x ||| x >>> 1) >>> 2) |||
        ((x ||| x >>> 1) ||| (x ||| x >>> 1) >>> 2) >>> 4) >>> 8) >>> 16 =
    2 ^ Nat.size x - 1 := by
  have h0 : ∀ i, x.testBit i = true ↔ ∃ d, d < 1 ∧ x.testBit (i + d) = true := by
    intro i
    constructor
    · intro hb; exact ⟨0, by omega, hb⟩
    · rintro ⟨d, hd, hb⟩
      obtain rfl : d = 0 := by omega
      exact hb
  have h1 := smear_step x _ 1 h0
  have h2 := smear_step x _ 2 h1
  have h3 := smear_step x _ 4 h2
  have h4 := smear_step x _ 8 h3
  have h5 := smear_step x _ 16 h4
  apply Nat.eq_of_testBit_eq
  intro i
  rw [Nat.testBit_two_pow_sub_one, Bool.eq_iff_iff, h5, decide_eq_true_iff]
  constructor
  · rintro ⟨d, _, hb⟩
    have := Nat.testBit_implies_ge hb
    have h6 : i + d < Nat.size x := Nat.lt_size.mpr this
    omega
  · intro hi
    obtain ⟨j, hj, hb⟩ := Nat.ge_two_pow_implies_high_bit_true (Nat.lt_size.mp hi)
    have hj32 : j < 32 := by
      by_contra hge
      have : x < 2 ^ j := lt_of_lt_of_le hx (Nat.pow_le_pow_right (by decide) (by omega))
      rw [Nat.testBit_lt_two_pow this] at hb
      cases hb
    exact ⟨j - i, by omega, by rw [← hb]; congr 1; omega⟩
/-- The RAM info that `pvdecio_MTXGetRamInfo` stores for a debug word with the
bank count `c`, not 0, the bank size exponent `s` and the last bank exponent
`l`, when the size fits 32 bits. -/
theorem pvdecio_MTXGetRamInfo_info {σ : Type} (hw : HwDefs) (tal : TAL σ)
    (ctx : PVDECIO_sContext) (w : World σ) (c s l : Nat)
    (hc : REGIO_READ_FIELD (PVDEC_CORE_ReadRegister hw tal (some ctx)
      hw.PVDEC_CORE_CR_PROC_DEBUG_OFFSET w).1 hw.PVDEC_CORE_CR_PROC_DEBUG_CR_MTX_RAM_BANKS = c)
    (hs : REGIO_READ_FIELD (PVDEC_CORE_ReadRegister hw tal (some ctx)
      hw.PVDEC_CORE_CR_PROC_DEBUG_OFFSET w).1
      hw.PVDEC_CORE_CR_PROC_DEBUG_CR_MTX_RAM_BANK_SIZE = s)
    (hl : REGIO_READ_FIELD (PVDEC_CORE_ReadRegister hw tal (some ctx)
      hw.PVDEC_CORE_CR_PROC_DEBUG_OFFSET w).1
      hw.PVDEC_CORE_CR_PROC_DEBUG_CR_MTX_LAST_RAM_BANK_SIZE = l)
    (h1 : 1 ≤ c) (hsum : (c - 1) * 2 ^ (s + 2) + 2 ^ (l + 2) < 2 ^ 32) :
    (pvdecio_MTXGetRamInfo hw tal ctx w).2.1.sMTXRamInfo =
      ⟨s, (c - 1) * 2 ^ (s + 2) + 2 ^ (l + 2),
        2 ^ Nat.size ((c - 1) * 2 ^ (s + 2) + 2 ^ (l + 2) - 1) - 1⟩ := by
  have hc0 : (c == 0) = false := by
    rw [beq_eq_false_iff_ne]; omega
  have hpos : 1 ≤ 2 ^ (l + 2) := Nat.one_le_two_pow
  have hsz : ((c - 1) * 2 ^ (s + 2) + 2 ^ (l + 2)) % 2 ^ 32 =
      (c - 1) * 2 ^ (s + 2) + 2 ^ (l + 2) := Nat.mod_eq_of_lt hsum
  have hm : ((c - 1) * 2 ^ (s + 2) + 2 ^ (l + 2) + (2 ^ 32 - 1)) % 2 ^ 32 =
      (c - 1) * 2 ^ (s + 2) + 2 ^ (l + 2) - 1 := by
    have hN : 1 ≤ (c - 1) * 2 ^ (s + 2) + 2 ^ (l + 2) := le_trans hpos (Nat.le_add_left _ _)
    generalize (c - 1) * 2 ^ (s + 2) + 2 ^ (l + 2) = N at hsum hN ⊢
    omega
  have hlt : (c - 1) * 2 ^ (s + 2) + 2 ^ (l + 2) - 1 < 2 ^ 32 :=
    lt_of_le_of_lt (Nat.sub_le _ _) hsum
  simp only [pvdecio_MTXGetRamInfo, hc, hs, hl, hc0, Bool.false_eq_true, if_false,
    Nat.one_shiftLeft, hsz, hm]
  rw [smear_eq _ hlt]

/-- For a size `N` of at least 1, the word `2 ^ k - 1` with `k` the length of
`N - 1` is the least of its form that is at least `N - 1`, its successor is
the least power of two that is at least `N`, and `N` and-ed with it is `N`
exactly when `N` is no power of two. -/
theorem mask_of_size (N : Nat) (hN : 1 ≤ N) :
    (N - 1 ≤ 2 ^ Nat.size (N - 1) - 1 ∧
      ∀ j, N - 1 ≤ 2 ^ j - 1 → 2 ^ Nat.size (N - 1) - 1 ≤ 2 ^ j - 1) ∧
    (2 ^ Nat.size (N - 1) - 1 + 1 = 2 ^ Nat.size (N - 1) ∧ N ≤ 2 ^ Nat.size (N - 1) ∧
      ∀ j, N ≤ 2 ^ j → 2 ^ Nat.size (N - 1) ≤ 2 ^ j) ∧
    (N &&& (2 ^ Nat.size (N - 1) - 1) = N ↔ ¬ ∃ j, N = 2 ^ j) := by
  have hself := Nat.lt_size_self (N - 1)
  have hmin : ∀ j, N ≤ 2 ^ j → 2 ^ Nat.size (N - 1) ≤ 2 ^ j := by
    intro j hj
    have : Nat.size (N - 1) ≤ j := Nat.size_le.mpr (by omega)
    exact Nat.pow_le_pow_right (by decide) this
  have hpk : 1 ≤ 2 ^ Nat.size (N - 1) := Nat.one_le_two_pow
  refine ⟨⟨by omega, ?_⟩, ⟨by omega, by omega, hmin⟩, ?_⟩
  · intro j hj
    have hpj : 1 ≤ 2 ^ j := Nat.one_le_two_pow
    have := hmin j (by omega)
    omega
  · rw [Nat.and_pow_two_sub_one_eq_mod]
    constructor
    · intro hmod
      rintro ⟨j, hj⟩
      have hlt : N < 2 ^ Nat.size (N - 1) := by
        by_contra hge
        have heq : N = 2 ^ Nat.size (N - 1) := by omega
        have h0 : N % 2 ^ Nat.size (N - 1) = 0 := by
          rw [← heq]
          exact Nat.mod_self N
        omega
      have := hmin j (by omega)
      omega
    · intro hno
      apply Nat.mod_eq_of_lt
      by_contra hge
      exact hno ⟨Nat.size (N - 1), by omega⟩

/-- C28: for a debug word with the bank count `c` of at least 1, the bank size
exponent `s` and the last bank exponent `l`, the size
`(c - 1) * 2 ^ (s + 2) + 2 ^ (l + 2)` fitting 32 bits,
`pvdecio_MTXGetRamInfo` stores that size and `s`, and a mask `2 ^ k - 1` that
is the least of this form at or above the size less 1; the mask plus 1 is the
least power of two at or above the size; and the size and-ed with the mask is
the size exactly when the size is no power of two. -/
theorem C28_ram_size_and_mask {σ : Type} (hw : HwDefs) (tal : TAL σ)
    (ctx : PVDECIO_sContext) (w : World σ) (c s l : Nat)
    (hc : REGIO_READ_FIELD (PVDEC_CORE_ReadRegister hw tal (some ctx)
      hw.PVDEC_CORE_CR_PROC_DEBUG_OFFSET w).1 hw.PVDEC_CORE_CR_PROC_DEBUG_CR_MTX_RAM_BANKS = c)
    (hs : REGIO_READ_FIELD (PVDEC_CORE_ReadRegister hw tal (some ctx)
      hw.PVDEC_CORE_CR_PROC_DEBUG_OFFSET w).1
      hw.PVDEC_CORE_CR_PROC_DEBUG_CR_MTX_RAM_BANK_SIZE = s)
    (hl : REGIO_READ_FIELD (PVDEC_CORE_ReadRegister hw tal (some ctx)
      hw.PVDEC_CORE_CR_PROC_DEBUG_OFFSET w).1
      hw.PVDEC_CORE_CR_PROC_DEBUG_CR_MTX_LAST_RAM_BANK_SIZE = l)
    (h1 : 1 ≤ c) (hsum : (c - 1) * 2 ^ (s + 2) + 2 ^ (l + 2) < 2 ^ 32) :
    let info := (pvdecio_MTXGetRamInfo hw tal ctx w).2.1.sMTXRamInfo
    (pvdecio_MTXGetRamInfo hw tal ctx w).1 = IMG_SUCCESS ∧
    info.ui32MTXRamSize = (c - 1) * 2 ^ (s + 2) + 2 ^ (l + 2) ∧
    info.ui32MTXBankSize = s ∧
    (∃ k, info.ui32MTXRamMask = 2 ^ k - 1 ∧ info.ui32MTXRamSize - 1 ≤ info.ui32MTXRamMask ∧
      ∀ j, info.ui32MTXRamSize - 1 ≤ 2 ^ j - 1 → info.ui32MTXRamMask ≤ 2 ^ j - 1) ∧
    (∃ k, info.ui32MTXRamMask + 1 = 2 ^ k ∧ info.ui32MTXRamSize ≤ 2 ^ k ∧
      ∀ j, info.ui32MTXRamSize ≤ 2 ^ j → 2 ^ k ≤ 2 ^ j) ∧
    (info.ui32MTXRamSize &&& info.ui32MTXRamMask = info.ui32MTXRamSize ↔
      ¬ ∃ j, info.ui32MTXRamSize = 2 ^ j) := by
  intro info
  have hinfo : info = ⟨s, (c - 1) * 2 ^ (s + 2) + 2 ^ (l + 2),
      2 ^ Nat.size ((c - 1) * 2 ^ (s + 2) + 2 ^ (l + 2) - 1) - 1⟩ :=
    pvdecio_MTXGetRamInfo_info hw tal ctx w c s l hc hs hl h1 hsum
  have hpos : 1 ≤ 2 ^ (l + 2) := Nat.one_le_two_pow
  obtain ⟨⟨a1, a2⟩, ⟨b1, b2, b3⟩, c1⟩ :=
    mask_of_size ((c - 1) * 2 ^ (s + 2) + 2 ^ (l + 2)) (le_trans hpos (Nat.le_add_left _ _))
  have hres : (pvdecio_MTXGetRamInfo hw tal ctx w).1 = IMG_SUCCESS :=
    (pvdecio_MTXGetRamInfo_banks hw tal ctx w).2 (by rw [hc]; omega)
  rw [hinfo]
  exact ⟨hres, rfl, rfl, ⟨_, rfl, a1, a2⟩, ⟨_, b1, b2, b3⟩, c1⟩

/-- C28 on the sample map: the debug word 0xA0C0300 has three banks, the
exponents 12 and 10; the size stored is 2 * 2 ^ 14 + 2 ^ 12 = 36864 and the
mask 0xFFFF. -/
theorem C28_ram_size_and_mask_witness :
    (pvdecio_MTXGetRamInfo sampleHw (plainStorage sampleHw) ctxOn
      (worldDebug 0xA0C0300)).2.1.sMTXRamInfo.ui32MTXRamSize = 36864 ∧
    (pvdecio_MTXGetRamInfo sampleHw (plainStorage sampleHw) ctxOn
      (worldDebug 0xA0C0300)).2.1.sMTXRamInfo.ui32MTXRamMask = 0xFFFF ∧
    ((pvdecio_MTXGetRamInfo sampleHw (plainStorage sampleHw) ctxOn
        (worldDebug 0xA0C0300)).2.1.sMTXRamInfo.ui32MTXRamSize &&&
      (pvdecio_MTXGetRamInfo sampleHw (plainStorage sampleHw) ctxOn
        (worldDebug 0xA0C0300)).2.1.sMTXRamInfo.ui32MTXRamMask =
      (pvdecio_MTXGetRamInfo sampleHw (plainStorage sampleHw) ctxOn
        (worldDebug 0xA0C0300)).2.1.sMTXRamInfo.ui32MTXRamSize ↔
      ¬ ∃ j, (pvdecio_MTXGetRamInfo sampleHw (plainStorage sampleHw) ctxOn
        (worldDebug 0xA0C0300)).2.1.sMTXRamInfo.ui32MTXRamSize = 2 ^ j) :=
  ⟨(C28_ram_size_and_mask sampleHw (plainStorage sampleHw) ctxOn (worldDebug 0xA0C0300) 3 12 10
      (by decide) (by decide) (by decide) (by decide) (by decide)).2.1,
    by decide,
    (C28_ram_size_and_mask sampleHw (plainStorage sampleHw) ctxOn (worldDebug 0xA0C0300) 3 12 10
      (by decide) (by decide) (by decide) (by decide) (by decide)).2.2.2.2.2⟩

/-! ## Claim C25: the kick after a message -/

/-- The region of the MTX lies inside the handle table. -/
theorem mtx_lt (hw : HwDefs) : (hw.REGION_PVDEC_MTX_CORE_REGSPACE : Nat) < hw.REGION_PVDEC_MAX :=
  hw.REGION_PVDEC_MTX_CORE_REGSPACE.isLt

/-- C25: what `PVDECIO_SendFirmwareMessage` does, for every bus, mailbox send,
context and message. When the send succeeds, the call returns `IMG_SUCCESS`
and records the call of the send and then, as the one bus transaction, a write
of the word with the field `MTX_KICKI` at 1 to the MTX kick register. When the
send delivers another code, the call returns that code and records the call of
the send and the failed assertion, and no bus transaction. With a null context
or a null message it returns `IMG_ERROR_INVALID_PARAMETERS` and records the
failed assertion and the report: no call of the send and no bus transaction. -/
theorem C25_kick_exactly_after_send {σ : Type} (hw : HwDefs) (tal : TAL σ)
    (send : σ → DEVAIO_sContext → List Nat → Nat × DEVAIO_sContext × σ)
    (ctx : PVDECIO_sContext) (msg : List Nat) (w : World σ) :
    ((send w.dev ctx.sMsgContext msg).1 = IMG_SUCCESS →
      (PVDECIO_SendFirmwareMessage hw tal send (some ctx) (some msg) w).1 = IMG_SUCCESS ∧
      (PVDECIO_SendFirmwareMessage hw tal send (some ctx) (some msg) w).2.2.trace =
        w.trace ++ [.call .DEVAIO_SendMTXMsg,
          .regWrite hw.REGION_PVDEC_MTX_CORE_REGSPACE hw.MTX_CORE_CR_MTX_KICKI_OFFSET
            (REGIO_WRITE_FIELD 0 hw.MTX_CORE_CR_MTX_KICKI_MTX_KICKI 1)]) ∧
    ((send w.dev ctx.sMsgContext msg).1 ≠ IMG_SUCCESS →
      (PVDECIO_SendFirmwareMessage hw tal send (some ctx) (some msg) w).1 =
        (send w.dev ctx.sMsgContext msg).1 ∧
      (PVDECIO_SendFirmwareMessage hw tal send (some ctx) (some msg) w).2.2.trace =
        w.trace ++ [.call .DEVAIO_SendMTXMsg, .assertFail 1924]) ∧
    ((PVDECIO_SendFirmwareMessage hw tal send none (some msg) w).1 =
        IMG_ERROR_INVALID_PARAMETERS ∧
      (PVDECIO_SendFirmwareMessage hw tal send none (some msg) w).2.2.trace =
        w.trace ++ [.assertFail 1904, .report .REPORT_ERR] ∧
      (PVDECIO_SendFirmwareMessage hw tal send none (some msg) w).2.2.dev = w.dev) ∧
    ((PVDECIO_SendFirmwareMessage hw tal send (some ctx) none w).1 =
        IMG_ERROR_INVALID_PARAMETERS ∧
      (PVDECIO_SendFirmwareMessage hw tal send (some ctx) none w).2.2.trace =
        w.trace ++ [.assertFail 1912, .report .REPORT_ERR] ∧
      (PVDECIO_SendFirmwareMessage hw tal send (some ctx) none w).2.2.dev = w.dev) := by
  have hm := mtx_lt hw
  refine ⟨?_, ?_, ?_, ?_⟩
  · intro hs
    simp [PVDECIO_SendFirmwareMessage, hs, IMG_ASSERT, World.log, PVDECIO_KickMTX,
      TALREG_WriteWord32, pahMemSpace, hm]
  · intro hs
    have hb : ((send w.dev ctx.sMsgContext msg).1 == IMG_SUCCESS) = false := by
      rw [beq_eq_false_iff_ne]; exact hs
    simp [PVDECIO_SendFirmwareMessage, hs, hb, IMG_ASSERT, World.log]
  · simp [PVDECIO_SendFirmwareMessage, IMG_ASSERT, REPORT, World.log]
  · simp [PVDECIO_SendFirmwareMessage, IMG_ASSERT, REPORT, World.log]

/-- C25 on the sample map and plain storage: a send that succeeds is followed
by the one write of 1 to the kick register (region 5, offset 0x88); a send
that delivers the code 3 is followed by no write, and the code is returned. -/
theorem C25_kick_exactly_after_send_witness :
    ((PVDECIO_SendFirmwareMessage sampleHw (plainStorage sampleHw)
        (fun s c _ => (IMG_SUCCESS, c, s)) (some ctxOn) (some [1, 2]) world0).1 = IMG_SUCCESS ∧
      (PVDECIO_SendFirmwareMessage sampleHw (plainStorage sampleHw)
        (fun s c _ => (IMG_SUCCESS, c, s)) (some ctxOn) (some [1, 2]) world0).2.2.trace =
        world0.trace ++ [.call .DEVAIO_SendMTXMsg, .regWrite 5 0x88 1]) ∧
    ((PVDECIO_SendFirmwareMessage sampleHw (plainStorage sampleHw)
        (fun s c _ => (IMG_ERROR_FATAL, c, s)) (some ctxOn) (some [1, 2]) world0).1 = 3 ∧
      (PVDECIO_SendFirmwareMessage sampleHw (plainStorage sampleHw)
        (fun s c _ => (IMG_ERROR_FATAL, c, s)) (some ctxOn) (some [1, 2]) world0).2.2.trace =
        world0.trace ++ [.call .DEVAIO_SendMTXMsg, .assertFail 1924]) :=
  ⟨(C25_kick_exactly_after_send sampleHw (plainStorage sampleHw)
      (fun s c _ => (IMG_SUCCESS, c, s)) ctxOn [1, 2] world0).1 rfl,
    (C25_kick_exactly_after_send sampleHw (plainStorage sampleHw)
      (fun s c _ => (IMG_ERROR_FATAL, c, s)) ctxOn [1, 2] world0).2.1 (by decide)⟩

/-! ## The result codes of the blocks of the interrupt handler -/

/-- The result code of the message block: that of the drain when the drain
runs, else the code it is entered with. -/
theorem PVDECIO_HandleInterrupts_messages_result {σ : Type} (hw : HwDefs) (tal : TAL σ)
    (dev : DEVAIO σ) (res : Nat) (ctx : PVDECIO_sContext) (st : VXD_sIntStatus) (w : World σ) :
    (st.psMsgQueue.sFreeMsgList ≠ [] ∧
        (st.ui32Pending &&&
            hw.PVDEC_CORE_CR_PVDEC_HOST_INTERRUPT_STATUS_CR_HOST_PROC_IRQ.MASK ≠ 0
          ∨ st.psMsgQueue.bEmpty = false) →
      ∃ s, (PVDECIO_HandleInterrupts.messages hw tal dev res ctx st w).1 =
        (dev.ProcessMTXMsgs s ctx.sMsgContext st.psMsgQueue).1) ∧
    (¬ (st.psMsgQueue.sFreeMsgList ≠ [] ∧
        (st.ui32Pending &&&
            hw.PVDEC_CORE_CR_PVDEC_HOST_INTERRUPT_STATUS_CR_HOST_PROC_IRQ.MASK ≠ 0
          ∨ st.psMsgQueue.bEmpty = false)) →
      (PVDECIO_HandleInterrupts.messages hw tal dev res ctx st w).1 = res) := by
  constructor
  · rintro ⟨hfree, hwork⟩
    have h1 : (st.ui32Pending &&&
          hw.PVDEC_CORE_CR_PVDEC_HOST_INTERRUPT_STATUS_CR_HOST_PROC_IRQ.MASK != 0
        || !st.psMsgQueue.bEmpty) = true := by
      rcases hwork with h | h
      · simp [h]
      · simp [h]
    have h2 : (!LST_empty st.psMsgQueue.sFreeMsgList) = true := by
      simp [LST_empty, hfree]
    simp only [PVDECIO_HandleInterrupts.messages, h1, h2, if_true]
    exact ⟨_, rfl⟩
  · intro hno
    unfold PVDECIO_HandleInterrupts.messages
    split
    · rename_i h1
      split
      · rename_i h2
        exfalso
        apply hno
        refine ⟨by simpa [LST_empty] using h2, ?_⟩
        simpa using h1
      · rfl
    · rfl

/-- The result code of the MMU fault block is that of the MMU report, and the
block leaves the pending mask and the message queue of the status as they
are, and the mailbox context is the only part of the context it changes. -/
theorem PVDECIO_HandleInterrupts_mmu_result {σ : Type} (hw : HwDefs) (tal : TAL σ)
    (dev : DEVAIO σ) (ctx : PVDECIO_sContext) (st : VXD_sIntStatus) (en : Nat) (w : World σ) :
    (∃ s, (PVDECIO_HandleInterrupts.mmu hw tal dev ctx st en w).1 =
      (dev.ProcessMMUReport s ctx.sMsgContext).1) ∧
    (PVDECIO_HandleInterrupts.mmu hw tal dev ctx st en w).2.2.1.ui32Pending = st.ui32Pending ∧
    (PVDECIO_HandleInterrupts.mmu hw tal dev ctx st en w).2.2.1.psMsgQueue = st.psMsgQueue :=
  ⟨⟨_, rfl⟩, rfl, rfl⟩

/-! ## Claims C26 and C27: the register upload -/

/-- The projection on the writes in one region sees bus transactions only. -/
theorem writtenIn_SeesBusOnly (h : Nat) : SeesBusOnly (Event.writtenIn h) := by
  intro e he
  cases e <;> first | rfl | simp [Event.isBus] at he

/-- The writes in one region in a trace made of two parts. -/
theorem writesIn_append (h : Nat) (a b : List Event) :
    writesIn h (a ++ b) = writesIn h a ++ writesIn h b := by
  simp [writesIn]

/-- The wait of `pvdecio_LoadFW` after a word adds nothing to a projection
that sees bus transactions only and no read. -/
theorem filterMap_pvdecio_LoadFW_wait {α σ : Type} (hw : HwDefs) (tal : TAL σ)
    (ctx : PVDECIO_sContext) (f : Event → Option α) (hd : SeesBusOnly f)
    (hrd : ∀ h o v, f (.regRead h o v) = none)
    (hsel : ∀ v, f (.regWrite hw.REGION_PVDEC_CORE_REGSPACE
      hw.PVDEC_CORE_CR_PVDEC_HOST_PIPE_SELECT_OFFSET v) = none) :
    ∀ (t : Nat) (w : World σ),
      (pvdecio_LoadFW.wait hw tal ctx t w).2.trace.filterMap f = w.trace.filterMap f
  | 0, w => rfl
  | t + 1, w => by
    have hr : ∀ (o : Nat) (w0 : World σ),
        (MTX_CORE_ReadRegister hw tal (some ctx) o w0).2.trace.filterMap f =
          w0.trace.filterMap f := by
      intro o w0
      exact filterMap_PVDECIO_ReadRegister hw tal f hd hsel _ _ _ _ _ (fun v => hrd _ _ v)
    unfold pvdecio_LoadFW.wait
    simp only []
    split
    · rw [filterMap_REPORT f hd, hr]
    · split
      · rw [filterMap_pvdecio_LoadFW_wait hw tal ctx f hd hrd hsel t, hr, hr]
      · simp only [hr]

/-- What follows the wait in the word loop of `pvdecio_LoadFW`, the read of the
status for the report of a timeout, adds nothing to a projection that sees bus
transactions only and no read. -/
theorem filterMap_pvdecio_LoadFW_timeout {α σ : Type} (hw : HwDefs) (tal : TAL σ)
    (ctx : PVDECIO_sContext) (f : Event → Option α) (hd : SeesBusOnly f)
    (hrd : ∀ h o v, f (.regRead h o v) = none)
    (hsel : ∀ v, f (.regWrite hw.REGION_PVDEC_CORE_REGSPACE
      hw.PVDEC_CORE_CR_PVDEC_HOST_PIPE_SELECT_OFFSET v) = none)
    (t : Nat × World σ) :
    (if (t.1 == 0) = true then
      REPORT .REPORT_ERR (MTX_CORE_ReadRegister hw tal (some ctx)
        hw.MTX_CORE_CR_MTX_RAM_ACCESS_STATUS_OFFSET t.2).2 else t.2).trace.filterMap f =
      t.2.trace.filterMap f := by
  split
  · rw [filterMap_REPORT f hd]
    exact filterMap_PVDECIO_ReadRegister hw tal f hd hsel _ _ _ _ _ (fun v => hrd _ _ v)
  · rfl

/-- The writes of the word loop of `pvdecio_LoadFW` in the MTX region, on an
initialised context with the clocks on: from word `i` at the byte address
`4 * i`, with the RAM id of the word before, the `n` words left give the writes
that the specification describes for the words `i` to `i + n - 1`. -/
theorem writesIn_pvdecio_LoadFW_words {σ : Type} (hw : HwDefs) (tal : TAL σ)
    (ctx : PVDECIO_sContext) (B size : Nat) (buf : List Nat)
    (hinit : ctx.bInitialised = true) (hcount : ctx.ui32MemSpaceCount ≠ 0)
    (hclk : ctx.bClocks = true)
    (hcm : (hw.REGION_PVDEC_CORE_REGSPACE : Nat) ≠ hw.REGION_PVDEC_MTX_CORE_REGSPACE) :
    ∀ (n i : Nat) (w : World σ), 4 * (i + n) ≤ 2 ^ 32 →
      writesIn hw.REGION_PVDEC_MTX_CORE_REGSPACE
        (pvdecio_LoadFW.words hw tal ctx B size buf n i (4 * i) (ramIdBefore B i) w).trace =
        writesIn hw.REGION_PVDEC_MTX_CORE_REGSPACE w.trace ++
          (List.range' i n).flatMap (claimedWordWrites hw B size buf) := by
  have hd := writtenIn_SeesBusOnly hw.REGION_PVDEC_MTX_CORE_REGSPACE
  have hrd : ∀ h o v, Event.writtenIn hw.REGION_PVDEC_MTX_CORE_REGSPACE (.regRead h o v) = none :=
    fun _ _ _ => rfl
  have hsel : ∀ v, Event.writtenIn hw.REGION_PVDEC_MTX_CORE_REGSPACE
      (.regWrite hw.REGION_PVDEC_CORE_REGSPACE hw.PVDEC_CORE_CR_PVDEC_HOST_PIPE_SELECT_OFFSET v) =
      none := by
    intro v
    simp [Event.writtenIn, hcm]
  have hwr : ∀ (o v : Nat) (w0 : World σ),
      writesIn hw.REGION_PVDEC_MTX_CORE_REGSPACE
        (MTX_CORE_WriteRegister hw tal (some ctx) o v w0).2.trace =
        writesIn hw.REGION_PVDEC_MTX_CORE_REGSPACE w0.trace ++ [(o, v)] := by
    intro o v w0
    unfold MTX_CORE_WriteRegister
    rw [PVDECIO_WriteRegister_open_trace hw tal ctx hinit hcount hclk, selectEvents_sentinel]
    simp [writesIn, Event.writtenIn]
  have hrep : ∀ (c : Bool) (w1 : World σ),
      writesIn hw.REGION_PVDEC_MTX_CORE_REGSPACE
        (if c = true then REPORT .REPORT_ERR w1 else w1).trace =
        writesIn hw.REGION_PVDEC_MTX_CORE_REGSPACE w1.trace := by
    intro c w1
    cases c
    · rfl
    · exact filterMap_REPORT _ hd _ _
  have htmo : ∀ t : Nat × World σ,
      writesIn hw.REGION_PVDEC_MTX_CORE_REGSPACE (if (t.1 == 0) = true then
        REPORT .REPORT_ERR (MTX_CORE_ReadRegister hw tal (some ctx)
          hw.MTX_CORE_CR_MTX_RAM_ACCESS_STATUS_OFFSET t.2).2 else t.2).trace =
        writesIn hw.REGION_PVDEC_MTX_CORE_REGSPACE t.2.trace :=
    fun t => filterMap_pvdecio_LoadFW_timeout hw tal ctx _ hd hrd hsel t
  have hwait : ∀ (t : Nat) (w0 : World σ),
      writesIn hw.REGION_PVDEC_MTX_CORE_REGSPACE (pvdecio_LoadFW.wait hw tal ctx t w0).2.trace =
        writesIn hw.REGION_PVDEC_MTX_CORE_REGSPACE w0.trace :=
    fun t w0 => filterMap_pvdecio_LoadFW_wait hw tal ctx _ hd hrd hsel t w0
  have hrp : ∀ (w0 : World σ),
      writesIn hw.REGION_PVDEC_MTX_CORE_REGSPACE (REPORT .REPORT_ERR w0).trace =
        writesIn hw.REGION_PVDEC_MTX_CORE_REGSPACE w0.trace :=
    fun w0 => filterMap_REPORT _ hd _ w0
  intro n
  induction n with
  | zero => intro i w _; simp [pvdecio_LoadFW.words]
  | succ n ih =>
    intro i w hb
    have hshift : (4 * i) >>> 2 = i := by
      rw [Nat.shiftRight_eq_div_pow]
      omega
    have hnext : pvdecio_LoadFW.words hw tal ctx B size buf n (i + 1) ((4 * i + 4) % 2 ^ 32)
        (PVDECIO_MTX_CORE_MEMORY + 4 * i / B) =
        pvdecio_LoadFW.words hw tal ctx B size buf n (i + 1) (4 * (i + 1))
          (ramIdBefore B (i + 1)) := by
      have hid : ramIdBefore B (i + 1) = PVDECIO_MTX_CORE_MEMORY + 4 * i / B := by
        simp [ramIdBefore]
      rw [hid]
      cases n with
      | zero => funext w0; simp [pvdecio_LoadFW.words]
      | succ m =>
        have : (4 * i + 4) % 2 ^ 32 = 4 * (i + 1) := by
          rw [Nat.mod_eq_of_lt (by omega)]
          omega
        rw [this]
    have hcond : (PVDECIO_MTX_CORE_MEMORY + 4 * i / B != ramIdBefore B i) =
        decide (i = 0 ∨ 4 * i / B ≠ 4 * (i - 1) / B) := by
      by_cases hi : i = 0
      · subst hi
        simp [ramIdBefore, PVDECIO_MTX_CORE_MEMORY]
      · simp only [ramIdBefore, hi, if_false, false_or]
        by_cases hxy : 4 * i / B = 4 * (i - 1) / B <;> simp [hxy, bne_iff_ne]
    rw [List.range'_succ, List.flatMap_cons]
    unfold pvdecio_LoadFW.words
    simp only []
    by_cases hc : i = 0 ∨ 4 * i / B ≠ 4 * (i - 1) / B
    · have hcb : (PVDECIO_MTX_CORE_MEMORY + 4 * i / B != ramIdBefore B i) = true := by
        rw [hcond]; exact decide_eq_true hc
      simp only [hcb, if_true]
      rw [hnext, ih (i + 1) _ (by omega), htmo, hwait, hrep, hwr, hrp, hwr]
      simp [claimedWordWrites, hc, claimedAccessControl, hshift, PVDECIO_MTX_CORE_MEMORY,
        List.append_assoc]
    · have hcb : (PVDECIO_MTX_CORE_MEMORY + 4 * i / B != ramIdBefore B i) = false := by
        rw [hcond]; exact decide_eq_false hc
      have hid : ramIdBefore B i = PVDECIO_MTX_CORE_MEMORY + 4 * i / B := by
        have : PVDECIO_MTX_CORE_MEMORY + 4 * i / B = ramIdBefore B i := by
          simpa [bne_iff_ne] using hcb
        exact this.symm
      simp only [hcb, Bool.false_eq_true, if_false]
      rw [hid, hnext, ih (i + 1) _ (by omega), htmo, hwait, hrep, hwr]
      simp [claimedWordWrites, hc, List.append_assoc]

/-- Setting the clocks, whatever the state of the gate, adds nothing to a
projection that sees bus transactions only and nothing in the core region. -/
theorem filterMap_pvdecio_SetClocks {α σ : Type} (cfg : BuildConfig) (hw : HwDefs)
    (tal : TAL σ) (ctx : PVDECIO_sContext) (req : Nat) (w : World σ) (f : Event → Option α)
    (hd : SeesBusOnly f)
    (hrd : ∀ o v, f (.regRead hw.REGION_PVDEC_CORE_REGSPACE o v) = none)
    (hwr : ∀ o v, f (.regWrite hw.REGION_PVDEC_CORE_REGSPACE o v) = none) :
    (pvdecio_SetClocks cfg hw tal ctx req w).trace.filterMap f = w.trace.filterMap f := by
  unfold pvdecio_SetClocks
  split
  · simp only [PVDEC_CORE_WriteRegister, PVDEC_CORE_ReadRegister]
    rw [filterMap_PVDECIO_WriteRegister hw tal f hd (hwr _) _ _ _ _ _ _ (hwr _ _),
      filterMap_IMG_ASSERT f hd,
      filterMap_PVDECIO_ReadRegister hw tal f hd (hwr _) _ _ _ _ _ (hrd _),
      filterMap_PVDECIO_WriteRegister hw tal f hd (hwr _) _ _ _ _ _ _ (hwr _ _)]
  · rfl

/-- The writes of `pvdecio_LoadFW` in the MTX region, on an initialised
context: the writes that the specification describes for each word in turn,
for banks of `2 ^ (MTXBankSize + 2)` bytes, and then the three writes that
start the processor. -/
theorem writesIn_pvdecio_LoadFW {σ : Type} (cfg : BuildConfig) (hw : HwDefs) (tal : TAL σ)
    (ctx : PVDECIO_sContext) (p : Nat) (w : World σ)
    (hinit : ctx.bInitialised = true) (hcount : ctx.ui32MemSpaceCount ≠ 0)
    (hcm : hw.REGION_PVDEC_CORE_REGSPACE ≠ hw.REGION_PVDEC_MTX_CORE_REGSPACE)
    (hdm : hw.REGION_PVDEC_PIXEL_DMA_REGSPACE ≠ hw.REGION_PVDEC_MTX_CORE_REGSPACE)
    (hbank : ctx.sMTXRamInfo.ui32MTXBankSize + 2 < 32)
    (hsize : ctx.sFwInfo.ui32CoreSize ≤ 2 ^ 30) :
    writesIn hw.REGION_PVDEC_MTX_CORE_REGSPACE (pvdecio_LoadFW cfg hw tal ctx p w).2.trace =
      writesIn hw.REGION_PVDEC_MTX_CORE_REGSPACE w.trace ++
        (List.range ctx.sFwInfo.ui32CoreSize).flatMap
          (claimedWordWrites hw (2 ^ (ctx.sMTXRamInfo.ui32MTXBankSize + 2))
            ctx.sFwInfo.ui32CoreSize ctx.sFwInfo.pvBlobCpuAddr) ++
        [(hw.MTX_CORE_CR_MTX_REGISTER_READ_WRITE_DATA_OFFSET, 0x80900000),
          (hw.MTX_CORE_CR_MTX_REGISTER_READ_WRITE_REQUEST_OFFSET,
            REGIO_WRITE_FIELD (REGIO_WRITE_FIELD (REGIO_WRITE_FIELD 0
              hw.MTX_CORE_CR_MTX_REGISTER_READ_WRITE_REQUEST_MTX_RNW 0)
              hw.MTX_CORE_CR_MTX_REGISTER_READ_WRITE_REQUEST_MTX_USPECIFIER 5)
              hw.MTX_CORE_CR_MTX_REGISTER_READ_WRITE_REQUEST_MTX_RSPECIFIER 0),
          (hw.MTX_CORE_CR_MTX_ENABLE_OFFSET, 1)] := by
  have gcm := Fin.val_ne_of_ne hcm
  have gdm := Fin.val_ne_of_ne hdm
  have hd := writtenIn_SeesBusOnly hw.REGION_PVDEC_MTX_CORE_REGSPACE
  have hcore : ∀ o v, Event.writtenIn hw.REGION_PVDEC_MTX_CORE_REGSPACE
      (.regWrite hw.REGION_PVDEC_CORE_REGSPACE o v) = none := by
    intro o v
    simp [Event.writtenIn, gcm]
  have hB : (1 <<< (ctx.sMTXRamInfo.ui32MTXBankSize + 2)) % 2 ^ 32 =
      2 ^ (ctx.sMTXRamInfo.ui32MTXBankSize + 2) := by
    rw [Nat.one_shiftLeft]
    exact Nat.mod_eq_of_lt (Nat.pow_lt_pow_right (by decide) hbank)
  have hwr : ∀ (o v : Nat) (w0 : World σ),
      writesIn hw.REGION_PVDEC_MTX_CORE_REGSPACE
        (MTX_CORE_WriteRegister hw tal (some { ctx with bClocks := true }) o v w0).2.trace =
        writesIn hw.REGION_PVDEC_MTX_CORE_REGSPACE w0.trace ++ [(o, v)] := by
    intro o v w0
    unfold MTX_CORE_WriteRegister
    rw [PVDECIO_WriteRegister_open_trace hw tal { ctx with bClocks := true } hinit hcount rfl,
      selectEvents_sentinel]
    simp [writesIn, Event.writtenIn]
  have hdma : ∀ (o v : Nat) (w0 : World σ),
      writesIn hw.REGION_PVDEC_MTX_CORE_REGSPACE
        (PVDECIO_WriteRegister hw tal (some { ctx with bClocks := true })
          hw.REGION_PVDEC_PIXEL_DMA_REGSPACE o v PVDEC_DEF_REG_MASK 0 w0).2.trace =
        writesIn hw.REGION_PVDEC_MTX_CORE_REGSPACE w0.trace := by
    intro o v w0
    exact filterMap_PVDECIO_WriteRegister hw tal _ hd (hcore _) _ _ _ _ _ _
      (by simp [Event.writtenIn, gdm])
  have hass : ∀ (c : Bool) (line : Nat) (w0 : World σ),
      writesIn hw.REGION_PVDEC_MTX_CORE_REGSPACE (IMG_ASSERT c line w0).trace =
        writesIn hw.REGION_PVDEC_MTX_CORE_REGSPACE w0.trace :=
    fun c line w0 => filterMap_IMG_ASSERT _ hd c line w0
  have hloop := writesIn_pvdecio_LoadFW_words hw tal { ctx with bClocks := true }
    (2 ^ (ctx.sMTXRamInfo.ui32MTXBankSize + 2)) ctx.sFwInfo.ui32CoreSize
    ctx.sFwInfo.pvBlobCpuAddr hinit hcount rfl gcm ctx.sFwInfo.ui32CoreSize 0
  have hstart : ∀ w0 : World σ,
      writesIn hw.REGION_PVDEC_MTX_CORE_REGSPACE
        (REPORT .REPORT_ERR ((pvdecio_SetClocks cfg hw tal ctx (allClocks hw) w0).log
          (.storeClocks true))).trace = writesIn hw.REGION_PVDEC_MTX_CORE_REGSPACE w0.trace := by
    intro w0
    exact (filterMap_REPORT _ hd _ _).trans ((filterMap_log _ hd (.storeClocks true) rfl _).trans
      (filterMap_pvdecio_SetClocks cfg hw tal ctx _ w0 _ hd (fun _ _ => rfl) hcore))
  simp only [pvdecio_LoadFW, hB]
  rw [hwr, hwr, hwr, hdma, hass]
  have h0 : ramIdBefore (2 ^ (ctx.sMTXRamInfo.ui32MTXBankSize + 2)) 0 = 0xFFFFFFFF := rfl
  have hl := hloop (REPORT .REPORT_ERR ((pvdecio_SetClocks cfg hw tal ctx (allClocks hw) w).log
    (.storeClocks true))) (by omega)
  rw [h0, Nat.mul_zero] at hl
  rw [hl, hstart, List.range_eq_range']
  simp [List.append_assoc]

/-- C26: in the register upload (`pvdecio_LoadFW`) on an initialised context,
with banks of `B = 2 ^ (MTXBankSize + 2)` bytes (the exponent below 30, so
that `B` fits 32 bits) and a firmware of at most `2 ^ 30` words (so that the
byte addresses fit 32 bits), the MTX region distinct from the core and pixel
DMA regions: the writes in the MTX region are, for each word `i` in turn, the
write of the RAM access control register exactly when `i = 0` or
`4 * i / B ≠ 4 * (i - 1) / B`, directly followed by the write of word `i` to
the data transfer register, and after the last word the three writes that
start the processor. The control word holds the RAM id `0x18 + 4 * i / B`, the
word address `i` and the read bit 0, and the auto-increment bit is written to
1 exactly when the transfer has more than one word. -/
theorem C26_access_control_on_bank_change {σ : Type} (cfg : BuildConfig) (hw : HwDefs)
    (tal : TAL σ) (ctx : PVDECIO_sContext) (p : Nat) (w : World σ)
    (hinit : ctx.bInitialised = true) (hcount : ctx.ui32MemSpaceCount ≠ 0)
    (hcm : hw.REGION_PVDEC_CORE_REGSPACE ≠ hw.REGION_PVDEC_MTX_CORE_REGSPACE)
    (hdm : hw.REGION_PVDEC_PIXEL_DMA_REGSPACE ≠ hw.REGION_PVDEC_MTX_CORE_REGSPACE)
    (hbank : ctx.sMTXRamInfo.ui32MTXBankSize + 2 < 32)
    (hsize : ctx.sFwInfo.ui32CoreSize ≤ 2 ^ 30) :
    let B := 2 ^ (ctx.sMTXRamInfo.ui32MTXBankSize + 2)
    let size := ctx.sFwInfo.ui32CoreSize
    let control (i : Nat) : Nat :=
      REGIO_WRITE_FIELD (REGIO_WRITE_FIELD (REGIO_WRITE_FIELD 0
        hw.MTX_CORE_CR_MTX_RAM_ACCESS_CONTROL_MTX_MCMID (0x18 + 4 * i / B))
        hw.MTX_CORE_CR_MTX_RAM_ACCESS_CONTROL_MTX_MCM_ADDR i)
        hw.MTX_CORE_CR_MTX_RAM_ACCESS_CONTROL_MTX_MCMR 0
    writesIn hw.REGION_PVDEC_MTX_CORE_REGSPACE (pvdecio_LoadFW cfg hw tal ctx p w).2.trace =
      writesIn hw.REGION_PVDEC_MTX_CORE_REGSPACE w.trace ++
        (List.range size).flatMap (fun i =>
          (if i = 0 ∨ 4 * i / B ≠ 4 * (i - 1) / B then
            [(hw.MTX_CORE_CR_MTX_RAM_ACCESS_CONTROL_OFFSET,
              if 1 < size then
                REGIO_WRITE_FIELD (control i) hw.MTX_CORE_CR_MTX_RAM_ACCESS_CONTROL_MTX_MCMAI 1
              else control i)]
          else []) ++
          [(hw.MTX_CORE_CR_MTX_RAM_ACCESS_DATA_TRANSFER_OFFSET,
            ctx.sFwInfo.pvBlobCpuAddr.getD i 0)]) ++
        [(hw.MTX_CORE_CR_MTX_REGISTER_READ_WRITE_DATA_OFFSET, 0x80900000),
          (hw.MTX_CORE_CR_MTX_REGISTER_READ_WRITE_REQUEST_OFFSET,
            REGIO_WRITE_FIELD (REGIO_WRITE_FIELD (REGIO_WRITE_FIELD 0
              hw.MTX_CORE_CR_MTX_REGISTER_READ_WRITE_REQUEST_MTX_RNW 0)
              hw.MTX_CORE_CR_MTX_REGISTER_READ_WRITE_REQUEST_MTX_USPECIFIER 5)
              hw.MTX_CORE_CR_MTX_REGISTER_READ_WRITE_REQUEST_MTX_RSPECIFIER 0),
          (hw.MTX_CORE_CR_MTX_ENABLE_OFFSET, 1)] := by
  intro B size control
  rw [writesIn_pvdecio_LoadFW cfg hw tal ctx p w hinit hcount hcm hdm hbank hsize]
  rfl

/-- C26 on the sample map, for banks of 8 bytes and the four words 10, 11, 12,
13: the control register (offset 0x108) is written before word 0, with the RAM
id 0x18 and the word address 0, and before word 2, with the RAM id 0x19 and
the word address 2, both with the auto-increment bit; the words go to the data
transfer register (offset 0x104) in order. -/
theorem C26_access_control_on_bank_change_witness :
    ctxUpload.bInitialised = true ∧ ctxUpload.sMTXRamInfo.ui32MTXBankSize = 1 ∧
    writesIn 5 (pvdecio_LoadFW regUploadBuild sampleHw (plainStorage sampleHw) ctxUpload 1
      world0).2.trace =
      [(0x108, 0x01800002), (0x104, 10), (0x104, 11), (0x108, 0x0190000A), (0x104, 12),
        (0x104, 13), (0xF8, 0x80900000), (0xFC, 5), (0x0, 1)] :=
  ⟨rfl, rfl,
    (C26_access_control_on_bank_change regUploadBuild sampleHw (plainStorage sampleHw) ctxUpload
      1 world0 rfl (by decide) (by decide) (by decide) (by decide) (by decide)).trans
      (by decide)⟩

/-- The writes of the word loop of `pvdecio_LoadFW` to the data transfer
register, on an initialised context with the clocks on: one for each of the
`n` words left, the words `i` to `i + n - 1` of the firmware in order, whatever
the bus delivers during the waits. -/
theorem writesTo_pvdecio_LoadFW_words_data {σ : Type} (hw : HwDefs) (tal : TAL σ)
    (ctx : PVDECIO_sContext) (B size : Nat) (buf : List Nat)
    (hinit : ctx.bInitialised = true) (hcount : ctx.ui32MemSpaceCount ≠ 0)
    (hclk : ctx.bClocks = true)
    (hcd : hw.MTX_CORE_CR_MTX_RAM_ACCESS_CONTROL_OFFSET ≠
      hw.MTX_CORE_CR_MTX_RAM_ACCESS_DATA_TRANSFER_OFFSET) :
    ∀ (n i addr id : Nat) (w : World σ),
      writesTo hw.REGION_PVDEC_MTX_CORE_REGSPACE
        hw.MTX_CORE_CR_MTX_RAM_ACCESS_DATA_TRANSFER_OFFSET
        (pvdecio_LoadFW.words hw tal ctx B size buf n i addr id w).trace =
        writesTo hw.REGION_PVDEC_MTX_CORE_REGSPACE
          hw.MTX_CORE_CR_MTX_RAM_ACCESS_DATA_TRANSFER_OFFSET w.trace ++
          (List.range' i n).map (fun j => buf.getD j 0) := by
  have hs : writesTo hw.REGION_PVDEC_MTX_CORE_REGSPACE
      hw.MTX_CORE_CR_MTX_RAM_ACCESS_DATA_TRANSFER_OFFSET (selectEvents hw PVDEC_DEF_PIPE) = [] := by
    rw [selectEvents_sentinel]; rfl
  have hctl : ∀ (v : Nat) (w0 : World σ),
      writesTo hw.REGION_PVDEC_MTX_CORE_REGSPACE
        hw.MTX_CORE_CR_MTX_RAM_ACCESS_DATA_TRANSFER_OFFSET
        (MTX_CORE_WriteRegister hw tal (some ctx) hw.MTX_CORE_CR_MTX_RAM_ACCESS_CONTROL_OFFSET v
          w0).2.trace =
        writesTo hw.REGION_PVDEC_MTX_CORE_REGSPACE
          hw.MTX_CORE_CR_MTX_RAM_ACCESS_DATA_TRANSFER_OFFSET w0.trace := by
    intro v w0
    exact writesTo_PVDECIO_WriteRegister_miss _ _ _ _ _ _ _ _ _ _ (fun hh => hcd hh.2) hs
  have hdat : ∀ (v : Nat) (w0 : World σ),
      writesTo hw.REGION_PVDEC_MTX_CORE_REGSPACE
        hw.MTX_CORE_CR_MTX_RAM_ACCESS_DATA_TRANSFER_OFFSET
        (MTX_CORE_WriteRegister hw tal (some ctx)
          hw.MTX_CORE_CR_MTX_RAM_ACCESS_DATA_TRANSFER_OFFSET v w0).2.trace =
        writesTo hw.REGION_PVDEC_MTX_CORE_REGSPACE
          hw.MTX_CORE_CR_MTX_RAM_ACCESS_DATA_TRANSFER_OFFSET w0.trace ++ [v] := by
    intro v w0
    unfold MTX_CORE_WriteRegister
    rw [PVDECIO_WriteRegister_open_trace hw tal ctx hinit hcount hclk, selectEvents_sentinel]
    simp [writesTo_append, writesTo_cons, writesTo_nil, Event.writtenTo]
  have hrp : ∀ (w0 : World σ),
      writesTo hw.REGION_PVDEC_MTX_CORE_REGSPACE
        hw.MTX_CORE_CR_MTX_RAM_ACCESS_DATA_TRANSFER_OFFSET (REPORT .REPORT_ERR w0).trace =
        writesTo hw.REGION_PVDEC_MTX_CORE_REGSPACE
          hw.MTX_CORE_CR_MTX_RAM_ACCESS_DATA_TRANSFER_OFFSET w0.trace := by
    intro w0
    simp [REPORT, World.log, writesTo_append, writesTo_cons, writesTo_nil, Event.writtenTo]
  have hrep : ∀ (c : Bool) (w1 : World σ),
      writesTo hw.REGION_PVDEC_MTX_CORE_REGSPACE
        hw.MTX_CORE_CR_MTX_RAM_ACCESS_DATA_TRANSFER_OFFSET
        (if c = true then REPORT .REPORT_ERR w1 else w1).trace =
        writesTo hw.REGION_PVDEC_MTX_CORE_REGSPACE
          hw.MTX_CORE_CR_MTX_RAM_ACCESS_DATA_TRANSFER_OFFSET w1.trace := by
    intro c w1
    cases c
    · rfl
    · exact hrp w1
  have htmo : ∀ t : Nat × World σ,
      writesTo hw.REGION_PVDEC_MTX_CORE_REGSPACE
        hw.MTX_CORE_CR_MTX_RAM_ACCESS_DATA_TRANSFER_OFFSET (if (t.1 == 0) = true then
        REPORT .REPORT_ERR (MTX_CORE_ReadRegister hw tal (some ctx)
          hw.MTX_CORE_CR_MTX_RAM_ACCESS_STATUS_OFFSET t.2).2 else t.2).trace =
        writesTo hw.REGION_PVDEC_MTX_CORE_REGSPACE
          hw.MTX_CORE_CR_MTX_RAM_ACCESS_DATA_TRANSFER_OFFSET t.2.trace := by
    intro t
    split
    · rw [hrp]
      exact writesTo_PVDECIO_ReadRegister _ _ _ _ _ _ _ _ _ hs
    · rfl
  intro n
  induction n with
  | zero => intro i addr id w; simp [pvdecio_LoadFW.words]
  | succ n ih =>
    intro i addr id w
    rw [List.range'_succ, List.map_cons]
    unfold pvdecio_LoadFW.words
    simp only []
    rw [ih, htmo, writesTo_pvdecio_LoadFW_wait, hrep, hdat]
    split
    · rw [hrp, hctl]
      simp [List.append_assoc]
    · simp [List.append_assoc]

/-- The bus transactions of the wait of `pvdecio_LoadFW` after a word, on an
initialised context with the clocks on and entered with the counter `t`: a
number of rounds, each a read of the fault register that delivers 0 followed
by a read of the status register, and then either nothing or one read of the
fault register that delivers a word other than 0, after which the status
register is not read. The rounds and the counter on exit add up to `t`. -/
theorem pvdecio_LoadFW_wait_bus {σ : Type} (hw : HwDefs) (tal : TAL σ)
    (ctx : PVDECIO_sContext) (hinit : ctx.bInitialised = true)
    (hcount : ctx.ui32MemSpaceCount ≠ 0) (hclk : ctx.bClocks = true) :
    ∀ (t : Nat) (w : World σ), ∃ (ss : List Nat) (last : List Event),
      busEvents (pvdecio_LoadFW.wait hw tal ctx t w).2.trace = busEvents w.trace ++
        ss.flatMap (fun s =>
          [.regRead hw.REGION_PVDEC_MTX_CORE_REGSPACE hw.MTX_CORE_CR_MTX_FAULT0_OFFSET 0,
            .regRead hw.REGION_PVDEC_MTX_CORE_REGSPACE
              hw.MTX_CORE_CR_MTX_RAM_ACCESS_STATUS_OFFSET s]) ++ last ∧
      ss.length + (pvdecio_LoadFW.wait hw tal ctx t w).1 = t ∧
      (last = [] ∨ ∃ f, f ≠ 0 ∧ last =
        [.regRead hw.REGION_PVDEC_MTX_CORE_REGSPACE hw.MTX_CORE_CR_MTX_FAULT0_OFFSET f]) := by
  have hrd : ∀ (o : Nat) (w0 : World σ),
      busEvents (MTX_CORE_ReadRegister hw tal (some ctx) o w0).2.trace = busEvents w0.trace ++
        [.regRead hw.REGION_PVDEC_MTX_CORE_REGSPACE o
          (MTX_CORE_ReadRegister hw tal (some ctx) o w0).1] := by
    intro o w0
    unfold MTX_CORE_ReadRegister
    rw [PVDECIO_ReadRegister_open_trace hw tal ctx hinit hcount hclk, selectEvents_sentinel,
      List.append_nil, busEvents_append]
    rfl
  have hrp : ∀ (w0 : World σ), busEvents (REPORT .REPORT_ERR w0).trace = busEvents w0.trace := by
    intro w0
    simp [REPORT, World.log, busEvents_append, busEvents, Event.isBus]
  intro t
  induction t with
  | zero => intro w; exact ⟨[], [], by simp [pvdecio_LoadFW.wait], rfl, Or.inl rfl⟩
  | succ t ih =>
    intro w
    unfold pvdecio_LoadFW.wait
    simp only []
    split
    · rename_i hf
      refine ⟨[], [.regRead hw.REGION_PVDEC_MTX_CORE_REGSPACE hw.MTX_CORE_CR_MTX_FAULT0_OFFSET
        (MTX_CORE_ReadRegister hw tal (some ctx) hw.MTX_CORE_CR_MTX_FAULT0_OFFSET w).1], ?_, ?_,
        Or.inr ⟨_, by simpa using hf, rfl⟩⟩
      · rw [hrp, hrd]
        simp
      · simp
    · rename_i hf
      have hf0 : (MTX_CORE_ReadRegister hw tal (some ctx) hw.MTX_CORE_CR_MTX_FAULT0_OFFSET w).1 =
          0 := by simpa using hf
      split
      · obtain ⟨ss, last, h1, h2, h3⟩ := ih (MTX_CORE_ReadRegister hw tal (some ctx)
          hw.MTX_CORE_CR_MTX_RAM_ACCESS_STATUS_OFFSET
          (MTX_CORE_ReadRegister hw tal (some ctx) hw.MTX_CORE_CR_MTX_FAULT0_OFFSET w).2).2
        refine ⟨(MTX_CORE_ReadRegister hw tal (some ctx)
          hw.MTX_CORE_CR_MTX_RAM_ACCESS_STATUS_OFFSET
          (MTX_CORE_ReadRegister hw tal (some ctx) hw.MTX_CORE_CR_MTX_FAULT0_OFFSET w).2).1 :: ss,
          last, ?_, ?_, h3⟩
        · rw [h1, hrd, hrd, hf0]
          simp [List.append_assoc]
        · simp only [List.length_cons]
          omega
      · refine ⟨[(MTX_CORE_ReadRegister hw tal (some ctx)
          hw.MTX_CORE_CR_MTX_RAM_ACCESS_STATUS_OFFSET
          (MTX_CORE_ReadRegister hw tal (some ctx) hw.MTX_CORE_CR_MTX_FAULT0_OFFSET w).2).1], [],
          ?_, ?_, Or.inl rfl⟩
        · rw [hrd, hrd, hf0]
          simp [List.append_assoc]
        · simp
          omega

/-- The reads of the status register in the wait of `pvdecio_LoadFW` after a
word, on an initialised context with the clocks on and entered with the
counter `t`: their number and the counter on exit add up to `t`. -/
theorem pvdecio_LoadFW_wait_status {σ : Type} (hw : HwDefs) (tal : TAL σ)
    (ctx : PVDECIO_sContext) (hinit : ctx.bInitialised = true)
    (hcount : ctx.ui32MemSpaceCount ≠ 0) (hclk : ctx.bClocks = true)
    (hfs : hw.MTX_CORE_CR_MTX_FAULT0_OFFSET ≠ hw.MTX_CORE_CR_MTX_RAM_ACCESS_STATUS_OFFSET) :
    ∀ (t : Nat) (w : World σ),
      (readsFrom hw.REGION_PVDEC_MTX_CORE_REGSPACE hw.MTX_CORE_CR_MTX_RAM_ACCESS_STATUS_OFFSET
        (pvdecio_LoadFW.wait hw tal ctx t w).2.trace).length +
        (pvdecio_LoadFW.wait hw tal ctx t w).1 =
      (readsFrom hw.REGION_PVDEC_MTX_CORE_REGSPACE hw.MTX_CORE_CR_MTX_RAM_ACCESS_STATUS_OFFSET
        w.trace).length + t := by
  have hd := readFrom_SeesBusOnly hw.REGION_PVDEC_MTX_CORE_REGSPACE
    hw.MTX_CORE_CR_MTX_RAM_ACCESS_STATUS_OFFSET
  have hF : ∀ (w0 : World σ),
      readsFrom hw.REGION_PVDEC_MTX_CORE_REGSPACE hw.MTX_CORE_CR_MTX_RAM_ACCESS_STATUS_OFFSET
        (MTX_CORE_ReadRegister hw tal (some ctx) hw.MTX_CORE_CR_MTX_FAULT0_OFFSET w0).2.trace =
      readsFrom hw.REGION_PVDEC_MTX_CORE_REGSPACE hw.MTX_CORE_CR_MTX_RAM_ACCESS_STATUS_OFFSET
        w0.trace := by
    intro w0
    exact readsFrom_PVDECIO_ReadRegister_miss _ _ _ _ _ _ _ _ _ (fun hh => hfs hh.2)
  have hS : ∀ (w0 : World σ),
      (readsFrom hw.REGION_PVDEC_MTX_CORE_REGSPACE hw.MTX_CORE_CR_MTX_RAM_ACCESS_STATUS_OFFSET
        (MTX_CORE_ReadRegister hw tal (some ctx) hw.MTX_CORE_CR_MTX_RAM_ACCESS_STATUS_OFFSET
          w0).2.trace).length =
      (readsFrom hw.REGION_PVDEC_MTX_CORE_REGSPACE hw.MTX_CORE_CR_MTX_RAM_ACCESS_STATUS_OFFSET
        w0.trace).length + 1 := by
    intro w0
    unfold MTX_CORE_ReadRegister
    rw [PVDECIO_ReadRegister_open_trace hw tal ctx hinit hcount hclk, selectEvents_sentinel,
      List.append_nil, readsFrom_append]
    simp [readsFrom, Event.readFrom]
  have hrp : ∀ (w0 : World σ),
      readsFrom hw.REGION_PVDEC_MTX_CORE_REGSPACE hw.MTX_CORE_CR_MTX_RAM_ACCESS_STATUS_OFFSET
        (REPORT .REPORT_ERR w0).trace =
      readsFrom hw.REGION_PVDEC_MTX_CORE_REGSPACE hw.MTX_CORE_CR_MTX_RAM_ACCESS_STATUS_OFFSET
        w0.trace := fun w0 => filterMap_REPORT _ hd _ w0
  intro t
  induction t with
  | zero => intro w; rfl
  | succ t ih =>
    intro w
    unfold pvdecio_LoadFW.wait
    simp only []
    split
    · rw [hrp, hF]
    · split
      · have := ih (MTX_CORE_ReadRegister hw tal (some ctx)
          hw.MTX_CORE_CR_MTX_RAM_ACCESS_STATUS_OFFSET
          (MTX_CORE_ReadRegister hw tal (some ctx) hw.MTX_CORE_CR_MTX_FAULT0_OFFSET w).2).2
        rw [hS, hF] at this
        omega
      · rw [hS, hF]
        omega

/-- The counter of the wait of `pvdecio_LoadFW` never exceeds the value it is
entered with. -/
theorem pvdecio_LoadFW_wait_le {σ : Type} (hw : HwDefs) (tal : TAL σ)
    (ctx : PVDECIO_sContext) :
    ∀ (t : Nat) (w : World σ), (pvdecio_LoadFW.wait hw tal ctx t w).1 ≤ t := by
  intro t
  induction t with
  | zero => intro w; exact Nat.le_refl _
  | succ t ih =>
    intro w
    unfold pvdecio_LoadFW.wait
    simp only []
    split
    · exact Nat.le_refl _
    · split
      · exact Nat.le_succ_of_le (ih _)
      · exact Nat.le_succ _

/-- The reads of the status register that one word of the word loop of
`pvdecio_LoadFW` adds, on an initialised context with the clocks on: those of
the wait and, when the counter has run out, one more for the report. -/
theorem pvdecio_LoadFW_word_status {σ : Type} (hw : HwDefs) (tal : TAL σ)
    (ctx : PVDECIO_sContext) (hinit : ctx.bInitialised = true)
    (hcount : ctx.ui32MemSpaceCount ≠ 0) (hclk : ctx.bClocks = true)
    (hfs : hw.MTX_CORE_CR_MTX_FAULT0_OFFSET ≠ hw.MTX_CORE_CR_MTX_RAM_ACCESS_STATUS_OFFSET)
    (w : World σ) :
    (readsFrom hw.REGION_PVDEC_MTX_CORE_REGSPACE hw.MTX_CORE_CR_MTX_RAM_ACCESS_STATUS_OFFSET
      (if ((pvdecio_LoadFW.wait hw tal ctx PVDEC_TIMEOUT_COUNTER w).1 == 0) = true then
        REPORT .REPORT_ERR (MTX_CORE_ReadRegister hw tal (some ctx)
          hw.MTX_CORE_CR_MTX_RAM_ACCESS_STATUS_OFFSET
          (pvdecio_LoadFW.wait hw tal ctx PVDEC_TIMEOUT_COUNTER w).2).2
      else (pvdecio_LoadFW.wait hw tal ctx PVDEC_TIMEOUT_COUNTER w).2).trace).length =
    (readsFrom hw.REGION_PVDEC_MTX_CORE_REGSPACE hw.MTX_CORE_CR_MTX_RAM_ACCESS_STATUS_OFFSET
      w.trace).length +
      (if (pvdecio_LoadFW.wait hw tal ctx PVDEC_TIMEOUT_COUNTER w).1 = 0 then
        PVDEC_TIMEOUT_COUNTER + 1
      else PVDEC_TIMEOUT_COUNTER - (pvdecio_LoadFW.wait hw tal ctx PVDEC_TIMEOUT_COUNTER w).1) := by
  have hd := readFrom_SeesBusOnly hw.REGION_PVDEC_MTX_CORE_REGSPACE
    hw.MTX_CORE_CR_MTX_RAM_ACCESS_STATUS_OFFSET
  have hk := pvdecio_LoadFW_wait_status hw tal ctx hinit hcount hclk hfs PVDEC_TIMEOUT_COUNTER w
  have hle := pvdecio_LoadFW_wait_le hw tal ctx PVDEC_TIMEOUT_COUNTER w
  by_cases hc : (pvdecio_LoadFW.wait hw tal ctx PVDEC_TIMEOUT_COUNTER w).1 = 0
  · have hb : ((pvdecio_LoadFW.wait hw tal ctx PVDEC_TIMEOUT_COUNTER w).1 == 0) = true := by
      simp [hc]
    rw [if_pos hb, if_pos hc]
    have hrp : readsFrom hw.REGION_PVDEC_MTX_CORE_REGSPACE
        hw.MTX_CORE_CR_MTX_RAM_ACCESS_STATUS_OFFSET (REPORT .REPORT_ERR
          (MTX_CORE_ReadRegister hw tal (some ctx) hw.MTX_CORE_CR_MTX_RAM_ACCESS_STATUS_OFFSET
            (pvdecio_LoadFW.wait hw tal ctx PVDEC_TIMEOUT_COUNTER w).2).2).trace =
        readsFrom hw.REGION_PVDEC_MTX_CORE_REGSPACE hw.MTX_CORE_CR_MTX_RAM_ACCESS_STATUS_OFFSET
          (MTX_CORE_ReadRegister hw tal (some ctx) hw.MTX_CORE_CR_MTX_RAM_ACCESS_STATUS_OFFSET
            (pvdecio_LoadFW.wait hw tal ctx PVDEC_TIMEOUT_COUNTER w).2).2.trace :=
      filterMap_REPORT _ hd _ _
    rw [hrp]
    unfold MTX_CORE_ReadRegister
    rw [PVDECIO_ReadRegister_open_trace hw tal ctx hinit hcount hclk, selectEvents_sentinel,
      List.append_nil, readsFrom_append]
    simp only [readsFrom, Event.readFrom, List.filterMap_cons, List.filterMap_nil, and_self,
      if_true, List.length_append, List.length_singleton] at hk ⊢
    omega
  · have hb : ((pvdecio_LoadFW.wait hw tal ctx PVDEC_TIMEOUT_COUNTER w).1 == 0) = false := by
      simp [hc]
    rw [if_neg (by rw [hb]; simp), if_neg hc]
    omega

/-- The reads of the status register in the word loop of `pvdecio_LoadFW`, on
an initialised context with the clocks on: at most the timeout counter plus
one for each word, whatever the bus delivers. -/
theorem pvdecio_LoadFW_words_status {σ : Type} (hw : HwDefs) (tal : TAL σ)
    (ctx : PVDECIO_sContext) (B size : Nat) (buf : List Nat)
    (hinit : ctx.bInitialised = true) (hcount : ctx.ui32MemSpaceCount ≠ 0)
    (hclk : ctx.bClocks = true)
    (hfs : hw.MTX_CORE_CR_MTX_FAULT0_OFFSET ≠ hw.MTX_CORE_CR_MTX_RAM_ACCESS_STATUS_OFFSET) :
    ∀ (n i addr id : Nat) (w : World σ),
      (readsFrom hw.REGION_PVDEC_MTX_CORE_REGSPACE hw.MTX_CORE_CR_MTX_RAM_ACCESS_STATUS_OFFSET
        (pvdecio_LoadFW.words hw tal ctx B size buf n i addr id w).trace).length ≤
      (readsFrom hw.REGION_PVDEC_MTX_CORE_REGSPACE hw.MTX_CORE_CR_MTX_RAM_ACCESS_STATUS_OFFSET
        w.trace).length + (PVDEC_TIMEOUT_COUNTER + 1) * n := by
  have hd := readFrom_SeesBusOnly hw.REGION_PVDEC_MTX_CORE_REGSPACE
    hw.MTX_CORE_CR_MTX_RAM_ACCESS_STATUS_OFFSET
  have hwr : ∀ (o v : Nat) (w0 : World σ),
      readsFrom hw.REGION_PVDEC_MTX_CORE_REGSPACE hw.MTX_CORE_CR_MTX_RAM_ACCESS_STATUS_OFFSET
        (MTX_CORE_WriteRegister hw tal (some ctx) o v w0).2.trace =
      readsFrom hw.REGION_PVDEC_MTX_CORE_REGSPACE hw.MTX_CORE_CR_MTX_RAM_ACCESS_STATUS_OFFSET
        w0.trace := fun o v w0 => readsFrom_PVDECIO_WriteRegister _ _ _ _ _ _ _ _ _ _
  have hrp : ∀ (w0 : World σ),
      readsFrom hw.REGION_PVDEC_MTX_CORE_REGSPACE hw.MTX_CORE_CR_MTX_RAM_ACCESS_STATUS_OFFSET
        (REPORT .REPORT_ERR w0).trace =
      readsFrom hw.REGION_PVDEC_MTX_CORE_REGSPACE hw.MTX_CORE_CR_MTX_RAM_ACCESS_STATUS_OFFSET
        w0.trace := fun w0 => filterMap_REPORT _ hd _ w0
  have hrep : ∀ (c : Bool) (w1 : World σ),
      readsFrom hw.REGION_PVDEC_MTX_CORE_REGSPACE hw.MTX_CORE_CR_MTX_RAM_ACCESS_STATUS_OFFSET
        (if c = true then REPORT .REPORT_ERR w1 else w1).trace =
      readsFrom hw.REGION_PVDEC_MTX_CORE_REGSPACE hw.MTX_CORE_CR_MTX_RAM_ACCESS_STATUS_OFFSET
        w1.trace := by
    intro c w1
    cases c
    · rfl
    · exact hrp w1
  intro n
  induction n with
  | zero => intro i addr id w; simp [pvdecio_LoadFW.words]
  | succ n ih =>
    intro i addr id w
    unfold pvdecio_LoadFW.words
    simp only []
    refine le_trans (ih _ _ _ _) ?_
    have hword := pvdecio_LoadFW_word_status hw tal ctx hinit hcount hclk hfs
    have hX : ∀ c : Nat, (if c = 0 then PVDEC_TIMEOUT_COUNTER + 1 else PVDEC_TIMEOUT_COUNTER - c) ≤
        PVDEC_TIMEOUT_COUNTER + 1 := by
      intro c
      split <;> omega
    rw [hword]
    refine le_trans (Nat.add_le_add_right (Nat.add_le_add_left (hX _) _) _) ?_
    rw [hrep, hwr]
    have hpre : ∀ (p : Nat × World σ) (q : Nat × World σ) (c : Bool),
        readsFrom hw.REGION_PVDEC_MTX_CORE_REGSPACE hw.MTX_CORE_CR_MTX_RAM_ACCESS_STATUS_OFFSET
          p.2.trace = readsFrom hw.REGION_PVDEC_MTX_CORE_REGSPACE
            hw.MTX_CORE_CR_MTX_RAM_ACCESS_STATUS_OFFSET w.trace →
        readsFrom hw.REGION_PVDEC_MTX_CORE_REGSPACE hw.MTX_CORE_CR_MTX_RAM_ACCESS_STATUS_OFFSET
          q.2.trace = readsFrom hw.REGION_PVDEC_MTX_CORE_REGSPACE
            hw.MTX_CORE_CR_MTX_RAM_ACCESS_STATUS_OFFSET w.trace →
        readsFrom hw.REGION_PVDEC_MTX_CORE_REGSPACE hw.MTX_CORE_CR_MTX_RAM_ACCESS_STATUS_OFFSET
          (if c = true then p else q).2.trace = readsFrom hw.REGION_PVDEC_MTX_CORE_REGSPACE
            hw.MTX_CORE_CR_MTX_RAM_ACCESS_STATUS_OFFSET w.trace := by
      intro p q c hp hq
      cases c
      · exact hq
      · exact hp
    rw [hpre _ _ _ ((hrp _).trans (hwr _ _ _)) rfl]
    simp only [PVDEC_TIMEOUT_COUNTER]
    omega

/-- The writes of `pvdecio_LoadFW` to the data transfer register, on an
initialised context and a register map whose registers lie apart: one for each
word of the firmware, in order, whatever the bus delivers. -/
theorem writesTo_pvdecio_LoadFW_data {σ : Type} (cfg : BuildConfig) (hw : HwDefs) (tal : TAL σ)
    (ctx : PVDECIO_sContext) (p : Nat) (w : World σ) (hap : hw.Apart)
    (hinit : ctx.bInitialised = true) (hcount : ctx.ui32MemSpaceCount ≠ 0) :
    writesTo hw.REGION_PVDEC_MTX_CORE_REGSPACE hw.MTX_CORE_CR_MTX_RAM_ACCESS_DATA_TRANSFER_OFFSET
      (pvdecio_LoadFW cfg hw tal ctx p w).2.trace =
      writesTo hw.REGION_PVDEC_MTX_CORE_REGSPACE
        hw.MTX_CORE_CR_MTX_RAM_ACCESS_DATA_TRANSFER_OFFSET w.trace ++
        (List.range ctx.sFwInfo.ui32CoreSize).map (fun i => ctx.sFwInfo.pvBlobCpuAddr.getD i 0) := by
  obtain ⟨hr, _, hm, _⟩ := hap
  have hcm : (hw.REGION_PVDEC_CORE_REGSPACE : Nat) ≠ hw.REGION_PVDEC_MTX_CORE_REGSPACE :=
    Fin.val_ne_of_ne (nodup_ne hr 0 1 rfl rfl (by decide))
  have hdm : (hw.REGION_PVDEC_PIXEL_DMA_REGSPACE : Nat) ≠ hw.REGION_PVDEC_MTX_CORE_REGSPACE :=
    Fin.val_ne_of_ne (nodup_ne hr 2 1 rfl rfl (by decide))
  have d0 : hw.MTX_CORE_CR_MTX_ENABLE_OFFSET ≠
      hw.MTX_CORE_CR_MTX_RAM_ACCESS_DATA_TRANSFER_OFFSET := nodup_ne hm 0 3 rfl rfl (by decide)
  have d1 : hw.MTX_CORE_CR_MTX_REGISTER_READ_WRITE_DATA_OFFSET ≠
      hw.MTX_CORE_CR_MTX_RAM_ACCESS_DATA_TRANSFER_OFFSET := nodup_ne hm 1 3 rfl rfl (by decide)
  have d2 : hw.MTX_CORE_CR_MTX_REGISTER_READ_WRITE_REQUEST_OFFSET ≠
      hw.MTX_CORE_CR_MTX_RAM_ACCESS_DATA_TRANSFER_OFFSET := nodup_ne hm 2 3 rfl rfl (by decide)
  have d4 : hw.MTX_CORE_CR_MTX_RAM_ACCESS_CONTROL_OFFSET ≠
      hw.MTX_CORE_CR_MTX_RAM_ACCESS_DATA_TRANSFER_OFFSET := nodup_ne hm 4 3 rfl rfl (by decide)
  have hs : ∀ q, writesTo hw.REGION_PVDEC_MTX_CORE_REGSPACE
      hw.MTX_CORE_CR_MTX_RAM_ACCESS_DATA_TRANSFER_OFFSET (selectEvents hw q) = [] :=
    fun q => writesTo_selectEvents hw q _ _ (fun hh => hcm hh.1)
  have hmiss : ∀ (o v : Nat) (w0 : World σ),
      o ≠ hw.MTX_CORE_CR_MTX_RAM_ACCESS_DATA_TRANSFER_OFFSET →
      writesTo hw.REGION_PVDEC_MTX_CORE_REGSPACE
        hw.MTX_CORE_CR_MTX_RAM_ACCESS_DATA_TRANSFER_OFFSET
        (MTX_CORE_WriteRegister hw tal (some { ctx with bClocks := true }) o v w0).2.trace =
        writesTo hw.REGION_PVDEC_MTX_CORE_REGSPACE
          hw.MTX_CORE_CR_MTX_RAM_ACCESS_DATA_TRANSFER_OFFSET w0.trace := by
    intro o v w0 ho
    exact writesTo_PVDECIO_WriteRegister_miss _ _ _ _ _ _ _ _ _ _ (fun hh => ho hh.2) (hs _)
  simp only [pvdecio_LoadFW]
  rw [hmiss _ _ _ d0, hmiss _ _ _ d2, hmiss _ _ _ d1,
    writesTo_PVDECIO_WriteRegister_miss _ _ _ _ _ _ _ _ _ _ (fun hh => hdm hh.1) (hs _),
    IMG_ASSERT_trace_eq, writesTo_append, writesTo_assertEvents, List.append_nil,
    writesTo_pvdecio_LoadFW_words_data hw tal { ctx with bClocks := true } _ _ _ hinit hcount rfl
      d4]
  simp only [REPORT, World.log, writesTo_append, writesTo_cons, writesTo_nil, Event.writtenTo,
    Option.toList, List.append_nil, List.nil_append]
  rw [writesTo_pvdecio_SetClocks cfg hw tal ctx _ w _ _ (fun hh => hcm hh.1),
    List.range_eq_range']

/-- The reads of the status register in `pvdecio_LoadFW`, on an initialised
context: at most 1001 for each word of the firmware, whatever the bus
delivers. -/
theorem pvdecio_LoadFW_status {σ : Type} (cfg : BuildConfig) (hw : HwDefs) (tal : TAL σ)
    (ctx : PVDECIO_sContext) (p : Nat) (w : World σ)
    (hinit : ctx.bInitialised = true) (hcount : ctx.ui32MemSpaceCount ≠ 0)
    (hcm : hw.REGION_PVDEC_CORE_REGSPACE ≠ hw.REGION_PVDEC_MTX_CORE_REGSPACE)
    (hfs : hw.MTX_CORE_CR_MTX_FAULT0_OFFSET ≠ hw.MTX_CORE_CR_MTX_RAM_ACCESS_STATUS_OFFSET) :
    (readsFrom hw.REGION_PVDEC_MTX_CORE_REGSPACE hw.MTX_CORE_CR_MTX_RAM_ACCESS_STATUS_OFFSET
      (pvdecio_LoadFW cfg hw tal ctx p w).2.trace).length ≤
    (readsFrom hw.REGION_PVDEC_MTX_CORE_REGSPACE hw.MTX_CORE_CR_MTX_RAM_ACCESS_STATUS_OFFSET
      w.trace).length + 1001 * ctx.sFwInfo.ui32CoreSize := by
  have gcm := Fin.val_ne_of_ne hcm
  have hd := readFrom_SeesBusOnly hw.REGION_PVDEC_MTX_CORE_REGSPACE
    hw.MTX_CORE_CR_MTX_RAM_ACCESS_STATUS_OFFSET
  have hwr : ∀ (r o v q : Nat) (w0 : World σ),
      readsFrom hw.REGION_PVDEC_MTX_CORE_REGSPACE hw.MTX_CORE_CR_MTX_RAM_ACCESS_STATUS_OFFSET
        (PVDECIO_WriteRegister hw tal (some { ctx with bClocks := true }) r o v
          PVDEC_DEF_REG_MASK q w0).2.trace =
      readsFrom hw.REGION_PVDEC_MTX_CORE_REGSPACE hw.MTX_CORE_CR_MTX_RAM_ACCESS_STATUS_OFFSET
        w0.trace := fun r o v q w0 => readsFrom_PVDECIO_WriteRegister _ _ _ _ _ _ _ _ _ _
  have hstart : readsFrom hw.REGION_PVDEC_MTX_CORE_REGSPACE
      hw.MTX_CORE_CR_MTX_RAM_ACCESS_STATUS_OFFSET
      (REPORT .REPORT_ERR ((pvdecio_SetClocks cfg hw tal ctx (allClocks hw) w).log
        (.storeClocks true))).trace =
      readsFrom hw.REGION_PVDEC_MTX_CORE_REGSPACE hw.MTX_CORE_CR_MTX_RAM_ACCESS_STATUS_OFFSET
        w.trace :=
    (filterMap_REPORT _ hd _ _).trans ((filterMap_log _ hd (.storeClocks true) rfl _).trans
      (filterMap_pvdecio_SetClocks cfg hw tal ctx _ w _ hd
        (fun o v => readFrom_regRead_miss _ _ _ _ _ (fun hh => gcm hh.1)) (fun _ _ => rfl)))
  have hloop := pvdecio_LoadFW_words_status hw tal { ctx with bClocks := true }
    ((1 <<< (ctx.sMTXRamInfo.ui32MTXBankSize + 2)) % 2 ^ 32) ctx.sFwInfo.ui32CoreSize
    ctx.sFwInfo.pvBlobCpuAddr hinit hcount rfl hfs ctx.sFwInfo.ui32CoreSize 0 0 0xFFFFFFFF
    (REPORT .REPORT_ERR ((pvdecio_SetClocks cfg hw tal ctx (allClocks hw) w).log
      (.storeClocks true)))
  rw [hstart] at hloop
  simp only [pvdecio_LoadFW, MTX_CORE_WriteRegister]
  rw [hwr, hwr, hwr, hwr]
  have hass : ∀ (c : Bool) (line : Nat) (w0 : World σ),
      readsFrom hw.REGION_PVDEC_MTX_CORE_REGSPACE hw.MTX_CORE_CR_MTX_RAM_ACCESS_STATUS_OFFSET
        (IMG_ASSERT c line w0).trace =
      readsFrom hw.REGION_PVDEC_MTX_CORE_REGSPACE hw.MTX_CORE_CR_MTX_RAM_ACCESS_STATUS_OFFSET
        w0.trace := fun c line w0 => filterMap_IMG_ASSERT _ hd c line w0
  rw [hass]
  simpa [PVDEC_TIMEOUT_COUNTER] using hloop

/-- On a bus whose reads all deliver 0, the wait of `pvdecio_LoadFW` on an
initialised context with the clocks on runs until the counter is 0. -/
theorem pvdecio_LoadFW_wait_silent {σ : Type} (hw : HwDefs) (tal : TAL σ)
    (ctx : PVDECIO_sContext) (hinit : ctx.bInitialised = true)
    (hcount : ctx.ui32MemSpaceCount ≠ 0) (hclk : ctx.bClocks = true)
    (hsilent : ∀ s h o, (tal.ReadWord32 s h o).2.1 = 0) :
    ∀ (t : Nat) (w : World σ), (pvdecio_LoadFW.wait hw tal ctx t w).1 = 0 := by
  have hrd : ∀ (o : Nat) (w0 : World σ), (MTX_CORE_ReadRegister hw tal (some ctx) o w0).1 = 0 := by
    intro o w0
    unfold MTX_CORE_ReadRegister
    rw [PVDECIO_ReadRegister_open hw tal ctx _ _ _ w0 hinit hcount hclk (mtx_lt hw)]
    exact hsilent _ _ _
  intro t
  induction t with
  | zero => intro w; rfl
  | succ t ih =>
    intro w
    unfold pvdecio_LoadFW.wait
    simp only [hrd, bne_self_eq_false, Bool.false_eq_true, if_false]
    split
    · exact ih _
    · rename_i hc
      have : REGIO_READ_FIELD 0 hw.MTX_CORE_CR_MTX_RAM_ACCESS_STATUS_MTX_MTX_MCM_STAT = 0 := by
        simp [REGIO_READ_FIELD]
      simpa [this] using hc

/-- On a bus whose reads all deliver 0, the word loop of `pvdecio_LoadFW` on an
initialised context with the clocks on reads the status register 1001 times
for each word: 1000 times in the wait and once more for the report. -/
theorem pvdecio_LoadFW_words_status_silent {σ : Type} (hw : HwDefs) (tal : TAL σ)
    (ctx : PVDECIO_sContext) (B size : Nat) (buf : List Nat)
    (hinit : ctx.bInitialised = true) (hcount : ctx.ui32MemSpaceCount ≠ 0)
    (hclk : ctx.bClocks = true)
    (hfs : hw.MTX_CORE_CR_MTX_FAULT0_OFFSET ≠ hw.MTX_CORE_CR_MTX_RAM_ACCESS_STATUS_OFFSET)
    (hsilent : ∀ s h o, (tal.ReadWord32 s h o).2.1 = 0) :
    ∀ (n i addr id : Nat) (w : World σ),
      (readsFrom hw.REGION_PVDEC_MTX_CORE_REGSPACE hw.MTX_CORE_CR_MTX_RAM_ACCESS_STATUS_OFFSET
        (pvdecio_LoadFW.words hw tal ctx B size buf n i addr id w).trace).length =
      (readsFrom hw.REGION_PVDEC_MTX_CORE_REGSPACE hw.MTX_CORE_CR_MTX_RAM_ACCESS_STATUS_OFFSET
        w.trace).length + 1001 * n := by
  have hd := readFrom_SeesBusOnly hw.REGION_PVDEC_MTX_CORE_REGSPACE
    hw.MTX_CORE_CR_MTX_RAM_ACCESS_STATUS_OFFSET
  have hwr : ∀ (o v : Nat) (w0 : World σ),
      readsFrom hw.REGION_PVDEC_MTX_CORE_REGSPACE hw.MTX_CORE_CR_MTX_RAM_ACCESS_STATUS_OFFSET
        (MTX_CORE_WriteRegister hw tal (some ctx) o v w0).2.trace =
      readsFrom hw.REGION_PVDEC_MTX_CORE_REGSPACE hw.MTX_CORE_CR_MTX_RAM_ACCESS_STATUS_OFFSET
        w0.trace := fun o v w0 => readsFrom_PVDECIO_WriteRegister _ _ _ _ _ _ _ _ _ _
  have hrp : ∀ (w0 : World σ),
      readsFrom hw.REGION_PVDEC_MTX_CORE_REGSPACE hw.MTX_CORE_CR_MTX_RAM_ACCESS_STATUS_OFFSET
        (REPORT .REPORT_ERR w0).trace =
      readsFrom hw.REGION_PVDEC_MTX_CORE_REGSPACE hw.MTX_CORE_CR_MTX_RAM_ACCESS_STATUS_OFFSET
        w0.trace := fun w0 => filterMap_REPORT _ hd _ w0
  have hrep : ∀ (c : Bool) (w1 : World σ),
      readsFrom hw.REGION_PVDEC_MTX_CORE_REGSPACE hw.MTX_CORE_CR_MTX_RAM_ACCESS_STATUS_OFFSET
        (if c = true then REPORT .REPORT_ERR w1 else w1).trace =
      readsFrom hw.REGION_PVDEC_MTX_CORE_REGSPACE hw.MTX_CORE_CR_MTX_RAM_ACCESS_STATUS_OFFSET
        w1.trace := by
    intro c w1
    cases c
    · rfl
    · exact hrp w1
  have hpre : ∀ (w : World σ) (p : Nat × World σ) (q : Nat × World σ) (c : Bool),
      readsFrom hw.REGION_PVDEC_MTX_CORE_REGSPACE hw.MTX_CORE_CR_MTX_RAM_ACCESS_STATUS_OFFSET
        p.2.trace = readsFrom hw.REGION_PVDEC_MTX_CORE_REGSPACE
          hw.MTX_CORE_CR_MTX_RAM_ACCESS_STATUS_OFFSET w.trace →
      readsFrom hw.REGION_PVDEC_MTX_CORE_REGSPACE hw.MTX_CORE_CR_MTX_RAM_ACCESS_STATUS_OFFSET
        q.2.trace = readsFrom hw.REGION_PVDEC_MTX_CORE_REGSPACE
          hw.MTX_CORE_CR_MTX_RAM_ACCESS_STATUS_OFFSET w.trace →
      readsFrom hw.REGION_PVDEC_MTX_CORE_REGSPACE hw.MTX_CORE_CR_MTX_RAM_ACCESS_STATUS_OFFSET
        (if c = true then p else q).2.trace = readsFrom hw.REGION_PVDEC_MTX_CORE_REGSPACE
          hw.MTX_CORE_CR_MTX_RAM_ACCESS_STATUS_OFFSET w.trace := by
    intro w p q c hp hq
    cases c
    · exact hq
    · exact hp
  intro n
  induction n with
  | zero => intro i addr id w; simp [pvdecio_LoadFW.words]
  | succ n ih =>
    intro i addr id w
    unfold pvdecio_LoadFW.words
    simp only []
    rw [ih, pvdecio_LoadFW_word_status hw tal ctx hinit hcount hclk hfs,
      if_pos (pvdecio_LoadFW_wait_silent hw tal ctx hinit hcount hclk hsilent _ _), hrep, hwr,
      hpre w _ _ _ ((hrp _).trans (hwr _ _ _)) rfl]
    simp only [PVDEC_TIMEOUT_COUNTER]
    omega

/-- On a bus whose reads all deliver 0, `pvdecio_LoadFW` on an initialised
context reads the status register 1001 times for each word of the firmware. -/
theorem pvdecio_LoadFW_status_silent {σ : Type} (cfg : BuildConfig) (hw : HwDefs)
    (tal : TAL σ) (ctx : PVDECIO_sContext) (p : Nat) (w : World σ)
    (hinit : ctx.bInitialised = true) (hcount : ctx.ui32MemSpaceCount ≠ 0)
    (hcm : hw.REGION_PVDEC_CORE_REGSPACE ≠ hw.REGION_PVDEC_MTX_CORE_REGSPACE)
    (hfs : hw.MTX_CORE_CR_MTX_FAULT0_OFFSET ≠ hw.MTX_CORE_CR_MTX_RAM_ACCESS_STATUS_OFFSET)
    (hsilent : ∀ s h o, (tal.ReadWord32 s h o).2.1 = 0) :
    (readsFrom hw.REGION_PVDEC_MTX_CORE_REGSPACE hw.MTX_CORE_CR_MTX_RAM_ACCESS_STATUS_OFFSET
      (pvdecio_LoadFW cfg hw tal ctx p w).2.trace).length =
    (readsFrom hw.REGION_PVDEC_MTX_CORE_REGSPACE hw.MTX_CORE_CR_MTX_RAM_ACCESS_STATUS_OFFSET
      w.trace).length + 1001 * ctx.sFwInfo.ui32CoreSize := by
  have gcm := Fin.val_ne_of_ne hcm
  have hd := readFrom_SeesBusOnly hw.REGION_PVDEC_MTX_CORE_REGSPACE
    hw.MTX_CORE_CR_MTX_RAM_ACCESS_STATUS_OFFSET
  have hwr : ∀ (r o v q : Nat) (w0 : World σ),
      readsFrom hw.REGION_PVDEC_MTX_CORE_REGSPACE hw.MTX_CORE_CR_MTX_RAM_ACCESS_STATUS_OFFSET
        (PVDECIO_WriteRegister hw tal (some { ctx with bClocks := true }) r o v
          PVDEC_DEF_REG_MASK q w0).2.trace =
      readsFrom hw.REGION_PVDEC_MTX_CORE_REGSPACE hw.MTX_CORE_CR_MTX_RAM_ACCESS_STATUS_OFFSET
        w0.trace := fun r o v q w0 => readsFrom_PVDECIO_WriteRegister _ _ _ _ _ _ _ _ _ _
  have hstart : readsFrom hw.REGION_PVDEC_MTX_CORE_REGSPACE
      hw.MTX_CORE_CR_MTX_RAM_ACCESS_STATUS_OFFSET
      (REPORT .REPORT_ERR ((pvdecio_SetClocks cfg hw tal ctx (allClocks hw) w).log
        (.storeClocks true))).trace =
      readsFrom hw.REGION_PVDEC_MTX_CORE_REGSPACE hw.MTX_CORE_CR_MTX_RAM_ACCESS_STATUS_OFFSET
        w.trace :=
    (filterMap_REPORT _ hd _ _).trans ((filterMap_log _ hd (.storeClocks true) rfl _).trans
      (filterMap_pvdecio_SetClocks cfg hw tal ctx _ w _ hd
        (fun o v => readFrom_regRead_miss _ _ _ _ _ (fun hh => gcm hh.1)) (fun _ _ => rfl)))
  have hloop := pvdecio_LoadFW_words_status_silent hw tal { ctx with bClocks := true }
    ((1 <<< (ctx.sMTXRamInfo.ui32MTXBankSize + 2)) % 2 ^ 32) ctx.sFwInfo.ui32CoreSize
    ctx.sFwInfo.pvBlobCpuAddr hinit hcount rfl hfs hsilent ctx.sFwInfo.ui32CoreSize 0 0 0xFFFFFFFF
    (REPORT .REPORT_ERR ((pvdecio_SetClocks cfg hw tal ctx (allClocks hw) w).log
      (.storeClocks true)))
  rw [hstart] at hloop
  simp only [pvdecio_LoadFW, MTX_CORE_WriteRegister]
  rw [hwr, hwr, hwr, hwr]
  have hass : ∀ (c : Bool) (line : Nat) (w0 : World σ),
      readsFrom hw.REGION_PVDEC_MTX_CORE_REGSPACE hw.MTX_CORE_CR_MTX_RAM_ACCESS_STATUS_OFFSET
        (IMG_ASSERT c line w0).trace =
      readsFrom hw.REGION_PVDEC_MTX_CORE_REGSPACE hw.MTX_CORE_CR_MTX_RAM_ACCESS_STATUS_OFFSET
        w0.trace := fun c line w0 => filterMap_IMG_ASSERT _ hd c line w0
  rw [hass]
  exact hloop

/-- C27 (amended): the register upload (`pvdecio_LoadFW`) on an initialised
context and a register map whose registers lie apart, for every firmware and
whatever the bus delivers; the bank size exponent is below 30, so that the
bank size in bytes is not 0 in 32 bits and the division of the byte address by
it is defined. It writes the data transfer register once for each
of the `CoreSize` words, the `i`-th write carrying word `i`, none left out
after a fault or a timeout. The wait after a word is a number of rounds, at
most 1000 (`PVDEC_TIMEOUT_COUNTER`), each a read of the fault register that
delivers 0 followed by a read of the status register, and it ends at the first
read of the fault register that delivers another word, without reading the
status register after it. Over the whole upload the status register is read at
most 1001 times for each word: the 1000 of the wait and one more for the
report when the counter has run out. -/
theorem C27_every_word_written_and_wait_bounded {σ : Type} (cfg : BuildConfig) (hw : HwDefs)
    (tal : TAL σ) (ctx : PVDECIO_sContext) (p : Nat) (w : World σ) (hap : hw.Apart)
    (hfs : hw.MTX_CORE_CR_MTX_FAULT0_OFFSET ≠ hw.MTX_CORE_CR_MTX_RAM_ACCESS_STATUS_OFFSET)
    (hinit : ctx.bInitialised = true) (hcount : ctx.ui32MemSpaceCount ≠ 0)
    (hbank : ctx.sMTXRamInfo.ui32MTXBankSize + 2 < 32) :
    (1 <<< (ctx.sMTXRamInfo.ui32MTXBankSize + 2)) % 2 ^ 32 ≠ 0 ∧
    writesTo hw.REGION_PVDEC_MTX_CORE_REGSPACE hw.MTX_CORE_CR_MTX_RAM_ACCESS_DATA_TRANSFER_OFFSET
      (pvdecio_LoadFW cfg hw tal ctx p w).2.trace =
      writesTo hw.REGION_PVDEC_MTX_CORE_REGSPACE
        hw.MTX_CORE_CR_MTX_RAM_ACCESS_DATA_TRANSFER_OFFSET w.trace ++
        (List.range ctx.sFwInfo.ui32CoreSize).map
          (fun i => ctx.sFwInfo.pvBlobCpuAddr.getD i 0) ∧
    (∀ w0 : World σ, ∃ (ss : List Nat) (last : List Event),
      busEvents (pvdecio_LoadFW.wait hw tal { ctx with bClocks := true } PVDEC_TIMEOUT_COUNTER
        w0).2.trace = busEvents w0.trace ++
        ss.flatMap (fun s =>
          [.regRead hw.REGION_PVDEC_MTX_CORE_REGSPACE hw.MTX_CORE_CR_MTX_FAULT0_OFFSET 0,
            .regRead hw.REGION_PVDEC_MTX_CORE_REGSPACE
              hw.MTX_CORE_CR_MTX_RAM_ACCESS_STATUS_OFFSET s]) ++ last ∧
      ss.length ≤ 1000 ∧
      (last = [] ∨ ∃ f, f ≠ 0 ∧ last =
        [.regRead hw.REGION_PVDEC_MTX_CORE_REGSPACE hw.MTX_CORE_CR_MTX_FAULT0_OFFSET f])) ∧
    (readsFrom hw.REGION_PVDEC_MTX_CORE_REGSPACE hw.MTX_CORE_CR_MTX_RAM_ACCESS_STATUS_OFFSET
      (pvdecio_LoadFW cfg hw tal ctx p w).2.trace).length ≤
    (readsFrom hw.REGION_PVDEC_MTX_CORE_REGSPACE hw.MTX_CORE_CR_MTX_RAM_ACCESS_STATUS_OFFSET
      w.trace).length + 1001 * ctx.sFwInfo.ui32CoreSize := by
  have hcm : hw.REGION_PVDEC_CORE_REGSPACE ≠ hw.REGION_PVDEC_MTX_CORE_REGSPACE :=
    nodup_ne hap.1 0 1 rfl rfl (by decide)
  have hB : (1 <<< (ctx.sMTXRamInfo.ui32MTXBankSize + 2)) % 2 ^ 32 ≠ 0 := by
    rw [Nat.one_shiftLeft, Nat.mod_eq_of_lt (Nat.pow_lt_pow_right (by decide) hbank)]
    exact (Nat.two_pow_pos _).ne.symm
  refine ⟨hB, writesTo_pvdecio_LoadFW_data cfg hw tal ctx p w hap hinit hcount, ?_,
    pvdecio_LoadFW_status cfg hw tal ctx p w hinit hcount hcm hfs⟩
  intro w0
  obtain ⟨ss, last, h1, h2, h3⟩ := pvdecio_LoadFW_wait_bus hw tal { ctx with bClocks := true }
    hinit hcount rfl PVDEC_TIMEOUT_COUNTER w0
  refine ⟨ss, last, h1, ?_, h3⟩
  have : PVDEC_TIMEOUT_COUNTER = 1000 := rfl
  omega

/-- C27 on the sample map and plain storage, for the four words 10, 11, 12, 13:
the data transfer register (region 5, offset 0x104) is written four times, with
the four words in order. -/
theorem C27_every_word_written_and_wait_bounded_witness :
    sampleHw.Apart ∧ ctxUpload.bInitialised = true ∧
    ctxUpload.sMTXRamInfo.ui32MTXBankSize + 2 < 32 ∧
    writesTo 5 0x104 (pvdecio_LoadFW regUploadBuild sampleHw (plainStorage sampleHw) ctxUpload 1
      world0).2.trace = [10, 11, 12, 13] :=
  ⟨by decide, rfl, by decide,
    (C27_every_word_written_and_wait_bounded regUploadBuild sampleHw (plainStorage sampleHw)
      ctxUpload 1 world0 (by decide) (by decide) rfl (by decide) (by decide)).2.1.trans
      (by decide)⟩

/-- C27, the claim as written fails: on a bus whose reads all deliver 0 (no
fault, never complete), the register upload of a firmware of one word reads the
status register 1001 times, not at most 1000: 1000 times in the wait and once
more for the report of the timeout. The word 7 itself is written once. -/
theorem C27_counterexample_status_read_1001_times :
    ctxOneWord.sFwInfo.ui32CoreSize = 1 ∧ ctxOneWord.sMTXRamInfo.ui32MTXBankSize + 2 < 32 ∧
    PVDEC_TIMEOUT_COUNTER = 1000 ∧
    (readsFrom sampleHw.REGION_PVDEC_MTX_CORE_REGSPACE
      sampleHw.MTX_CORE_CR_MTX_RAM_ACCESS_STATUS_OFFSET
      (pvdecio_LoadFW regUploadBuild sampleHw unresponsive ctxOneWord 1 ⟨(), []⟩).2.trace).length =
      1001 ∧
    writesTo sampleHw.REGION_PVDEC_MTX_CORE_REGSPACE
      sampleHw.MTX_CORE_CR_MTX_RAM_ACCESS_DATA_TRANSFER_OFFSET
      (pvdecio_LoadFW regUploadBuild sampleHw unresponsive ctxOneWord 1 ⟨(), []⟩).2.trace = [7] := by
  refine ⟨rfl, by decide, rfl, ?_, ?_⟩
  · exact pvdecio_LoadFW_status_silent regUploadBuild sampleHw unresponsive ctxOneWord 1 ⟨(), []⟩
      rfl (by decide) (by decide) (by decide) (fun _ _ _ => rfl)
  · exact (writesTo_pvdecio_LoadFW_data regUploadBuild sampleHw unresponsive ctxOneWord 1
      ⟨(), []⟩ (by decide) rfl (by decide)).trans (by decide)

/-! ## The per-pipe loop and the firmware state -/

/-- A round of the per-pipe loop has a result exactly when its index is inside
both arrays of per-pipe states. -/
theorem PVDECIO_GetCoreState_pipe_isSome {σ : Type} (cfg : BuildConfig) (hw : HwDefs)
    (fw : FwDefs) (tal : TAL σ) (ctx : PVDECIO_sContext) (e : Nat)
    (s : VDECFW_sPVDECFirmwareState) (p : Nat) (st : VXDIO_sState) (w : World σ) :
    (PVDECIO_GetCoreState.pipe cfg hw fw tal ctx e s p st w).isSome =
      (decide (p < s.asPipeState.length) && decide (p < st.sFwState.asPipeState.length)) := by
  unfold PVDECIO_GetCoreState.pipe
  by_cases h1 : p < s.asPipeState.length
  · by_cases h2 : p < st.sFwState.asPipeState.length
    · simp [List.getElem?_eq_getElem h1, List.getElem?_eq_getElem h2, h1, h2]
    · have h2' : st.sFwState.asPipeState[p]? = none := by
        rw [List.getElem?_eq_none_iff]; omega
      simp [List.getElem?_eq_getElem h1, h2', h2]
  · have h1' : s.asPipeState[p]? = none := by
      rw [List.getElem?_eq_none_iff]; omega
    simp [h1', h1]

/-- A round of the per-pipe loop leaves the array of per-pipe states of the
state as long as it was. -/
theorem PVDECIO_GetCoreState_pipe_length {σ : Type} (cfg : BuildConfig) (hw : HwDefs)
    (fw : FwDefs) (tal : TAL σ) (ctx : PVDECIO_sContext) (e : Nat)
    (s : VDECFW_sPVDECFirmwareState) (p : Nat) (st : VXDIO_sState) (w : World σ)
    (r : VXDIO_sState × World σ)
    (hr : PVDECIO_GetCoreState.pipe cfg hw fw tal ctx e s p st w = some r) :
    r.1.sFwState.asPipeState.length = st.sFwState.asPipeState.length := by
  unfold PVDECIO_GetCoreState.pipe at hr
  split at hr
  · cases hr
    simp
  · cases hr
/-- The per-pipe loop of `PVDECIO_GetCoreState` ends when the number of pixel
pipes is at most 255 and both arrays of per-pipe states have that many
entries: from the counter `p`, with `k` pipes left, within `k + 1` tests; and
the array of the state is as long as it was. -/
theorem PVDECIO_GetCoreState_pipes_returned {σ : Type} (cfg : BuildConfig) (hw : HwDefs)
    (fw : FwDefs) (tal : TAL σ) (ctx : PVDECIO_sContext) (n e : Nat)
    (s : VDECFW_sPVDECFirmwareState) (hn : n ≤ 255) (hs : n ≤ s.asPipeState.length) :
    ∀ (k p fuel : Nat) (st : VXDIO_sState) (w : World σ), p + k = n → k < fuel →
      n ≤ st.sFwState.asPipeState.length →
      ∃ r, PVDECIO_GetCoreState.pipes cfg hw fw tal ctx n e s fuel p st w = .returned r ∧
        r.1.sFwState.asPipeState.length = st.sFwState.asPipeState.length := by
  intro k
  induction k with
  | zero =>
    intro p fuel st w hp hf _
    obtain ⟨f, rfl⟩ : ∃ f, fuel = f + 1 := ⟨fuel - 1, by omega⟩
    have : ¬ p < n := by omega
    exact ⟨(st, w), by simp [PVDECIO_GetCoreState.pipes, this], rfl⟩
  | succ k ih =>
    intro p fuel st w hp hf hst
    obtain ⟨f, rfl⟩ : ∃ f, fuel = f + 1 := ⟨fuel - 1, by omega⟩
    have hlt : p < n := by omega
    have hmod : (p + 1) % 256 = p + 1 := Nat.mod_eq_of_lt (by omega)
    have hsome := PVDECIO_GetCoreState_pipe_isSome cfg hw fw tal ctx e s p st w
    have h1 : p < s.asPipeState.length := by omega
    have h2 : p < st.sFwState.asPipeState.length := by omega
    simp only [h1, h2, decide_True, Bool.and_self, Option.isSome_iff_exists] at hsome
    obtain ⟨q, hq⟩ := hsome
    have hlen := PVDECIO_GetCoreState_pipe_length cfg hw fw tal ctx e s p st w q hq
    obtain ⟨r, hr, hrl⟩ := ih (p + 1) f q.1 q.2 (by omega) (by omega) (by omega)
    refine ⟨r, ?_, hrl.trans hlen⟩
    simp only [PVDECIO_GetCoreState.pipes, hlt, if_true, hq, hmod]
    exact hr

/-- The per-pipe loop of `PVDECIO_GetCoreState` does not end by its test when
the number of pixel pipes is above 255: the 8-bit counter stays below the
bound, so that a run either leaves the arrays of per-pipe states or goes on. -/
theorem PVDECIO_GetCoreState_pipes_not_returned {σ : Type} (cfg : BuildConfig) (hw : HwDefs)
    (fw : FwDefs) (tal : TAL σ) (ctx : PVDECIO_sContext) (n e : Nat)
    (s : VDECFW_sPVDECFirmwareState) (hn : 256 ≤ n) :
    ∀ (fuel p : Nat) (st : VXDIO_sState) (w : World σ) (r : VXDIO_sState × World σ), p < 256 →
      PVDECIO_GetCoreState.pipes cfg hw fw tal ctx n e s fuel p st w ≠ .returned r := by
  intro fuel
  induction fuel with
  | zero => intro p st w r _ h; cases h
  | succ f ih =>
    intro p st w r hp
    have hlt : p < n := by omega
    simp only [PVDECIO_GetCoreState.pipes, hlt, if_true]
    split
    · exact ih _ _ _ r (Nat.mod_lt _ (by decide))
    · intro h; cases h

/-- The per-pipe loop of `PVDECIO_GetCoreState` leaves the arrays of per-pipe
states when the number of pixel pipes is above the number of entries `m` of
the shorter one (`m` at most 255): the run ends as an overrun at index `m`,
within `m + 1` tests. -/
theorem PVDECIO_GetCoreState_pipes_overrun {σ : Type} (cfg : BuildConfig) (hw : HwDefs)
    (fw : FwDefs) (tal : TAL σ) (ctx : PVDECIO_sContext) (n e m : Nat)
    (s : VDECFW_sPVDECFirmwareState) (hm : m ≤ 255) (hn : m < n) :
    ∀ (k p fuel : Nat) (st : VXDIO_sState) (w : World σ), p + k = m → k < fuel →
      min s.asPipeState.length st.sFwState.asPipeState.length = m →
      PVDECIO_GetCoreState.pipes cfg hw fw tal ctx n e s fuel p st w =
        .overrun (.pipeState m) := by
  intro k
  induction k with
  | zero =>
    intro p fuel st w hp hf hmin
    obtain ⟨f, rfl⟩ : ∃ f, fuel = f + 1 := ⟨fuel - 1, by omega⟩
    have hpm : p = m := by omega
    subst hpm
    have hlt : p < n := hn
    have hsome := PVDECIO_GetCoreState_pipe_isSome cfg hw fw tal ctx e s p st w
    have hno : (decide (p < s.asPipeState.length) &&
        decide (p < st.sFwState.asPipeState.length)) = false := by
      simp only [Bool.and_eq_false_imp, decide_eq_true_eq, decide_eq_false_iff_not]
      omega
    rw [hno] at hsome
    have hnone : PVDECIO_GetCoreState.pipe cfg hw fw tal ctx e s p st w = none := by
      cases hq : PVDECIO_GetCoreState.pipe cfg hw fw tal ctx e s p st w with
      | none => rfl
      | some q => rw [hq] at hsome; cases hsome
    simp only [PVDECIO_GetCoreState.pipes, hlt, if_true, hnone]
  | succ k ih =>
    intro p fuel st w hp hf hmin
    obtain ⟨f, rfl⟩ : ∃ f, fuel = f + 1 := ⟨fuel - 1, by omega⟩
    have hlt : p < n := by omega
    have hmod : (p + 1) % 256 = p + 1 := Nat.mod_eq_of_lt (by omega)
    have hsome := PVDECIO_GetCoreState_pipe_isSome cfg hw fw tal ctx e s p st w
    have h1 : p < s.asPipeState.length := by omega
    have h2 : p < st.sFwState.asPipeState.length := by omega
    simp only [h1, h2, decide_True, Bool.and_self, Option.isSome_iff_exists] at hsome
    obtain ⟨q, hq⟩ := hsome
    have hlen := PVDECIO_GetCoreState_pipe_length cfg hw fw tal ctx e s p st w q hq
    simp only [PVDECIO_GetCoreState.pipes, hlt, if_true, hq, hmod]
    exact ih (p + 1) f q.1 q.2 (by omega) (by omega) (by rw [hlen]; exact hmin)

/-- The read loop of `PVDECIO_VLRReadWords` stores at most one word for each
word asked for. -/
theorem PVDECIO_VLRReadWords_loop_length {σ : Type} (cfg : BuildConfig) (hw : HwDefs)
    (tal : TAL σ) (ctx : PVDECIO_sContext) (region : Nat) (bValidate : Bool) :
    ∀ (n addr : Nat) (acc : List Nat) (w : World σ),
      (PVDECIO_VLRReadWords.loop cfg hw tal ctx region bValidate n addr acc w).2.1.length ≤
        acc.length + n := by
  intro n
  induction n with
  | zero => intro addr acc w; simp [PVDECIO_VLRReadWords.loop]
  | succ n ih =>
    intro addr acc w
    unfold PVDECIO_VLRReadWords.loop
    simp only []
    split
    · simp
    · split
      · split
        · simp
        · refine le_trans (ih _ _ _) ?_
          simp
          omega
      · refine le_trans (ih _ _ _) ?_
        simp
        omega

/-- The buffer after `PVDECIO_VLRReadWords` is as long as before when it has
room for the words asked for. -/
theorem PVDECIO_VLRReadWords_length {σ : Type} (cfg : BuildConfig) (hw : HwDefs)
    (tal : TAL σ) (hctx : Option PVDECIO_sContext) (region addr n : Nat) (buf : List Nat)
    (bValidate : Bool) (w : World σ) (hroom : n ≤ buf.length) :
    ((PVDECIO_VLRReadWords cfg hw tal hctx region addr n (some buf) bValidate w).2.1.getD
      []).length = buf.length := by
  unfold PVDECIO_VLRReadWords
  cases hctx with
  | none => rfl
  | some ctx =>
    simp only []
    split
    · rfl
    · have h := PVDECIO_VLRReadWords_loop_length cfg hw tal ctx region bValidate n addr [] w
      simp only [List.length_nil, Nat.zero_add] at h
      simp only [Option.getD_some, List.length_append, List.length_drop]
      omega

/-- The firmware block of `PVDECIO_GetCoreState` returns when the state buffer
fits the firmware state structure, the number of pixel pipes is at most 255,
both arrays of per-pipe states have that many entries and the fuel is above
it; the array of the state is as long as it was. -/
theorem PVDECIO_GetCoreState_firmware_returned {σ : Type} (cfg : BuildConfig) (hw : HwDefs)
    (fw : FwDefs) (tal : TAL σ) (ctx : PVDECIO_sContext) (n e : Nat) (st : VXDIO_sState)
    (fuel : Nat) (w : World σ)
    (hfit : ctx.sStateInfo.ui32Size >>> 2 ≤ fw.sizeofFirmwareStateWords)
    (hn : n ≤ 255) (hf : n < fuel) (hp : fw.HoldsPipes n)
    (hst : n ≤ st.sFwState.asPipeState.length) :
    ∃ r, PVDECIO_GetCoreState.firmware cfg hw fw tal ctx n e st fuel w = .returned r ∧
      r.1.sFwState.asPipeState.length = st.sFwState.asPipeState.length := by
  have hlen := PVDECIO_VLRReadWords_length cfg hw tal (some ctx) hw.REGION_PVDEC_VLR_REGSPACE
    ctx.sStateInfo.ui32Offset (ctx.sStateInfo.ui32Size >>> 2)
    (List.replicate fw.sizeofFirmwareStateWords 0) false w (by simpa using hfit)
  simp only [List.length_replicate] at hlen
  unfold PVDECIO_GetCoreState.firmware
  simp only [hlen, lt_irrefl, if_false]
  exact PVDECIO_GetCoreState_pipes_returned cfg hw fw tal ctx n e _ hn (hp _) n 0 fuel _ _
    (by omega) hf hst

/-- The end of `PVDECIO_GetCoreState` hands back the context it is given and
the result `IMG_SUCCESS`, and leaves the firmware part of the state as it
is. -/
theorem PVDECIO_GetCoreState_tail_context {σ : Type} (cfg : BuildConfig) (hw : HwDefs)
    (tal : TAL σ) (ctx : PVDECIO_sContext) (st : VXDIO_sState) (w : World σ) :
    (PVDECIO_GetCoreState.tail cfg hw tal ctx st w).1 = IMG_SUCCESS ∧
    (PVDECIO_GetCoreState.tail cfg hw tal ctx st w).2.1 = some ctx ∧
    (PVDECIO_GetCoreState.tail cfg hw tal ctx st w).2.2.1.sFwState = st.sFwState := by
  unfold PVDECIO_GetCoreState.tail
  split
  · exact ⟨rfl, rfl, rfl⟩
  · exact ⟨rfl, rfl, rfl⟩

/-- A call of `PVDECIO_GetCoreState` on a context with the clocks on returns,
with `IMG_SUCCESS` and the context as the discovery block leaves it, when the
state buffer so described fits the firmware state structure, the number of
pixel pipes is at most 255, both arrays of per-pipe states have that many
entries and the fuel is above it; the array of the state is as long as it
was. -/
theorem PVDECIO_GetCoreState_returned {σ : Type} (cfg : BuildConfig) (hw : HwDefs)
    (fw : FwDefs) (tal : TAL σ) (ctx : PVDECIO_sContext) (n e : Nat) (st : VXDIO_sState)
    (v fuel : Nat) (w : World σ) (hclk : ctx.bClocks = true)
    (hfit : (PVDECIO_GetCoreState.info cfg hw fw tal ctx v w).1.sStateInfo.ui32Size >>> 2 ≤
      fw.sizeofFirmwareStateWords)
    (hn : n ≤ 255) (hf : n < fuel) (hp : fw.HoldsPipes n)
    (hst : n ≤ st.sFwState.asPipeState.length) :
    ∃ r, PVDECIO_GetCoreState cfg hw fw tal (some ctx) n e st v fuel w = .returned r ∧
      r.1 = IMG_SUCCESS ∧
      r.2.1 = some (PVDECIO_GetCoreState.info cfg hw fw tal ctx v w).1 ∧
      r.2.2.1.sFwState.asPipeState.length = st.sFwState.asPipeState.length := by
  simp only [PVDECIO_GetCoreState, hclk, if_true]
  split
  · obtain ⟨q, hq, hql⟩ := PVDECIO_GetCoreState_firmware_returned cfg hw fw tal
      (PVDECIO_GetCoreState.info cfg hw fw tal ctx v w).1 n e st fuel
      (PVDECIO_GetCoreState.info cfg hw fw tal ctx v w).2 hfit hn hf hp hst
    rw [hq]
    obtain ⟨h1, h2, h3⟩ := PVDECIO_GetCoreState_tail_context cfg hw tal
      (PVDECIO_GetCoreState.info cfg hw fw tal ctx v w).1 q.1 q.2
    exact ⟨_, rfl, h1, h2, by rw [h3]; exact hql⟩
  · obtain ⟨h1, h2, h3⟩ := PVDECIO_GetCoreState_tail_context cfg hw tal
      (PVDECIO_GetCoreState.info cfg hw fw tal ctx v w).1 st
      (PVDECIO_GetCoreState.info cfg hw fw tal ctx v w).2
    exact ⟨_, rfl, h1, h2, by rw [h3]⟩

/-- The discovery block of `PVDECIO_GetCoreState` leaves a context whose state
buffer size is known (not 0) and the world as they are. -/
theorem PVDECIO_GetCoreState_info_known {σ : Type} (cfg : BuildConfig) (hw : HwDefs)
    (fw : FwDefs) (tal : TAL σ) (ctx : PVDECIO_sContext) (v : Nat) (w : World σ)
    (hsize : ctx.sStateInfo.ui32Size ≠ 0) :
    PVDECIO_GetCoreState.info cfg hw fw tal ctx v w = (ctx, w) := by
  have : (0 == ctx.sStateInfo.ui32Size) = false := by
    rw [beq_eq_false_iff_ne]; omega
  simp [PVDECIO_GetCoreState.info, this]

/-- A call of `PVDECIO_GetCoreState` with the clocks on, a state buffer (known
on entry or discovered by the call) of a size above 0 and a number of pixel
pipes above 255 does not return, whatever the fuel. -/
theorem PVDECIO_GetCoreState_not_returned {σ : Type} (cfg : BuildConfig) (hw : HwDefs)
    (fw : FwDefs) (tal : TAL σ) (ctx : PVDECIO_sContext) (n e : Nat) (st : VXDIO_sState)
    (v fuel : Nat) (w : World σ) (hc : ctx.bClocks = true)
    (hs : 0 < (PVDECIO_GetCoreState.info cfg hw fw tal ctx v w).1.sStateInfo.ui32Size)
    (hn : 256 ≤ n) (r : Nat × Option PVDECIO_sContext × VXDIO_sState × World σ) :
    PVDECIO_GetCoreState cfg hw fw tal (some ctx) n e st v fuel w ≠ .returned r := by
  have hz : (PVDECIO_GetCoreState.info cfg hw fw tal ctx v w).1.sStateInfo.ui32Size > 0 := hs
  simp only [PVDECIO_GetCoreState, hc, if_true, hz]
  have hfirm : ∀ q, PVDECIO_GetCoreState.firmware cfg hw fw tal
      (PVDECIO_GetCoreState.info cfg hw fw tal ctx v w).1 n e st fuel
      (PVDECIO_GetCoreState.info cfg hw fw tal ctx v w).2 ≠ .returned q := by
    intro q
    unfold PVDECIO_GetCoreState.firmware
    simp only []
    split
    · intro h; cases h
    · exact PVDECIO_GetCoreState_pipes_not_returned cfg hw fw tal _ n e _ hn fuel 0 _ _ q
        (by decide)
  split
  · rename_i q hq
    exact absurd hq (hfirm q)
  · intro h; cases h
  · intro h; cases h

/-- What `PVDECIO_GetCoreState` hands back. With a null context: the code
`IMG_ERROR_INVALID_PARAMETERS`, after one report, for every fuel. With a
context: whenever the call returns, the code is `IMG_SUCCESS`, whatever the
bus delivers; with the clock flag off it returns for every fuel and every
number of pipes, records nothing and hands back context and state as they
were; with the clock flag on it returns when the state buffer fits the
firmware state structure, the number of pixel pipes is at most 255, both
arrays of per-pipe states have that many entries and the fuel is above it. -/
theorem PVDECIO_GetCoreState_result {σ : Type} (cfg : BuildConfig) (hw : HwDefs) (fw : FwDefs)
    (tal : TAL σ) (n e : Nat) (st : VXDIO_sState) (v fuel : Nat) (w : World σ) :
    PVDECIO_GetCoreState cfg hw fw tal none n e st v fuel w =
      .returned (IMG_ERROR_INVALID_PARAMETERS, none, st, REPORT .REPORT_ERR w) ∧
    (∀ ctx r, PVDECIO_GetCoreState cfg hw fw tal (some ctx) n e st v fuel w = .returned r →
      r.1 = IMG_SUCCESS) ∧
    (∀ ctx, ctx.bClocks = false →
      PVDECIO_GetCoreState cfg hw fw tal (some ctx) n e st v fuel w =
        .returned (IMG_SUCCESS, some ctx, st, w)) ∧
    (∀ ctx, ctx.bClocks = true →
      (PVDECIO_GetCoreState.info cfg hw fw tal ctx v w).1.sStateInfo.ui32Size >>> 2 ≤
        fw.sizeofFirmwareStateWords →
      n ≤ 255 → n < fuel → fw.HoldsPipes n → n ≤ st.sFwState.asPipeState.length →
      ∃ r, PVDECIO_GetCoreState cfg hw fw tal (some ctx) n e st v fuel w = .returned r ∧
        r.1 = IMG_SUCCESS) := by
  refine ⟨rfl, ?_, ?_, ?_⟩
  · intro ctx r hr
    unfold PVDECIO_GetCoreState at hr
    simp only [] at hr
    split at hr
    · split at hr
      · split at hr
        · cases hr
          exact (PVDECIO_GetCoreState_tail_context cfg hw tal _ _ _).1
        · cases hr
        · cases hr
      · cases hr
        exact (PVDECIO_GetCoreState_tail_context cfg hw tal _ _ _).1
    · cases hr
      rfl
  · intro ctx hc
    simp [PVDECIO_GetCoreState, hc]
  · intro ctx hc hfit hn hf hp hst
    obtain ⟨r, hr, h1, _⟩ := PVDECIO_GetCoreState_returned cfg hw fw tal ctx n e st v fuel w hc
      hfit hn hf hp hst
    exact ⟨r, hr, h1⟩

/-! ## The reads of `PVDECIO_GetCoreState` -/

/-- One round of the per-pipe loop of `PVDECIO_GetCoreState` adds no read in a
region that is none of the five it reads. -/
theorem readsFrom_PVDECIO_GetCoreState_pipe {σ : Type} (cfg : BuildConfig) (hw : HwDefs)
    (fw : FwDefs) (tal : TAL σ) (ctx : PVDECIO_sContext) (e : Nat)
    (s : VDECFW_sPVDECFirmwareState) (p : Nat) (st : VXDIO_sState) (w : World σ) (h o : Nat)
    (r : VXDIO_sState × World σ)
    (h1 : (hw.REGION_PVDEC_PIXEL_DMA_REGSPACE : Nat) ≠ h)
    (h2 : (hw.REGION_PVDEC_ENTROPY_PIPE_REGSPACE : Nat) ≠ h)
    (h3 : (hw.REGION_PVDEC_VEC_BE : Nat) ≠ h)
    (h4 : (hw.REGION_PVDEC_MSVDX_VEC : Nat) ≠ h)
    (h5 : (hw.REGION_PVDEC_MSVDX_VDMC : Nat) ≠ h)
    (hr : PVDECIO_GetCoreState.pipe cfg hw fw tal ctx e s p st w = some r) :
    readsFrom h o r.2.trace = readsFrom h o w.trace := by
  have hd := readFrom_SeesBusOnly h o
  have hdma : ∀ (ch line : Nat) (w0 : World σ), readsFrom h o
      (PIXEL_DMA_ReadRegMacro hw tal (some ctx) p ch hw.DMAC_DMAC_COUNT_OFFSET
        hw.DMAC_DMAC_COUNT_STRIDE hw.DMAC_DMAC_COUNT_NO_ENTRIES line w0).2.trace =
      readsFrom h o w0.trace := by
    intro ch line w0
    unfold PIXEL_DMA_ReadRegMacro
    rw [readsFrom_PVDECIO_ReadRegister_miss _ _ _ _ _ _ _ _ _ (fun hh => h1 hh.1)]
    exact filterMap_IMG_ASSERT _ hd _ _ _
  have hpipe : ∀ (r : Fin hw.REGION_PVDEC_MAX) (q o1 : Nat) (w0 : World σ), (r : Nat) ≠ h →
      readsFrom h o (ReadPipeRegister hw tal (some ctx) r q o1 w0).2.trace =
        readsFrom h o w0.trace := by
    intro r q o1 w0 hr
    exact readsFrom_PVDECIO_ReadRegister_miss _ _ _ _ _ _ _ _ _ (fun hh => hr hh.1)
  unfold PVDECIO_GetCoreState.pipe at hr
  split at hr
  · cases hr
    simp only []
    split
    · split
      · split
        · split
          · simp only [hpipe _ _ _ _ h3, hpipe _ _ _ _ h2, hdma]
          · simp only [hpipe _ _ _ _ h3, hdma]
        · split
          · simp only [hpipe _ _ _ _ h5, hpipe _ _ _ _ h4, hdma]
          · simp only [hdma]
      · simp only [hdma]
    · rfl
  · cases hr

/-- The per-pipe loop of `PVDECIO_GetCoreState`, when it ends, has added no
read in a region that is none of the five it reads. -/
theorem readsFrom_PVDECIO_GetCoreState_pipes {σ : Type} (cfg : BuildConfig) (hw : HwDefs)
    (fw : FwDefs) (tal : TAL σ) (ctx : PVDECIO_sContext) (n e : Nat)
    (s : VDECFW_sPVDECFirmwareState) (h o : Nat)
    (h1 : (hw.REGION_PVDEC_PIXEL_DMA_REGSPACE : Nat) ≠ h)
    (h2 : (hw.REGION_PVDEC_ENTROPY_PIPE_REGSPACE : Nat) ≠ h)
    (h3 : (hw.REGION_PVDEC_VEC_BE : Nat) ≠ h)
    (h4 : (hw.REGION_PVDEC_MSVDX_VEC : Nat) ≠ h)
    (h5 : (hw.REGION_PVDEC_MSVDX_VDMC : Nat) ≠ h) :
    ∀ (fuel p : Nat) (st : VXDIO_sState) (w : World σ) (r : VXDIO_sState × World σ),
      PVDECIO_GetCoreState.pipes cfg hw fw tal ctx n e s fuel p st w = .returned r →
      readsFrom h o r.2.trace = readsFrom h o w.trace := by
  intro fuel
  induction fuel with
  | zero => intro p st w r hr; cases hr
  | succ f ih =>
    intro p st w r hr
    simp only [PVDECIO_GetCoreState.pipes] at hr
    split at hr
    · split at hr
      · rename_i q hq
        rw [ih _ _ _ r hr,
          readsFrom_PVDECIO_GetCoreState_pipe cfg hw fw tal ctx e s p st w h o q h1 h2 h3 h4 h5
            hq]
      · cases hr
    · cases hr
      rfl

/-- The block of `PVDECIO_GetCoreState` on the MTX adds no read in a region
other than that of the MTX. -/
theorem readsFrom_PVDECIO_GetCoreState_mtx {σ : Type} (hw : HwDefs) (tal : TAL σ)
    (ctx : PVDECIO_sContext) (st : VXDIO_sState) (w : World σ) (h o : Nat)
    (h6 : (hw.REGION_PVDEC_MTX_CORE_REGSPACE : Nat) ≠ h) :
    readsFrom h o (PVDECIO_GetCoreState.mtx hw tal ctx st w).2.trace = readsFrom h o w.trace := by
  have hrd : ∀ (o1 : Nat) (w0 : World σ), readsFrom h o
      (MTX_CORE_ReadRegister hw tal (some ctx) o1 w0).2.trace = readsFrom h o w0.trace := by
    intro o1 w0
    exact readsFrom_PVDECIO_ReadRegister_miss _ _ _ _ _ _ _ _ _ (fun hh => h6 hh.1)
  have hwr : ∀ (o1 v : Nat) (w0 : World σ), readsFrom h o
      (MTX_CORE_WriteRegister hw tal (some ctx) o1 v w0).2.trace = readsFrom h o w0.trace := by
    intro o1 v w0
    exact readsFrom_PVDECIO_WriteRegister _ _ _ _ _ _ _ _ _ _
  simp only [PVDECIO_GetCoreState.mtx, hrd, hwr]

/-- The end of `PVDECIO_GetCoreState` adds no read in a region other than that
of the MTX. -/
theorem readsFrom_PVDECIO_GetCoreState_tail {σ : Type} (cfg : BuildConfig) (hw : HwDefs)
    (tal : TAL σ) (ctx : PVDECIO_sContext) (st : VXDIO_sState) (w : World σ) (h o : Nat)
    (h6 : (hw.REGION_PVDEC_MTX_CORE_REGSPACE : Nat) ≠ h) :
    readsFrom h o (PVDECIO_GetCoreState.tail cfg hw tal ctx st w).2.2.2.trace =
      readsFrom h o w.trace := by
  unfold PVDECIO_GetCoreState.tail
  split
  · exact readsFrom_PVDECIO_GetCoreState_mtx hw tal ctx st w h o h6
  · rfl

/-- The block of `PVDECIO_GetCoreState` that reads the firmware state, when it
ends, has added no read of a register that is outside the state buffer and
outside the five regions of the per-pipe reads. -/
theorem readsFrom_PVDECIO_GetCoreState_firmware {σ : Type} (cfg : BuildConfig) (hw : HwDefs)
    (fw : FwDefs) (tal : TAL σ) (ctx : PVDECIO_sContext) (n e : Nat) (st : VXDIO_sState)
    (fuel : Nat) (w : World σ) (h o : Nat) (r : VXDIO_sState × World σ)
    (h1 : (hw.REGION_PVDEC_PIXEL_DMA_REGSPACE : Nat) ≠ h)
    (h2 : (hw.REGION_PVDEC_ENTROPY_PIPE_REGSPACE : Nat) ≠ h)
    (h3 : (hw.REGION_PVDEC_VEC_BE : Nat) ≠ h)
    (h4 : (hw.REGION_PVDEC_MSVDX_VEC : Nat) ≠ h)
    (h5 : (hw.REGION_PVDEC_MSVDX_VDMC : Nat) ≠ h)
    (hout : o ∉ stateWords ctx)
    (hr : PVDECIO_GetCoreState.firmware cfg hw fw tal ctx n e st fuel w = .returned r) :
    readsFrom h o r.2.trace = readsFrom h o w.trace := by
  unfold PVDECIO_GetCoreState.firmware at hr
  simp only [] at hr
  split at hr
  · cases hr
  · rw [readsFrom_PVDECIO_GetCoreState_pipes cfg hw fw tal ctx n e _ h o h1 h2 h3 h4 h5 _ _ _ _ r
      hr, readsFrom_PVDECIO_VLRReadWords cfg hw tal _ _ _ _ _ w h o hout]

/-- A call of `PVDECIO_GetCoreState` that is entered with the clocks on and the
size of the state buffer known: when it returns, the context is as it was, and
no read of a register outside the state buffer and outside the regions of the
per-pipe and MTX reads has been added. -/
theorem PVDECIO_GetCoreState_known {σ : Type} (cfg : BuildConfig) (hw : HwDefs) (fw : FwDefs)
    (tal : TAL σ) (ctx : PVDECIO_sContext) (n e : Nat) (st : VXDIO_sState) (v fuel : Nat)
    (w : World σ) (h o : Nat) (r : Nat × Option PVDECIO_sContext × VXDIO_sState × World σ)
    (hclk : ctx.bClocks = true) (hsize : ctx.sStateInfo.ui32Size ≠ 0)
    (h1 : (hw.REGION_PVDEC_PIXEL_DMA_REGSPACE : Nat) ≠ h)
    (h2 : (hw.REGION_PVDEC_ENTROPY_PIPE_REGSPACE : Nat) ≠ h)
    (h3 : (hw.REGION_PVDEC_VEC_BE : Nat) ≠ h)
    (h4 : (hw.REGION_PVDEC_MSVDX_VEC : Nat) ≠ h)
    (h5 : (hw.REGION_PVDEC_MSVDX_VDMC : Nat) ≠ h)
    (h6 : (hw.REGION_PVDEC_MTX_CORE_REGSPACE : Nat) ≠ h)
    (hout : o ∉ stateWords ctx)
    (hr : PVDECIO_GetCoreState cfg hw fw tal (some ctx) n e st v fuel w = .returned r) :
    r.2.1 = some ctx ∧ readsFrom h o r.2.2.2.trace = readsFrom h o w.trace := by
  have hi := PVDECIO_GetCoreState_info_known cfg hw fw tal ctx v w hsize
  have hz : ctx.sStateInfo.ui32Size > 0 := by omega
  simp only [PVDECIO_GetCoreState, hclk, if_true, hi, hz] at hr
  split at hr
  · rename_i p hp
    cases hr
    refine ⟨(PVDECIO_GetCoreState_tail_context cfg hw tal ctx p.1 p.2).2.1, ?_⟩
    rw [readsFrom_PVDECIO_GetCoreState_tail cfg hw tal ctx p.1 p.2 h o h6,
      readsFrom_PVDECIO_GetCoreState_firmware cfg hw fw tal ctx n e st fuel w h o p h1 h2 h3 h4
        h5 hout hp]
  · cases hr
  · cases hr

/-- The discovery block of `PVDECIO_GetCoreState` on a context whose state
buffer size is 0, for a header word at an aligned address: it reads the header
word once and stores the size and the offset that the word read decodes to. -/
theorem PVDECIO_GetCoreState_info_unknown {σ : Type} (cfg : BuildConfig) (hw : HwDefs)
    (fw : FwDefs) (tal : TAL σ) (ctx : PVDECIO_sContext) (v : Nat) (w : World σ)
    (hsize : ctx.sStateInfo.ui32Size = 0)
    (halign : fw.PVDEC_COM_RAM_STATE_BUF_SIZE_AND_OFFSET_OFFSET &&& 0x3 = 0) :
    (PVDECIO_GetCoreState.info cfg hw fw tal ctx v w).1 =
      { ctx with sStateInfo :=
        ⟨fw.PVDEC_COM_RAM_BUF_GET_SIZE_STATE (tal.ReadWord32 w.dev hw.REGION_PVDEC_VLR_REGSPACE
            fw.PVDEC_COM_RAM_STATE_BUF_SIZE_AND_OFFSET_OFFSET).2.1,
          fw.PVDEC_COM_RAM_BUF_GET_OFFSET_STATE (tal.ReadWord32 w.dev
            hw.REGION_PVDEC_VLR_REGSPACE
            fw.PVDEC_COM_RAM_STATE_BUF_SIZE_AND_OFFSET_OFFSET).2.1⟩ } ∧
    (PVDECIO_GetCoreState.info cfg hw fw tal ctx v w).2.trace = w.trace ++
      [.regRead hw.REGION_PVDEC_VLR_REGSPACE fw.PVDEC_COM_RAM_STATE_BUF_SIZE_AND_OFFSET_OFFSET
        (tal.ReadWord32 w.dev hw.REGION_PVDEC_VLR_REGSPACE
          fw.PVDEC_COM_RAM_STATE_BUF_SIZE_AND_OFFSET_OFFSET).2.1] := by
  have hv : pahMemSpace hw hw.REGION_PVDEC_VLR_REGSPACE =
      some (hw.REGION_PVDEC_VLR_REGSPACE : Nat) := by
    simp [pahMemSpace, hw.REGION_PVDEC_VLR_REGSPACE.isLt]
  unfold PVDECIO_GetCoreState.info
  simp only [hsize, beq_self_eq_true, if_true, PVDECIO_VLRReadWords, halign,
    PVDECIO_VLRReadWords.loop, TALREG_ReadWord32, hv]
  constructor <;> (simp; try split <;> simp)

/-- A call of `PVDECIO_GetCoreState` that is entered with the clocks on and the
size of the state buffer not known (0), the header word at an aligned address:
when it returns, the context holds the size and offset that the header word
read decodes to, and exactly one read of the header word has been added,
provided the header word is outside the state buffer so described and the
local RAM is none of the regions of the per-pipe and MTX reads. -/
theorem PVDECIO_GetCoreState_unknown {σ : Type} (cfg : BuildConfig) (hw : HwDefs) (fw : FwDefs)
    (tal : TAL σ) (ctx : PVDECIO_sContext) (n e : Nat) (st : VXDIO_sState) (v fuel : Nat)
    (w : World σ) (r : Nat × Option PVDECIO_sContext × VXDIO_sState × World σ)
    (hclk : ctx.bClocks = true) (hsize : ctx.sStateInfo.ui32Size = 0)
    (halign : fw.PVDEC_COM_RAM_STATE_BUF_SIZE_AND_OFFSET_OFFSET &&& 0x3 = 0)
    (h1 : hw.REGION_PVDEC_PIXEL_DMA_REGSPACE ≠ hw.REGION_PVDEC_VLR_REGSPACE)
    (h2 : hw.REGION_PVDEC_ENTROPY_PIPE_REGSPACE ≠ hw.REGION_PVDEC_VLR_REGSPACE)
    (h3 : hw.REGION_PVDEC_VEC_BE ≠ hw.REGION_PVDEC_VLR_REGSPACE)
    (h4 : hw.REGION_PVDEC_MSVDX_VEC ≠ hw.REGION_PVDEC_VLR_REGSPACE)
    (h5 : hw.REGION_PVDEC_MSVDX_VDMC ≠ hw.REGION_PVDEC_VLR_REGSPACE)
    (h6 : hw.REGION_PVDEC_MTX_CORE_REGSPACE ≠ hw.REGION_PVDEC_VLR_REGSPACE)
    (hout : fw.PVDEC_COM_RAM_STATE_BUF_SIZE_AND_OFFSET_OFFSET ∉
      stateWords (PVDECIO_GetCoreState.info cfg hw fw tal ctx v w).1)
    (hr : PVDECIO_GetCoreState cfg hw fw tal (some ctx) n e st v fuel w = .returned r) :
    r.2.1 = some (PVDECIO_GetCoreState.info cfg hw fw tal ctx v w).1 ∧
    readsFrom hw.REGION_PVDEC_VLR_REGSPACE fw.PVDEC_COM_RAM_STATE_BUF_SIZE_AND_OFFSET_OFFSET
      r.2.2.2.trace =
      readsFrom hw.REGION_PVDEC_VLR_REGSPACE fw.PVDEC_COM_RAM_STATE_BUF_SIZE_AND_OFFSET_OFFSET
        w.trace ++ [(tal.ReadWord32 w.dev hw.REGION_PVDEC_VLR_REGSPACE
          fw.PVDEC_COM_RAM_STATE_BUF_SIZE_AND_OFFSET_OFFSET).2.1] := by
  have ht := (PVDECIO_GetCoreState_info_unknown cfg hw fw tal ctx v w hsize halign).2
  have hrd : readsFrom hw.REGION_PVDEC_VLR_REGSPACE
      fw.PVDEC_COM_RAM_STATE_BUF_SIZE_AND_OFFSET_OFFSET
      (PVDECIO_GetCoreState.info cfg hw fw tal ctx v w).2.trace =
      readsFrom hw.REGION_PVDEC_VLR_REGSPACE fw.PVDEC_COM_RAM_STATE_BUF_SIZE_AND_OFFSET_OFFSET
        w.trace ++ [(tal.ReadWord32 w.dev hw.REGION_PVDEC_VLR_REGSPACE
          fw.PVDEC_COM_RAM_STATE_BUF_SIZE_AND_OFFSET_OFFSET).2.1] := by
    rw [ht, readsFrom_append]
    simp [readsFrom, Event.readFrom]
  have g1 := Fin.val_ne_of_ne h1
  have g2 := Fin.val_ne_of_ne h2
  have g3 := Fin.val_ne_of_ne h3
  have g4 := Fin.val_ne_of_ne h4
  have g5 := Fin.val_ne_of_ne h5
  have g6 := Fin.val_ne_of_ne h6
  simp only [PVDECIO_GetCoreState, hclk, if_true] at hr
  split at hr
  · split at hr
    · rename_i p hp
      cases hr
      refine ⟨(PVDECIO_GetCoreState_tail_context cfg hw tal _ p.1 p.2).2.1, ?_⟩
      rw [readsFrom_PVDECIO_GetCoreState_tail cfg hw tal _ p.1 p.2 _ _ g6,
        readsFrom_PVDECIO_GetCoreState_firmware cfg hw fw tal _ n e st fuel _ _ _ p g1 g2 g3 g4
          g5 hout hp, hrd]
    · cases hr
    · cases hr
  · cases hr
    refine ⟨(PVDECIO_GetCoreState_tail_context cfg hw tal _ _ _).2.1, ?_⟩
    rw [readsFrom_PVDECIO_GetCoreState_tail cfg hw tal _ _ _ _ _ g6, hrd]

/-- Calls of `PVDECIO_GetCoreState` in a row, entered with the clocks on and
the size of the state buffer known: when they return, the context is as it
was, and no read of a register outside the state buffer and outside the
regions of the per-pipe and MTX reads has been added. -/
theorem PVDECIO_GetCoreState_calls_known {σ : Type} (cfg : BuildConfig) (hw : HwDefs)
    (fw : FwDefs) (tal : TAL σ) (ctx : PVDECIO_sContext) (n e v fuel : Nat) (h o : Nat)
    (hclk : ctx.bClocks = true) (hsize : ctx.sStateInfo.ui32Size ≠ 0)
    (h1 : (hw.REGION_PVDEC_PIXEL_DMA_REGSPACE : Nat) ≠ h)
    (h2 : (hw.REGION_PVDEC_ENTROPY_PIPE_REGSPACE : Nat) ≠ h)
    (h3 : (hw.REGION_PVDEC_VEC_BE : Nat) ≠ h)
    (h4 : (hw.REGION_PVDEC_MSVDX_VEC : Nat) ≠ h)
    (h5 : (hw.REGION_PVDEC_MSVDX_VDMC : Nat) ≠ h)
    (h6 : (hw.REGION_PVDEC_MTX_CORE_REGSPACE : Nat) ≠ h)
    (hout : o ∉ stateWords ctx) :
    ∀ (k : Nat) (st : VXDIO_sState) (w : World σ)
      (r : PVDECIO_sContext × VXDIO_sState × World σ),
      PVDECIO_GetCoreState.calls cfg hw fw tal n e v fuel k ctx st w = .returned r →
      r.1 = ctx ∧ readsFrom h o r.2.2.trace = readsFrom h o w.trace := by
  intro k
  induction k with
  | zero =>
    intro st w r hr
    simp only [PVDECIO_GetCoreState.calls] at hr
    cases hr
    exact ⟨rfl, rfl⟩
  | succ k ih =>
    intro st w r hr
    simp only [PVDECIO_GetCoreState.calls] at hr
    split at hr
    · rename_i q hq
      obtain ⟨hc, ht⟩ := PVDECIO_GetCoreState_known cfg hw fw tal ctx n e st v fuel w h o q hclk
        hsize h1 h2 h3 h4 h5 h6 hout hq
      rw [hc] at hr
      obtain ⟨hc2, ht2⟩ := ih _ _ r hr
      exact ⟨hc2, ht2.trans ht⟩
    · cases hr
    · cases hr

/-- Calls of `PVDECIO_GetCoreState` in a row on a context with the clocks on
and the size of the state buffer known all return, when the state buffer fits
the firmware state structure, the number of pixel pipes is at most 255, both
arrays of per-pipe states have that many entries and the fuel is above it. -/
theorem PVDECIO_GetCoreState_calls_returned {σ : Type} (cfg : BuildConfig) (hw : HwDefs)
    (fw : FwDefs) (tal : TAL σ) (ctx : PVDECIO_sContext) (n e v fuel : Nat)
    (hclk : ctx.bClocks = true) (hsize : ctx.sStateInfo.ui32Size ≠ 0)
    (hfit : ctx.sStateInfo.ui32Size >>> 2 ≤ fw.sizeofFirmwareStateWords)
    (hn : n ≤ 255) (hf : n < fuel) (hp : fw.HoldsPipes n) :
    ∀ (k : Nat) (st : VXDIO_sState) (w : World σ), n ≤ st.sFwState.asPipeState.length →
      ∃ r, PVDECIO_GetCoreState.calls cfg hw fw tal n e v fuel k ctx st w = .returned r := by
  intro k
  induction k with
  | zero => intro st w _; exact ⟨_, rfl⟩
  | succ k ih =>
    intro st w hst
    have hi := PVDECIO_GetCoreState_info_known cfg hw fw tal ctx v w hsize
    obtain ⟨q, hq, _, hqc, hql⟩ := PVDECIO_GetCoreState_returned cfg hw fw tal ctx n e st v fuel
      w hclk (by rw [hi]; exact hfit) hn hf hp hst
    rw [hi] at hqc
    obtain ⟨r, hr⟩ := ih q.2.2.1 q.2.2.2 (by omega)
    exact ⟨r, by simp only [PVDECIO_GetCoreState.calls, hq, hqc, Option.getD_some]; exact hr⟩

/-! ## Claim C22: the discovery of the state buffer -/

/-- C22 (amended): over calls of `PVDECIO_GetCoreState` in a row on one
context with the clocks on, each call staying inside the firmware state
structure and the per-pipe arrays (the state buffer fits the structure, the
number of pixel pipes is at most 255 and both arrays have that many entries,
so that every call returns), with the header word at an aligned address
outside the state buffer and the local RAM none of the regions of the per-pipe
and MTX reads: the header word is read by exactly the calls that are entered
with a cached size of 0. Entered with a size other than 0, `k` calls read the
header word not at all and leave the cached size and offset as they are.
Entered with the size 0, the first call reads the header word once and caches
what it decodes to; when that size is not 0, the `k` calls after it do not
read the header word again. -/
theorem C22_header_read_while_size_unknown {σ : Type} (cfg : BuildConfig) (hw : HwDefs)
    (fw : FwDefs) (tal : TAL σ) (ctx : PVDECIO_sContext) (n e v fuel k : Nat)
    (st : VXDIO_sState) (w : World σ)
    (hclk : ctx.bClocks = true)
    (halign : fw.PVDEC_COM_RAM_STATE_BUF_SIZE_AND_OFFSET_OFFSET &&& 0x3 = 0)
    (h1 : hw.REGION_PVDEC_PIXEL_DMA_REGSPACE ≠ hw.REGION_PVDEC_VLR_REGSPACE)
    (h2 : hw.REGION_PVDEC_ENTROPY_PIPE_REGSPACE ≠ hw.REGION_PVDEC_VLR_REGSPACE)
    (h3 : hw.REGION_PVDEC_VEC_BE ≠ hw.REGION_PVDEC_VLR_REGSPACE)
    (h4 : hw.REGION_PVDEC_MSVDX_VEC ≠ hw.REGION_PVDEC_VLR_REGSPACE)
    (h5 : hw.REGION_PVDEC_MSVDX_VDMC ≠ hw.REGION_PVDEC_VLR_REGSPACE)
    (h6 : hw.REGION_PVDEC_MTX_CORE_REGSPACE ≠ hw.REGION_PVDEC_VLR_REGSPACE)
    (hn : n ≤ 255) (hf : n < fuel) (hp : fw.HoldsPipes n)
    (hst : n ≤ st.sFwState.asPipeState.length) :
    let V : Nat := hw.REGION_PVDEC_VLR_REGSPACE
    let H := fw.PVDEC_COM_RAM_STATE_BUF_SIZE_AND_OFFSET_OFFSET
    let word := (tal.ReadWord32 w.dev V H).2.1
    let found : PVDECIO_sContext := { ctx with sStateInfo :=
      ⟨fw.PVDEC_COM_RAM_BUF_GET_SIZE_STATE word, fw.PVDEC_COM_RAM_BUF_GET_OFFSET_STATE word⟩ }
    (ctx.sStateInfo.ui32Size ≠ 0 →
      ctx.sStateInfo.ui32Size >>> 2 ≤ fw.sizeofFirmwareStateWords → H ∉ stateWords ctx →
      ∃ r, PVDECIO_GetCoreState.calls cfg hw fw tal n e v fuel k ctx st w = .returned r ∧
        r.1 = ctx ∧ readsFrom V H r.2.2.trace = readsFrom V H w.trace) ∧
    (ctx.sStateInfo.ui32Size = 0 →
      found.sStateInfo.ui32Size >>> 2 ≤ fw.sizeofFirmwareStateWords → H ∉ stateWords found →
      k = 0 ∨ found.sStateInfo.ui32Size ≠ 0 →
      ∃ r, PVDECIO_GetCoreState.calls cfg hw fw tal n e v fuel (k + 1) ctx st w = .returned r ∧
        r.1 = found ∧ readsFrom V H r.2.2.trace = readsFrom V H w.trace ++ [word]) := by
  intro V H word found
  have g1 := Fin.val_ne_of_ne h1
  have g2 := Fin.val_ne_of_ne h2
  have g3 := Fin.val_ne_of_ne h3
  have g4 := Fin.val_ne_of_ne h4
  have g5 := Fin.val_ne_of_ne h5
  have g6 := Fin.val_ne_of_ne h6
  constructor
  · intro hsize hfit hout
    obtain ⟨r, hr⟩ := PVDECIO_GetCoreState_calls_returned cfg hw fw tal ctx n e v fuel hclk hsize
      hfit hn hf hp k st w hst
    exact ⟨r, hr, PVDECIO_GetCoreState_calls_known cfg hw fw tal ctx n e v fuel V H hclk hsize
      g1 g2 g3 g4 g5 g6 hout k st w r hr⟩
  · intro hsize hfit hout hk
    have hfound : (PVDECIO_GetCoreState.info cfg hw fw tal ctx v w).1 = found :=
      (PVDECIO_GetCoreState_info_unknown cfg hw fw tal ctx v w hsize halign).1
    obtain ⟨q, hq, _, hqc, hql⟩ := PVDECIO_GetCoreState_returned cfg hw fw tal ctx n e st v fuel
      w hclk (by rw [hfound]; exact hfit) hn hf hp hst
    obtain ⟨_, ht⟩ := PVDECIO_GetCoreState_unknown cfg hw fw tal ctx n e st v fuel w q hclk
      hsize halign h1 h2 h3 h4 h5 h6 (by rw [hfound]; exact hout) hq
    rw [hfound] at hqc
    have hstep : PVDECIO_GetCoreState.calls cfg hw fw tal n e v fuel (k + 1) ctx st w =
        PVDECIO_GetCoreState.calls cfg hw fw tal n e v fuel k found q.2.2.1 q.2.2.2 := by
      simp only [PVDECIO_GetCoreState.calls, hq, hqc, Option.getD_some]
    rw [hstep]
    rcases hk with hk | hk
    · subst hk
      exact ⟨_, rfl, rfl, ht⟩
    · have hclk2 : found.bClocks = true := hclk
      obtain ⟨r, hr⟩ := PVDECIO_GetCoreState_calls_returned cfg hw fw tal found n e v fuel hclk2
        hk hfit hn hf hp k q.2.2.1 q.2.2.2 (by omega)
      obtain ⟨hc2, ht2⟩ := PVDECIO_GetCoreState_calls_known cfg hw fw tal found n e v fuel V H
        hclk2 hk g1 g2 g3 g4 g5 g6 hout k _ _ r hr
      exact ⟨r, hr, hc2, ht2.trans ht⟩

/-- C22 on the sample map and plain storage, two pixel pipes and arrays of
three. From the context with the state buffer known, two calls read the header
word not at all. From the context with the size 0 and the header word
0x900040 (144 bytes at offset 0x40, the size of the sample firmware state),
three calls read the header word once and leave that size and offset
cached. -/
theorem C22_header_read_while_size_unknown_witness :
    (ctxState.bClocks = true ∧ ctxState.sStateInfo.ui32Size ≠ 0 ∧
      ctxState.sStateInfo.ui32Size >>> 2 ≤ sampleFw.sizeofFirmwareStateWords ∧
      ∃ r, PVDECIO_GetCoreState.calls defaultBuild sampleHw sampleFw (plainStorage sampleHw)
          2 1 0 3 2 ctxState state0 world0 = .returned r ∧ r.1 = ctxState ∧
        readsFrom 13 0x20 r.2.2.trace = readsFrom 13 0x20 world0.trace) ∧
    (ctxOn.sStateInfo.ui32Size = 0 ∧
      ∃ r, PVDECIO_GetCoreState.calls defaultBuild sampleHw sampleFw (plainStorage sampleHw)
          2 1 0 3 (2 + 1) ctxOn state0 (worldHeader 0x900040) = .returned r ∧ r.1 = ctxState ∧
        readsFrom 13 0x20 r.2.2.trace =
          readsFrom 13 0x20 (worldHeader 0x900040).trace ++ [0x900040]) :=
  ⟨⟨rfl, by decide, by decide,
      (C22_header_read_while_size_unknown defaultBuild sampleHw sampleFw (plainStorage sampleHw)
        ctxState 2 1 0 3 2 state0 world0 rfl (by decide) (by decide) (by decide) (by decide)
        (by decide) (by decide) (by decide) (by decide) (by decide)
        (fun ws => by simp [sampleFw]) (by decide)).1 (by decide) (by decide) (by decide)⟩,
    ⟨rfl,
      (C22_header_read_while_size_unknown defaultBuild sampleHw sampleFw (plainStorage sampleHw)
        ctxOn 2 1 0 3 2 state0 (worldHeader 0x900040) rfl (by decide) (by decide) (by decide)
        (by decide) (by decide) (by decide) (by decide) (by decide) (by decide)
        (fun ws => by simp [sampleFw]) (by decide)).2 rfl (by decide) (by decide)
        (Or.inr (by decide))⟩⟩

/-- C22, the claim as written fails: with a header word that decodes to the
size 0 (here the word 0, on plain storage), the size cached stays 0 and every
call reads the header word again: two calls in a row, both returning, issue
two reads of the header word. -/
theorem C22_counterexample_header_read_again :
    sampleFw.PVDEC_COM_RAM_BUF_GET_SIZE_STATE 0 = 0 ∧
    (PVDECIO_GetCoreState.calls defaultBuild sampleHw sampleFw (plainStorage sampleHw)
      2 1 0 3 2 ctxOn state0 (worldHeader 0)).map
        (fun r => (r.1.sStateInfo, readsFrom sampleHw.REGION_PVDEC_VLR_REGSPACE
          sampleFw.PVDEC_COM_RAM_STATE_BUF_SIZE_AND_OFFSET_OFFSET r.2.2.trace)) =
      .returned (⟨0, 0⟩, [0, 0]) := by
  decide

/-! ## Bounds on what the loops record -/

/-- A world continues itself by no event. -/
theorem Within_refl {σ : Type} (w : World σ) : World.Within 0 w w :=
  ⟨[], by simp, by simp⟩

/-- Continuations compose, and their bounds add up. -/
theorem Within_trans {σ : Type} {a b : Nat} {w0 w1 w2 : World σ}
    (h1 : World.Within a w0 w1) (h2 : World.Within b w1 w2) : World.Within (a + b) w0 w2 := by
  obtain ⟨r1, e1, l1⟩ := h1
  obtain ⟨r2, e2, l2⟩ := h2
  exact ⟨r1 ++ r2, by rw [e2, e1, List.append_assoc], by simp only [List.length_append]; omega⟩

/-- A bound on a continuation may be raised. -/
theorem Within_mono {σ : Type} {a b : Nat} {w0 w1 : World σ} (h : World.Within a w0 w1)
    (hab : a ≤ b) : World.Within b w0 w1 := by
  obtain ⟨r, e, l⟩ := h
  exact ⟨r, e, le_trans l hab⟩

/-- Recording one event continues the world by one event. -/
theorem Within_log {σ : Type} (w : World σ) (e : Event) : World.Within 1 w (w.log e) :=
  ⟨[e], rfl, by simp⟩

/-- A world with the same trace and another device state continues the world
by no event. -/
theorem Within_dev {σ : Type} (w : World σ) (d : σ) : World.Within 0 w ⟨d, w.trace⟩ :=
  ⟨[], by simp, by simp⟩

/-- An assertion records at most one event. -/
theorem Within_IMG_ASSERT {σ : Type} (c : Bool) (line : Nat) (w : World σ) :
    World.Within 1 w (IMG_ASSERT c line w) := by
  unfold IMG_ASSERT
  split
  · exact Within_mono (Within_refl w) (by omega)
  · exact Within_log w _

/-- A report records one event. -/
theorem Within_REPORT {σ : Type} (l : ReportLevel) (w : World σ) :
    World.Within 1 w (REPORT l w) :=
  Within_log w _

/-- A bus read call records one event. -/
theorem Within_TALREG_ReadWord32 {σ : Type} (hw : HwDefs) (tal : TAL σ)
    (index offset dflt : Nat) (w : World σ) :
    World.Within 1 w (TALREG_ReadWord32 hw tal index offset dflt w).2.2 := by
  obtain ⟨e, he⟩ := TALREG_ReadWord32_trace hw tal index offset dflt w
  exact ⟨[e], he, by simp⟩

/-- A bus write call records one event. -/
theorem Within_TALREG_WriteWord32 {σ : Type} (hw : HwDefs) (tal : TAL σ)
    (index offset value : Nat) (w : World σ) :
    World.Within 1 w (TALREG_WriteWord32 hw tal index offset value w).2 := by
  obtain ⟨e, he⟩ := TALREG_WriteWord32_trace hw tal index offset value w
  exact ⟨[e], he, by simp⟩

/-- A bus poll call records one event. -/
theorem Within_TALREG_Poll32 {σ : Type} (hw : HwDefs) (tal : TAL σ)
    (index offset f req en cnt tmo : Nat) (w : World σ) :
    World.Within 1 w (TALREG_Poll32 hw tal index offset f req en cnt tmo w).2 := by
  obtain ⟨e, he⟩ := TALREG_Poll32_trace hw tal index offset f req en cnt tmo w
  exact ⟨[e], he, by simp⟩

/-- The pipe selection records at most two events. -/
theorem Within_pvdecio_SelectPipe {σ : Type} (hw : HwDefs) (tal : TAL σ)
    (ctx : PVDECIO_sContext) (p : Nat) (w : World σ) :
    World.Within 2 w (pvdecio_SelectPipe hw tal ctx p w) := by
  unfold pvdecio_SelectPipe
  split
  · exact Within_trans (Within_IMG_ASSERT _ _ w) (Within_TALREG_WriteWord32 _ _ _ _ _ _)
  · exact Within_mono (Within_refl w) (by omega)

/-- A call of `PVDECIO_ReadRegister` records at most four events. -/
theorem Within_PVDECIO_ReadRegister {σ : Type} (hw : HwDefs) (tal : TAL σ)
    (h : Option PVDECIO_sContext) (region offset pipe : Nat) (w : World σ) :
    World.Within 4 w (PVDECIO_ReadRegister hw tal h region offset pipe w).2 := by
  unfold PVDECIO_ReadRegister
  cases h with
  | none =>
    exact Within_mono (Within_trans (Within_IMG_ASSERT _ _ w) (Within_REPORT _ _)) (by omega)
  | some ctx =>
    simp only []
    split
    · exact Within_mono (Within_REPORT _ w) (by omega)
    · split
      · exact Within_trans (Within_trans (Within_IMG_ASSERT _ _ w)
          (Within_pvdecio_SelectPipe hw tal ctx pipe _)) (Within_TALREG_ReadWord32 _ _ _ _ _ _)
      · exact Within_mono (Within_trans (Within_IMG_ASSERT _ _ w) (Within_REPORT _ _)) (by omega)

/-- A call of `PVDECIO_WriteRegister` records at most five events. -/
theorem Within_PVDECIO_WriteRegister {σ : Type} (hw : HwDefs) (tal : TAL σ)
    (h : Option PVDECIO_sContext) (region offset value mask pipe : Nat) (w : World σ) :
    World.Within 5 w (PVDECIO_WriteRegister hw tal h region offset value mask pipe w).2 := by
  unfold PVDECIO_WriteRegister
  cases h with
  | none =>
    exact Within_mono (Within_trans (Within_IMG_ASSERT _ _ w) (Within_REPORT _ _)) (by omega)
  | some ctx =>
    simp only []
    split
    · exact Within_mono (Within_REPORT _ w) (by omega)
    · split
      · split
        · exact Within_trans (Within_trans (Within_trans (Within_IMG_ASSERT _ _ w)
            (Within_pvdecio_SelectPipe hw tal ctx pipe _))
            (Within_TALREG_ReadWord32 _ _ _ _ _ _)) (Within_TALREG_WriteWord32 _ _ _ _ _ _)
        · exact Within_mono (Within_trans (Within_trans (Within_IMG_ASSERT _ _ w)
            (Within_pvdecio_SelectPipe hw tal ctx pipe _))
            (Within_TALREG_WriteWord32 _ _ _ _ _ _)) (by omega)
      · exact Within_mono (Within_trans (Within_IMG_ASSERT _ _ w) (Within_REPORT _ _)) (by omega)

/-- The write loop of `PVDECIO_VLRWriteWords` records at most one event for
each word: it runs at most `n` rounds. -/
theorem Within_PVDECIO_VLRWriteWords_loop {σ : Type} (hw : HwDefs) (tal : TAL σ)
    (region : Nat) :
    ∀ (n addr : Nat) (vals : List Nat) (w : World σ),
      World.Within n w (PVDECIO_VLRWriteWords.loop hw tal region n addr vals w).2 := by
  intro n
  induction n with
  | zero => intro addr vals w; exact Within_refl w
  | succ n ih =>
    intro addr vals w
    unfold PVDECIO_VLRWriteWords.loop
    simp only []
    split
    · exact Within_mono (Within_TALREG_WriteWord32 _ _ _ _ _ _) (by omega)
    · exact Within_mono (Within_trans (Within_TALREG_WriteWord32 hw tal region addr _ w)
        (ih _ _ _)) (by omega)

/-- The verifying poll records at most two events. -/
theorem Within_PVDECIO_PDUMPVerifPoll {σ : Type} (hw : HwDefs) (tal : TAL σ)
    (h : Option PVDECIO_sContext) (region offset req en : Nat) (w : World σ) :
    World.Within 2 w (PVDECIO_PDUMPVerifPoll hw tal h region offset req en w).2 := by
  unfold PVDECIO_PDUMPVerifPoll
  cases h with
  | none => exact Within_trans (Within_IMG_ASSERT _ _ w) (Within_REPORT _ _)
  | some ctx =>
    exact Within_trans (Within_TALREG_Poll32 _ _ _ _ _ _ _ _ _ w) (Within_IMG_ASSERT _ _ _)

/-- The read loop of `PVDECIO_VLRReadWords` records at most three events for
each word: it runs at most `n` rounds. -/
theorem Within_PVDECIO_VLRReadWords_loop {σ : Type} (cfg : BuildConfig) (hw : HwDefs)
    (tal : TAL σ) (ctx : PVDECIO_sContext) (region : Nat) (bValidate : Bool) :
    ∀ (n addr : Nat) (acc : List Nat) (w : World σ),
      World.Within (3 * n) w
        (PVDECIO_VLRReadWords.loop cfg hw tal ctx region bValidate n addr acc w).2.2 := by
  intro n
  induction n with
  | zero => intro addr acc w; exact Within_refl w
  | succ n ih =>
    intro addr acc w
    unfold PVDECIO_VLRReadWords.loop
    simp only []
    split
    · exact Within_mono (Within_TALREG_ReadWord32 _ _ _ _ _ _) (by omega)
    · split
      · split
        · exact Within_mono (Within_trans (Within_TALREG_ReadWord32 hw tal region addr 0 w)
            (Within_PVDECIO_PDUMPVerifPoll _ _ _ _ _ _ _ _)) (by omega)
        · exact Within_mono (Within_trans (Within_trans
            (Within_TALREG_ReadWord32 hw tal region addr 0 w)
            (Within_PVDECIO_PDUMPVerifPoll _ _ _ _ _ _ _ _)) (ih _ _ _)) (by omega)
      · exact Within_mono (Within_trans (Within_TALREG_ReadWord32 hw tal region addr 0 w)
          (ih _ _ _)) (by omega)

/-- The loop that clears the comms header records at most five events for each
word: it runs `n` rounds. -/
theorem Within_clearCommsHeader {σ : Type} (hw : HwDefs) (tal : TAL σ)
    (ctx : PVDECIO_sContext) :
    ∀ (n i : Nat) (w : World σ), World.Within (5 * n) w (clearCommsHeader hw tal ctx n i w) := by
  intro n
  induction n with
  | zero => intro i w; exact Within_refl w
  | succ n ih =>
    intro i w
    unfold clearCommsHeader
    exact Within_mono (Within_trans (Within_PVDECIO_WriteRegister hw tal (some ctx) _ _ _ _ _ w)
      (ih _ _)) (by omega)

/-- The wait of `pvdecio_LoadFW` records at most eight events for each round
that its counter allows: it runs at most `t` rounds. -/
theorem Within_pvdecio_LoadFW_wait {σ : Type} (hw : HwDefs) (tal : TAL σ)
    (ctx : PVDECIO_sContext) :
    ∀ (t : Nat) (w : World σ), World.Within (8 * t) w (pvdecio_LoadFW.wait hw tal ctx t w).2 := by
  intro t
  induction t with
  | zero => intro w; exact Within_refl w
  | succ t ih =>
    intro w
    unfold pvdecio_LoadFW.wait
    simp only [MTX_CORE_ReadRegister]
    split
    · exact Within_mono (Within_trans (Within_PVDECIO_ReadRegister hw tal (some ctx) _ _ _ w)
        (Within_REPORT _ _)) (by omega)
    · split
      · exact Within_mono (Within_trans (Within_trans
          (Within_PVDECIO_ReadRegister hw tal (some ctx) _ _ _ w)
          (Within_PVDECIO_ReadRegister hw tal (some ctx) _ _ _ _)) (ih _)) (by omega)
      · exact Within_mono (Within_trans (Within_PVDECIO_ReadRegister hw tal (some ctx) _ _ _ w)
          (Within_PVDECIO_ReadRegister hw tal (some ctx) _ _ _ _)) (by omega)

/-- The word loop of `pvdecio_LoadFW` records at most 8017 events for each
word, whatever the bus delivers: it runs `n` rounds, each with a wait of at
most 1000 rounds. -/
theorem Within_pvdecio_LoadFW_words {σ : Type} (hw : HwDefs) (tal : TAL σ)
    (ctx : PVDECIO_sContext) (B size : Nat) (buf : List Nat) :
    ∀ (n i addr id : Nat) (w : World σ),
      World.Within (8017 * n) w (pvdecio_LoadFW.words hw tal ctx B size buf n i addr id w) := by
  intro n
  induction n with
  | zero => intro i addr id w; exact Within_refl w
  | succ n ih =>
    intro i addr id w
    unfold pvdecio_LoadFW.words
    simp only [MTX_CORE_WriteRegister, MTX_CORE_ReadRegister]
    have hsel : ∀ (c : Bool) (v x y : Nat) (w0 : World σ), World.Within 6 w0
        (if c then (x, REPORT .REPORT_ERR (PVDECIO_WriteRegister hw tal (some ctx)
          hw.REGION_PVDEC_MTX_CORE_REGSPACE hw.MTX_CORE_CR_MTX_RAM_ACCESS_CONTROL_OFFSET v
          PVDEC_DEF_REG_MASK PVDEC_DEF_PIPE w0).2) else (y, w0) : Nat × World σ).2 := by
      intro c v x y w0
      cases c
      · exact Within_mono (Within_refl w0) (by omega)
      · exact Within_trans (Within_PVDECIO_WriteRegister _ _ _ _ _ _ _ _ _) (Within_REPORT _ _)
    have hdump : ∀ (c : Bool) (w0 : World σ), World.Within 1 w0
        (if c then REPORT .REPORT_ERR w0 else w0) := by
      intro c w0
      cases c
      · exact Within_mono (Within_refl w0) (by omega)
      · exact Within_REPORT _ _
    have htmo : ∀ (c : Bool) (w0 : World σ), World.Within 5 w0
        (if c then REPORT .REPORT_ERR (PVDECIO_ReadRegister hw tal (some ctx)
          hw.REGION_PVDEC_MTX_CORE_REGSPACE hw.MTX_CORE_CR_MTX_RAM_ACCESS_STATUS_OFFSET
          PVDEC_DEF_PIPE w0).2 else w0) := by
      intro c w0
      cases c
      · exact Within_mono (Within_refl w0) (by omega)
      · exact Within_trans (Within_PVDECIO_ReadRegister _ _ _ _ _ _ _) (Within_REPORT _ _)
    refine Within_mono (Within_trans (Within_trans (Within_trans (Within_trans (Within_trans
      (hsel _ _ _ _ w) (Within_PVDECIO_WriteRegister hw tal (some ctx) _ _ _ _ _ _))
      (hdump _ _)) (Within_pvdecio_LoadFW_wait hw tal ctx PVDEC_TIMEOUT_COUNTER _))
      (htmo _ _)) (ih _ _ _ _)) ?_
    simp only [PVDEC_TIMEOUT_COUNTER]
    omega

/-- The loop of `PVDECIO_TriggerSim` records at most four events for each
round: it runs `n` rounds. -/
theorem Within_PVDECIO_TriggerSim_loop {σ : Type} (hw : HwDefs) (tal : TAL σ)
    (h : Option PVDECIO_sContext) :
    ∀ (n : Nat) (w : World σ), World.Within (4 * n) w (PVDECIO_TriggerSim.loop hw tal h n w) := by
  intro n
  induction n with
  | zero => intro w; exact Within_refl w
  | succ n ih =>
    intro w
    unfold PVDECIO_TriggerSim.loop
    exact Within_mono (Within_trans (Within_PVDECIO_ReadRegister hw tal h _ _ _ w) (ih _))
      (by omega)

/-- The device loop of `PVDECIO_Initialise` records at most two events for each
device: it runs at most `n` rounds. -/
theorem Within_PVDECIO_Initialise_devices {σ : Type} (sec : SECDEV σ) :
    ∀ (n i : Nat) (w : World σ),
      World.Within (2 * n) w (PVDECIO_Initialise.devices sec n i w).2 := by
  intro n
  induction n with
  | zero => intro i w; exact Within_refl w
  | succ n ih =>
    intro i w
    unfold PVDECIO_Initialise.devices
    simp only []
    split
    · exact Within_mono (Within_trans (Within_log w _) (Within_dev _ _)) (by omega)
    · split
      · exact Within_mono (Within_trans (Within_trans (Within_trans (Within_log w _)
          (Within_dev _ _)) (Within_log _ _)) (Within_dev _ _)) (by omega)
      · exact Within_mono (Within_trans (Within_trans (Within_trans (Within_trans
          (Within_log w _) (Within_dev _ _)) (Within_log _ _)) (Within_dev _ _)) (ih _ _))
          (by omega)

/-! ## What the rounds of the loops record at least -/

/-- A world continues itself. -/
theorem Beyond_refl {σ : Type} (w : World σ) : World.Beyond 0 w w :=
  ⟨[], by simp, by simp⟩

/-- Continuations compose, and what they record at least adds up. -/
theorem Beyond_trans {σ : Type} {a b : Nat} {w0 w1 w2 : World σ}
    (h1 : World.Beyond a w0 w1) (h2 : World.Beyond b w1 w2) : World.Beyond (a + b) w0 w2 := by
  obtain ⟨r1, e1, l1⟩ := h1
  obtain ⟨r2, e2, l2⟩ := h2
  exact ⟨r1 ++ r2, by rw [e2, e1, List.append_assoc], by simp only [List.length_append]; omega⟩

/-- A lower bound on a continuation may be lowered. -/
theorem Beyond_mono {σ : Type} {a b : Nat} {w0 w1 : World σ} (h : World.Beyond a w0 w1)
    (hab : b ≤ a) : World.Beyond b w0 w1 := by
  obtain ⟨r, e, l⟩ := h
  exact ⟨r, e, le_trans hab l⟩

/-- A bounded continuation is a continuation. -/
theorem Beyond_of_Within {σ : Type} {a : Nat} {w0 w1 : World σ} (h : World.Within a w0 w1) :
    World.Beyond 0 w0 w1 := by
  obtain ⟨r, e, _⟩ := h
  exact ⟨r, e, Nat.zero_le _⟩

/-- Recording one event continues the world by one event. -/
theorem Beyond_log {σ : Type} (w : World σ) (e : Event) : World.Beyond 1 w (w.log e) :=
  ⟨[e], rfl, by simp⟩

/-- A world with the same trace and another device state continues the
world. -/
theorem Beyond_dev {σ : Type} (w : World σ) (d : σ) : World.Beyond 0 w ⟨d, w.trace⟩ :=
  ⟨[], by simp, by simp⟩

/-- A report records one event. -/
theorem Beyond_REPORT {σ : Type} (l : ReportLevel) (w : World σ) :
    World.Beyond 1 w (REPORT l w) :=
  Beyond_log w _

/-- A bus read call records one event. -/
theorem Beyond_TALREG_ReadWord32 {σ : Type} (hw : HwDefs) (tal : TAL σ)
    (index offset dflt : Nat) (w : World σ) :
    World.Beyond 1 w (TALREG_ReadWord32 hw tal index offset dflt w).2.2 := by
  obtain ⟨e, he⟩ := TALREG_ReadWord32_trace hw tal index offset dflt w
  exact ⟨[e], he, by simp⟩

/-- A bus write call records one event. -/
theorem Beyond_TALREG_WriteWord32 {σ : Type} (hw : HwDefs) (tal : TAL σ)
    (index offset value : Nat) (w : World σ) :
    World.Beyond 1 w (TALREG_WriteWord32 hw tal index offset value w).2 := by
  obtain ⟨e, he⟩ := TALREG_WriteWord32_trace hw tal index offset value w
  exact ⟨[e], he, by simp⟩

/-- A call of `PVDECIO_ReadRegister` records at least one event. -/
theorem Beyond_PVDECIO_ReadRegister {σ : Type} (hw : HwDefs) (tal : TAL σ)
    (h : Option PVDECIO_sContext) (region offset pipe : Nat) (w : World σ) :
    World.Beyond 1 w (PVDECIO_ReadRegister hw tal h region offset pipe w).2 := by
  unfold PVDECIO_ReadRegister
  cases h with
  | none =>
    exact Beyond_mono (Beyond_trans (Beyond_of_Within (Within_IMG_ASSERT _ _ w))
      (Beyond_REPORT _ _)) (by omega)
  | some ctx =>
    simp only []
    split
    · exact Beyond_REPORT _ w
    · split
      · exact Beyond_mono (Beyond_trans (Beyond_trans (Beyond_of_Within (Within_IMG_ASSERT _ _ w))
          (Beyond_of_Within (Within_pvdecio_SelectPipe hw tal ctx pipe _)))
          (Beyond_TALREG_ReadWord32 _ _ _ _ _ _)) (by omega)
      · exact Beyond_mono (Beyond_trans (Beyond_of_Within (Within_IMG_ASSERT _ _ w))
          (Beyond_REPORT _ _)) (by omega)

/-- A call of `PVDECIO_WriteRegister` records at least one event. -/
theorem Beyond_PVDECIO_WriteRegister {σ : Type} (hw : HwDefs) (tal : TAL σ)
    (h : Option PVDECIO_sContext) (region offset value mask pipe : Nat) (w : World σ) :
    World.Beyond 1 w (PVDECIO_WriteRegister hw tal h region offset value mask pipe w).2 := by
  unfold PVDECIO_WriteRegister
  cases h with
  | none =>
    exact Beyond_mono (Beyond_trans (Beyond_of_Within (Within_IMG_ASSERT _ _ w))
      (Beyond_REPORT _ _)) (by omega)
  | some ctx =>
    simp only []
    split
    · exact Beyond_REPORT _ w
    · split
      · split
        · exact Beyond_mono (Beyond_trans (Beyond_trans (Beyond_trans
            (Beyond_of_Within (Within_IMG_ASSERT _ _ w))
            (Beyond_of_Within (Within_pvdecio_SelectPipe hw tal ctx pipe _)))
            (Beyond_TALREG_ReadWord32 _ _ _ _ _ _)) (Beyond_TALREG_WriteWord32 _ _ _ _ _ _))
            (by omega)
        · exact Beyond_mono (Beyond_trans (Beyond_trans
            (Beyond_of_Within (Within_IMG_ASSERT _ _ w))
            (Beyond_of_Within (Within_pvdecio_SelectPipe hw tal ctx pipe _)))
            (Beyond_TALREG_WriteWord32 _ _ _ _ _ _)) (by omega)
      · exact Beyond_mono (Beyond_trans (Beyond_of_Within (Within_IMG_ASSERT _ _ w))
          (Beyond_REPORT _ _)) (by omega)

/-- The write loop of `PVDECIO_VLRWriteWords` records an event when it has a
word to write: it runs its first round. -/
theorem Beyond_PVDECIO_VLRWriteWords_loop {σ : Type} (hw : HwDefs) (tal : TAL σ)
    (region : Nat) :
    ∀ (n addr : Nat) (vals : List Nat) (w : World σ),
      World.Beyond (min 1 n) w (PVDECIO_VLRWriteWords.loop hw tal region n addr vals w).2 := by
  intro n
  induction n with
  | zero => intro addr vals w; exact Beyond_refl w
  | succ n ih =>
    intro addr vals w
    unfold PVDECIO_VLRWriteWords.loop
    simp only []
    split
    · exact Beyond_mono (Beyond_TALREG_WriteWord32 _ _ _ _ _ _) (by omega)
    · exact Beyond_mono (Beyond_trans (Beyond_TALREG_WriteWord32 hw tal region addr _ w)
        (ih _ _ _)) (by omega)

/-- The read loop of `PVDECIO_VLRReadWords` records an event when it has a
word to read: it runs its first round. -/
theorem Beyond_PVDECIO_VLRReadWords_loop {σ : Type} (cfg : BuildConfig) (hw : HwDefs)
    (tal : TAL σ) (ctx : PVDECIO_sContext) (region : Nat) (bValidate : Bool) :
    ∀ (n addr : Nat) (acc : List Nat) (w : World σ),
      World.Beyond (min 1 n) w
        (PVDECIO_VLRReadWords.loop cfg hw tal ctx region bValidate n addr acc w).2.2 := by
  intro n
  induction n with
  | zero => intro addr acc w; exact Beyond_refl w
  | succ n ih =>
    intro addr acc w
    unfold PVDECIO_VLRReadWords.loop
    simp only []
    split
    · exact Beyond_mono (Beyond_TALREG_ReadWord32 _ _ _ _ _ _) (by omega)
    · split
      · split
        · exact Beyond_mono (Beyond_trans (Beyond_TALREG_ReadWord32 hw tal region addr 0 w)
            (Beyond_of_Within (Within_PVDECIO_PDUMPVerifPoll _ _ _ _ _ _ _ _))) (by omega)
        · exact Beyond_mono (Beyond_trans (Beyond_trans
            (Beyond_TALREG_ReadWord32 hw tal region addr 0 w)
            (Beyond_of_Within (Within_PVDECIO_PDUMPVerifPoll _ _ _ _ _ _ _ _))) (ih _ _ _))
            (by omega)
      · exact Beyond_mono (Beyond_trans (Beyond_TALREG_ReadWord32 hw tal region addr 0 w)
          (ih _ _ _)) (by omega)

/-- The loop that clears the comms header records at least one event for each
word: it runs `n` rounds. -/
theorem Beyond_clearCommsHeader {σ : Type} (hw : HwDefs) (tal : TAL σ)
    (ctx : PVDECIO_sContext) :
    ∀ (n i : Nat) (w : World σ), World.Beyond n w (clearCommsHeader hw tal ctx n i w) := by
  intro n
  induction n with
  | zero => intro i w; exact Beyond_refl w
  | succ n ih =>
    intro i w
    unfold clearCommsHeader
    exact Beyond_mono (Beyond_trans (Beyond_PVDECIO_WriteRegister hw tal (some ctx) _ _ _ _ _ w)
      (ih _ _)) (by omega)

/-- The wait of `pvdecio_LoadFW` records an event when its counter allows a
round: it runs its first round. -/
theorem Beyond_pvdecio_LoadFW_wait {σ : Type} (hw : HwDefs) (tal : TAL σ)
    (ctx : PVDECIO_sContext) :
    ∀ (t : Nat) (w : World σ),
      World.Beyond (min 1 t) w (pvdecio_LoadFW.wait hw tal ctx t w).2 := by
  intro t
  induction t with
  | zero => intro w; exact Beyond_refl w
  | succ t ih =>
    intro w
    unfold pvdecio_LoadFW.wait
    simp only [MTX_CORE_ReadRegister]
    split
    · exact Beyond_mono (Beyond_trans (Beyond_PVDECIO_ReadRegister hw tal (some ctx) _ _ _ w)
        (Beyond_REPORT _ _)) (by omega)
    · split
      · exact Beyond_mono (Beyond_trans (Beyond_trans
          (Beyond_PVDECIO_ReadRegister hw tal (some ctx) _ _ _ w)
          (Beyond_PVDECIO_ReadRegister hw tal (some ctx) _ _ _ _)) (ih _)) (by omega)
      · exact Beyond_mono (Beyond_trans (Beyond_PVDECIO_ReadRegister hw tal (some ctx) _ _ _ w)
          (Beyond_PVDECIO_ReadRegister hw tal (some ctx) _ _ _ _)) (by omega)

/-- The word loop of `pvdecio_LoadFW` records at least one event for each
word: it runs `n` rounds. -/
theorem Beyond_pvdecio_LoadFW_words {σ : Type} (hw : HwDefs) (tal : TAL σ)
    (ctx : PVDECIO_sContext) (B size : Nat) (buf : List Nat) :
    ∀ (n i addr id : Nat) (w : World σ),
      World.Beyond n w (pvdecio_LoadFW.words hw tal ctx B size buf n i addr id w) := by
  intro n
  induction n with
  | zero => intro i addr id w; exact Beyond_refl w
  | succ n ih =>
    intro i addr id w
    unfold pvdecio_LoadFW.words
    simp only [MTX_CORE_WriteRegister, MTX_CORE_ReadRegister]
    have hsel : ∀ (c : Bool) (v x y : Nat) (w0 : World σ), World.Beyond 0 w0
        (if c then (x, REPORT .REPORT_ERR (PVDECIO_WriteRegister hw tal (some ctx)
          hw.REGION_PVDEC_MTX_CORE_REGSPACE hw.MTX_CORE_CR_MTX_RAM_ACCESS_CONTROL_OFFSET v
          PVDEC_DEF_REG_MASK PVDEC_DEF_PIPE w0).2) else (y, w0) : Nat × World σ).2 := by
      intro c v x y w0
      cases c
      · exact Beyond_refl w0
      · exact Beyond_of_Within
          (Within_trans (Within_PVDECIO_WriteRegister _ _ _ _ _ _ _ _ _) (Within_REPORT _ _))
    have hdump : ∀ (c : Bool) (w0 : World σ), World.Beyond 0 w0
        (if c then REPORT .REPORT_ERR w0 else w0) := by
      intro c w0
      cases c
      · exact Beyond_refl w0
      · exact Beyond_of_Within (Within_REPORT _ _)
    have htmo : ∀ (c : Bool) (w0 : World σ), World.Beyond 0 w0
        (if c then REPORT .REPORT_ERR (PVDECIO_ReadRegister hw tal (some ctx)
          hw.REGION_PVDEC_MTX_CORE_REGSPACE hw.MTX_CORE_CR_MTX_RAM_ACCESS_STATUS_OFFSET
          PVDEC_DEF_PIPE w0).2 else w0) := by
      intro c w0
      cases c
      · exact Beyond_refl w0
      · exact Beyond_of_Within
          (Within_trans (Within_PVDECIO_ReadRegister _ _ _ _ _ _ _) (Within_REPORT _ _))
    refine Beyond_mono (Beyond_trans (Beyond_trans (Beyond_trans (Beyond_trans (Beyond_trans
      (hsel _ _ _ _ w) (Beyond_PVDECIO_WriteRegister hw tal (some ctx) _ _ _ _ _ _))
      (hdump _ _)) (Beyond_of_Within
        (Within_pvdecio_LoadFW_wait hw tal ctx PVDEC_TIMEOUT_COUNTER _)))
      (htmo _ _)) (ih _ _ _ _)) ?_
    omega

/-- The loop of `PVDECIO_TriggerSim` records at least one event for each
round: it runs `n` rounds. -/
theorem Beyond_PVDECIO_TriggerSim_loop {σ : Type} (hw : HwDefs) (tal : TAL σ)
    (h : Option PVDECIO_sContext) :
    ∀ (n : Nat) (w : World σ), World.Beyond n w (PVDECIO_TriggerSim.loop hw tal h n w) := by
  intro n
  induction n with
  | zero => intro w; exact Beyond_refl w
  | succ n ih =>
    intro w
    unfold PVDECIO_TriggerSim.loop
    exact Beyond_mono (Beyond_trans (Beyond_PVDECIO_ReadRegister hw tal h _ _ _ w) (ih _))
      (by omega)

/-- The device loop of `PVDECIO_Initialise` records an event when it has a
device to set up: it runs its first round. -/
theorem Beyond_PVDECIO_Initialise_devices {σ : Type} (sec : SECDEV σ) :
    ∀ (n i : Nat) (w : World σ),
      World.Beyond (min 1 n) w (PVDECIO_Initialise.devices sec n i w).2 := by
  intro n
  induction n with
  | zero => intro i w; exact Beyond_refl w
  | succ n ih =>
    intro i w
    unfold PVDECIO_Initialise.devices
    simp only []
    split
    · exact Beyond_mono (Beyond_trans (Beyond_log w _) (Beyond_dev _ _)) (by omega)
    · split
      · exact Beyond_mono (Beyond_trans (Beyond_trans (Beyond_trans (Beyond_log w _)
          (Beyond_dev _ _)) (Beyond_log _ _)) (Beyond_dev _ _)) (by omega)
      · exact Beyond_mono (Beyond_trans (Beyond_trans (Beyond_trans (Beyond_trans
          (Beyond_log w _) (Beyond_dev _ _)) (Beyond_log _ _)) (Beyond_dev _ _)) (ih _ _))
          (by omega)

/-- The per-pipe loop of `PVDECIO_GetCoreState` has not ended before its test
has run once more than the number of pixel pipes, when both arrays hold that
many per-pipe states: it runs a round for each pixel pipe. -/
theorem PVDECIO_GetCoreState_pipes_unfinished {σ : Type} (cfg : BuildConfig) (hw : HwDefs)
    (fw : FwDefs) (tal : TAL σ) (ctx : PVDECIO_sContext) (n ne : Nat)
    (s : VDECFW_sPVDECFirmwareState) (hn : n ≤ 255) (hs : n ≤ s.asPipeState.length) :
    ∀ (fuel p : Nat) (st : VXDIO_sState) (w : World σ), p + fuel ≤ n →
      n ≤ st.sFwState.asPipeState.length →
      PVDECIO_GetCoreState.pipes cfg hw fw tal ctx n ne s fuel p st w = .unfinished := by
  intro fuel
  induction fuel with
  | zero => intro p st w _ _; rfl
  | succ fuel ih =>
    intro p st w hp hst
    have hlt : p < n := by omega
    have hmod : (p + 1) % 256 = p + 1 := Nat.mod_eq_of_lt (by omega)
    have hsome := PVDECIO_GetCoreState_pipe_isSome cfg hw fw tal ctx ne s p st w
    have h1 : p < s.asPipeState.length := by omega
    have h2 : p < st.sFwState.asPipeState.length := by omega
    simp only [h1, h2, decide_True, Bool.and_self, Option.isSome_iff_exists] at hsome
    obtain ⟨q, hq⟩ := hsome
    have hlen := PVDECIO_GetCoreState_pipe_length cfg hw fw tal ctx ne s p st w q hq
    simp only [PVDECIO_GetCoreState.pipes, hlt, if_true, hq, hmod]
    exact ih (p + 1) q.1 q.2 (by omega) (by omega)

/-! ## Claim C16: the loops of the module -/

/-- C16 (amended): every loop of the module but the DMA completion wait is
bounded by its counter, whatever the input and whatever the hardware returns.
The DMA completion wait of `pvdecio_startDMA` has no bound of its own: in the
build with the wait, on an initialised context and for every script of
count-register readings, the call returns for some number of polls exactly
when some poll reads zero or the count of the poll before (the programmed
count standing before the first poll), and then within `k + 1` polls when poll
`k` does. The per-pipe loop of `PVDECIO_GetCoreState` ends by its test after
exactly `np` rounds, that is at test `np + 1` and not before, for every number
`np` of pixel pipes up to 255 that both arrays of per-pipe states hold. For
every bus and every argument the events that the other loops record are: at
least one when there is a word to write and at most one for each word in the
loop of `PVDECIO_VLRWriteWords`; at least one when there is a word to read and
at most three for each word in the loop of `PVDECIO_VLRReadWords`; at least
one and at most five for each word in the loop that clears the comms header
(`PVDECIO_Initialise`, `PVDECIO_PrepareFirmware`); at least one when the
counter allows a round and at most eight for each round that it allows in the
wait of `pvdecio_LoadFW`; at least one and at most 8017 for each word in its
word loop (the wait entered with the counter 1000); at least one and at most
four for each round in the loop of `PVDECIO_TriggerSim`; at least one when
there is a device and at most two for each device in the device loop of
`PVDECIO_Initialise`. -/
theorem C16_loops_bounded_but_the_DMA_wait {σ : Type} (cfg cfg2 : BuildConfig) (hw : HwDefs)
    (fw : FwDefs) (rd : Nat → Nat) (bg : Nat → Nat → Nat) (ctx : PVDECIO_sContext) (p n a : Nat)
    (t : List Event) (tal : TAL σ) (sec : SECDEV σ) (c : PVDECIO_sContext)
    (h : Option PVDECIO_sContext) (np ne : Nat) (s : VDECFW_sPVDECFirmwareState)
    (st : VXDIO_sState) (w : World σ)
    (hb : cfg.SYSBRG_BRIDGING = true)
    (hr : (hw.REGION_PVDEC_CORE_REGSPACE : Nat) ≠ hw.REGION_PVDEC_PIXEL_DMA_REGSPACE)
    (hinit : ctx.bInitialised = true) (hcount : ctx.ui32MemSpaceCount ≠ 0) (hnp : np ≤ 255)
    (hs : np ≤ s.asPipeState.length) (hst : np ≤ st.sFwState.asPipeState.length) :
    ((∃ fuel r, pvdecio_startDMA cfg hw (scriptedDMA hw rd bg) ctx p n a fuel ⟨0, t⟩ = some r) ↔
      ∃ k, countAt hw rd k = 0 ∨ countAt hw rd k = prevCount hw n rd k) ∧
    (∀ k, countAt hw rd k = 0 ∨ countAt hw rd k = prevCount hw n rd k →
      ∃ r, pvdecio_startDMA cfg hw (scriptedDMA hw rd bg) ctx p n a (k + 1) ⟨0, t⟩ = some r) ∧
    (∀ fuel, np < fuel →
      ∃ r, PVDECIO_GetCoreState.pipes cfg2 hw fw tal c np ne s fuel 0 st w = .returned r) ∧
    (∀ fuel, fuel ≤ np →
      PVDECIO_GetCoreState.pipes cfg2 hw fw tal c np ne s fuel 0 st w = .unfinished) ∧
    (∀ region m addr vals,
      World.Beyond (min 1 m) w (PVDECIO_VLRWriteWords.loop hw tal region m addr vals w).2 ∧
      World.Within m w (PVDECIO_VLRWriteWords.loop hw tal region m addr vals w).2) ∧
    (∀ region bValidate m addr acc,
      World.Beyond (min 1 m) w
        (PVDECIO_VLRReadWords.loop cfg2 hw tal c region bValidate m addr acc w).2.2 ∧
      World.Within (3 * m) w
        (PVDECIO_VLRReadWords.loop cfg2 hw tal c region bValidate m addr acc w).2.2) ∧
    (∀ m i, World.Beyond m w (clearCommsHeader hw tal c m i w) ∧
      World.Within (5 * m) w (clearCommsHeader hw tal c m i w)) ∧
    (∀ m, World.Beyond (min 1 m) w (pvdecio_LoadFW.wait hw tal c m w).2 ∧
      World.Within (8 * m) w (pvdecio_LoadFW.wait hw tal c m w).2) ∧
    (∀ B size buf m i addr id,
      World.Beyond m w (pvdecio_LoadFW.words hw tal c B size buf m i addr id w) ∧
      World.Within (8017 * m) w (pvdecio_LoadFW.words hw tal c B size buf m i addr id w)) ∧
    (∀ m, World.Beyond m w (PVDECIO_TriggerSim.loop hw tal h m w) ∧
      World.Within (4 * m) w (PVDECIO_TriggerSim.loop hw tal h m w)) ∧
    (∀ m i, World.Beyond (min 1 m) w (PVDECIO_Initialise.devices sec m i w).2 ∧
      World.Within (2 * m) w (PVDECIO_Initialise.devices sec m i w).2) := by
  refine ⟨⟨?_, ?_⟩, ?_, ?_, ?_, ?_, ?_, ?_, ?_, ?_, ?_, ?_⟩
  · rintro ⟨fuel, r, hret⟩
    by_contra hno
    have hgo : ∀ j, j < fuel →
        countAt hw rd j ≠ prevCount hw n rd j ∧ countAt hw rd j ≠ 0 := by
      intro j _
      constructor
      · intro hh; exact hno ⟨j, Or.inr hh⟩
      · intro hh; exact hno ⟨j, Or.inl hh⟩
    rw [pvdecio_startDMA_scripted_none cfg hw rd bg ctx p n a fuel t hb hr hinit hcount hgo]
      at hret
    cases hret
  · rintro ⟨k, hk⟩
    exact ⟨k + 1, pvdecio_startDMA_scripted_some cfg hw rd bg ctx p n a k t hb hr hinit hcount hk⟩
  · intro k hk
    exact pvdecio_startDMA_scripted_some cfg hw rd bg ctx p n a k t hb hr hinit hcount hk
  · intro fuel hf
    obtain ⟨r, hr, _⟩ := PVDECIO_GetCoreState_pipes_returned cfg2 hw fw tal c np ne s hnp hs np 0
      fuel st w (by omega) hf hst
    exact ⟨r, hr⟩
  · intro fuel hf
    exact PVDECIO_GetCoreState_pipes_unfinished cfg2 hw fw tal c np ne s hnp hs fuel 0 st w
      (by omega) hst
  · intro region m addr vals
    exact ⟨Beyond_PVDECIO_VLRWriteWords_loop hw tal region m addr vals w,
      Within_PVDECIO_VLRWriteWords_loop hw tal region m addr vals w⟩
  · intro region bValidate m addr acc
    exact ⟨Beyond_PVDECIO_VLRReadWords_loop cfg2 hw tal c region bValidate m addr acc w,
      Within_PVDECIO_VLRReadWords_loop cfg2 hw tal c region bValidate m addr acc w⟩
  · intro m i
    exact ⟨Beyond_clearCommsHeader hw tal c m i w, Within_clearCommsHeader hw tal c m i w⟩
  · intro m
    exact ⟨Beyond_pvdecio_LoadFW_wait hw tal c m w, Within_pvdecio_LoadFW_wait hw tal c m w⟩
  · intro B size buf m i addr id
    exact ⟨Beyond_pvdecio_LoadFW_words hw tal c B size buf m i addr id w,
      Within_pvdecio_LoadFW_words hw tal c B size buf m i addr id w⟩
  · intro m
    exact ⟨Beyond_PVDECIO_TriggerSim_loop hw tal h m w,
      Within_PVDECIO_TriggerSim_loop hw tal h m w⟩
  · intro m i
    exact ⟨Beyond_PVDECIO_Initialise_devices sec m i w,
      Within_PVDECIO_Initialise_devices sec m i w⟩

/-- C16 on the sample map: sixteen words programmed and the readings 12, 7, 0,
the per-pipe loop for three pixel pipes on arrays of three, and the loop that
clears a comms header of four words; the hypotheses hold, the call returns,
the loop returns at its fourth test and has not ended at its third, and the
clearing records at least four and at most twenty events. -/
theorem C16_loops_bounded_but_the_DMA_wait_witness :
    bridgingBuild.SYSBRG_BRIDGING = true ∧ ctxOn.bInitialised = true ∧ (3 : Nat) ≤ 255 ∧
    3 ≤ (sampleFw.overlay []).asPipeState.length ∧ 3 ≤ state0.sFwState.asPipeState.length ∧
    (∃ r, pvdecio_startDMA bridgingBuild sampleHw
      (scriptedDMA sampleHw (script [12, 7, 0] 9) (fun _ _ => 0)) ctxOn 1 16 0x1000 (2 + 1)
      ⟨0, []⟩ = some r) ∧
    (∃ r, PVDECIO_GetCoreState.pipes defaultBuild sampleHw sampleFw (plainStorage sampleHw)
      ctxState 3 1 (sampleFw.overlay []) 4 0 state0 world0 = .returned r) ∧
    PVDECIO_GetCoreState.pipes defaultBuild sampleHw sampleFw (plainStorage sampleHw)
      ctxState 3 1 (sampleFw.overlay []) 3 0 state0 world0 = .unfinished ∧
    World.Beyond 4 world0 (clearCommsHeader sampleHw (plainStorage sampleHw) ctxState 4 0
      world0) ∧
    World.Within (5 * 4) world0 (clearCommsHeader sampleHw (plainStorage sampleHw) ctxState 4 0
      world0) :=
  ⟨rfl, rfl, by decide, by decide, by decide,
    (C16_loops_bounded_but_the_DMA_wait bridgingBuild defaultBuild sampleHw sampleFw
      (script [12, 7, 0] 9) (fun _ _ => 0) ctxOn 1 16 0x1000 [] (plainStorage sampleHw)
      (quietSecureDevice RegFile) ctxState (some ctxState) 3 1 (sampleFw.overlay []) state0
      world0 rfl (by decide) rfl (by decide) (by decide) (by decide) (by decide)).2.1 2
      (Or.inl (by decide)),
    (C16_loops_bounded_but_the_DMA_wait bridgingBuild defaultBuild sampleHw sampleFw
      (script [12, 7, 0] 9) (fun _ _ => 0) ctxOn 1 16 0x1000 [] (plainStorage sampleHw)
      (quietSecureDevice RegFile) ctxState (some ctxState) 3 1 (sampleFw.overlay []) state0
      world0 rfl (by decide) rfl (by decide) (by decide) (by decide) (by decide)).2.2.1 4
      (by decide),
    (C16_loops_bounded_but_the_DMA_wait bridgingBuild defaultBuild sampleHw sampleFw
      (script [12, 7, 0] 9) (fun _ _ => 0) ctxOn 1 16 0x1000 [] (plainStorage sampleHw)
      (quietSecureDevice RegFile) ctxState (some ctxState) 3 1 (sampleFw.overlay []) state0
      world0 rfl (by decide) rfl (by decide) (by decide) (by decide) (by decide)).2.2.2.1 3
      (by decide),
    (C16_loops_bounded_but_the_DMA_wait bridgingBuild defaultBuild sampleHw sampleFw
      (script [12, 7, 0] 9) (fun _ _ => 0) ctxOn 1 16 0x1000 [] (plainStorage sampleHw)
      (quietSecureDevice RegFile) ctxState (some ctxState) 3 1 (sampleFw.overlay []) state0
      world0 rfl (by decide) rfl (by decide) (by decide) (by decide)
      (by decide)).2.2.2.2.2.2.1 4 0⟩

/-- The count read at poll `j` of the script that alternates between 1 and 2. -/
theorem countAt_alternating (j : Nat) :
    countAt sampleHw (fun k => 1 + k % 2) j = 1 + j % 2 := by
  rcases Nat.mod_two_eq_zero_or_one j with h | h <;> simp [countAt, h] <;> decide

/-- C16, the claim as written fails. With sixteen words programmed and a count
register that reads 1, 2, 1, 2 and so on, no poll reads zero or the count
before, and `pvdecio_startDMA` does not return, however many polls are run. -/
theorem C16_counterexample_waits_without_end :
    bridgingBuild.SYSBRG_BRIDGING = true ∧ programmedCount sampleHw 16 = 16 ∧
    ∀ fuel, pvdecio_startDMA bridgingBuild sampleHw
      (scriptedDMA sampleHw (fun k => 1 + k % 2) (fun _ _ => 0)) ctxOn 1 16 0x1000 fuel
      ⟨0, []⟩ = none := by
  refine ⟨rfl, by decide, ?_⟩
  intro fuel
  apply pvdecio_startDMA_scripted_none bridgingBuild sampleHw _ _ ctxOn 1 16 0x1000 fuel []
    rfl (by decide) rfl (by decide)
  intro j _
  rw [countAt_alternating]
  refine ⟨?_, by omega⟩
  unfold prevCount
  split
  · have : programmedCount sampleHw 16 = 16 := by decide
    rw [this]; omega
  · rw [countAt_alternating]; omega

/-! ## Claim C23: the result of `PVDECIO_GetCoreState` -/

/-- C23, the failing input: 256 pixel pipes, on a context with the clock flag
on and the state buffer known (144 bytes, the size of the sample firmware
state structure), the arrays of per-pipe states holding three entries. The
test of the per-pipe loop compares the 8-bit counter with 256 and never
fails, so the call does not return, whatever the number of loop tests run;
run for four tests it leaves the arrays of per-pipe states at index 3. Nor
does the call return for two pipes when the header word announces a state
buffer of 148 bytes (0x940040), one word more than the structure has: 37
words are stored through the pointer to it. On the context of the first call
the call for three pipes returns `IMG_SUCCESS`, and so does the call for 256
pipes with the clock flag off, which records nothing; the call with a null
context returns `IMG_ERROR_INVALID_PARAMETERS`. -/
theorem C23_GetCoreState_no_result_for_256_pipes :
    ctxState.bClocks = true ∧ ctxState.sStateInfo.ui32Size = 144 ∧
    sampleFw.sizeofFirmwareStateWords * 4 = 144 ∧ state0.sFwState.asPipeState.length = 3 ∧
    (∀ fuel r, PVDECIO_GetCoreState defaultBuild sampleHw sampleFw (plainStorage sampleHw)
      (some ctxState) 256 1 state0 0 fuel world0 ≠ .returned r) ∧
    (PVDECIO_GetCoreState defaultBuild sampleHw sampleFw (plainStorage sampleHw)
      (some ctxState) 256 1 state0 0 4 world0).map (fun r => r.1) = .overrun (.pipeState 3) ∧
    (PVDECIO_GetCoreState defaultBuild sampleHw sampleFw (plainStorage sampleHw)
      (some ctxOn) 2 1 state0 0 3 (worldHeader 0x940040)).map (fun r => r.1) =
        .overrun (.firmwareState 37) ∧
    (PVDECIO_GetCoreState defaultBuild sampleHw sampleFw (plainStorage sampleHw)
      (some ctxState) 3 1 state0 0 4 world0).map (fun r => r.1) = .returned IMG_SUCCESS ∧
    (PVDECIO_GetCoreState defaultBuild sampleHw sampleFw (plainStorage sampleHw)
      (some { ctxState with bClocks := false }) 256 1 state0 0 0 world0).map
        (fun r => (r.1, r.2.2.2.trace)) = .returned (IMG_SUCCESS, []) ∧
    (PVDECIO_GetCoreState defaultBuild sampleHw sampleFw (plainStorage sampleHw)
      none 256 1 state0 0 0 world0).map (fun r => r.1) =
        .returned IMG_ERROR_INVALID_PARAMETERS := by
  refine ⟨rfl, rfl, by decide, by decide, ?_, by decide, by decide, by decide, by decide,
    by decide⟩
  intro fuel r
  exact PVDECIO_GetCoreState_not_returned defaultBuild sampleHw sampleFw (plainStorage sampleHw)
    ctxState 256 1 state0 0 fuel world0 rfl (by decide) (by decide) r

/-! ## Claim C11: the length in the MTX DMA control word -/

/-- C11 (amended): `pvdecio_startDMA` on an initialised context and a register
map whose registers lie apart, for every bus and every transfer size `n` with
`n + 15 < 2^32` whose rounded length fits the `LENGTH` field of the MTX DMA
control register (a well-formed field of `len` bits, the length below
`2^len`). The
programming part of the call writes the MTX DMA control register once, and so
has every call that returns, for every fuel; in the build without the wait the
call returns. The `LENGTH` field of the word written is
`((n + 7) & ~7) + 8`, which is 8 plus the least multiple of 8 that is at least
`n` (written `m` below); it is a multiple of 8 and lies in `[n + 8, n + 15]`. -/
theorem C11_startDMA_programs_rounded_length {σ : Type} (cfg : BuildConfig) (hw : HwDefs)
    (tal : TAL σ) (ctx : PVDECIO_sContext) (p n a len : Nat) (w : World σ)
    (hap : hw.Apart) (hinit : ctx.bInitialised = true) (hcount : ctx.ui32MemSpaceCount ≠ 0)
    (hlen : hw.MTX_CORE_CR_MTX_SYSC_CDMAC_LENGTH.WellFormed len)
    (h : n + 15 < 2 ^ 32) (hfit : startDMA_length n < 2 ^ len) :
    ∃ word,
      writesTo hw.REGION_PVDEC_MTX_CORE_REGSPACE hw.MTX_CORE_CR_MTX_SYSC_CDMAC_OFFSET
        (pvdecio_startDMA.program cfg hw tal ctx p n a w).2.2.trace =
        writesTo hw.REGION_PVDEC_MTX_CORE_REGSPACE hw.MTX_CORE_CR_MTX_SYSC_CDMAC_OFFSET
          w.trace ++ [word] ∧
      (∀ fuel r, pvdecio_startDMA cfg hw tal ctx p n a fuel w = some r →
        writesTo hw.REGION_PVDEC_MTX_CORE_REGSPACE hw.MTX_CORE_CR_MTX_SYSC_CDMAC_OFFSET
          r.2.2.trace =
          writesTo hw.REGION_PVDEC_MTX_CORE_REGSPACE hw.MTX_CORE_CR_MTX_SYSC_CDMAC_OFFSET
            w.trace ++ [word]) ∧
      (cfg.SYSBRG_BRIDGING = false →
        ∀ fuel, ∃ r, pvdecio_startDMA cfg hw tal ctx p n a fuel w = some r) ∧
      REGIO_READ_FIELD word hw.MTX_CORE_CR_MTX_SYSC_CDMAC_LENGTH =
        ((((n + 7) % 2 ^ 32) &&& not32 7) + 8) % 2 ^ 32 ∧
      (∃ m, REGIO_READ_FIELD word hw.MTX_CORE_CR_MTX_SYSC_CDMAC_LENGTH = 8 + m ∧ 8 ∣ m ∧
        n ≤ m ∧ ∀ k, 8 ∣ k → n ≤ k → m ≤ k) ∧
      8 ∣ REGIO_READ_FIELD word hw.MTX_CORE_CR_MTX_SYSC_CDMAC_LENGTH ∧
      n + 8 ≤ REGIO_READ_FIELD word hw.MTX_CORE_CR_MTX_SYSC_CDMAC_LENGTH ∧
      REGIO_READ_FIELD word hw.MTX_CORE_CR_MTX_SYSC_CDMAC_LENGTH ≤ n + 15 := by
  have hcm : (hw.REGION_PVDEC_CORE_REGSPACE : Nat) ≠ hw.REGION_PVDEC_MTX_CORE_REGSPACE :=
    Fin.val_ne_of_ne (nodup_ne hap.1 0 1 rfl rfl (by decide))
  have hprog : writesTo hw.REGION_PVDEC_MTX_CORE_REGSPACE hw.MTX_CORE_CR_MTX_SYSC_CDMAC_OFFSET
      (pvdecio_startDMA.program cfg hw tal ctx p n a w).2.2.trace =
      writesTo hw.REGION_PVDEC_MTX_CORE_REGSPACE hw.MTX_CORE_CR_MTX_SYSC_CDMAC_OFFSET
        w.trace ++ [startDMA_cdmac hw n] := by
    rw [writesTo_pvdecio_startDMA_program cfg hw tal ctx p n a w _ _ hinit hcount hcm,
      writesTo_startDMA_events_cdmac hw p n a hap]
  have heq := startDMA_length_eq n h
  have hval : REGIO_READ_FIELD (startDMA_cdmac hw n) hw.MTX_CORE_CR_MTX_SYSC_CDMAC_LENGTH =
      (n + 7) / 8 * 8 + 8 := by
    unfold startDMA_cdmac
    simp only []
    rw [REGIO_READ_WRITE_FIELD_same _ _ len _ hlen hfit, heq]
  refine ⟨startDMA_cdmac hw n, hprog, ?_, ?_, ?_, ?_, ?_, ?_, ?_⟩
  · intro fuel r hret
    unfold pvdecio_startDMA at hret
    simp only [] at hret
    split at hret
    · split at hret
      · rename_i r1 hw1
        cases hret
        rw [writesTo_pvdecio_startDMA_wait hw tal _ p _ _
          (writesTo_selectEvents hw p _ _ (fun hh => hcm hh.1)) fuel _ _ r1 hw1, hprog]
      · cases hret
    · cases hret
      exact hprog
  · intro hnb fuel
    exact ⟨_, pvdecio_startDMA_no_wait cfg hw tal ctx p n a fuel w hnb⟩
  · rw [hval]
    exact heq.symm
  · rw [hval]
    refine ⟨(n + 7) / 8 * 8, by omega, Nat.dvd_mul_left 8 _, by omega, ?_⟩
    intro k hk hnk
    obtain ⟨c, rfl⟩ := hk
    omega
  · rw [hval]
    omega
  · rw [hval]
    omega
  · rw [hval]
    omega

/-- C11 on the sample map (a `LENGTH` field of 16 bits) and plain storage, for
a transfer of sixteen words: the MTX DMA control register (region 5, offset
0x340) is written once, with the length 24. -/
theorem C11_startDMA_programs_rounded_length_witness :
    sampleHw.Apart ∧ sampleHw.MTX_CORE_CR_MTX_SYSC_CDMAC_LENGTH.WellFormed 16 ∧
    startDMA_length 16 < 2 ^ 16 ∧
    ∃ word,
      writesTo 5 0x340 (pvdecio_startDMA.program defaultBuild sampleHw (plainStorage sampleHw)
        ctxOn 1 16 0x1000 world0).2.2.trace = writesTo 5 0x340 world0.trace ++ [word] ∧
      REGIO_READ_FIELD word sampleHw.MTX_CORE_CR_MTX_SYSC_CDMAC_LENGTH = 24 := by
  refine ⟨by decide, ⟨by decide, by decide⟩, by decide, ?_⟩
  obtain ⟨word, h1, _, _, h4, _⟩ := C11_startDMA_programs_rounded_length defaultBuild sampleHw
    (plainStorage sampleHw) ctxOn 1 16 0x1000 16 world0 (by decide) rfl (by decide)
    ⟨by decide, by decide⟩ (by decide) (by decide)
  exact ⟨word, h1, h4.trans (by decide)⟩

/-- C11, the claim as written fails: for the transfer size 0xFFF1, where
`n + 15 < 2^32`, the source expression `((n + 7) & ~7) + 8` is 0x10000, which
the 16-bit `LENGTH` field of the sample map does not hold: the word that
`pvdecio_startDMA` writes to the MTX DMA control register carries 0 in
`LENGTH`, no value of `[n + 8, n + 15]`. -/
theorem C11_counterexample_length_cut_to_the_field :
    (0xFFF1 + 15 < 2 ^ 32) ∧ startDMA_length 0xFFF1 = 0x10000 ∧
    sampleHw.MTX_CORE_CR_MTX_SYSC_CDMAC_LENGTH.MASK = 0xFFFF ∧
    (pvdecio_startDMA defaultBuild sampleHw (plainStorage sampleHw) ctxOn 1 0xFFF1 0x1000 0
      world0).map (fun r =>
        (writesTo sampleHw.REGION_PVDEC_MTX_CORE_REGSPACE
          sampleHw.MTX_CORE_CR_MTX_SYSC_CDMAC_OFFSET r.2.2.trace).map
          (fun v => REGIO_READ_FIELD v sampleHw.MTX_CORE_CR_MTX_SYSC_CDMAC_LENGTH)) =
      some [0] := by
  decide

/-! ## Claim C29: the result code of the interrupt handler -/

/-- C29: the result code of `PVDECIO_HandleInterrupts` on a non-null context
and a non-null status is that of the collaborator it calls last, at the call
made. `report` is what `DEVAIO_ProcessMMUReport` delivers where the handler
calls it: on the device as the write of the enable register leaves it, with
the mailbox context of the context; the MMU fault block hands on its result
code, its mailbox context and its device. `drain` is what
`DEVAIO_ProcessMTXMsgs` delivers where the handler calls it: on the device as
the write of the interrupt clear register leaves it, after the MMU fault block
when that has run, with the mailbox context then and the queue of the status.
When the drain runs (the free list not empty, and the processor cause in the
masked pending value or the flag `bEmpty` false), the result is that of
`drain`, so `IMG_SUCCESS` when `drain` succeeds, whatever `report` delivered
before. When the drain does not run and the MMU fault cause is in the masked
pending value, the result is that of `report`. When neither runs it is
`IMG_SUCCESS`. -/
theorem C29_result_of_last_collaborator {σ : Type} (hw : HwDefs) (tal : TAL σ)
    (dev : DEVAIO σ) (ctx : PVDECIO_sContext) (st : VXD_sIntStatus) (w : World σ) :
    let rd := PVDECIO_HandleInterrupts.reads hw tal ctx w
    let drains := st.psMsgQueue.sFreeMsgList ≠ [] ∧
      (maskedPending hw tal ctx w &&&
          hw.PVDEC_CORE_CR_PVDEC_HOST_INTERRUPT_STATUS_CR_HOST_PROC_IRQ.MASK ≠ 0
        ∨ st.psMsgQueue.bEmpty = false)
    let faults := maskedPending hw tal ctx w &&&
      hw.PVDEC_CORE_CR_PVDEC_HOST_INTERRUPT_STATUS_CR_HOST_MMU_FAULT_IRQ.MASK ≠ 0
    let report := dev.ProcessMMUReport
      (PVDEC_CORE_WriteRegister hw tal (some ctx)
        hw.PVDEC_CORE_CR_PVDEC_HOST_INTERRUPT_ENABLE_OFFSET
        (REGIO_WRITE_FIELD rd.2.1
          hw.PVDEC_CORE_CR_PVDEC_HOST_INTERRUPT_STATUS_CR_HOST_MMU_FAULT_IRQ 0) rd.2.2).2.dev
      ctx.sMsgContext
    let block := PVDECIO_HandleInterrupts.mmu hw tal dev ctx
      { st with ui32Pending := maskedPending hw tal ctx w } rd.2.1 rd.2.2
    let entered : PVDECIO_sContext × World σ :=
      if maskedPending hw tal ctx w &&&
          hw.PVDEC_CORE_CR_PVDEC_HOST_INTERRUPT_STATUS_CR_HOST_MMU_FAULT_IRQ.MASK ≠ 0 then
        (block.2.1, block.2.2.2)
      else (ctx, rd.2.2)
    let drain := dev.ProcessMTXMsgs
      (PVDEC_CORE_WriteRegister hw tal (some entered.1)
        hw.PVDEC_CORE_CR_PVDEC_INTERRUPT_CLEAR_OFFSET
        hw.PVDEC_CORE_CR_PVDEC_HOST_INTERRUPT_STATUS_CR_HOST_PROC_IRQ.MASK entered.2).2.dev
      entered.1.sMsgContext st.psMsgQueue
    (block.1 = report.1 ∧ block.2.1 = { ctx with sMsgContext := report.2.2.2.1 } ∧
      block.2.2.2.dev = report.2.2.2.2) ∧
    (drains → (PVDECIO_HandleInterrupts hw tal dev (some ctx) (some st) w).1 = drain.1) ∧
    (drains → drain.1 = IMG_SUCCESS →
      (PVDECIO_HandleInterrupts hw tal dev (some ctx) (some st) w).1 = IMG_SUCCESS) ∧
    (¬ drains → faults →
      (PVDECIO_HandleInterrupts hw tal dev (some ctx) (some st) w).1 = report.1) ∧
    (¬ drains → ¬ faults →
      (PVDECIO_HandleInterrupts hw tal dev (some ctx) (some st) w).1 = IMG_SUCCESS) := by
  intro rd drains faults report block entered drain
  have hblock : block.1 = report.1 ∧ block.2.1 = { ctx with sMsgContext := report.2.2.2.1 } ∧
      block.2.2.2.dev = report.2.2.2.2 := by
    refine ⟨rfl, rfl, ?_⟩
    show (PVDECIO_HandleInterrupts.mmu hw tal dev ctx _ _ _).2.2.2.dev = _
    simp only [PVDECIO_HandleInterrupts.mmu, IMG_ASSERT_dev, World.log]
  have hrun : ∀ (res : Nat) (c : PVDECIO_sContext) (s : VXD_sIntStatus) (w0 : World σ),
      s.psMsgQueue = st.psMsgQueue → s.ui32Pending = maskedPending hw tal ctx w → drains →
      (PVDECIO_HandleInterrupts.messages hw tal dev res c s w0).1 =
        (dev.ProcessMTXMsgs (PVDEC_CORE_WriteRegister hw tal (some c)
          hw.PVDEC_CORE_CR_PVDEC_INTERRUPT_CLEAR_OFFSET
          hw.PVDEC_CORE_CR_PVDEC_HOST_INTERRUPT_STATUS_CR_HOST_PROC_IRQ.MASK w0).2.dev
          c.sMsgContext st.psMsgQueue).1 := by
    intro res c s w0 hq hp hdr
    obtain ⟨hfree, hwork⟩ := hdr
    have h1 : (s.ui32Pending &&&
          hw.PVDEC_CORE_CR_PVDEC_HOST_INTERRUPT_STATUS_CR_HOST_PROC_IRQ.MASK != 0
        || !s.psMsgQueue.bEmpty) = true := by
      rw [hp, hq]
      rcases hwork with h | h
      · simp [h]
      · simp [h]
    have h2 : (!LST_empty s.psMsgQueue.sFreeMsgList) = true := by
      rw [hq]
      simp [LST_empty, hfree]
    simp only [PVDECIO_HandleInterrupts.messages, h1, h2, if_true, World.log]
    rw [hq]
  have hskip : ∀ (res : Nat) (c : PVDECIO_sContext) (s : VXD_sIntStatus) (w0 : World σ),
      s.psMsgQueue = st.psMsgQueue → s.ui32Pending = maskedPending hw tal ctx w → ¬ drains →
      (PVDECIO_HandleInterrupts.messages hw tal dev res c s w0).1 = res := by
    intro res c s w0 hq hp hno
    exact (PVDECIO_HandleInterrupts_messages_result hw tal dev res c s w0).2
      (by rw [hp, hq]; exact hno)
  have hd : drains →
      (PVDECIO_HandleInterrupts hw tal dev (some ctx) (some st) w).1 = drain.1 := by
    intro hdr
    rw [PVDECIO_HandleInterrupts_some]
    by_cases hf : maskedPending hw tal ctx w &&&
        hw.PVDEC_CORE_CR_PVDEC_HOST_INTERRUPT_STATUS_CR_HOST_MMU_FAULT_IRQ.MASK ≠ 0
    · rw [if_pos hf]
      have he : entered = (block.2.1, block.2.2.2) := if_pos hf
      show _ = (dev.ProcessMTXMsgs _ _ _).1
      rw [he]
      exact hrun _ _ _ _ rfl rfl hdr
    · rw [if_neg hf]
      have he : entered = (ctx, rd.2.2) := if_neg hf
      show _ = (dev.ProcessMTXMsgs _ _ _).1
      rw [he]
      exact hrun _ _ _ _ rfl rfl hdr
  refine ⟨hblock, hd, ?_, ?_, ?_⟩
  · intro hdr hok
    rw [hd hdr, hok]
  · intro hno hf
    rw [PVDECIO_HandleInterrupts_some, if_pos hf]
    exact hskip _ _ _ _ rfl rfl hno
  · intro hno hf
    rw [PVDECIO_HandleInterrupts_some, if_neg hf]
    exact hskip _ _ _ _ rfl rfl hno

/-- C29 on the sample map and plain storage, with both causes pending and
enabled and one free slot, and a mailbox whose MMU report fails and whose drain
succeeds: the MMU report is called and its failure recorded by the assertion
of line 2052, then the drain is called, and the handler returns
`IMG_SUCCESS`. -/
theorem C29_result_of_last_collaborator_witness :
    (failingReportMailbox RegFile).ProcessMMUReport RegFile.zero ⟨false⟩ =
      (IMG_ERROR_FATAL, 0, 0, ⟨false⟩, RegFile.zero) ∧
    (PVDECIO_HandleInterrupts sampleHw (plainStorage sampleHw) (failingReportMailbox RegFile)
      (some ctxOn) (some (statusWith true [7])) (worldIrq 0x1010000 0x1010000)).2.2.2.trace =
      [.regRead 1 0x10 0x1010000, .regRead 1 0x18 0x1010000, .regWrite 1 0x18 0x1000000,
        .call .DEVAIO_ProcessMMUReport, .assertFail 2052, .regWrite 1 0x14 0x1000000,
        .call .DEVAIO_ProcessMTXMsgs] ∧
    (PVDECIO_HandleInterrupts sampleHw (plainStorage sampleHw) (failingReportMailbox RegFile)
      (some ctxOn) (some (statusWith true [7])) (worldIrq 0x1010000 0x1010000)).1 =
      IMG_SUCCESS :=
  ⟨rfl, by decide,
    (C29_result_of_last_collaborator sampleHw (plainStorage sampleHw)
      (failingReportMailbox RegFile) ctxOn (statusWith true [7])
      (worldIrq 0x1010000 0x1010000)).2.2.1 (by decide) rfl⟩

/-! ## Claim C30: a failing initialisation of the comms area -/

/-- C30: for every bus and mailbox, at the call of the initialisation of the
comms area that is made. In `PVDECIO_LoadBaseFirmware` the call is made first
(`c` below). When it fails, the function returns `IMG_FALSE` for every fuel,
not the code of the mailbox, and records the call and the report and nothing
else: no transfer, no watchdog configuration and no interrupt enabling. When
it succeeds: in the DMA strategy the function returns the result code of
`pvdecio_startDMA` whenever that returns, and does not return when that does
not; in the register upload strategy, whose transfer step has no result, it
returns `IMG_SUCCESS`. In `PVDECIO_PrepareFirmware` the call is made after the
firmware has been set up (`s`, unless bypassed) and the comms header cleared
(`cleared`), on the device and the mailbox context as they are then (`pc`).
When it fails, the function returns `IMG_FALSE`, with the mailbox context that
the call delivers, and has recorded, after the clearing, the call and the
report; when it succeeds, it returns `IMG_SUCCESS` and has recorded the call
only. And `IMG_FALSE` is the value of `IMG_SUCCESS`, so that the two results
differ in nothing but the report. -/
theorem C30_comms_failure_is_IMG_FALSE {σ : Type} (cfg : BuildConfig) (hw : HwDefs)
    (tal : TAL σ) (dev : DEVAIO σ) (ctx : PVDECIO_sContext) (fw : VXD_sFirmware) (fuel : Nat)
    (w : World σ) :
    let c := dev.InitMTXComms w.dev ctx.sMsgContext
      (if cfg.VDEC_USE_PVDEC_SEC then ctx.bSecureFw else false)
    let entered : PVDECIO_sContext := { ctx with sMsgContext := c.2.1 }
    let after : World σ := ⟨c.2.2, w.trace ++ [.call .DEVAIO_InitMTXComms]⟩
    let s : PVDECIO_sContext × VXD_sFirmware × World σ × Bool :=
      if CHECK_IO_BYPASS cfg ctx false then PVDECIO_PrepareFirmware.setup cfg ctx fw w
      else (ctx, fw, w, true)
    let cleared := clearCommsHeader hw tal s.1 hw.COMMS_HEADER_SIZE 0 s.2.2.1
    let pc := dev.InitMTXComms cleared.dev s.1.sMsgContext
      (if cfg.VDEC_USE_PVDEC_SEC then s.1.bSecureFw else false)
    (c.1 ≠ IMG_SUCCESS →
      PVDECIO_LoadBaseFirmware cfg hw tal dev (some ctx) fuel w =
        some (IMG_FALSE, some entered,
          ⟨c.2.2, w.trace ++ [.call .DEVAIO_InitMTXComms, .report .REPORT_ERR]⟩)) ∧
    (c.1 = IMG_SUCCESS → cfg.PVDEC_REG_FW_UPLOAD = false →
      (∀ r, pvdecio_startDMA cfg hw tal entered 1 ctx.sFwInfo.ui32CoreSize
          ctx.sFwInfo.ui32BlobDevVirtAddr fuel after = some r →
        ∃ q, PVDECIO_LoadBaseFirmware cfg hw tal dev (some ctx) fuel w = some q ∧ q.1 = r.1) ∧
      (pvdecio_startDMA cfg hw tal entered 1 ctx.sFwInfo.ui32CoreSize
          ctx.sFwInfo.ui32BlobDevVirtAddr fuel after = none →
        PVDECIO_LoadBaseFirmware cfg hw tal dev (some ctx) fuel w = none)) ∧
    (c.1 = IMG_SUCCESS → cfg.PVDEC_REG_FW_UPLOAD = true →
      ∃ q, PVDECIO_LoadBaseFirmware cfg hw tal dev (some ctx) fuel w = some q ∧
        q.1 = IMG_SUCCESS) ∧
    (s.2.2.2 = true → pc.1 ≠ IMG_SUCCESS →
      PVDECIO_PrepareFirmware cfg hw tal dev (some ctx) fw w =
        (IMG_FALSE, some { s.1 with sMsgContext := pc.2.1 }, s.2.1,
          ⟨pc.2.2, cleared.trace ++ [.call .DEVAIO_InitMTXComms, .report .REPORT_ERR]⟩)) ∧
    (s.2.2.2 = true → pc.1 = IMG_SUCCESS →
      PVDECIO_PrepareFirmware cfg hw tal dev (some ctx) fw w =
        (IMG_SUCCESS, some { s.1 with sMsgContext := pc.2.1 }, s.2.1,
          ⟨pc.2.2, cleared.trace ++ [.call .DEVAIO_InitMTXComms]⟩)) ∧
    IMG_FALSE = IMG_SUCCESS := by
  intro c entered after s cleared pc
  refine ⟨?_, ?_, ?_, ?_, ?_, rfl⟩
  · intro hc
    have hb : (c.1 != IMG_SUCCESS) = true := by simpa using hc
    simp only [PVDECIO_LoadBaseFirmware, World.log]
    rw [if_pos hb]
    simp [REPORT, World.log, entered, c]
  · intro hc hdma
    have hb : (c.1 != IMG_SUCCESS) = false := by simp [hc]
    constructor
    · intro r hr
      simp only [PVDECIO_LoadBaseFirmware, World.log]
      rw [if_neg (by rw [hb]; simp)]
      simp only [hdma, Bool.not_false, if_true]
      rw [show pvdecio_startDMA cfg hw tal { ctx with sMsgContext := c.2.1 } 1
        ctx.sFwInfo.ui32CoreSize ctx.sFwInfo.ui32BlobDevVirtAddr fuel
        ⟨c.2.2, w.trace ++ [.call .DEVAIO_InitMTXComms]⟩ = some r from hr]
      simp only []
      split
      · exact ⟨_, rfl, rfl⟩
      · rename_i hne
        exact ⟨_, rfl, rfl⟩
    · intro hr
      simp only [PVDECIO_LoadBaseFirmware, World.log]
      rw [if_neg (by rw [hb]; simp)]
      simp only [hdma, Bool.not_false, if_true]
      rw [show pvdecio_startDMA cfg hw tal { ctx with sMsgContext := c.2.1 } 1
        ctx.sFwInfo.ui32CoreSize ctx.sFwInfo.ui32BlobDevVirtAddr fuel
        ⟨c.2.2, w.trace ++ [.call .DEVAIO_InitMTXComms]⟩ = none from hr]
  · intro hc hup
    have hb : (c.1 != IMG_SUCCESS) = false := by simp [hc]
    simp only [PVDECIO_LoadBaseFirmware, World.log]
    rw [if_neg (by rw [hb]; simp)]
    simp only [hup, Bool.not_true, Bool.false_eq_true, if_false]
    exact ⟨_, rfl, hc⟩
  · intro hs hpc
    have hb : (pc.1 != IMG_SUCCESS) = true := by simpa using hpc
    have hs2 : (!s.2.2.2) = false := by simp [hs]
    show PVDECIO_PrepareFirmware cfg hw tal dev (some ctx) fw w = _
    simp only [PVDECIO_PrepareFirmware]
    rw [if_neg (by rw [hs2]; simp)]
    simp only [World.log]
    rw [if_pos hb]
    simp [REPORT, World.log, pc, cleared, s]
  · intro hs hpc
    have hb : (pc.1 != IMG_SUCCESS) = false := by simp [hpc]
    have hs2 : (!s.2.2.2) = false := by simp [hs]
    show PVDECIO_PrepareFirmware cfg hw tal dev (some ctx) fw w = _
    simp only [PVDECIO_PrepareFirmware]
    rw [if_neg (by rw [hs2]; simp)]
    simp only [World.log]
    rw [if_neg (by rw [hb]; simp)]

/-- C30 on the sample map and plain storage with a mailbox whose
initialisation of the comms area fails with `IMG_ERROR_FATAL` (3):
`PVDECIO_LoadBaseFirmware` returns `IMG_FALSE` (0) and records the call and
the report only; `PVDECIO_PrepareFirmware` returns `IMG_FALSE` after it has
handed the buffer to the device, cleared the four words of the comms header,
called the initialisation and reported its failure. -/
theorem C30_comms_failure_is_IMG_FALSE_witness :
    ((failingCommsMailbox RegFile).InitMTXComms world0.dev ctxFw.sMsgContext false).1 = 3 ∧
    (PVDECIO_LoadBaseFirmware defaultBuild sampleHw (plainStorage sampleHw)
      (failingCommsMailbox RegFile) (some ctxFw) 0 world0).map (fun r => (r.1, r.2.2.trace)) =
      some (0, [.call .DEVAIO_InitMTXComms, .report .REPORT_ERR]) ∧
    (fun r : Nat × Option PVDECIO_sContext × VXD_sFirmware × World RegFile =>
      (r.1, r.2.2.2.trace))
      (PVDECIO_PrepareFirmware defaultBuild sampleHw (plainStorage sampleHw)
        (failingCommsMailbox RegFile) (some ctxOn) sampleFirmware world0) =
      (0, [.call .UPDATE_DEVICE, .regWrite 13 0 0, .regWrite 13 4 0, .regWrite 13 8 0,
        .regWrite 13 12 0, .call .DEVAIO_InitMTXComms, .report .REPORT_ERR]) :=
  ⟨rfl,
    by
      rw [(C30_comms_failure_is_IMG_FALSE defaultBuild sampleHw (plainStorage sampleHw)
        (failingCommsMailbox RegFile) ctxFw sampleFirmware 0 world0).1 (by decide)]
      rfl,
    (congrArg (fun r : Nat × Option PVDECIO_sContext × VXD_sFirmware × World RegFile =>
        (r.1, r.2.2.2.trace))
      ((C30_comms_failure_is_IMG_FALSE defaultBuild sampleHw (plainStorage sampleHw)
        (failingCommsMailbox RegFile) ctxOn sampleFirmware 0 world0).2.2.2.1 rfl
        (by decide))).trans (by decide)⟩

end Pvdec
